import Mathlib

/-!
# BaikalDB protocol state machine (`src/protocol/state_machine.cpp`)

A shallow embedding of the per-connection protocol state machine: the packet
reader, the login path, the command dispatcher, the result-set builder and the
teardown, followed by the properties proved about them.

Conventions of the embedding.

* A byte buffer (`DataBuffer`) is a list of naturals; a C++ `std::string` is a
  list of characters without embedded NUL.
* The connection (`NetworkSocket`) is the record `Sock`.  Two ghost fields are
  added to it: `clock`, the number of socket operations performed so far, and
  `log`, the collaborator calls and state assignments in program order.
* Everything the file calls but does not define (the `MysqlWrapper` codec, the
  schema factory, the planners, the command-line flags and the constants of
  the headers) is a field of the record `Env`, so every theorem holds for
  every implementation of these collaborators.
-/

namespace baikaldb

abbrev Bytes := List Nat

abbrev Str := List Char

/-- Return codes used by the state machine (`RET_*` of the protocol headers). -/
inductive Ret
  | RET_SUCCESS
  | RET_WAIT_FOR_EVENT
  | RET_AUTH_FAILED
  | RET_ERROR
  | RET_SHUTDOWN
  | RET_COMMAND_SHUTDOWN
  | RET_CMD_UNSUPPORT
  deriving DecidableEq, Repr

/-- Connection states named in `run_machine`. `STATE_READ_QUERY` is tested in the
source after `_query_process` but has no case of its own in the switch. -/
inductive State
  | STATE_CONNECTED_CLIENT
  | STATE_SEND_HANDSHAKE
  | STATE_READ_AUTH
  | STATE_SEND_AUTH_RESULT
  | STATE_READ_QUERY
  | STATE_READ_QUERY_RESULT
  | STATE_ERROR_REUSE
  | STATE_ERROR
  deriving DecidableEq, Repr

/-- Event masks passed to `poll_events_mod`; `NONE` is the literal 0. -/
inductive EpollEv
  | EPOLLIN
  | EPOLLOUT
  | NONE
  deriving DecidableEq, Repr

/-- Error codes referenced by the file; `ER_OTHER` stands for any further code a
planner may leave in `stat_info.error_code`. -/
inductive ErrCode
  | ER_ERROR_FIRST
  | ER_ERROR_ON_READ
  | ER_ERROR_COMMON
  | ER_NOT_ALLOWED_COMMAND
  | ER_NO_DB_ERROR
  | ER_MAKE_RESULT_PACKET
  | ER_QUERY_EXCEED_QUOTA
  | ER_UNKNOWN_CHARACTER_SET
  | ER_GEN_PLAN_FAILED
  | ER_EXEC_PLAN_FAILED
  | ER_OTHER (code : Nat)
  deriving DecidableEq, Repr

/-- Query classes returned by `_get_query_type` (`SQL_*_NUM`). -/
inductive SqlType
  | SQL_UNKNOWN_NUM
  | SQL_USE_NUM
  | SQL_FIELD_LIST_NUM
  | SQL_CREATE_DB_NUM
  | SQL_DROPD_DB_NUM
  | SQL_REFRESH_NUM
  | SQL_STAT_NUM
  | SQL_PROCESS_INFO_NUM
  | SQL_DEBUG_NUM
  | SQL_CHANGEUSER_NUM
  | SQL_PING_NUM
  | SQL_SELECT_NUM
  | SQL_SHOW_NUM
  | SQL_EXPLAIN_NUM
  | SQL_KILL_NUM
  | SQL_USE_IN_QUERY_NUM
  | SQL_DESC_NUM
  | SQL_CALL_NUM
  | SQL_SET_NAMES_NUM
  | SQL_SET_CHARSET_NUM
  | SQL_SET_CHARACTER_SET_CLIENT_NUM
  | SQL_SET_CHARACTER_SET_CONNECTION_NUM
  | SQL_SET_CHARACTER_SET_RESULTS_NUM
  | SQL_SET_CHARACTER_SET_NUM
  | SQL_SET_NUM
  | SQL_WRITE_NUM
  deriving DecidableEq, Repr

/-- MySQL column types used by the built-in responders. -/
inductive MysqlType
  | MYSQL_TYPE_LONG
  | MYSQL_TYPE_VAR_STRING
  | MYSQL_TYPE_STRING
  | MYSQL_TYPE_LONGLONG
  deriving DecidableEq, Repr

/-- One column of a result set (`ResultField`). -/
structure ResultField where
  name : Str
  type : MysqlType
  catalog : Str
  db : Str
  table : Str
  org_table : Str
  org_name : Str
  deriving DecidableEq, Repr

/-- The shared per-user record (`UserInfo`). -/
structure UserInfo where
  username : Str
  scramble_password : Bytes
  namespace_ : Str
  max_connection : Nat
  query_quota : Nat
  cur_connection : Nat
  deriving DecidableEq, Repr

/-- The part of `QueryStat` the state machine reads or writes. -/
structure QueryStat where
  error_code : ErrCode
  error_msg : Str
  sql_length : Nat
  send_buf_size : Nat
  deriving DecidableEq, Repr

/-- The per-command context (`QueryContext`). -/
structure QueryContext where
  sql : Str
  mysql_cmd : Nat
  type : SqlType
  cur_db : Str
  comments : List Str
  debug_region_id : Int
  enable_2pc : Int
  stat_info : QueryStat
  succ_after_logical_plan : Bool
  succ_after_physical_plan : Bool
  has_root : Bool
  rt_txn_id : Nat
  rt_seq_id : Int
  thread_idx : Nat
  deriving DecidableEq, Repr

/-- Collaborator calls and state assignments, recorded in program order. -/
inductive Event
  | set_state (st : State)
  | poll_events_mod (ev : EpollEv)
  | handshake_send (ret : Ret)
  | auth_result_send (ret : Ret)
  | real_read (want : Int) (ret : Ret) (got : Nat)
  | real_write (ret : Ret)
  | fill_auth_failed_packet (msg : Str)
  | make_err_packet (code : ErrCode) (msg : Str)
  | make_simple_ok_packet
  | make_string_packet (msg : Str)
  | get_user_info (name : Str)
  | connection_inc (ok : Bool)
  | connection_dec
  | is_exceed_quota (exceeded : Bool)
  | logical_analyze (ret : Int)
  | create_plan_tree (ret : Int)
  | physical_analyze (ret : Int)
  | execute (ret : Int)
  | on_commit_rollback
  | reset_when_err
  | new_query_ctx
  | query_read
  | query_process
  | builtin (name : Str)
  | client_free
  | delete_fd_mapping
  | poll_events_delete
  | socket_pool_free
  deriving DecidableEq, Repr

/-- The connection (`NetworkSocket`), with the ghost fields `clock` and `log`. -/
structure Sock where
  fd : Int
  ip : Str
  thread_idx : Nat
  state : State
  in_pool : Bool
  is_authed : Bool
  is_counted : Bool
  self_buf : Bytes
  send_buf : Bytes
  header_read_len : Int
  header_offset : Int
  packet_len : Int
  packet_read_len : Int
  packet_id : Nat
  username : Str
  current_db : Str
  user_info : Option UserInfo
  charset_name : Str
  charset_num : Nat
  txn_id : Nat
  seq_id : Int
  query_ctx : QueryContext
  clock : Nat
  log : List Event
  deriving DecidableEq, Repr

/-- Outcome of one `real_read`: the return code and the bytes it appended to
`self_buf`; `*read_len` is the number of these bytes. -/
structure ReadResult where
  ret : Ret
  data : Bytes
  deriving DecidableEq, Repr

/-- Everything `state_machine.cpp` calls but does not define. Socket operations
are indexed by the connection's `clock`, so an environment may answer every call
differently; packet builders return the bytes they append to `send_buf`. -/
structure Env where
  PACKET_LEN_MAX : Int
  CONFIG_MPL_EPOLL_MAX_SIZE : Int
  FLAGS_max_connections_per_user : Nat
  FLAGS_query_quota_per_user : Nat
  real_read : Nat → Int → ReadResult
  real_write : Nat → Ret
  handshake_send : Nat → Ret
  auth_result_send : Nat → Ret
  protocol_get_char : Bytes → Nat → Option (Nat × Nat)
  protocol_get_string : Bytes → Int → Nat → Option (Str × Nat)
  protocol_get_sql_string : Bytes → Int → Nat → Int → Ret × Str × Nat
  is_valid_command : Nat → Bool
  is_shutdown_command : Nat → Bool
  fill_auth_failed_packet : Str → Bytes
  make_err_packet : ErrCode → Str → Bytes
  make_simple_ok_packet : Nat → Bytes
  make_string_packet : Str → Bool × Bytes
  length_coded_binary : Nat → Bytes
  make_field_packet : ResultField → Int → Bytes
  make_eof_packet : Int → Bytes
  make_row_packet : List Str → Int → Bool × Bytes × Int
  get_user_info : Str → Option UserInfo
  is_exceed_quota : Nat → UserInfo → Bool × UserInfo
  get_db_list : Str → List Str
  get_table_list : Str → Str → List Str
  parse_json : Str → Option (Option Int × Option Int)
  logical_analyze : Sock → Int × Sock
  create_plan_tree : Sock → Int × Sock
  physical_analyze : Sock → Int × Sock
  execute : Sock → Int × Sock
  on_commit_rollback : Sock → Sock
  catalog_responder : Str → Sock → Bool × Sock
  errno : Nat → Int
  strerror : Int → Str

/-- Modelled from the spec: `PACKET_HEADER_LEN` is declared in a header outside the
sources; the header is the 3-byte length plus the 1-byte sequence id. -/
def PACKET_HEADER_LEN : Int := 4

/-- Performs `real_read(sock, want, &read_len)`: the environment's answer at the
current clock is appended to `self_buf`; the result carries `read_len`. -/
def do_real_read (E : Env) (s : Sock) (want : Int) : Ret × Int × Sock :=
  let r := E.real_read s.clock want
  (r.ret, (r.data.length : Int),
    { s with self_buf := s.self_buf ++ r.data,
             clock := s.clock + 1,
             log := s.log ++ [Event.real_read want r.ret r.data.length] })

/-- Lines 496-514 of `_read_packet`: the body phase. -/
def _read_packet_body (E : Env) (s : Sock) : Ret × Sock :=
  let (ret, read_len, s1) := do_real_read E s (s.packet_len - s.packet_read_len)
  let s2 := { s1 with packet_read_len := s1.packet_read_len + read_len }
  if ret = Ret.RET_WAIT_FOR_EVENT then (ret, s2)
  else if ret ≠ Ret.RET_SUCCESS then (ret, s2)
  else if s2.packet_len > s2.packet_read_len then (Ret.RET_WAIT_FOR_EVENT, s2)
  else (Ret.RET_SUCCESS, { s2 with packet_read_len := 0, header_read_len := 0 })

/-- The function `StateMachine::_read_packet` (lines 451-515). -/
def _read_packet (E : Env) (s : Sock) : Ret × Sock :=
  if s.header_read_len ≠ 4 then
    let (ret, read_len, s1) := do_real_read E s (PACKET_HEADER_LEN - s.header_read_len)
    let s2 := { s1 with header_read_len := s1.header_read_len + read_len }
    if ret = Ret.RET_WAIT_FOR_EVENT then (ret, s2)
    else if ret ≠ Ret.RET_SUCCESS then (ret, s2)
    else if s2.header_read_len < 4 then (Ret.RET_WAIT_FOR_EVENT, s2)
    else
      let header_offset : Int := (s2.self_buf.length : Int) - 4
      let header := s2.self_buf.drop header_offset.toNat
      let s3 := { s2 with
        header_offset := header_offset,
        packet_len := ((header.getD 0 0 ||| (header.getD 1 0 <<< 8) ||| (header.getD 2 0 <<< 16) : Nat) : Int),
        packet_id := header.getD 3 0 }
      if s3.packet_len > E.PACKET_LEN_MAX then (Ret.RET_ERROR, s3)
      else _read_packet_body E s3
  else _read_packet_body E s

/-- Arithmetic on `uint32_t` offsets wraps modulo this value. -/
def U32 : Nat := 4294967296

/-- Appends one event to the ghost log. -/
def emit (s : Sock) (e : Event) : Sock :=
  { s with log := s.log ++ [e] }

/-- The assignment `client->state = st`. -/
def set_state (s : Sock) (st : State) : Sock :=
  { s with state := st, log := s.log ++ [Event.set_state st] }

/-- The call `epoll_info->poll_events_mod(client, ev)`. -/
def poll_events_mod (s : Sock) (ev : EpollEv) : Sock :=
  emit s (Event.poll_events_mod ev)

/-- The call `_wrapper->make_err_packet(client, code, msg)`. -/
def make_err_packet (E : Env) (s : Sock) (code : ErrCode) (msg : Str) : Sock :=
  { s with send_buf := s.send_buf ++ E.make_err_packet code msg,
           log := s.log ++ [Event.make_err_packet code msg] }

/-- The call `_wrapper->make_simple_ok_packet(client)`. -/
def make_simple_ok_packet (E : Env) (s : Sock) : Sock :=
  { s with send_buf := s.send_buf ++ E.make_simple_ok_packet s.packet_id,
           log := s.log ++ [Event.make_simple_ok_packet] }

/-- The call `_wrapper->fill_auth_failed_packet(client, msg, strlen(msg))`; its
return value only selects a log line. -/
def fill_auth_failed_packet (E : Env) (s : Sock) (msg : Str) : Sock :=
  { s with send_buf := s.send_buf ++ E.fill_auth_failed_packet msg,
           log := s.log ++ [Event.fill_auth_failed_packet msg] }

/-- The text left by `snprintf(msg, 256, ...)` in `char msg[256]`: at most 255
characters of the formatted text. -/
def snprintf256 (text : Str) : Str := text.take 255

/-- Decimal rendering of an unsigned value (`%u`). -/
def fmt_u (n : Nat) : Str := Nat.toDigits 10 n

/-- Decimal rendering of a signed value (`%d`, `operator<<`, `std::to_string`). -/
def fmt_d (n : Int) : Str :=
  if n < 0 then '-' :: Nat.toDigits 10 n.natAbs else Nat.toDigits 10 n.toNat

/-- Modelled from the spec: `UserInfo::connection_inc` is declared outside the
sources; it increments the user's connection count against `max_connection` and
reports failure, without incrementing, when the cap is reached. -/
def UserInfo.connection_inc (u : UserInfo) : Bool × UserInfo :=
  if u.cur_connection < u.max_connection then
    (true, { u with cur_connection := u.cur_connection + 1 })
  else (false, u)

/-- Modelled from the spec: `UserInfo::connection_dec` is declared outside the
sources; it gives back one connection of the user's count. -/
def UserInfo.connection_dec (u : UserInfo) : UserInfo :=
  { u with cur_connection := u.cur_connection - 1 }

/-- A default-constructed `UserInfo` (`new UserInfo`). -/
def new_user_info : UserInfo :=
  { username := [], scramble_password := [], namespace_ := [],
    max_connection := 0, query_quota := 0, cur_connection := 0 }

/-- Modelled from the spec: the `QueryContext` constructor is declared outside the
sources; a new context has empty sql and comments and `error_code` equal to
`ER_ERROR_FIRST`. -/
def new_query_context (cur_db : Str) : QueryContext :=
  { sql := [], mysql_cmd := 0, type := SqlType.SQL_UNKNOWN_NUM, cur_db := cur_db,
    comments := [], debug_region_id := 0, enable_2pc := 0,
    stat_info := { error_code := ErrCode.ER_ERROR_FIRST, error_msg := [],
                   sql_length := 0, send_buf_size := 0 },
    succ_after_logical_plan := false, succ_after_physical_plan := false,
    has_root := false, rt_txn_id := 0, rt_seq_id := 0, thread_idx := 0 }

/-- Lines 437-448 of `_auth_read`: the optional database name and the final
assignment of `username`. -/
def _auth_read_current_db (E : Env) (s : Sock) (u : UserInfo) (packet : Bytes) (off : Nat) :
    Ret × Sock :=
  if ((s.packet_len + PACKET_HEADER_LEN) % (U32 : Int)).toNat > off then
    match E.protocol_get_string packet (s.packet_len + 4) off with
    | none => (Ret.RET_AUTH_FAILED, s)
    | some (db, _) =>
      (Ret.RET_SUCCESS, { s with current_db := db, username := u.username })
  else
    (Ret.RET_SUCCESS, { s with current_db := [], username := u.username })

/-- Lines 407-435 of `_auth_read`: the length byte and the 20-byte comparison
against `scramble_password`, then the tail. -/
def _auth_read_password (E : Env) (s : Sock) (u : UserInfo) (packet : Bytes) (off : Nat) :
    Ret × Sock :=
  if ((s.packet_len + PACKET_HEADER_LEN) % (U32 : Int)).toNat < (off + 1) % U32 then
    (Ret.RET_ERROR, s)
  else
    let len := packet.getD off 0
    let off := (off + 1) % U32
    if len = 0x00 then (Ret.RET_AUTH_FAILED, s)
    else if len = 0x14 then
      if ((s.packet_len + PACKET_HEADER_LEN) % (U32 : Int)).toNat < (20 + off) % U32 then
        (Ret.RET_ERROR, s)
      else if (List.range 20).any
          (fun idx => packet.getD (off + idx) 0 ≠ u.scramble_password.getD idx 0) then
        (Ret.RET_AUTH_FAILED, s)
      else _auth_read_current_db E s u packet ((off + 20) % U32)
    else (Ret.RET_AUTH_FAILED, s)

/-- The function `StateMachine::_auth_read` (lines 346-449). -/
def _auth_read (E : Env) (s : Sock) : Ret × Sock :=
  let (ret, s1) := _read_packet E s
  if ret ≠ Ret.RET_SUCCESS then (ret, s1)
  else
    let packet := s1.self_buf.drop s1.header_offset.toNat
    match E.protocol_get_char packet (PACKET_HEADER_LEN + 8).toNat with
    | none => (Ret.RET_ERROR, s1)
    | some (charset_num, off) =>
      let s2 :=
        if charset_num = 28 then { s1 with charset_name := "gbk".toList }
        else if charset_num = 33 then { s1 with charset_name := "utf8".toList }
        else { s1 with charset_name := "gbk".toList, charset_num := 28 }
      let off := (off + 23) % U32
      match E.protocol_get_string packet (s2.packet_len + 4) off with
      | none => (Ret.RET_AUTH_FAILED, s2)
      | some (username, off) =>
        let s3 := emit { s2 with user_info := E.get_user_info username }
          (Event.get_user_info username)
        match s3.user_info with
        | none => (Ret.RET_AUTH_FAILED, { s3 with user_info := some new_user_info })
        | some u =>
          if u.username = [] then (Ret.RET_AUTH_FAILED, s3)
          else
            let u1 := if u.max_connection = 0 then
              { u with max_connection := E.FLAGS_max_connections_per_user } else u
            let u2 := if u1.query_quota = 0 then
              { u1 with query_quota := E.FLAGS_query_quota_per_user } else u1
            _auth_read_password E { s3 with user_info := some u2 } u2 packet off

/-- Lower-casing of one character in the C locale, as used by the
case-insensitive comparisons of `boost::algorithm`. -/
def to_lower (c : Char) : Char := c.toLower

/-- The predicate `boost::algorithm::istarts_with(input, test)`. -/
def istarts_with : Str → Str → Bool
  | _, [] => true
  | [], _ :: _ => false
  | c :: cs, t :: ts => to_lower c == to_lower t && istarts_with cs ts

/-- The predicate `boost::starts_with(input, test)`. -/
def starts_with : Str → Str → Bool
  | _, [] => true
  | [], _ :: _ => false
  | c :: cs, t :: ts => c == t && starts_with cs ts

/-- The predicate `boost::iequals(a, b)`. -/
def iequals : Str → Str → Bool
  | [], [] => true
  | c :: cs, t :: ts => to_lower c == to_lower t && iequals cs ts
  | _, _ => false

/-- The characters of `boost::is_any_of(" \t\n\r\x0B")`. -/
def is_blank (c : Char) : Bool :=
  c == ' ' || c == '\t' || c == '\n' || c == '\r' || c == Char.ofNat 0x0B

/-- The characters of `boost::is_any_of(" \t\n\r\x0B;")`. -/
def is_blank_or_semi (c : Char) : Bool :=
  is_blank c || c == ';'

/-- The call `boost::algorithm::trim_left_if(s, p)`. -/
def trim_left_if (p : Char → Bool) (s : Str) : Str := s.dropWhile p

/-- The call `boost::algorithm::trim_right_if(s, p)`. -/
def trim_right_if (p : Char → Bool) (s : Str) : Str := (s.reverse.dropWhile p).reverse

/-- Splits a text at its first `*/`: the part before it and the part after. -/
def find_close : Str → Option (Str × Str)
  | [] => none
  | c :: rest =>
    if c = '*' ∧ rest.head? = some '/' then some ([], rest.tail)
    else (find_close rest).map (fun r => (c :: r.1, r.2))

/-- Leftmost match of the regular expression `(\/\*.*?\*\/)(.*)` of
`_parse_comment` in a text: the unmatched part before the match, group 1 (the
shortest `/* ... */` block) and group 2 (the rest of the text; in Boost a dot also
matches a line break). -/
def regex_match : Str → Option (Str × Str × Str)
  | [] => none
  | c :: rest =>
    match (if c = '/' ∧ rest.head? = some '*' then find_close rest.tail else none) with
    | some (body, after) => some ([], '/' :: '*' :: (body ++ ['*', '/']), after)
    | none => (regex_match rest).map (fun r => (c :: r.1, r.2.1, r.2.2))

/-- The call `boost::regex_replace(sql, reg, "$1")`. -/
def regex_replace_1 (sql : Str) : Str :=
  match regex_match sql with
  | some (pre, g1, _) => pre ++ g1
  | none => sql

/-- The call `boost::regex_replace(sql, reg, "$2")`. -/
def regex_replace_2 (sql : Str) : Str :=
  match regex_match sql with
  | some (pre, _, g2) => pre ++ g2
  | none => sql

/-- The two trimming calls of `_parse_comment`. -/
def trim_sql (sql : Str) : Str :=
  trim_right_if is_blank_or_semi (trim_left_if is_blank sql)

/-- The while loop of `_parse_comment` (lines 755-768). Every iteration that does
not leave the loop shortens `ctx.sql`, so the length of the text plus one bounds
the number of iterations; the first argument counts them down. -/
def _parse_comment_loop : Nat → QueryContext → QueryContext
  | 0, ctx => ctx
  | fuel + 1, ctx =>
    if istarts_with ctx.sql "/*".toList then
      let len := ctx.sql.length
      let comment := regex_replace_1 ctx.sql
      let ctx1 := if comment.length ≠ 0 then
        { ctx with comments := ctx.comments ++ [comment] } else ctx
      let ctx2 := { ctx1 with sql := regex_replace_2 ctx1.sql }
      if ctx2.sql.length = len then ctx2
      else _parse_comment_loop fuel { ctx2 with sql := trim_sql ctx2.sql }
    else ctx

/-- The function `StateMachine::_parse_comment` (lines 746-769). -/
def _parse_comment (ctx : QueryContext) : QueryContext :=
  let ctx1 := { ctx with sql := trim_sql ctx.sql }
  _parse_comment_loop (ctx1.sql.length + 1) ctx1

/-- The function `StateMachine::_get_json_attributes` (lines 771-802); the JSON
parser is the collaborator `parse_json`, which yields the two recognised keys. -/
def _get_json_attributes (E : Env) (ctx : QueryContext) : QueryContext :=
  ctx.comments.foldl (fun c comment =>
    if comment.length < 4 then c
    else
      match E.parse_json ((comment.drop 2).take (comment.length - 4)) with
      | none => c
      | some (region_id, enable_2pc) =>
        let c1 := match region_id with
          | some r => { c with debug_region_id := r }
          | none => c
        match enable_2pc with
        | some v => { c1 with enable_2pc := v }
        | none => c1) ctx

/-- Modelled from the spec: the SQL keyword and statement constants are declared
in a header outside the sources; their texts are those listed in the spec for the
prefix classes and the literal built-in statements (compared case-insensitively by
the code). -/
def SQL_SELECT : Str := "select".toList
def SQL_SHOW : Str := "show".toList
def SQL_EXPLAIN : Str := "explain".toList
def SQL_KILL : Str := "kill".toList
def SQL_USE : Str := "use".toList
def SQL_DESC : Str := "desc".toList
def SQL_CALL : Str := "call".toList
def SQL_SET : Str := "set".toList
def SQL_VERSION_COMMENT : Str := "select @@version_comment".toList
def SQL_SESSION_AUTO_INCREMENT : Str := "select @@session.auto_increment_increment".toList
def SQL_SESSION_AUTO_AUTOCOMMIT : Str := "select @@session.autocommit".toList
def SQL_SESSION_TX_ISOLATION : Str := "select @@session.tx_isolation".toList
def SQL_SELECT_1 : Str := "select 1".toList
def SQL_SELECT_DATABASE : Str := "select database()".toList
def SQL_SHOW_DATABASES : Str := "show databases".toList
def SQL_SHOW_TABLES : Str := "show tables".toList
def SQL_SHOW_CREATE_TABLE : Str := "show create table".toList
def SQL_SHOW_FULL_COLUMNS : Str := "show full columns".toList
def SQL_SHOW_TABLE_STATUS : Str := "show table status".toList
def SQL_SHOW_COLLATION : Str := "show collation".toList
def SQL_SHOW_WARNINGS : Str := "show warnings".toList
def SQL_SHOW_REGION : Str := "show region_".toList
def SQL_SHOW_VARIABLES : Str := "show variables".toList

/-- Modelled from the spec: the command bytes are declared in a header outside the
sources; the values are those the spec and the comments of `_query_process` give. -/
def COM_INIT_DB : Nat := 0x02
def COM_QUERY : Nat := 0x03
def COM_FIELD_LIST : Nat := 0x04
def COM_PING : Nat := 0x0e
def COM_STMT_PREPARE : Nat := 0x16
def COM_STMT_EXECUTE : Nat := 0x17
def COM_STMT_CLOSE : Nat := 0x19

/-- Lines 2018-2073 of `_get_query_type`: classification by SQL keyword. -/
def sql_type_of_text (sql : Str) : SqlType :=
  if istarts_with sql SQL_SELECT then SqlType.SQL_SELECT_NUM
  else if istarts_with sql SQL_SHOW then SqlType.SQL_SHOW_NUM
  else if istarts_with sql SQL_EXPLAIN then SqlType.SQL_EXPLAIN_NUM
  else if istarts_with sql SQL_KILL then SqlType.SQL_KILL_NUM
  else if istarts_with sql SQL_USE then SqlType.SQL_USE_IN_QUERY_NUM
  else if istarts_with sql SQL_DESC then SqlType.SQL_DESC_NUM
  else if istarts_with sql SQL_CALL then SqlType.SQL_CALL_NUM
  else if istarts_with sql SQL_SET then
    let value_str := trim_left_if (fun c => " SETset".toList.contains c) sql
    if istarts_with value_str "names".toList then SqlType.SQL_SET_NAMES_NUM
    else if istarts_with value_str "charset".toList then SqlType.SQL_SET_CHARSET_NUM
    else if istarts_with value_str "character_set_client".toList then
      SqlType.SQL_SET_CHARACTER_SET_CLIENT_NUM
    else if istarts_with value_str "character_set_connection".toList then
      SqlType.SQL_SET_CHARACTER_SET_CONNECTION_NUM
    else if istarts_with value_str "character_set_results".toList then
      SqlType.SQL_SET_CHARACTER_SET_RESULTS_NUM
    else if istarts_with value_str "character set".toList then
      SqlType.SQL_SET_CHARACTER_SET_NUM
    else SqlType.SQL_SET_NUM
  else SqlType.SQL_WRITE_NUM

/-- The function `StateMachine::_get_query_type` (lines 1980-2074): the class and
the context as `_parse_comment` left it. -/
def _get_query_type (ctx : QueryContext) : SqlType × QueryContext :=
  let ctx1 := _parse_comment ctx
  let cmd := ctx1.mysql_cmd
  if cmd = 0x02 then (SqlType.SQL_USE_NUM, ctx1)
  else if cmd = 0x04 then (SqlType.SQL_FIELD_LIST_NUM, ctx1)
  else if cmd = 0x05 then (SqlType.SQL_CREATE_DB_NUM, ctx1)
  else if cmd = 0x06 then (SqlType.SQL_DROPD_DB_NUM, ctx1)
  else if cmd = 0x07 then (SqlType.SQL_REFRESH_NUM, ctx1)
  else if cmd = 0x09 then (SqlType.SQL_STAT_NUM, ctx1)
  else if cmd = 0x0a then (SqlType.SQL_PROCESS_INFO_NUM, ctx1)
  else if cmd = 0x0d then (SqlType.SQL_DEBUG_NUM, ctx1)
  else if cmd = 0x11 then (SqlType.SQL_CHANGEUSER_NUM, ctx1)
  else if cmd = 0x0e then (SqlType.SQL_PING_NUM, ctx1)
  else if cmd ≠ 0x03 ∧ cmd ≠ 0x16 ∧ cmd ≠ 0x17 ∧ cmd ≠ 0x19 ∧ cmd ≠ 0x1c then
    (SqlType.SQL_UNKNOWN_NUM, ctx1)
  else if ctx1.sql.length = 0 then (SqlType.SQL_UNKNOWN_NUM, ctx1)
  else (sql_type_of_text ctx1.sql, ctx1)

/-- A default-constructed `ResultField` with the two members the responders set. -/
def mk_field (name : Str) (type : MysqlType) : ResultField :=
  { name := name, type := type, catalog := [], db := [], table := [],
    org_table := [], org_name := [] }

/-- Loop body of lines 1879-1887: the members overwritten in `fields[cnt]` before
the column-definition packet is made. -/
def fill_field (cur_db : Str) (f : ResultField) : ResultField :=
  { f with catalog := "baikal".toList, db := cur_db, table := [], org_table := [],
           org_name := f.name }

/-- Lines 1879-1887 of `_make_common_resultset_packet`: one column-definition
packet per field; `send_packet_id` is incremented before each. -/
def make_field_packets (E : Env) (cur_db : Str) :
    List ResultField → Bytes → Int → Bytes × Int
  | [], buf, id => (buf, id)
  | f :: fs, buf, id =>
    make_field_packets E cur_db fs
      (buf ++ E.make_field_packet (fill_field cur_db f) (id + 1)) (id + 1)

/-- Lines 1895-1901 of `_make_common_resultset_packet`: one row packet per row;
the loop is left at the first row that fails to pack. -/
def make_row_packets (E : Env) : List (List Str) → Bytes → Int → Bool × Bytes × Int
  | [], buf, id => (true, buf, id)
  | r :: rs, buf, id =>
    let (ok, bytes, id1) := E.make_row_packet r id
    if !ok then (false, buf ++ bytes, id1)
    else make_row_packets E rs (buf ++ bytes) id1

/-- The function `StateMachine::_make_common_resultset_packet` (lines 1849-1905).
A `DataBuffer` is an unbounded list here, so its two append calls always succeed. -/
def _make_common_resultset_packet (E : Env) (s : Sock) (fields : List ResultField)
    (rows : List (List Str)) : Ret × Sock :=
  if fields.length = 0 then (Ret.RET_ERROR, s)
  else
    let send_packet_id : Int := 1
    let start_pos := s.send_buf.length
    let buf := s.send_buf ++ [0x01, 0x00, 0x00, 0x01]
    let buf := buf ++ E.length_coded_binary fields.length
    let packet_body_len := buf.length - start_pos - 4
    let buf := buf.set start_pos (packet_body_len % 256)
    let buf := buf.set (start_pos + 1) ((packet_body_len >>> 8) % 256)
    let buf := buf.set (start_pos + 2) ((packet_body_len >>> 16) % 256)
    let (buf, send_packet_id) :=
      make_field_packets E s.query_ctx.cur_db fields buf send_packet_id
    let send_packet_id := send_packet_id + 1
    let buf := buf ++ E.make_eof_packet send_packet_id
    let send_packet_id := send_packet_id + 1
    let (ok, buf, send_packet_id) := make_row_packets E rows buf send_packet_id
    if !ok then (Ret.RET_ERROR, { s with send_buf := buf })
    else (Ret.RET_SUCCESS, { s with send_buf := buf ++ E.make_eof_packet send_packet_id })

/-- Common tail of the built-in responders: make the result-set packets; on
failure pack `ER_MAKE_RESULT_PACKET`, go to `STATE_ERROR` and return false. -/
def finish_resultset (E : Env) (s : Sock) (fields : List ResultField)
    (rows : List (List Str)) (errmsg : Str) : Bool × Sock :=
  let (ret, s1) := _make_common_resultset_packet E s fields rows
  if ret ≠ Ret.RET_SUCCESS then
    (false, set_state (make_err_packet E s1 ErrCode.ER_MAKE_RESULT_PACKET errmsg)
      State.STATE_ERROR)
  else (true, set_state s1 State.STATE_READ_QUERY_RESULT)

/-- The function `StateMachine::_handle_client_query_template` (lines 836-868). -/
def _handle_client_query_template (E : Env) (s : Sock) (field_name : Str)
    (data_type : MysqlType) (value : Str) : Bool × Sock :=
  finish_resultset E s [mk_field field_name data_type] [[value]]
    "Failed to make result packet.".toList

def _handle_client_query_version_commit (E : Env) (s : Sock) : Bool × Sock :=
  _handle_client_query_template E s "@@version_comment".toList
    MysqlType.MYSQL_TYPE_VAR_STRING "Source distribution".toList

def _handle_client_query_session_auto_increment (E : Env) (s : Sock) : Bool × Sock :=
  _handle_client_query_template E s "@@session.auto_increment_increment".toList
    MysqlType.MYSQL_TYPE_VAR_STRING "1".toList

def _handle_client_query_session_auto_autocommit (E : Env) (s : Sock) : Bool × Sock :=
  _handle_client_query_template E s "@@session.autocommit".toList
    MysqlType.MYSQL_TYPE_VAR_STRING "1".toList

def _handle_client_query_session_tx_isolation (E : Env) (s : Sock) : Bool × Sock :=
  _handle_client_query_template E s "@@session.tx_isolation".toList
    MysqlType.MYSQL_TYPE_VAR_STRING "REPEATABLE-READ".toList

/-- The function `StateMachine::_handle_client_query_select_1` (lines 890-893). -/
def _handle_client_query_select_1 (E : Env) (s : Sock) : Bool × Sock :=
  _handle_client_query_template E s "1".toList MysqlType.MYSQL_TYPE_LONG "1".toList

def _handle_client_query_select_database (E : Env) (s : Sock) : Bool × Sock :=
  _handle_client_query_template E s "database()".toList
    MysqlType.MYSQL_TYPE_VAR_STRING s.current_db

/-- The namespace of the connection's user (`client->user_info->namespace_`). -/
def user_namespace (s : Sock) : Str :=
  match s.user_info with
  | some u => u.namespace_
  | none => []

/-- The function `StateMachine::_handle_client_query_show_databases` (lines 900-935). -/
def _handle_client_query_show_databases (E : Env) (s : Sock) : Bool × Sock :=
  finish_resultset E s [mk_field "Database".toList MysqlType.MYSQL_TYPE_VAR_STRING]
    ((E.get_db_list (user_namespace s)).map (fun db => [db]))
    "Failed to make result packet.".toList

/-- The function `StateMachine::_handle_client_query_show_tables` (lines 937-981). -/
def _handle_client_query_show_tables (E : Env) (s : Sock) : Bool × Sock :=
  let current_db := s.current_db
  if current_db = [] then
    (false, set_state
      (make_err_packet E s ErrCode.ER_NO_DB_ERROR "No database selected".toList)
      State.STATE_READ_QUERY_RESULT)
  else
    finish_resultset E s
      [mk_field ("Tables_in_".toList ++ current_db) MysqlType.MYSQL_TYPE_VAR_STRING]
      ((E.get_table_list (user_namespace s) current_db).map (fun t => [t]))
      s.query_ctx.sql

/-- The function `StateMachine::_handle_client_query_use_database` (lines 804-834). -/
def _handle_client_query_use_database (E : Env) (s : Sock) : Bool × Sock :=
  let sql := trim_left_if (fun c => c == ' ') s.query_ctx.sql
  let s1 := { s with current_db := sql, query_ctx := { s.query_ctx with cur_db := sql } }
  (true, set_state (make_simple_ok_packet E s1) State.STATE_READ_QUERY_RESULT)

/-- The responders of lines 983-1847 that read table, index and region metadata
(`SHOW CREATE TABLE`, `SHOW FULL COLUMNS`, `SHOW TABLE STATUS`, `SHOW COLLATION`,
`SHOW WARNINGS`, `SHOW REGION_`, `SHOW VARIABLES`, `DESC`) are kept as the
collaborator `catalog_responder`, selected by name. -/
def _handle_client_query_catalog (E : Env) (name : String) (s : Sock) : Bool × Sock :=
  E.catalog_responder name.toList (emit s (Event.builtin name.toList))

/-- The call `client->user_info->is_exceed_quota()`. -/
def is_exceed_quota (E : Env) (s : Sock) : Bool × Sock :=
  match s.user_info with
  | none => (false, emit { s with clock := s.clock + 1 } (Event.is_exceed_quota false))
  | some u =>
    let r := E.is_exceed_quota s.clock u
    (r.1, emit { s with user_info := some r.2, clock := s.clock + 1 }
      (Event.is_exceed_quota r.1))

/-- The failure branch shared by the three planner stages of
`_handle_client_query_common_query`: substitute the default code and message
when `error_code` is still `ER_ERROR_FIRST`, then pack the ERR packet. -/
def plan_failed (E : Env) (s : Sock) (dflt : ErrCode) (text : Str) : Sock :=
  let st := s.query_ctx.stat_info
  let st1 := if st.error_code = ErrCode.ER_ERROR_FIRST then
    { st with error_code := dflt, error_msg := st.error_msg ++ text } else st
  let s1 := { s with query_ctx := { s.query_ctx with stat_info := st1 } }
  make_err_packet E s1 st1.error_code st1.error_msg

/-- The scope-exit handler installed at line 2129. -/
def scope_exit (E : Env) (s : Sock) : Sock :=
  if s.txn_id = 0 then E.on_commit_rollback (emit s Event.on_commit_rollback) else s

/-- The function `StateMachine::_handle_client_query_common_query` (lines
2076-2183). -/
def _handle_client_query_common_query (E : Env) (s : Sock) : Bool × Sock :=
  let s0 := { s with query_ctx := { s.query_ctx with
    thread_idx := s.thread_idx,
    stat_info := { s.query_ctx.stat_info with sql_length := s.query_ctx.sql.length } } }
  let r1 := E.logical_analyze s0
  let s1 := emit r1.2 (Event.logical_analyze r1.1)
  if r1.1 < 0 then
    (false, plan_failed E s1 ErrCode.ER_GEN_PLAN_FAILED "get logical plan failed".toList)
  else if s1.query_ctx.succ_after_logical_plan then (true, make_simple_ok_packet E s1)
  else
    let r2 := E.create_plan_tree s1
    let s2 := emit r2.2 (Event.create_plan_tree r2.1)
    if r2.1 < 0 then (false, s2)
    else
      let s3 := if s2.query_ctx.has_root then
        { s2 with seq_id := s2.seq_id + 1,
                  query_ctx := { s2.query_ctx with rt_txn_id := s2.txn_id,
                                                   rt_seq_id := s2.seq_id + 1 } }
        else s2
      let r4 := E.physical_analyze s3
      let s4 := emit r4.2 (Event.physical_analyze r4.1)
      if r4.1 < 0 then
        (false, scope_exit E
          (plan_failed E s4 ErrCode.ER_GEN_PLAN_FAILED "get physical plan failed".toList))
      else if s4.query_ctx.succ_after_physical_plan then
        (true, scope_exit E (make_simple_ok_packet E s4))
      else
        let r5 := E.execute s4
        let s5 := emit r5.2 (Event.execute r5.1)
        if r5.1 < 0 then
          (false, scope_exit E
            (plan_failed E s5 ErrCode.ER_EXEC_PLAN_FAILED "exec physical plan failed".toList))
        else
          (true, scope_exit E { s5 with query_ctx := { s5.query_ctx with
            stat_info := { s5.query_ctx.stat_info with
              send_buf_size := s5.send_buf.length } } })

/-- Packs `ER_NOT_ALLOWED_COMMAND` with the text used throughout the file. -/
def not_allowed (E : Env) (s : Sock) : Sock :=
  make_err_packet E s ErrCode.ER_NOT_ALLOWED_COMMAND "comand not supported".toList

/-- Runs `_get_query_type` on the connection's query context and stores the class
in `query_ctx->type`. -/
def classify (s : Sock) : Sock :=
  let r := _get_query_type s.query_ctx
  { s with query_ctx := { r.2 with type := r.1 } }

/-- The function `StateMachine::_query_read` (lines 517-616). -/
def _query_read (E : Env) (s : Sock) : Ret × Sock :=
  let s0 := emit { s with query_ctx := new_query_context s.current_db } Event.new_query_ctx
  let (ret, s1) := _read_packet E s0
  if ret = Ret.RET_WAIT_FOR_EVENT then (ret, s1)
  else if ret ≠ Ret.RET_SUCCESS then (ret, s1)
  else
    let packet := s1.self_buf.drop s1.header_offset.toNat
    let packet_left : Int := (s1.self_buf.length : Int) - s1.header_offset
    match E.protocol_get_char packet PACKET_HEADER_LEN.toNat with
    | none => (Ret.RET_ERROR, s1)
    | some (command, off) =>
      let s2 := { s1 with query_ctx := { s1.query_ctx with mysql_cmd := command } }
      let packet_left := packet_left - 1
      if !E.is_valid_command command then
        let r := E.make_string_packet "denied command -_-||".toList
        let s3 := { s2 with send_buf := s2.send_buf ++ r.2,
                            log := s2.log ++ [Event.make_string_packet
                              "denied command -_-||".toList] }
        if r.1 then (Ret.RET_ERROR, s3) else (Ret.RET_CMD_UNSUPPORT, s3)
      else if E.is_shutdown_command command then (Ret.RET_COMMAND_SHUTDOWN, s2)
      else if command = COM_PING then (Ret.RET_SUCCESS, classify s2)
      else if command = COM_STMT_EXECUTE then (Ret.RET_CMD_UNSUPPORT, not_allowed E s2)
      else if command = COM_STMT_CLOSE then (Ret.RET_CMD_UNSUPPORT, not_allowed E s2)
      else
        let sql_len := s2.packet_len - 1
        if sql_len > 0 then
          let r := E.protocol_get_sql_string packet packet_left off sql_len
          let s3 := { s2 with query_ctx := { s2.query_ctx with sql := r.2.1 } }
          if r.1 ≠ Ret.RET_SUCCESS then (r.1, s3)
          else
            let s4 := classify s3
            let type := s4.query_ctx.type
            let s5 := { s4 with query_ctx := _get_json_attributes E s4.query_ctx }
            if type = SqlType.SQL_SET_CHARSET_NUM ∨ type = SqlType.SQL_SET_CHARACTER_SET_NUM then
              (Ret.RET_CMD_UNSUPPORT,
                make_err_packet E s5 ErrCode.ER_UNKNOWN_CHARACTER_SET "unsupport charset".toList)
            else if s5.query_ctx.type = SqlType.SQL_UNKNOWN_NUM then
              (Ret.RET_CMD_UNSUPPORT, make_simple_ok_packet E s5)
            else (Ret.RET_SUCCESS, s5)
        else (Ret.RET_CMD_UNSUPPORT, not_allowed E s2)

/-- The `COM_QUERY` branch of `_query_process` (lines 644-721). -/
def _query_process_com_query (E : Env) (client : Sock) : Bool × Sock :=
  let type := client.query_ctx.type
  let sql := client.query_ctx.sql
  if type = SqlType.SQL_SET_CHARSET_NUM ∨ type = SqlType.SQL_SET_CHARACTER_SET_NUM then
    (true, set_state (make_simple_ok_packet E client) State.STATE_READ_QUERY_RESULT)
  else if type = SqlType.SQL_SET_NAMES_NUM
      ∨ type = SqlType.SQL_SET_CHARACTER_SET_CLIENT_NUM
      ∨ type = SqlType.SQL_SET_CHARACTER_SET_CONNECTION_NUM
      ∨ type = SqlType.SQL_SET_CHARACTER_SET_RESULTS_NUM then
    (true, set_state (make_simple_ok_packet E client) State.STATE_READ_QUERY_RESULT)
  else if iequals sql SQL_VERSION_COMMENT then _handle_client_query_version_commit E client
  else if iequals sql SQL_SESSION_AUTO_INCREMENT then
    _handle_client_query_session_auto_increment E client
  else if iequals sql SQL_SESSION_AUTO_AUTOCOMMIT then
    _handle_client_query_session_auto_autocommit E client
  else if iequals sql SQL_SESSION_TX_ISOLATION then
    _handle_client_query_session_tx_isolation E client
  else if iequals sql SQL_SELECT_1 then _handle_client_query_select_1 E client
  else if iequals sql SQL_SELECT_DATABASE then _handle_client_query_select_database E client
  else if iequals sql SQL_SHOW_DATABASES then _handle_client_query_show_databases E client
  else if iequals sql SQL_SHOW_TABLES then _handle_client_query_show_tables E client
  else if istarts_with sql SQL_SHOW_CREATE_TABLE then
    _handle_client_query_catalog E "show_create_table" client
  else if istarts_with sql SQL_SHOW_FULL_COLUMNS then
    _handle_client_query_catalog E "show_full_columns" client
  else if istarts_with sql SQL_SHOW_TABLE_STATUS then
    _handle_client_query_catalog E "show_table_status" client
  else if iequals sql SQL_SHOW_COLLATION then
    _handle_client_query_catalog E "show_collation" client
  else if iequals sql SQL_SHOW_WARNINGS then
    _handle_client_query_catalog E "show_warnings" client
  else if starts_with sql SQL_SHOW_REGION then
    _handle_client_query_catalog E "show_region" client
  else if type = SqlType.SQL_SHOW_NUM ∧ istarts_with sql SQL_SHOW_VARIABLES then
    _handle_client_query_catalog E "show_variables" client
  else if type = SqlType.SQL_USE_IN_QUERY_NUM ∧ istarts_with sql SQL_USE then
    _handle_client_query_use_database E client
  else if type = SqlType.SQL_DESC_NUM then
    _handle_client_query_catalog E "desc_table" client
  else if type = SqlType.SQL_SHOW_NUM then
    (true, set_state (make_simple_ok_packet E client) State.STATE_READ_QUERY_RESULT)
  else
    let q := is_exceed_quota E client
    if q.1 then
      (true, set_state
        (make_err_packet E q.2 ErrCode.ER_QUERY_EXCEED_QUOTA "query exceed quota(qps)".toList)
        State.STATE_READ_QUERY_RESULT)
    else
      let r := _handle_client_query_common_query E q.2
      (r.1, set_state r.2 State.STATE_READ_QUERY_RESULT)

/-- The function `StateMachine::_query_process` (lines 618-744). -/
def _query_process (E : Env) (client : Sock) : Bool × Sock :=
  let command := client.query_ctx.mysql_cmd
  let type := client.query_ctx.type
  if command = COM_PING then
    (true, set_state (make_simple_ok_packet E client) State.STATE_READ_QUERY_RESULT)
  else if client.query_ctx.sql.length = 0 then (false, client)
  else if command = COM_INIT_DB then
    if type = SqlType.SQL_USE_NUM ∨ type = SqlType.SQL_USE_IN_QUERY_NUM then
      _handle_client_query_use_database E client
    else (true, set_state (make_simple_ok_packet E client) State.STATE_READ_QUERY_RESULT)
  else if command = COM_QUERY then _query_process_com_query E client
  else if command = COM_FIELD_LIST then
    (true, set_state (not_allowed E client) State.STATE_ERROR_REUSE)
  else if command = COM_STMT_PREPARE then
    (true, set_state (not_allowed E client) State.STATE_ERROR_REUSE)
  else if command = COM_STMT_EXECUTE then
    (true, set_state (not_allowed E client) State.STATE_ERROR_REUSE)
  else if command = COM_STMT_CLOSE then
    (true, set_state (not_allowed E client) State.STATE_ERROR_REUSE)
  else (true, set_state (not_allowed E client) State.STATE_ERROR_REUSE)

/-- The function `StateMachine::_query_result_send` (lines 1907-1913). -/
def _query_result_send (E : Env) (s : Sock) : Ret × Sock :=
  let ret := E.real_write s.clock
  (ret, emit { s with clock := s.clock + 1 } (Event.real_write ret))

/-- The function `StateMachine::_reset_network_socket_client_resource`. -/
def _reset_network_socket_client_resource (s : Sock) : Sock :=
  { s with send_buf := [], self_buf := [] }

/-- Modelled from the spec: `SocketPool::free` is declared outside the sources;
the pool takes the connection back and marks it `in_pool`. -/
def socket_pool_free (s : Sock) : Sock :=
  emit { s with in_pool := true } Event.socket_pool_free

/-- The call `sock->user_info->connection_dec()`. -/
def connection_dec (s : Sock) : Sock :=
  emit { s with user_info := s.user_info.map UserInfo.connection_dec } Event.connection_dec

/-- The function `StateMachine::client_free` (lines 1955-1978). -/
def client_free (E : Env) (sock : Sock) : Sock :=
  if sock.in_pool = true ∨ sock.fd = 0 then sock
  else
    let s1 := if sock.txn_id ≠ 0 then
      (_handle_client_query_common_query E
        (emit { sock with query_ctx :=
          { new_query_context sock.current_db with sql := "rollback".toList } }
          Event.new_query_ctx)).2
      else sock
    let s2 := if s1.is_counted then connection_dec s1 else s1
    let s3 := emit { s2 with query_ctx := new_query_context [] } Event.new_query_ctx
    let s4 := if s3.fd > 0 ∧ s3.fd < E.CONFIG_MPL_EPOLL_MAX_SIZE then
      emit s3 Event.delete_fd_mapping else s3
    socket_pool_free (emit s4 Event.poll_events_delete)

/-- The function `StateMachine::_send_result_to_client_and_reset_status` (lines
1915-1943). -/
def _send_result_to_client_and_reset_status (E : Env) (client : Sock) : Sock :=
  let r := _query_result_send E client
  if r.1 = Ret.RET_SUCCESS then
    poll_events_mod
      (set_state (_reset_network_socket_client_resource r.2) State.STATE_SEND_AUTH_RESULT)
      EpollEv.EPOLLIN
  else if r.1 = Ret.RET_WAIT_FOR_EVENT then poll_events_mod r.2 EpollEv.EPOLLOUT
  else client_free E r.2

/-- Modelled from the spec: `NetworkSocket::reset_when_err` is declared outside the
sources; it resets the two buffers of the connection. -/
def reset_when_err (s : Sock) : Sock :=
  emit { s with send_buf := [], self_buf := [] } Event.reset_when_err

/-- The call `client->user_info->connection_inc()`. -/
def connection_inc (s : Sock) : Bool × Sock :=
  match s.user_info with
  | none => (false, emit s (Event.connection_inc false))
  | some u =>
    let r := u.connection_inc
    (r.1, emit { s with user_info := some r.2 } (Event.connection_inc r.1))

/-- The value `client->user_info->max_connection`. -/
def user_max_connection (s : Sock) : Nat :=
  match s.user_info with
  | some u => u.max_connection
  | none => 0

/-- The message built at lines 71-74. -/
def max_connection_msg (s : Sock) : Str :=
  snprintf256 ("Username ".toList ++ s.username
    ++ " has reach the max connection limit(".toList
    ++ fmt_u (user_max_connection s) ++ ")".toList)

/-- The message built at lines 89-91. -/
def access_denied_msg (s : Sock) : Str :=
  snprintf256 ("Access denied for user '".toList ++ s.username ++ "'@'".toList ++ s.ip
    ++ "' (using password: YES)".toList)

/-- The message of lines 166-170: `make_err_packet` gets the format
`read query from client error, errno: %d-%s` with the arguments `errno` and
`strerror(errno)`. Both are outside the sources: the environment gives the value
of `errno` at the clock of the call, and the text `strerror` has for a value. -/
def read_error_msg (E : Env) (s : Sock) : Str :=
  "read query from client error, errno: ".toList ++ fmt_d (E.errno s.clock)
    ++ "-".toList ++ E.strerror (E.errno s.clock)

/-- Case `STATE_CONNECTED_CLIENT` of `run_machine` (lines 31-54); `self` is the
nested call `run_machine(client, epoll_info, shutdown)`. -/
def case_connected_client (E : Env) (self : Sock → Option Sock) (client : Sock)
    (shutdown : Bool) : Option Sock :=
  if shutdown then self (set_state client State.STATE_ERROR)
  else
    let ret := E.handshake_send client.clock
    let c1 := emit { client with clock := client.clock + 1 } (Event.handshake_send ret)
    if ret = Ret.RET_SUCCESS then
      some (poll_events_mod (set_state c1 State.STATE_SEND_HANDSHAKE) EpollEv.EPOLLIN)
    else if ret = Ret.RET_WAIT_FOR_EVENT then some (poll_events_mod c1 EpollEv.EPOLLOUT)
    else self (set_state c1 State.STATE_ERROR)

/-- Case `STATE_READ_AUTH` of `run_machine` (lines 112-136). -/
def case_read_auth (E : Env) (self : Sock → Option Sock) (client : Sock)
    (shutdown : Bool) : Option Sock :=
  if shutdown then self (set_state client State.STATE_ERROR)
  else
    let ret := E.auth_result_send client.clock
    let c1 := emit { client with clock := client.clock + 1 } (Event.auth_result_send ret)
    let r :=
      if ret = Ret.RET_SUCCESS then
        some (poll_events_mod (set_state c1 State.STATE_SEND_AUTH_RESULT) EpollEv.EPOLLIN)
      else if ret = Ret.RET_WAIT_FOR_EVENT then some (poll_events_mod c1 EpollEv.EPOLLOUT)
      else self (set_state c1 State.STATE_ERROR)
    r.map (fun c => { c with is_authed := true })

/-- Case `STATE_SEND_HANDSHAKE` of `run_machine` (lines 55-111); on a successful
login control falls through into the case `STATE_READ_AUTH`. -/
def case_send_handshake (E : Env) (self : Sock → Option Sock) (client : Sock)
    (shutdown : Bool) : Option Sock :=
  if shutdown then self (set_state client State.STATE_ERROR)
  else
    let r := _auth_read E client
    if r.1 = Ret.RET_SUCCESS then
      let i := connection_inc r.2
      if !i.1 then
        self (set_state (fill_auth_failed_packet E i.2 (max_connection_msg i.2))
          State.STATE_ERROR)
      else
        case_read_auth E self
          (set_state { i.2 with is_counted := true } State.STATE_READ_AUTH) shutdown
    else if r.1 = Ret.RET_AUTH_FAILED then
      self (set_state (fill_auth_failed_packet E r.2 (access_denied_msg r.2))
        State.STATE_ERROR)
    else if r.1 = Ret.RET_WAIT_FOR_EVENT then some (poll_events_mod r.2 EpollEv.EPOLLIN)
    else self (set_state r.2 State.STATE_ERROR)

/-- Case `STATE_SEND_AUTH_RESULT` of `run_machine` (lines 137-204). -/
def case_send_auth_result (E : Env) (self : Sock → Option Sock) (client : Sock)
    (shutdown : Bool) : Option Sock :=
  if shutdown then self (set_state client State.STATE_ERROR)
  else
    let r := _query_read E (emit client Event.query_read)
    if r.1 = Ret.RET_SUCCESS then
      let p := _query_process E (emit r.2 Event.query_process)
      if !p.1 ∨ p.2.state = State.STATE_ERROR ∨ p.2.state = State.STATE_ERROR_REUSE then
        let c3 := make_err_packet E p.2 ErrCode.ER_ERROR_COMMON "handle query failed".toList
        self (set_state c3
          (if c3.state = State.STATE_ERROR then State.STATE_ERROR else State.STATE_ERROR_REUSE))
      else if p.2.state = State.STATE_READ_QUERY then some (poll_events_mod p.2 EpollEv.NONE)
      else if p.2.state = State.STATE_READ_QUERY_RESULT then self p.2
      else if p.2.state = State.STATE_SEND_AUTH_RESULT then
        some (poll_events_mod p.2 EpollEv.EPOLLIN)
      else
        self (set_state
          (make_err_packet E p.2 ErrCode.ER_ERROR_COMMON "expected return state".toList)
          State.STATE_ERROR)
    else if r.1 = Ret.RET_WAIT_FOR_EVENT then some (poll_events_mod r.2 EpollEv.EPOLLIN)
    else if r.1 = Ret.RET_COMMAND_SHUTDOWN ∨ r.1 = Ret.RET_SHUTDOWN then
      self (set_state r.2 State.STATE_ERROR)
    else if r.1 = Ret.RET_CMD_UNSUPPORT then
      self (set_state r.2 State.STATE_READ_QUERY_RESULT)
    else
      self (set_state
        (make_err_packet E r.2 ErrCode.ER_ERROR_ON_READ (read_error_msg E r.2))
        State.STATE_ERROR)

/-- Case `STATE_ERROR_REUSE` of `run_machine` (lines 223-229). -/
def case_error_reuse (E : Env) (client : Sock) : Sock :=
  poll_events_mod
    (set_state (reset_when_err (_query_result_send E client).2) State.STATE_SEND_AUTH_RESULT)
    EpollEv.EPOLLIN

/-- Case `STATE_ERROR` of `run_machine` (lines 230-235). -/
def case_error (E : Env) (client : Sock) : Sock :=
  client_free E (_query_result_send E client).2

/-- The function `StateMachine::run_machine` (lines 26-242). The first argument
bounds the depth of nested self-calls; `none` means the bound was reached. -/
def run_machine (E : Env) : Nat → Sock → Bool → Option Sock
  | 0, _, _ => none
  | fuel + 1, client, shutdown =>
    match client.state with
    | State.STATE_CONNECTED_CLIENT =>
      case_connected_client E (fun c => run_machine E fuel c shutdown) client shutdown
    | State.STATE_SEND_HANDSHAKE =>
      case_send_handshake E (fun c => run_machine E fuel c shutdown) client shutdown
    | State.STATE_READ_AUTH =>
      case_read_auth E (fun c => run_machine E fuel c shutdown) client shutdown
    | State.STATE_SEND_AUTH_RESULT =>
      case_send_auth_result E (fun c => run_machine E fuel c shutdown) client shutdown
    | State.STATE_READ_QUERY_RESULT =>
      some (_send_result_to_client_and_reset_status E client)
    | State.STATE_ERROR_REUSE => some (case_error_reuse E client)
    | State.STATE_ERROR => some (case_error E client)
    | State.STATE_READ_QUERY => some client

/-! ## Runs of the packet reader, and the assumptions made on the socket -/

/-- The connection after `n` successive `_read_packet` calls. -/
def read_calls (E : Env) : Nat → Sock → Sock
  | 0, s => s
  | n + 1, s => (_read_packet E (read_calls E n s)).2

/-- The return code of the `_read_packet` call number `n` (counted from 0). -/
def read_ret (E : Env) (n : Nat) (s : Sock) : Ret :=
  (_read_packet E (read_calls E n s)).1

/-- The sizes requested from `real_read`, in order, in a list of events. -/
def wants_of : List Event → List Int
  | [] => []
  | Event.real_read want _ _ :: es => want :: wants_of es
  | _ :: es => wants_of es

/-- A socket read never appends more bytes than were requested. -/
def ReadBounded (E : Env) : Prop :=
  ∀ k want, (((E.real_read k want).data.length : Nat) : Int) ≤ max want 0

/-- A read of a positive number of bytes that reports would-block has appended
fewer bytes than were requested. -/
def ShortOnWait (E : Env) : Prop :=
  ∀ k want, 0 < want → (E.real_read k want).ret = Ret.RET_WAIT_FOR_EVENT →
    (((E.real_read k want).data.length : Nat) : Int) < want

/-- The socket reports no transport error: every read succeeds or would block. -/
def NoReadError (E : Env) : Prop :=
  ∀ k want, (E.real_read k want).ret = Ret.RET_SUCCESS
    ∨ (E.real_read k want).ret = Ret.RET_WAIT_FOR_EVENT

/-- The three length bytes of a packet header, little-endian. -/
def le24 (l0 l1 l2 : Nat) : Nat := l0 + 256 * l1 + 65536 * l2

/-- The order of packets the spec gives for a result set: the set header with the
length-coded column count, one column definition per field, EOF, one packet per
row, EOF; each entry pairs the sequence id with the bytes of the packet. With `n`
fields and `m` rows the header has id 1, the fields the ids from 2, the first EOF
`n + 2`, the rows the ids from `n + 3`, the last EOF `n + m + 3`. -/
def resultset_layout (E : Env) (cur_db : Str) (fields : List ResultField)
    (rows : List (List Str)) : List (Int × Bytes) :=
  let n := fields.length
  let cnt := E.length_coded_binary n
  [((1 : Int), [cnt.length % 256, (cnt.length / 256) % 256, (cnt.length / 65536) % 256, 1]
      ++ cnt)]
  ++ (fields.enumFrom 2).map (fun p => ((p.1 : Int),
      E.make_field_packet (fill_field cur_db p.2) (p.1 : Int)))
  ++ [(((n + 2 : Nat) : Int), E.make_eof_packet ((n + 2 : Nat) : Int))]
  ++ (rows.enumFrom (n + 3)).map (fun p => ((p.1 : Int),
      (E.make_row_packet p.2 (p.1 : Int)).2.1))
  ++ [(((n + rows.length + 3 : Nat) : Int),
      E.make_eof_packet ((n + rows.length + 3 : Nat) : Int))]

/-- The length a packet header declares, decoded as `_read_packet` does, from the
three bytes of a buffer that start at position `n0`. -/
def hdr_len (b : Bytes) (n0 : Nat) : Nat :=
  b.getD n0 0 ||| (b.getD (n0 + 1) 0 <<< 8) ||| (b.getD (n0 + 2) 0 <<< 16)

/-- Header phase of a packet that started when `self_buf` held `n0` bytes. -/
def InHeader (n0 : Nat) (s : Sock) : Prop :=
  0 ≤ s.header_read_len ∧ s.header_read_len < 4 ∧ s.packet_read_len = 0
    ∧ (s.self_buf.length : Int) = n0 + s.header_read_len

/-- Body phase of a packet that started when `self_buf` held `n0` bytes. -/
def InBody (E : Env) (n0 : Nat) (s : Sock) : Prop :=
  s.header_read_len = 4 ∧ (s.self_buf.length : Int) = n0 + 4 + s.packet_read_len
    ∧ 0 ≤ s.packet_read_len ∧ s.packet_read_len ≤ s.packet_len
    ∧ s.header_offset = n0 ∧ s.packet_len = hdr_len s.self_buf n0
    ∧ s.packet_id = s.self_buf.getD (n0 + 3) 0 ∧ s.packet_len ≤ E.PACKET_LEN_MAX

/-- A packet that started when `self_buf` held `n0` bytes has been read completely. -/
def Complete (E : Env) (n0 : Nat) (s : Sock) : Prop :=
  s.header_read_len = 0 ∧ s.packet_read_len = 0
    ∧ (s.self_buf.length : Int) = n0 + 4 + s.packet_len
    ∧ s.header_offset = n0 ∧ s.packet_len = hdr_len s.self_buf n0
    ∧ s.packet_id = s.self_buf.getD (n0 + 3) 0 ∧ s.packet_len ≤ E.PACKET_LEN_MAX

/-- The connection `_read_packet` hands to the body phase once the header is
complete: the header read `r` has been appended and the header decoded (lines
485-489). -/
def after_header (s : Sock) (want : Int) (r : ReadResult) : Sock :=
  let s2 : Sock := { s with
    self_buf := s.self_buf ++ r.data, clock := s.clock + 1,
    log := s.log ++ [Event.real_read want r.ret r.data.length],
    header_read_len := s.header_read_len + (r.data.length : Int) }
  let header_offset : Int := (s2.self_buf.length : Int) - 4
  let header := s2.self_buf.drop header_offset.toNat
  { s2 with
    header_offset := header_offset,
    packet_len := ((header.getD 0 0 ||| (header.getD 1 0 <<< 8) ||| (header.getD 2 0 <<< 16) : Nat) : Int),
    packet_id := header.getD 3 0 }

/-- The bounds on the cursors of a connection. -/
def CursorInv (E : Env) (s : Sock) : Prop :=
  0 ≤ s.header_read_len ∧ s.header_read_len ≤ 4 ∧ 0 ≤ s.packet_read_len
    ∧ s.packet_read_len ≤ s.packet_len ∧ s.packet_len ≤ E.PACKET_LEN_MAX
    ∧ (s.header_read_len ≠ 4 → s.packet_read_len = 0)

/-- The connection on which `_query_read` calls `_read_packet` when `run_machine`
handles `client` in `STATE_SEND_AUTH_RESULT`. -/
def query_read_entry (client : Sock) : Sock :=
  emit { emit client Event.query_read with
    query_ctx := new_query_context client.current_db } Event.new_query_ctx

/-! ## A sample environment, used to evaluate the model on concrete inputs -/

/-- Sample decoder of one byte at an offset. -/
def sample_get_char (packet : Bytes) (off : Nat) : Option (Nat × Nat) :=
  if off < packet.length then some (packet.getD off 0, off + 1) else none

/-- Sample decoder of a NUL-terminated string inside the first `len` bytes. -/
def sample_get_string (packet : Bytes) (len : Int) (off : Nat) : Option (Str × Nat) :=
  let rest := (packet.take len.toNat).drop off
  let name := rest.takeWhile (fun b => b != 0)
  if name.length < rest.length then some (name.map Char.ofNat, off + name.length + 1)
  else none

/-- Sample framing of a packet body with a sequence id. -/
def sample_frame (id : Int) (body : Bytes) : Bytes :=
  [body.length % 256, (body.length / 256) % 256, (body.length / 65536) % 256,
    (id % 256).toNat] ++ body

/-- Sample length-coded string. -/
def sample_lenc_str (t : Str) : Bytes := t.length % 251 :: t.map Char.toNat

/-- A sample environment: the socket answers read number `k` with the chunk number
`k` of `chunks` (would-block when the chunk is empty), writes always complete, and
`users` is the catalog of users. -/
def sample_env (chunks : List Bytes) (users : List UserInfo) : Env :=
  { PACKET_LEN_MAX := 16777215
    CONFIG_MPL_EPOLL_MAX_SIZE := 65536
    FLAGS_max_connections_per_user := 4000
    FLAGS_query_quota_per_user := 3000
    real_read := fun k want =>
      let d := (chunks.getD k []).take want.toNat
      { ret := if d = [] ∧ 0 < want then Ret.RET_WAIT_FOR_EVENT else Ret.RET_SUCCESS,
        data := d }
    real_write := fun _ => Ret.RET_SUCCESS
    handshake_send := fun _ => Ret.RET_SUCCESS
    auth_result_send := fun _ => Ret.RET_SUCCESS
    protocol_get_char := sample_get_char
    protocol_get_string := sample_get_string
    protocol_get_sql_string := fun packet _ off sql_len =>
      (Ret.RET_SUCCESS, ((packet.drop off).take sql_len.toNat).map Char.ofNat,
        off + sql_len.toNat)
    is_valid_command := fun _ => true
    is_shutdown_command := fun c => c == 1
    fill_auth_failed_packet := fun msg => sample_frame 2 (0xff :: msg.map Char.toNat)
    make_err_packet := fun _ msg => sample_frame 1 (0xff :: msg.map Char.toNat)
    make_simple_ok_packet := fun id => sample_frame ((id : Int) + 1) [0, 0, 0, 2, 0, 0, 0]
    make_string_packet := fun msg => (false, sample_frame 1 (msg.map Char.toNat))
    length_coded_binary := fun n =>
      if n < 251 then [n] else [0xfc, n % 256, (n / 256) % 256]
    make_field_packet := fun f id => sample_frame id (sample_lenc_str f.name)
    make_eof_packet := fun id => sample_frame id [0xfe, 0, 0, 2, 0]
    make_row_packet := fun row id =>
      (true, sample_frame id (row.map sample_lenc_str).flatten, id + 1)
    get_user_info := fun name => users.find? (fun u => u.username == name)
    is_exceed_quota := fun _ u => (false, u)
    get_db_list := fun _ => []
    get_table_list := fun _ _ => []
    parse_json := fun _ => none
    logical_analyze := fun s => (0, s)
    create_plan_tree := fun s => (0, s)
    physical_analyze := fun s => (0, s)
    execute := fun s => (0, s)
    on_commit_rollback := fun s => s
    catalog_responder := fun _ s => (true, set_state s State.STATE_READ_QUERY_RESULT)
    errno := fun _ => 104
    strerror := fun _ => "Connection reset by peer".toList }

/-- A sample connection as the acceptor hands it to the state machine. -/
def sample_sock : Sock :=
  { fd := 7, ip := "10.0.0.1".toList, thread_idx := 0,
    state := State.STATE_CONNECTED_CLIENT, in_pool := false, is_authed := false,
    is_counted := false, self_buf := [], send_buf := [], header_read_len := 0,
    header_offset := 0, packet_len := 0, packet_read_len := 0, packet_id := 0,
    username := [], current_db := [], user_info := none, charset_name := [],
    charset_num := 0, txn_id := 0, seq_id := 0, query_ctx := new_query_context [],
    clock := 0, log := [] }

/-- A 100-byte packet: the header declares 96 bytes, the body is the command byte
`COM_QUERY` and the text `select 1` padded with blanks. -/
def sample_body : Bytes := 3 :: ("select 1".toList.map Char.toNat ++ List.replicate 87 32)

/-- The socket delivers the 100 bytes as 3, 1 and 96 bytes; the read between the
second and the third chunk finds nothing. -/
def sample_chunks : List Bytes := [[96, 0, 0], [0], [], sample_body]

/-- The sample connection once logged in, waiting for a command. -/
def sample_client : Sock :=
  { sample_sock with state := State.STATE_SEND_AUTH_RESULT }

/-- A sample environment that accepts packets of at most 1000 bytes and whose
socket delivers a header declaring 65536 bytes. -/
def sample_small_env : Env :=
  { sample_env [[0, 0, 1, 0]] [] with PACKET_LEN_MAX := 1000 }

/-- The sample connection after the handshake was sent, waiting for the login. -/
def sample_login : Sock :=
  { sample_sock with state := State.STATE_SEND_HANDSHAKE }

/-- The login packet `_auth_read` parses once `_read_packet` has succeeded: the
bytes of `self_buf` from `header_offset` on. -/
def login_packet (E : Env) (s : Sock) : Bytes :=
  (_read_packet E s).2.self_buf.drop (_read_packet E s).2.header_offset.toNat

/-- The user record `_auth_read` works with after it substituted the two defaults
(lines 398-406). -/
def with_defaults (E : Env) (u : UserInfo) : UserInfo :=
  let u1 := if u.max_connection = 0 then
    { u with max_connection := E.FLAGS_max_connections_per_user } else u
  if u1.query_quota = 0 then { u1 with query_quota := E.FLAGS_query_quota_per_user } else u1

/-- The connection `_auth_read` has built when it reaches the password check:
charset set from the byte `c`, the user `u` looked up under `name`. -/
def at_password (E : Env) (s : Sock) (c : Nat) (name : Str) (u : UserInfo) : Sock :=
  let s1 := (_read_packet E s).2
  let s2 : Sock :=
    if c = 28 then { s1 with charset_name := "gbk".toList }
    else if c = 33 then { s1 with charset_name := "utf8".toList }
    else { s1 with charset_name := "gbk".toList, charset_num := 28 }
  { emit { s2 with user_info := E.get_user_info name } (Event.get_user_info name) with
    user_info := some (with_defaults E u) }

/-- A sample user `bob` whose stored scramble is the bytes 1 to 20, allowed one
connection, with `active` connections open. -/
def sample_user (active : Nat) : UserInfo :=
  { username := "bob".toList, scramble_password := (List.range 20).map (fun i => i + 1),
    namespace_ := "ns".toList, max_connection := 1, query_quota := 0,
    cur_connection := active }

/-- A sample login packet for user `name`: sequence id 1, eight bytes of
capabilities, charset 33, the reserved block, the user name, and the
auth-response `auth` (length byte first). -/
def sample_login_body (name : Str) (auth : Bytes) : Bytes :=
  [0x85, 0xa6, 0x03, 0x00, 0, 0, 0, 1, 33] ++ List.replicate 23 0
    ++ name.map Char.toNat ++ [0] ++ auth

/-- The chunks in which the socket delivers a sample login: header, then body. -/
def sample_login_chunks (name : Str) (auth : Bytes) : List Bytes :=
  [[(sample_login_body name auth).length % 256, (sample_login_body name auth).length / 256,
    0, 1], sample_login_body name auth]

/-- The auth-response carrying the scramble of `sample_user`. -/
def good_auth : Bytes := 20 :: (List.range 20).map (fun i => i + 1)

/-- An auth-response of the right length whose last byte is wrong. -/
def bad_auth : Bytes := 20 :: ((List.range 19).map (fun i => i + 1) ++ [99])

/-- What reading a packet and parsing a login leave untouched in a connection,
and the only events they log: socket reads and the user lookup. -/
def Frame (s a : Sock) : Prop :=
  a.state = s.state ∧ a.is_counted = s.is_counted ∧ a.is_authed = s.is_authed
    ∧ a.txn_id = s.txn_id ∧ a.in_pool = s.in_pool ∧ a.fd = s.fd ∧ a.send_buf = s.send_buf
    ∧ a.ip = s.ip
    ∧ ∃ evs, a.log = s.log ++ evs
      ∧ ∀ e, e ∈ evs → (∃ w r g, e = Event.real_read w r g) ∨ (∃ n, e = Event.get_user_info n)

/-- The events a call has appended to the log of the connection it started from. -/
def events_since (s c : Sock) : List Event := c.log.drop s.log.length

/-- The text formatted at lines 72-74, before `snprintf` cuts it to the size of
`msg`. -/
def max_connection_text (s : Sock) : Str :=
  "Username ".toList ++ s.username ++ " has reach the max connection limit(".toList
    ++ fmt_u (user_max_connection s) ++ ")".toList

/-- A user name of 230 characters. -/
def long_name : Str := List.replicate 230 'a'

/-- A catalog user with the long name, allowed one connection, which is open. -/
def long_user : UserInfo := { sample_user 1 with username := long_name }

/-- The sample environment in which the long-named user logs in with the right
scramble. -/
def long_env : Env := sample_env (sample_login_chunks long_name good_auth) [long_user]

/-- Lines 596-598 of `_query_read`: the connection after the SQL text was
classified and the JSON attributes of its comments were read. -/
def classified (E : Env) (c : Sock) : Sock :=
  { classify c with query_ctx := _get_json_attributes E (classify c).query_ctx }

/-- The sample connection holding a `COM_QUERY` with the given text, as received. -/
def sample_query (text : String) : Sock :=
  { sample_client with
    query_ctx := { new_query_context [] with mysql_cmd := COM_QUERY, sql := text.toList } }

/-! ## Texts with comment blocks -/

/-- A text holds no `*/`. -/
def no_close : Str → Bool
  | [] => true
  | c :: rest => !(c == '*' && rest.head? == some '/') && no_close rest

/-- The comment block with the given body: `/*`, the body, `*/`. -/
def comment_block (body : Str) : Str := '/' :: '*' :: (body ++ ['*', '/'])

/-- A statement text preceded by comment blocks: each entry of the list is the
body of a block and the white space that follows the block. -/
def with_leading_comments : List (Str × Str) → Str → Str
  | [], t => t
  | (body, blanks) :: bs, t => comment_block body ++ (blanks ++ with_leading_comments bs t)

/-- The same text with the comment blocks deleted. -/
def without_comments (blocks : List (Str × Str)) (t : Str) : Str :=
  (blocks.map Prod.snd).flatten ++ t

/-! ## Reception of a command packet -/

/-- The call `_query_read` on `s` reads a complete packet (the connection is then
`s1`), decodes the command byte `command` at offset 4 (the next offset is `off`),
and the command is valid and is not the shutdown command (lines 522-563). -/
def ReceivesCommand (E : Env) (s : Sock) (command off : Nat) (s1 : Sock) : Prop :=
  _read_packet E (emit { s with query_ctx := new_query_context s.current_db }
      Event.new_query_ctx) = (Ret.RET_SUCCESS, s1)
  ∧ E.protocol_get_char (s1.self_buf.drop s1.header_offset.toNat) PACKET_HEADER_LEN.toNat
      = some (command, off)
  ∧ E.is_valid_command command = true
  ∧ E.is_shutdown_command command = false

/-- As `ReceivesCommand`, and the packet carries a payload that decodes to the
statement text `sql` (lines 580-588). -/
def ReceivesText (E : Env) (s : Sock) (command : Nat) (sql : Str) (s1 : Sock) : Prop :=
  ∃ off, ReceivesCommand E s command off s1 ∧ 0 < s1.packet_len - 1
    ∧ (E.protocol_get_sql_string (s1.self_buf.drop s1.header_offset.toNat)
        ((s1.self_buf.length : Int) - s1.header_offset - 1) off (s1.packet_len - 1)).1
      = Ret.RET_SUCCESS
    ∧ (E.protocol_get_sql_string (s1.self_buf.drop s1.header_offset.toNat)
        ((s1.self_buf.length : Int) - s1.header_offset - 1) off (s1.packet_len - 1)).2.1
      = sql

/-- The connection of `_query_read` once the command byte and the statement text
are stored in the query context (line 595). -/
def with_command (s1 : Sock) (command : Nat) (sql : Str) : Sock :=
  { s1 with query_ctx := { s1.query_ctx with mysql_cmd := command, sql := sql } }

/-- Lines 596-615 of `_query_read`, on the connection that holds the command byte
and the statement text. -/
def query_read_tail (E : Env) (s3 : Sock) : Ret × Sock :=
  let type := (classify s3).query_ctx.type
  let s5 := classified E s3
  if type = SqlType.SQL_SET_CHARSET_NUM ∨ type = SqlType.SQL_SET_CHARACTER_SET_NUM then
    (Ret.RET_CMD_UNSUPPORT,
      make_err_packet E s5 ErrCode.ER_UNKNOWN_CHARACTER_SET "unsupport charset".toList)
  else if s5.query_ctx.type = SqlType.SQL_UNKNOWN_NUM then
    (Ret.RET_CMD_UNSUPPORT, make_simple_ok_packet E s5)
  else (Ret.RET_SUCCESS, s5)

/-- The text `_parse_comment` leaves of a statement text: surrounding white space,
trailing semicolons and leading comment blocks are removed. -/
def stripped_text (sql : Str) : Str :=
  (_parse_comment { new_query_context [] with sql := sql }).sql

/-- The session state of a connection and its liveness: what handling one command
may not change unless the command says so. -/
def SameSession (s a : Sock) : Prop :=
  a.charset_name = s.charset_name ∧ a.charset_num = s.charset_num
    ∧ a.current_db = s.current_db ∧ a.username = s.username ∧ a.user_info = s.user_info
    ∧ a.in_pool = s.in_pool ∧ a.fd = s.fd ∧ a.is_counted = s.is_counted
    ∧ a.is_authed = s.is_authed ∧ a.txn_id = s.txn_id

/-- The chunks in which the sample socket delivers a command packet: the header,
then the command byte followed by the text. -/
def sample_command (command : Nat) (text : String) : List Bytes :=
  [[(text.length + 1) % 256, (text.length + 1) / 256, 0, 0],
    command :: text.toList.map Char.toNat]

/-- The token `_get_query_type` looks at in a SET statement (line 2041): the text
without its leading characters among blank, `S`, `E`, `T`, `s`, `e`, `t`. -/
def set_token (sql : Str) : Str :=
  trim_left_if (fun c => " SETset".toList.contains c) sql

/-! ## The planner path of `_query_process` -/

/-- The conditions under which `_query_process` reaches its last alternative for a
`COM_QUERY` (line 706): the text is not empty, the class is none of the six
sub-classified SET classes, the text is none of the built-in statements, and the
statement is neither a SHOW, a DESC nor a USE. -/
def reaches_planner (c : Sock) : Prop :=
  c.query_ctx.mysql_cmd = COM_QUERY ∧ c.query_ctx.sql ≠ []
  ∧ c.query_ctx.type ≠ SqlType.SQL_SET_CHARSET_NUM
  ∧ c.query_ctx.type ≠ SqlType.SQL_SET_CHARACTER_SET_NUM
  ∧ c.query_ctx.type ≠ SqlType.SQL_SET_NAMES_NUM
  ∧ c.query_ctx.type ≠ SqlType.SQL_SET_CHARACTER_SET_CLIENT_NUM
  ∧ c.query_ctx.type ≠ SqlType.SQL_SET_CHARACTER_SET_CONNECTION_NUM
  ∧ c.query_ctx.type ≠ SqlType.SQL_SET_CHARACTER_SET_RESULTS_NUM
  ∧ iequals c.query_ctx.sql SQL_VERSION_COMMENT = false
  ∧ iequals c.query_ctx.sql SQL_SESSION_AUTO_INCREMENT = false
  ∧ iequals c.query_ctx.sql SQL_SESSION_AUTO_AUTOCOMMIT = false
  ∧ iequals c.query_ctx.sql SQL_SESSION_TX_ISOLATION = false
  ∧ iequals c.query_ctx.sql SQL_SELECT_1 = false
  ∧ iequals c.query_ctx.sql SQL_SELECT_DATABASE = false
  ∧ iequals c.query_ctx.sql SQL_SHOW_DATABASES = false
  ∧ iequals c.query_ctx.sql SQL_SHOW_TABLES = false
  ∧ istarts_with c.query_ctx.sql SQL_SHOW_CREATE_TABLE = false
  ∧ istarts_with c.query_ctx.sql SQL_SHOW_FULL_COLUMNS = false
  ∧ istarts_with c.query_ctx.sql SQL_SHOW_TABLE_STATUS = false
  ∧ iequals c.query_ctx.sql SQL_SHOW_COLLATION = false
  ∧ iequals c.query_ctx.sql SQL_SHOW_WARNINGS = false
  ∧ starts_with c.query_ctx.sql SQL_SHOW_REGION = false
  ∧ c.query_ctx.type ≠ SqlType.SQL_SHOW_NUM
  ∧ ¬ (c.query_ctx.type = SqlType.SQL_USE_IN_QUERY_NUM
      ∧ istarts_with c.query_ctx.sql SQL_USE = true)
  ∧ c.query_ctx.type ≠ SqlType.SQL_DESC_NUM

/-- The sample user of a connection that has logged in. -/
def sample_logged_in : Sock :=
  { sample_client with user_info := some (sample_user 1), username := "bob".toList,
                       is_authed := true, is_counted := true }

/-- The sample environment in which the quota of every user is exceeded. -/
def quota_env (chunks : List Bytes) : Env :=
  { sample_env chunks [] with is_exceed_quota := fun _ u => (true, u) }

/-- The sample connection, logged in, holding a classified `COM_QUERY` with the
given text. -/
def sample_statement (text : String) : Sock :=
  classified (sample_env [] [])
    { sample_logged_in with
      query_ctx := { new_query_context [] with mysql_cmd := COM_QUERY, sql := text.toList } }

/-- The sample environment in which `create_plan_tree` fails after leaving the
error 1064 with a message in `stat_info`. -/
def failing_plan_env (chunks : List Bytes) : Env :=
  { sample_env chunks [] with
    create_plan_tree := fun s => (-1, { s with query_ctx := { s.query_ctx with
      stat_info := { s.query_ctx.stat_info with
        error_code := ErrCode.ER_OTHER 1064, error_msg := "syntax error".toList } } }) }

/-! ## The parts of `client_free` -/

/-- Lines 1964-1968 of `client_free`: with an open transaction a new query context
holding the text `rollback` is run through the common query path. -/
def rollback_on_free (E : Env) (sock : Sock) : Sock :=
  if sock.txn_id ≠ 0 then
    (_handle_client_query_common_query E
      (emit { sock with query_ctx :=
        { new_query_context sock.current_db with sql := "rollback".toList } }
        Event.new_query_ctx)).2
  else sock

/-- Lines 1969-1977 of `client_free`: the decrement of the user's connection count,
the new query context, the removal from epoll and the hand-over to the pool. -/
def client_free_tail (E : Env) (s1 : Sock) : Sock :=
  let s2 := if s1.is_counted then connection_dec s1 else s1
  let s3 := emit { s2 with query_ctx := new_query_context [] } Event.new_query_ctx
  let s4 := if s3.fd > 0 ∧ s3.fd < E.CONFIG_MPL_EPOLL_MAX_SIZE then
    emit s3 Event.delete_fd_mapping else s3
  socket_pool_free (emit s4 Event.poll_events_delete)

/-- The events `client_free_tail` logs for a connection. -/
def free_events (E : Env) (s1 : Sock) : List Event :=
  (if s1.is_counted then [Event.connection_dec] else [])
    ++ [Event.new_query_ctx]
    ++ (if s1.fd > 0 ∧ s1.fd < E.CONFIG_MPL_EPOLL_MAX_SIZE then [Event.delete_fd_mapping]
        else [])
    ++ [Event.poll_events_delete, Event.socket_pool_free]

/-- The sample connection with an open transaction. -/
def sample_in_txn : Sock := { sample_logged_in with txn_id := 7 }

/-! ## The parts of `_auth_read` after the charset byte -/

/-- Lines 366-376 of `_auth_read`: the charset fields set from the charset byte. -/
def with_charset (s1 : Sock) (charset_num : Nat) : Sock :=
  if charset_num = 28 then { s1 with charset_name := "gbk".toList }
  else if charset_num = 33 then { s1 with charset_name := "utf8".toList }
  else { s1 with charset_name := "gbk".toList, charset_num := 28 }

/-- Lines 377-435 of `_auth_read`: the user name, the lookup of the user and the
password check; `off` is the offset after the charset byte. -/
def auth_read_user (E : Env) (s2 : Sock) (packet : Bytes) (off : Nat) : Ret × Sock :=
  match E.protocol_get_string packet (s2.packet_len + 4) ((off + 23) % U32) with
  | none => (Ret.RET_AUTH_FAILED, s2)
  | some (username, off) =>
    let s3 := emit { s2 with user_info := E.get_user_info username }
      (Event.get_user_info username)
    match s3.user_info with
    | none => (Ret.RET_AUTH_FAILED, { s3 with user_info := some new_user_info })
    | some u =>
      if u.username = [] then (Ret.RET_AUTH_FAILED, s3)
      else
        let u1 := if u.max_connection = 0 then
          { u with max_connection := E.FLAGS_max_connections_per_user } else u
        let u2 := if u1.query_quota = 0 then
          { u1 with query_quota := E.FLAGS_query_quota_per_user } else u1
        _auth_read_password E { s3 with user_info := some u2 } u2 packet off

/-- The chunks of a sample login of `bob` whose charset byte is `c`. -/
def sample_login_charset (c : Nat) : List Bytes :=
  [[((sample_login_body "bob".toList good_auth).set 8 c).length % 256, 0, 0, 1],
    (sample_login_body "bob".toList good_auth).set 8 c]

/-! ## The login sequence -/

/-- Lines 39-43 of `run_machine`: the connection after a handshake write that
completed. -/
def handshake_sent (client : Sock) : Sock :=
  poll_events_mod (set_state (emit { client with clock := client.clock + 1 }
    (Event.handshake_send Ret.RET_SUCCESS)) State.STATE_SEND_HANDSHAKE) EpollEv.EPOLLIN

/-- The number of `connection_inc` calls among the events. -/
def connection_inc_calls (evs : List Event) : Nat :=
  (evs.filter (fun e => match e with
    | Event.connection_inc _ => true
    | _ => false)).length

/-! ## The catalog responders (lines 983-1251, 1426-1471 and 1734-1847) -/

/-- Modelled from the spec: the enumeration `pb::PrimitiveType` is declared outside
the sources; these are the values `type_map` names, and `OTHER` stands for every
other value. -/
inductive PrimitiveType
  | BOOL | INT8 | UINT8 | INT16 | UINT16 | INT32 | UINT32 | INT64 | UINT64
  | FLOAT | DOUBLE | STRING | DATETIME | TIMESTAMP | DATE | OTHER
  deriving DecidableEq, Repr

/-- Modelled from the spec: the enumeration `pb::IndexType` is declared outside the
sources; these are the values `index_map` names, and `OTHER` stands for every other
value. -/
inductive IndexType
  | I_PRIMARY | I_UNIQ | I_KEY | I_FULLTEXT | OTHER
  deriving DecidableEq, Repr

/-- Modelled from the spec: the enumeration `pb::Charset` is declared outside the
sources; the spec knows the two values `charset_map` names. -/
inductive Charset
  | UTF8 | GBK
  deriving DecidableEq, Repr

/-- The members of `FieldInfo` the responders read. -/
structure FieldInfo where
  id : Int
  name : Str
  type : PrimitiveType
  can_null : Bool
  default_value : Str
  auto_inc : Bool
  deleted : Bool
  deriving DecidableEq, Repr

/-- The members of `IndexInfo` the responders read. -/
structure IndexInfo where
  type : IndexType
  name : Str
  fields : List FieldInfo
  deriving DecidableEq, Repr

/-- The members of `TableInfo` the responders read. -/
structure TableInfo where
  fields : List FieldInfo
  indices : List Int
  charset : Charset
  byte_size_per_record : Int
  resource_tag : Str
  namespace_ : Str
  auto_inc_field_id : Int
  version : Int
  deriving DecidableEq, Repr

/-- What the catalog responders call but the sources do not define: the lookups
of `SchemaFactory` (a lookup that returns non-zero is `none`), the helper
`remove_quote(x.c_str(), quote)` applied to a token (for the backtick, and
`remove_single_quote` for the apostrophe), `std::stoll` (`none` when it throws:
the text does not begin with a number, or the number does not fit), the text
`ShortDebugString()` of a found region, and the generated name functions. -/
structure SchemaFactory where
  get_table_id : Str → Option Int
  get_table_info : Int → TableInfo
  get_index_info : Int → IndexInfo
  get_region_info : Int → Option Str
  remove_quote : Str → Str
  remove_single_quote : Str → Str
  stoll : Str → Option Int
  PrimitiveType_Name : PrimitiveType → Str
  IndexType_Name : IndexType → Str

/-- The static map `type_map` (lines 989-1005), read with `operator[]`: a value
that is not a key gives the empty string. -/
def type_map : PrimitiveType → Str
  | PrimitiveType.BOOL => "boolean".toList
  | PrimitiveType.INT8 => "tinyint(4)".toList
  | PrimitiveType.UINT8 => "tinyint(4) unsigned".toList
  | PrimitiveType.INT16 => "smallint(6)".toList
  | PrimitiveType.UINT16 => "smallint(6) unsigned".toList
  | PrimitiveType.INT32 => "int(10)".toList
  | PrimitiveType.UINT32 => "int(10) unsigned".toList
  | PrimitiveType.INT64 => "bigint(20)".toList
  | PrimitiveType.UINT64 => "bigint(20) unsigned".toList
  | PrimitiveType.FLOAT => "float".toList
  | PrimitiveType.DOUBLE => "double".toList
  | PrimitiveType.STRING => "varchar(1024)".toList
  | PrimitiveType.DATETIME => "DATETIME".toList
  | PrimitiveType.TIMESTAMP => "TIMESTAMP".toList
  | PrimitiveType.DATE => "DATE".toList
  | PrimitiveType.OTHER => []

/-- The static map `index_map` (lines 1006-1011), read with `operator[]`. -/
def index_map : IndexType → Str
  | IndexType.I_PRIMARY => "PRIMARY KEY".toList
  | IndexType.I_UNIQ => "UNIQUE KEY".toList
  | IndexType.I_KEY => "KEY".toList
  | IndexType.I_FULLTEXT => "FULLTEXT KEY".toList
  | IndexType.OTHER => []

/-- The static map `charset_map` (lines 1012-1015). -/
def charset_map : Charset → Str
  | Charset.UTF8 => "utf8".toList
  | Charset.GBK => "gbk".toList

/-- The predicate `boost::is_any_of(set)`. -/
def is_any_of (set : String) (c : Char) : Bool := set.toList.contains c

/-- Modelled from the spec: `boost::split` with `token_compress_on` is declared
outside the sources; the text is cut at every run of separators, a run counting
as one separator, so a text that starts or ends with a separator has an empty
first or last token. The flag tells that the previous character was a separator. -/
def split_run (p : Char → Bool) : Bool → Str → List Str
  | _, [] => [[]]
  | in_run, c :: rest =>
    if p c then
      if in_run then split_run p true rest else [] :: split_run p true rest
    else
      match split_run p false rest with
      | [] => [[c]]
      | t :: ts => (c :: t) :: ts

/-- The call `boost::split(split_vec, text, p, boost::token_compress_on)`. -/
def split (p : Char → Bool) (text : Str) : List Str := split_run p false text

/-- The expression `split_vec[split_vec.size() - 1]` after `field.name` was split
at the dots (lines 1063-1066). -/
def last_token (p : Char → Bool) (name : Str) : Str := (split p name).getLastD []

/-- Loop body of lines 1059-1071: the line of one field that is not deleted. -/
def ddl_field (field : FieldInfo) : Str :=
  "  ".toList ++ "`".toList ++ last_token (is_any_of ".") field.name ++ "` ".toList
    ++ type_map field.type ++ " ".toList
    ++ (if field.can_null then "NULL ".toList else "NOT NULL ".toList)
    ++ field.default_value ++ " ".toList
    ++ (if field.auto_inc then "AUTO_INCREMENT".toList else []) ++ ",\n".toList

/-- The loop of lines 1059-1071 over `info.fields`; a deleted field is skipped. -/
def ddl_fields : List FieldInfo → Str
  | [] => []
  | field :: rest => (if field.deleted then [] else ddl_field field) ++ ddl_fields rest

/-- The loop of lines 1083-1092 over `index_info.fields`; `size` is
`index_info.fields.size()` and `field_idx` the `uint32_t` counter. -/
def ddl_index_fields (size : Nat) : List FieldInfo → Nat → Str
  | [], _ => []
  | field :: rest, field_idx =>
    (if (field_idx + 1) % U32 < size then
      "`".toList ++ last_token (is_any_of ".") field.name ++ "`,".toList
     else "`".toList ++ last_token (is_any_of ".") field.name ++ "`".toList)
    ++ ddl_index_fields size rest ((field_idx + 1) % U32)

/-- Lines 1074-1092: the text of one index up to the last of its fields. -/
def ddl_index (C : SchemaFactory) (index_id : Int) : Str :=
  let index_info := C.get_index_info index_id
  "  ".toList ++ index_map index_info.type ++ " ".toList
    ++ (if index_info.type ≠ IndexType.I_PRIMARY then
        "`".toList ++ last_token (is_any_of ".") index_info.name ++ "` ".toList
       else [])
    ++ "(".toList ++ ddl_index_fields index_info.fields.length index_info.fields 0

/-- The loop of lines 1073-1098 over `info.indices`; `size` is
`info.indices.size()` and `index_idx` the `uint32_t` counter. -/
def ddl_indices (C : SchemaFactory) (size : Nat) : List Int → Nat → Str
  | [], _ => []
  | index_id :: rest, index_idx =>
    ddl_index C index_id
      ++ (if (index_idx + 1) % U32 < size then "),\n".toList else ")\n".toList)
      ++ ddl_indices C size rest ((index_idx + 1) % U32)

/-- Lines 1099-1102: what is written to `oss` after the two loops. -/
def ddl_tail (info : TableInfo) : Str :=
  ") ENGINE=Rocksdb ".toList ++ "DEFAULT CHARSET=".toList ++ charset_map info.charset
    ++ " AVG_ROW_LENGTH=".toList ++ fmt_d info.byte_size_per_record
    ++ " COMMENT='\x7b\"resource_tag\":\"".toList ++ info.resource_tag
    ++ "\", \"namespace\":\"".toList ++ info.namespace_ ++ "\"\x7d'".toList

/-- Lines 1058-1102: the text collected in `oss`. -/
def show_create_table_text (C : SchemaFactory) (table : Str) (info : TableInfo) : Str :=
  "CREATE TABLE `".toList ++ table ++ "` (\n".toList
    ++ ddl_fields info.fields
    ++ ddl_indices C info.indices.length info.indices 0
    ++ ddl_tail info

/-- Lines 1031-1044: the database and the table named by `SHOW CREATE TABLE`, or
`none` when the statement has neither four nor five tokens. -/
def show_create_table_target (C : SchemaFactory) (client : Sock) : Option (Str × Str) :=
  let split_vec := split (is_any_of " \t\n\r.") client.query_ctx.sql
  if split_vec.length = 4 then
    some (client.current_db, C.remove_quote (split_vec.getD 3 []))
  else if split_vec.length = 5 then
    some (C.remove_quote (split_vec.getD 3 []), C.remove_quote (split_vec.getD 4 []))
  else none

/-- The text `client->user_info->namespace_ + "." + db + "." + table`. -/
def full_name (client : Sock) (db table : Str) : Str :=
  user_namespace client ++ ".".toList ++ db ++ ".".toList ++ table

/-- The function `StateMachine::_handle_client_query_show_create_table` (lines
983-1115). -/
def _handle_client_query_show_create_table (E : Env) (C : SchemaFactory) (client : Sock) :
    Bool × Sock :=
  let fields := [mk_field "Table".toList MysqlType.MYSQL_TYPE_VAR_STRING,
    mk_field "Create Table".toList MysqlType.MYSQL_TYPE_VAR_STRING]
  match show_create_table_target C client with
  | none => (false, set_state client State.STATE_ERROR)
  | some (db, table) =>
    match C.get_table_id (full_name client db table) with
    | none => (false, set_state client State.STATE_ERROR)
    | some table_id =>
      let info := C.get_table_info table_id
      finish_resultset E client fields [[table, show_create_table_text C table info]]
        client.query_ctx.sql

/-- Loop body of lines 1203-1207 and 1796-1800: the index type of a field is that
of the first index that holds it. -/
def add_index_fields (type : IndexType) :
    List FieldInfo → List (Int × IndexType) → List (Int × IndexType)
  | [], field_index => field_index
  | field :: rest, field_index =>
    add_index_fields type rest
      (if (field_index.lookup field.id).isNone then field_index ++ [(field.id, type)]
       else field_index)

/-- The loop of lines 1201-1208 and 1794-1801 that fills the map `field_index`. -/
def fill_field_index (C : SchemaFactory) :
    List Int → List (Int × IndexType) → List (Int × IndexType)
  | [], field_index => field_index
  | index_id :: rest, field_index =>
    fill_field_index C rest
      (add_index_fields (C.get_index_info index_id).type (C.get_index_info index_id).fields
        field_index)

/-- Lines 1216-1237: the row of one field in the answer to `SHOW FULL COLUMNS`. -/
def full_columns_row (C : SchemaFactory) (info : TableInfo)
    (field_index : List (Int × IndexType)) (field : FieldInfo) : List Str :=
  [last_token (is_any_of " \t\n\r.") field.name, "NULL".toList,
    C.PrimitiveType_Name field.type,
    if field.can_null then "YES".toList else "NO".toList,
    match field_index.lookup field.id with
    | none => " ".toList
    | some type => C.IndexType_Name type,
    "NULL".toList,
    if info.auto_inc_field_id = field.id then "auto_increment".toList else " ".toList,
    "select,insert,update,references".toList, " ".toList]

/-- Lines 1179-1192: the database and the table named by `SHOW FULL COLUMNS`, or
`none` when the statement has neither five nor seven tokens. -/
def show_full_columns_target (C : SchemaFactory) (client : Sock) : Option (Str × Str) :=
  let split_vec := split (is_any_of " \t\n\r") client.query_ctx.sql
  if split_vec.length = 5 then
    some (client.current_db, C.remove_quote (split_vec.getD 4 []))
  else if split_vec.length = 7 then
    some (C.remove_quote (split_vec.getD 6 []), C.remove_quote (split_vec.getD 4 []))
  else none

/-- The function `StateMachine::_handle_client_query_show_full_columns` (lines
1117-1251). -/
def _handle_client_query_show_full_columns (E : Env) (C : SchemaFactory) (client : Sock) :
    Bool × Sock :=
  let fields := ["Field", "Type", "Collation", "Null", "Key", "default", "Extra",
    "Privileges", "Comment"].map (fun n => mk_field n.toList MysqlType.MYSQL_TYPE_VAR_STRING)
  match show_full_columns_target C client with
  | none => (false, set_state client State.STATE_ERROR)
  | some (db, table) =>
    match C.get_table_id (full_name client db table) with
    | none => (false, set_state client State.STATE_ERROR)
    | some table_id =>
      let info := C.get_table_info table_id
      let field_index := fill_field_index C info.indices []
      finish_resultset E client fields
        ((info.fields.filter (fun field => !field.deleted)).map
          (full_columns_row C info field_index))
        "Failed to make result packet.".toList

/-- Lines 1809-1828: the row of one field in the answer to `DESC`. -/
def desc_row (C : SchemaFactory) (info : TableInfo)
    (field_index : List (Int × IndexType)) (field : FieldInfo) : List Str :=
  [last_token (is_any_of " \t\n\r.") field.name,
    C.PrimitiveType_Name field.type,
    if field.can_null then "YES".toList else "NO".toList,
    match field_index.lookup field.id with
    | none => " ".toList
    | some type => C.IndexType_Name type,
    "NULL".toList,
    if info.auto_inc_field_id = field.id then "auto_increment".toList else " ".toList]

/-- Lines 1774-1787: the database and the table named by `DESC`, or `none` when
the statement has neither two nor three tokens. -/
def desc_table_target (C : SchemaFactory) (client : Sock) : Option (Str × Str) :=
  let split_vec := split (is_any_of " \t\n\r.") client.query_ctx.sql
  if split_vec.length = 2 then
    some (client.current_db, C.remove_quote (split_vec.getD 1 []))
  else if split_vec.length = 3 then
    some (C.remove_quote (split_vec.getD 1 []), C.remove_quote (split_vec.getD 2 []))
  else none

/-- The function `StateMachine::_handle_client_query_desc_table` (lines 1734-1847). -/
def _handle_client_query_desc_table (E : Env) (C : SchemaFactory) (client : Sock) :
    Bool × Sock :=
  let fields := ["Field", "Type", "Null", "Key", "default", "Extra"].map
    (fun n => mk_field n.toList MysqlType.MYSQL_TYPE_VAR_STRING)
  match desc_table_target C client with
  | none => (false, set_state client State.STATE_ERROR)
  | some (db, table) =>
    match C.get_table_id (full_name client db table) with
    | none => (false, set_state client State.STATE_ERROR)
    | some table_id =>
      let info := C.get_table_info table_id
      let field_index := fill_field_index C info.indices []
      finish_resultset E client fields
        ((info.fields.filter (fun field => !field.deleted)).map (desc_row C info field_index))
        "Failed to make result packet.".toList

/-- Lines 1427-1428: the region id `std::stoll` reads from the text after the
first underscore of the statement (`find` gives -1 when there is none, so the
whole text is read); `none` when `std::stoll` throws. -/
def show_region_id (C : SchemaFactory) (sql : Str) : Option Int :=
  C.stoll (if sql.contains '_' then (sql.dropWhile (fun c => c != '_')).drop 1 else sql)

/-- Lines 1430-1470 of `_handle_client_query_show_region`: the answer for the
region id that was read. -/
def show_region_answer (E : Env) (C : SchemaFactory) (client : Sock) (region_id : Int) :
    Bool × Sock :=
  let fields := [mk_field "region_id".toList MysqlType.MYSQL_TYPE_VAR_STRING,
    mk_field "region_info".toList MysqlType.MYSQL_TYPE_VAR_STRING]
  let rows : List (List Str) :=
    match C.get_region_info region_id with
    | some region_info => [[fmt_d region_id, region_info]]
    | none => []
  finish_resultset E client fields rows "Failed to make result packet.".toList

/-- The function `StateMachine::_handle_client_query_show_region` (lines
1426-1471). The result is `none` when `std::stoll` throws at line 1428: nothing
catches the exception, so the call does not return and the process ends. -/
def _handle_client_query_show_region (E : Env) (C : SchemaFactory) (client : Sock) :
    Option (Bool × Sock) :=
  match show_region_id C client.query_ctx.sql with
  | none => none
  | some region_id => some (show_region_answer E C client region_id)

/-- The tail of the DDL text as the specification words it. -/
def spec_ddl_tail (info : TableInfo) : Str :=
  "ENGINE=Rocksdb DEFAULT CHARSET=".toList ++ charset_map info.charset
    ++ " AVG_ROW_LENGTH=".toList ++ fmt_d info.byte_size_per_record
    ++ " COMMENT='\x7b\"resource_tag\":\"".toList ++ info.resource_tag
    ++ "\",\"namespace\":\"".toList ++ info.namespace_ ++ "\"\x7d'".toList

/-- A sample field. -/
def sample_field (id : Int) (name : String) (type : PrimitiveType) (deleted : Bool) :
    FieldInfo :=
  { id := id, name := name.toList, type := type, can_null := false, default_value := [],
    auto_inc := false, deleted := deleted }

/-- A sample table of three fields, the second deleted, with two indices. -/
def sample_table : TableInfo :=
  { fields := [sample_field 1 "db.t.id" PrimitiveType.INT64 false,
      sample_field 2 "db.t.old" PrimitiveType.STRING true,
      sample_field 3 "db.t.name" PrimitiveType.STRING false],
    indices := [10, 11], charset := Charset.GBK, byte_size_per_record := 50,
    resource_tag := "e0".toList, namespace_ := "ns".toList, auto_inc_field_id := 0,
    version := 3 }

/-- A sample catalog: the table `ns.db.t` has id 1, the indices 10 (primary, on
`id`) and 11 (key `name_key`, on `name`), and no region is known. -/
def sample_catalog : SchemaFactory :=
  { get_table_id := fun name => if name = "ns.db.t".toList then some 1 else none
    get_table_info := fun _ => sample_table
    get_index_info := fun index_id =>
      if index_id = 10 then
        { type := IndexType.I_PRIMARY, name := "db.t.primary".toList,
          fields := [sample_field 1 "db.t.id" PrimitiveType.INT64 false] }
      else
        { type := IndexType.I_KEY, name := "db.t.name_key".toList,
          fields := [sample_field 3 "db.t.name" PrimitiveType.STRING false] }
    get_region_info := fun _ => none
    remove_quote := fun t => t.filter (fun c => c != (Char.ofNat 96))
    remove_single_quote := fun t => t.filter (fun c => c != (Char.ofNat 39))
    stoll := fun t =>
      if (t.takeWhile Char.isDigit) = [] then none
      else some ((t.takeWhile Char.isDigit).foldl (fun n c => 10 * n + (c.toNat - 48)) 0 : Nat)
    PrimitiveType_Name := type_map
    IndexType_Name := index_map }

/-- The sample connection of user `bob` in database `db`, holding the statement
`text` as `_query_process` hands it to a responder. -/
def sample_responder_input (text : String) : Sock :=
  { sample_client with
    current_db := "db".toList, user_info := some (sample_user 1),
    query_ctx := { new_query_context "db".toList with mysql_cmd := COM_QUERY, sql := text.toList } }

/-! ## The login status along the runs of the machine -/

/-- What a call keeps of the login status of a connection: it does not lose the
user record, it leaves `is_authed` as it was, and it does not enter
`STATE_READ_AUTH`. -/
def KeepsLogin (s a : Sock) : Prop :=
  (a.user_info = none → s.user_info = none) ∧ a.is_authed = s.is_authed
    ∧ (a.state = State.STATE_READ_AUTH → s.state = State.STATE_READ_AUTH)

/-- The assumption made on the planner stages and the commit hook, which get the
connection and are defined outside the sources: they keep the login status. -/
def PlannerKeepsLogin (E : Env) : Prop :=
  (∀ s, KeepsLogin s (E.logical_analyze s).2)
  ∧ (∀ s, KeepsLogin s (E.create_plan_tree s).2)
  ∧ (∀ s, KeepsLogin s (E.physical_analyze s).2)
  ∧ (∀ s, KeepsLogin s (E.execute s).2)
  ∧ (∀ s, KeepsLogin s (E.on_commit_rollback s))

/-- An environment in which everything that gets the connection keeps the login
status: the planner stages, the commit hook, and the responders that
`_query_process` selects by name. -/
def EnvKeepsLogin (E : Env) : Prop :=
  (∀ s, KeepsLogin s (E.logical_analyze s).2)
  ∧ (∀ s, KeepsLogin s (E.create_plan_tree s).2)
  ∧ (∀ s, KeepsLogin s (E.physical_analyze s).2)
  ∧ (∀ s, KeepsLogin s (E.execute s).2)
  ∧ (∀ s, KeepsLogin s (E.on_commit_rollback s))
  ∧ (∀ name s, KeepsLogin s (E.catalog_responder name s).2)

/-- A fresh connection, as the acceptor hands it to the state machine. -/
def Fresh (c : Sock) : Prop :=
  c.state = State.STATE_CONNECTED_CLIENT ∧ c.is_authed = false ∧ c.is_counted = false
    ∧ c.user_info = none

/-- The connections reachable from a fresh one by calls of `run_machine` that
return, whatever `shutdown` is at each call. -/
inductive Reachable (E : Env) : Sock → Prop
  | fresh (c : Sock) : Fresh c → Reachable E c
  | step (c c2 : Sock) (fuel : Nat) (shutdown : Bool) :
      Reachable E c → run_machine E fuel c shutdown = some c2 → Reachable E c2

/-- The invariant carried along the runs: a connection without user record is
not authed and is not in `STATE_READ_AUTH`. -/
def LoginInv (c : Sock) : Prop :=
  c.user_info = none → c.is_authed = false ∧ c.state ≠ State.STATE_READ_AUTH

/-- The sample connection after the two calls of `run_machine` that log `bob` in. -/
def sample_after_login : Sock :=
  (run_machine (sample_env ([] :: sample_login_chunks "bob".toList good_auth) [sample_user 0])
    1 (handshake_sent sample_sock) false).getD sample_sock

/-! ## The defaults of the two flags -/

/-- The default that `DEFINE_int32(max_connections_per_user, 4000, ...)` gives to
`FLAGS_max_connections_per_user` (line 23). -/
def DEFINE_max_connections_per_user : Nat := 4000

/-- The default that `DEFINE_int32(query_quota_per_user, 3000, ...)` gives to
`FLAGS_query_quota_per_user` (line 24). -/
def DEFINE_query_quota_per_user : Nat := 3000

/-! ## Nested calls -/

/-- An invocation of `run_machine`, as a function of what a nested call would
return: it makes no nested call at all, or it makes one nested call, on a
connection whose state is `STATE_ERROR`, `STATE_ERROR_REUSE` or
`STATE_READ_QUERY_RESULT`, and returns what that call returns up to a last
assignment `g`. -/
def OneNestedCall (F : (Sock → Option Sock) → Option Sock) : Prop :=
  (∃ a, ∀ self, F self = some a)
  ∨ (∃ x g, (x.state = State.STATE_ERROR ∨ x.state = State.STATE_ERROR_REUSE
      ∨ x.state = State.STATE_READ_QUERY_RESULT)
    ∧ ∀ self, F self = (self x).map g)

/-! ## The remaining responders (lines 1253-1424 and 1473-1732) -/

/-- The columns of `SHOW TABLE STATUS` (lines 1261-1369). -/
def table_status_fields : List ResultField :=
  [mk_field "Name".toList MysqlType.MYSQL_TYPE_VAR_STRING,
    mk_field "Engine".toList MysqlType.MYSQL_TYPE_VAR_STRING,
    mk_field "Version".toList MysqlType.MYSQL_TYPE_LONG,
    mk_field "Row_format".toList MysqlType.MYSQL_TYPE_VAR_STRING,
    mk_field "Rows".toList MysqlType.MYSQL_TYPE_LONG,
    mk_field "Avg_row_length".toList MysqlType.MYSQL_TYPE_LONG,
    mk_field "Data_length".toList MysqlType.MYSQL_TYPE_LONG,
    mk_field "Max_data_length".toList MysqlType.MYSQL_TYPE_LONG,
    mk_field "Index_length".toList MysqlType.MYSQL_TYPE_LONG,
    mk_field "Data_free".toList MysqlType.MYSQL_TYPE_LONG,
    mk_field "Auto_increment".toList MysqlType.MYSQL_TYPE_LONG,
    mk_field "Create_time".toList MysqlType.MYSQL_TYPE_VAR_STRING,
    mk_field "Update_time".toList MysqlType.MYSQL_TYPE_VAR_STRING,
    mk_field "Check_time".toList MysqlType.MYSQL_TYPE_VAR_STRING,
    mk_field "Collation".toList MysqlType.MYSQL_TYPE_VAR_STRING,
    mk_field "Checksum".toList MysqlType.MYSQL_TYPE_VAR_STRING,
    mk_field "Create_options".toList MysqlType.MYSQL_TYPE_VAR_STRING,
    mk_field "Comment".toList MysqlType.MYSQL_TYPE_VAR_STRING]

/-- The row of `SHOW TABLE STATUS` (lines 1393-1413). -/
def table_status_row (table : Str) (info : TableInfo) : List Str :=
  [table, "Innodb".toList, fmt_d info.version, "Compact".toList, "0".toList, "0".toList,
    "0".toList, "0".toList, "0".toList, "0".toList, "0".toList,
    "2018-08-09 15:01:40".toList, [], [], "utf8_general_ci".toList, [], [], []]

/-- The function `StateMachine::_handle_client_query_show_table_status` (lines
1253-1424). -/
def _handle_client_query_show_table_status (E : Env) (C : SchemaFactory) (client : Sock) :
    Bool × Sock :=
  let split_vec := split (is_any_of " \t\n\r") client.query_ctx.sql
  if split_vec.length = 5 then
    let db := client.current_db
    let table := C.remove_single_quote (split_vec.getD 4 [])
    match C.get_table_id (full_name client db table) with
    | none => (false, set_state client State.STATE_ERROR)
    | some table_id =>
      let info := C.get_table_info table_id
      finish_resultset E client table_status_fields [table_status_row table info]
        "Failed to make result packet.".toList
  else (false, set_state client State.STATE_ERROR)

/-- The columns of `SHOW COLLATION` (lines 1481-1517). -/
def collation_fields : List ResultField :=
  [mk_field "Collation".toList MysqlType.MYSQL_TYPE_VAR_STRING,
    mk_field "Charset".toList MysqlType.MYSQL_TYPE_VAR_STRING,
    mk_field "Id".toList MysqlType.MYSQL_TYPE_LONGLONG,
    mk_field "Default".toList MysqlType.MYSQL_TYPE_VAR_STRING,
    mk_field "Compiled".toList MysqlType.MYSQL_TYPE_VAR_STRING,
    mk_field "Sortlen".toList MysqlType.MYSQL_TYPE_VAR_STRING]

/-- The two rows of `SHOW COLLATION` (lines 1519-1536). -/
def collation_rows : List (List Str) :=
  [["gbk_chinese_ci".toList, "gbk".toList, "28".toList, "Yes".toList, "Yes".toList,
      "1".toList],
    ["gbk_bin".toList, "gbk".toList, "87".toList, "   ".toList, "Yes".toList, "1".toList]]

/-- The function `StateMachine::_handle_client_query_show_collation` (lines
1473-1547). -/
def _handle_client_query_show_collation (E : Env) (client : Sock) : Bool × Sock :=
  finish_resultset E client collation_fields collation_rows
    "Failed to make result packet.".toList

/-- The columns of `SHOW WARNINGS` (lines 1557-1575). -/
def warnings_fields : List ResultField :=
  [mk_field "Level".toList MysqlType.MYSQL_TYPE_VAR_STRING,
    mk_field "Code".toList MysqlType.MYSQL_TYPE_LONG,
    mk_field "Message".toList MysqlType.MYSQL_TYPE_VAR_STRING]

/-- The function `StateMachine::_handle_client_query_show_warnings` (lines
1549-1588); no row is made. -/
def _handle_client_query_show_warnings (E : Env) (client : Sock) : Bool × Sock :=
  finish_resultset E client warnings_fields [] "Failed to make result packet.".toList

/-- The columns of `SHOW VARIABLES` (lines 1598-1610). -/
def variables_fields : List ResultField :=
  [mk_field "Variable_name".toList MysqlType.MYSQL_TYPE_VAR_STRING,
    mk_field "Value".toList MysqlType.MYSQL_TYPE_VAR_STRING]

/-- The rows of `SHOW VARIABLES` (lines 1612-1721). -/
def variables_rows : List (List Str) :=
  [["character_set_client", "gbk"], ["character_set_connection", "gbk"],
    ["character_set_results", "gbk"], ["character_set_server", "gbk"],
    ["init_connect", " "], ["interactive_timeout", "28800"],
    ["language", "/home/mysql/mysql/share/mysql/english/"],
    ["lower_case_table_names", "0"], ["max_allowed_packet", "268435456"],
    ["net_buffer_length", "16384"], ["net_write_timeout", "60"],
    ["query_cache_size", "335544320"], ["query_cache_type", "OFF"], ["sql_mode", " "],
    ["system_time_zone", "CST"], ["time_zone", "SYSTEM"],
    ["tx_isolation", "REPEATABLE-READ"], ["wait_timeout", "28800"]].map
    (fun row => row.map String.toList)

/-- The function `StateMachine::_handle_client_query_show_variables` (lines
1590-1732). -/
def _handle_client_query_show_variables (E : Env) (client : Sock) : Bool × Sock :=
  finish_resultset E client variables_fields variables_rows
    "Failed to make result packet.".toList

/-- The columns of `SHOW FULL COLUMNS` (lines 1125-1179). -/
def full_columns_fields : List ResultField :=
  ["Field", "Type", "Collation", "Null", "Key", "default", "Extra", "Privileges",
    "Comment"].map (fun n => mk_field n.toList MysqlType.MYSQL_TYPE_VAR_STRING)

/-- The columns of `DESC` (lines 1742-1778). -/
def desc_fields : List ResultField :=
  ["Field", "Type", "Null", "Key", "default", "Extra"].map
    (fun n => mk_field n.toList MysqlType.MYSQL_TYPE_VAR_STRING)

/-- The responders of lines 983-1847 that `_query_process` selects by name, with
the catalog `C`; `_query_process` uses no other name. A call of the region
responder in which `std::stoll` throws does not return; a total function has to
answer something there, and `responders` answers false with the connection as it
was: what is stated of an answer that is true, or of a result set, says nothing of
such a call. -/
def responders (E : Env) (C : SchemaFactory) (name : Str) (s : Sock) : Bool × Sock :=
  if name = "show_create_table".toList then _handle_client_query_show_create_table E C s
  else if name = "show_full_columns".toList then _handle_client_query_show_full_columns E C s
  else if name = "show_table_status".toList then _handle_client_query_show_table_status E C s
  else if name = "show_collation".toList then _handle_client_query_show_collation E s
  else if name = "show_warnings".toList then _handle_client_query_show_warnings E s
  else if name = "show_region".toList then
    match _handle_client_query_show_region E C s with
    | some r => r
    | none => (false, s)
  else if name = "show_variables".toList then _handle_client_query_show_variables E s
  else if name = "desc_table".toList then _handle_client_query_desc_table E C s
  else (false, s)

/-- The environment in which the collaborator `catalog_responder` is the responders
of the sources over the catalog `C`. -/
def with_responders (E : Env) (C : SchemaFactory) : Env :=
  { E with catalog_responder := responders E C }

/-- The answer `r` of a responder is the result set with the columns `fields` and
the rows `rows`, made by `_make_common_resultset_packet` at the end of the
responder, and every row has `n` cells, as many as there are columns. -/
def ResultSetOf (E : Env) (client : Sock) (r : Bool × Sock) (n : Nat)
    (fields : List ResultField) (rows : List (List Str)) : Prop :=
  (∃ errmsg, r = finish_resultset E client fields rows errmsg)
    ∧ fields.length = n ∧ ∀ row, row ∈ rows → row.length = n

/-- The answer of `_query_process` or of a responder, when it is true, comes with
the state `STATE_READ_QUERY_RESULT` or `STATE_ERROR_REUSE`. -/
def ReplyReady (r : Bool × Sock) : Prop :=
  r.1 = true →
    r.2.state = State.STATE_READ_QUERY_RESULT ∨ r.2.state = State.STATE_ERROR_REUSE

/-! ## Commands and the login -/

/-- The states of a connection whose login has succeeded. -/
def LoggedIn (st : State) : Prop :=
  st = State.STATE_READ_AUTH ∨ st = State.STATE_SEND_AUTH_RESULT
    ∨ st = State.STATE_READ_QUERY_RESULT ∨ st = State.STATE_ERROR_REUSE

/-- What a call keeps of a session: a counted connection stays counted and the
user record is not lost. -/
def KeepsSession (s a : Sock) : Prop :=
  (s.is_counted = true → a.is_counted = true) ∧ (s.user_info ≠ none → a.user_info ≠ none)

/-- The events that are not the call of `_query_read` or of `_query_process`. -/
def NoQueryEvent (e : Event) : Prop := e ≠ Event.query_read ∧ e ≠ Event.query_process

/-- A call that keeps the session, logs neither `_query_read` nor `_query_process`
after what was logged, and does not bring the connection into a state of
`LoggedIn` from outside of them. -/
def Calm (s a : Sock) : Prop :=
  KeepsSession s a
    ∧ (LoggedIn a.state → LoggedIn s.state)
    ∧ ∃ evs, a.log = s.log ++ evs ∧ ∀ e, e ∈ evs → NoQueryEvent e

/-- The assumption made on the planner stages and the commit hook, which get the
connection and are defined outside the sources: they are calm. -/
def PlannerIsCalm (E : Env) : Prop :=
  (∀ s, Calm s (E.logical_analyze s).2)
  ∧ (∀ s, Calm s (E.create_plan_tree s).2)
  ∧ (∀ s, Calm s (E.physical_analyze s).2)
  ∧ (∀ s, Calm s (E.execute s).2)
  ∧ (∀ s, Calm s (E.on_commit_rollback s))

/-- An environment in which the planner stages and the commit hook are calm and the
responders that `_query_process` selects by name keep the session. -/
def EnvKeepsSession (E : Env) : Prop :=
  (∀ s, Calm s (E.logical_analyze s).2)
  ∧ (∀ s, Calm s (E.create_plan_tree s).2)
  ∧ (∀ s, Calm s (E.physical_analyze s).2)
  ∧ (∀ s, Calm s (E.execute s).2)
  ∧ (∀ s, Calm s (E.on_commit_rollback s))
  ∧ (∀ name s, KeepsSession s (E.catalog_responder name s).2)

/-- The forms the answer of a responder of lines 983-1847 takes on the connection
`s`: false with the connection as it was, false with `STATE_ERROR` assigned, or
what `finish_resultset` makes of a result set. -/
def ResponderAnswer (E : Env) (s : Sock) (r : Bool × Sock) : Prop :=
  r = (false, s) ∨ r = (false, set_state s State.STATE_ERROR)
    ∨ ∃ fields rows errmsg, r = finish_resultset E s fields rows errmsg

/-! ## Environments in which a collaborator misbehaves -/

/-- A socket whose first read appends the four header bytes `2 0 0 7` and reports
would-block all the same; its later reads succeed with what is asked of the two
body bytes. No read appends more than was requested. -/
def wait_env : Env :=
  { sample_env [] [] with
    real_read := fun k want =>
      { ret := if k = 0 then Ret.RET_WAIT_FOR_EVENT else Ret.RET_SUCCESS,
        data := ([[2, 0, 0, 7], [10, 11]].getD k []).take want.toNat } }

/-- The chunks of a session of `bob`: nothing at the clock of the handshake, the
login packet, nothing at the clock of the auth result, then one `COM_QUERY` with
the text `insert into t values (1)`. -/
def session_chunks : List Bytes :=
  [] :: sample_login_chunks "bob".toList good_auth ++ [[]]
    ++ sample_command 3 "insert into t values (1)"

/-- The sample connection after the handshake and the login in the environment
`E`. -/
def after_login (E : Env) : Sock :=
  (run_machine E 1 (handshake_sent sample_sock) false).getD sample_sock

/-- The sample connection after the handshake, the login and one more call of
`run_machine`, which reads a command, in the environment `E`. -/
def after_command (E : Env) : Sock :=
  (run_machine E 3 (after_login E) false).getD sample_sock

/-- The responders of the sources over the sample catalog, with planner stages
that succeed, except that `execute` drops the user record of the connection; no
write to the socket completes. -/
def forgetful_env : Env :=
  with_responders
    { sample_env session_chunks [sample_user 0] with
      execute := fun s => (0, { s with user_info := none })
      real_write := fun _ => Ret.RET_WAIT_FOR_EVENT }
    sample_catalog

/-- The responders of the sources over the sample catalog, with planner stages
that succeed, except that `execute` clears `is_counted`. -/
def careless_env : Env :=
  with_responders
    { sample_env session_chunks [sample_user 0] with
      execute := fun s => (0, { s with is_counted := false }) }
    sample_catalog

/-- The responders of the sources over the sample catalog in the sample
environment, for a session of `bob`. -/
def session_env : Env :=
  with_responders (sample_env session_chunks [sample_user 0]) sample_catalog

/-! # Theorems -/

theorem le24_or (l0 l1 l2 : Nat) (h0 : l0 < 256) (h1 : l1 < 256) :
    (l0 ||| (l1 <<< 8) ||| (l2 <<< 16)) = le24 l0 l1 l2 := by
  have e1 : l0 ||| (l1 <<< 8) = l0 + 256 * l1 := by
    have := @Nat.mul_add_lt_is_or 8 l0 (by norm_num; exact h0) l1
    rw [Nat.shiftLeft_eq, Nat.or_comm, Nat.mul_comm, ← this]
    norm_num
    omega
  have e2 : (l0 + 256 * l1) ||| (l2 <<< 16) = l0 + 256 * l1 + 65536 * l2 := by
    have := @Nat.mul_add_lt_is_or 16 (l0 + 256 * l1) (by norm_num; omega) l2
    rw [Nat.shiftLeft_eq, Nat.or_comm, Nat.mul_comm, ← this]
    norm_num
    omega
  rw [e1, e2, le24]

theorem read_packet_body_eq (E : Env) (s : Sock) :
    _read_packet_body E s =
      (let r := E.real_read s.clock (s.packet_len - s.packet_read_len)
       let s2 : Sock := { s with
          self_buf := s.self_buf ++ r.data, clock := s.clock + 1,
          log := s.log ++ [Event.real_read (s.packet_len - s.packet_read_len) r.ret r.data.length],
          packet_read_len := s.packet_read_len + (r.data.length : Int) }
       if r.ret = Ret.RET_WAIT_FOR_EVENT then (Ret.RET_WAIT_FOR_EVENT, s2)
       else if r.ret ≠ Ret.RET_SUCCESS then (r.ret, s2)
       else if s.packet_len > s.packet_read_len + (r.data.length : Int) then
         (Ret.RET_WAIT_FOR_EVENT, s2)
       else (Ret.RET_SUCCESS, { s2 with packet_read_len := 0, header_read_len := 0 })) := by
  simp only [_read_packet_body, do_real_read]
  split_ifs <;> simp_all

theorem hdr_len_append (b d : Bytes) (n0 : Nat) (h : n0 + 4 ≤ b.length) :
    hdr_len (b ++ d) n0 = hdr_len b n0 := by
  unfold hdr_len
  rw [List.getD_append _ _ _ _ (by omega), List.getD_append _ _ _ _ (by omega),
    List.getD_append _ _ _ _ (by omega)]

theorem body_step (E : Env) (hB : ReadBounded E) (n0 : Nat) (s : Sock)
    (h : InBody E n0 s) :
    ((_read_packet_body E s).1 = Ret.RET_WAIT_FOR_EVENT → InBody E n0 (_read_packet_body E s).2)
    ∧ ((_read_packet_body E s).1 = Ret.RET_SUCCESS → Complete E n0 (_read_packet_body E s).2) := by
  obtain ⟨h1, h2, h3, h4, h5, h6, h7, h8⟩ := h
  have hb := hB s.clock (s.packet_len - s.packet_read_len)
  have hlen : n0 + 4 ≤ s.self_buf.length := by omega
  rw [read_packet_body_eq]
  simp only
  split_ifs with c1 c2 c3
  · refine ⟨fun _ => ?_, fun hc => by simp at hc⟩
    refine ⟨h1, ?_, ?_, ?_, h5, ?_, ?_, h8⟩
    · simp; omega
    · simp; omega
    · simp; omega
    · simp [hdr_len_append _ _ _ hlen, h6]
    · exact h7.trans (List.getD_append _ _ _ _ (show n0 + 3 < s.self_buf.length by omega)).symm
  · refine ⟨fun hc => absurd hc c1, fun hc => absurd hc c2⟩
  · refine ⟨fun _ => ?_, fun hc => by simp at hc⟩
    refine ⟨h1, ?_, ?_, ?_, h5, ?_, ?_, h8⟩
    · simp; omega
    · simp; omega
    · simp; omega
    · simp [hdr_len_append _ _ _ hlen, h6]
    · exact h7.trans (List.getD_append _ _ _ _ (show n0 + 3 < s.self_buf.length by omega)).symm
  · refine ⟨fun hc => by simp at hc, fun _ => ?_⟩
    refine ⟨rfl, rfl, ?_, h5, ?_, ?_, h8⟩
    · simp; omega
    · simp [hdr_len_append _ _ _ hlen, h6]
    · exact h7.trans (List.getD_append _ _ _ _ (show n0 + 3 < s.self_buf.length by omega)).symm


theorem read_packet_header_eq (E : Env) (s : Sock) (h : s.header_read_len ≠ 4) :
    _read_packet E s =
      (let r := E.real_read s.clock (4 - s.header_read_len)
       let s2 : Sock := { s with
          self_buf := s.self_buf ++ r.data, clock := s.clock + 1,
          log := s.log ++ [Event.real_read (4 - s.header_read_len) r.ret r.data.length],
          header_read_len := s.header_read_len + (r.data.length : Int) }
       if r.ret = Ret.RET_WAIT_FOR_EVENT then (Ret.RET_WAIT_FOR_EVENT, s2)
       else if r.ret ≠ Ret.RET_SUCCESS then (r.ret, s2)
       else if s.header_read_len + (r.data.length : Int) < 4 then (Ret.RET_WAIT_FOR_EVENT, s2)
       else if (after_header s (4 - s.header_read_len) r).packet_len > E.PACKET_LEN_MAX then
         (Ret.RET_ERROR, after_header s (4 - s.header_read_len) r)
       else _read_packet_body E (after_header s (4 - s.header_read_len) r)) := by
  simp only [_read_packet, do_real_read, PACKET_HEADER_LEN, after_header, if_pos h]
  split_ifs <;> simp_all

theorem read_packet_body_phase_eq (E : Env) (s : Sock) (h : s.header_read_len = 4) :
    _read_packet E s = _read_packet_body E s := by
  simp [_read_packet, h]

theorem getD_drop_eq (l : Bytes) (n i : Nat) : (l.drop n).getD i 0 = l.getD (n + i) 0 := by
  rw [List.getD_eq_getElem?_getD, List.getD_eq_getElem?_getD, List.getElem?_drop]

theorem after_header_fields (s : Sock) (want : Int) (r : ReadResult) (n0 : Nat)
    (h : (s.self_buf ++ r.data).length = n0 + 4) :
    (after_header s want r).header_offset = n0
    ∧ (after_header s want r).packet_len = hdr_len (s.self_buf ++ r.data) n0
    ∧ (after_header s want r).packet_id = (s.self_buf ++ r.data).getD (n0 + 3) 0
    ∧ (after_header s want r).self_buf = s.self_buf ++ r.data
    ∧ (after_header s want r).header_read_len = s.header_read_len + (r.data.length : Int)
    ∧ (after_header s want r).packet_read_len = s.packet_read_len := by
  have e : (((s.self_buf ++ r.data).length : Int) - 4).toNat = n0 := by omega
  refine ⟨?_, ?_, ?_, rfl, rfl, rfl⟩
  · simp only [after_header]; omega
  · simp only [after_header, e, getD_drop_eq, hdr_len, Nat.add_zero]
  · simp only [after_header, e, getD_drop_eq]

theorem header_step (E : Env) (hB : ReadBounded E) (hW : ShortOnWait E) (n0 : Nat) (s : Sock)
    (h : InHeader n0 s) :
    ((_read_packet E s).1 = Ret.RET_WAIT_FOR_EVENT →
      InHeader n0 (_read_packet E s).2 ∨ InBody E n0 (_read_packet E s).2)
    ∧ ((_read_packet E s).1 = Ret.RET_SUCCESS → Complete E n0 (_read_packet E s).2) := by
  obtain ⟨h1, h2, h3, h4⟩ := h
  have hb := hB s.clock (4 - s.header_read_len)
  have hw := hW s.clock (4 - s.header_read_len) (by omega)
  rw [read_packet_header_eq E s (by omega)]
  simp only
  split_ifs with c1 c2 c3 c4
  · refine ⟨fun _ => Or.inl ⟨?_, ?_, h3, ?_⟩, fun hc => by simp at hc⟩
    · simp; omega
    · have := hw c1; simp; omega
    · simp; omega
  · exact ⟨fun hc => absurd hc c1, fun hc => absurd hc c2⟩
  · refine ⟨fun _ => Or.inl ⟨?_, ?_, h3, ?_⟩, fun hc => by simp at hc⟩
    · simp; omega
    · simp; omega
    · simp; omega
  · exact ⟨fun hc => by simp at hc, fun hc => by simp at hc⟩
  · have hl : (s.self_buf ++ (E.real_read s.clock (4 - s.header_read_len)).data).length = n0 + 4 := by
      simp; omega
    obtain ⟨f1, f2, f3, f4, f5, f6⟩ := after_header_fields s (4 - s.header_read_len)
      (E.real_read s.clock (4 - s.header_read_len)) n0 hl
    have hin : InBody E n0 (after_header s (4 - s.header_read_len)
        (E.real_read s.clock (4 - s.header_read_len))) := by
      refine ⟨?_, ?_, ?_, ?_, f1, ?_, ?_, ?_⟩
      · rw [f5]; omega
      · rw [f4, f6, hl, h3]; simp
      · rw [f6, h3]
      · rw [f6, h3, f2]; exact Int.natCast_nonneg _
      · rw [f2, f4]
      · rw [f3, f4]
      · exact not_lt.mp c4
    have := body_step E hB n0 _ hin
    exact ⟨fun hc => Or.inr (this.1 hc), this.2⟩

/-- One `_read_packet` call made in the middle of a packet either leaves the
packet incomplete or completes it. -/
theorem read_packet_step (E : Env) (hB : ReadBounded E) (hW : ShortOnWait E) (n0 : Nat) (s : Sock)
    (h : InHeader n0 s ∨ InBody E n0 s) :
    ((_read_packet E s).1 = Ret.RET_WAIT_FOR_EVENT →
      InHeader n0 (_read_packet E s).2 ∨ InBody E n0 (_read_packet E s).2)
    ∧ ((_read_packet E s).1 = Ret.RET_SUCCESS → Complete E n0 (_read_packet E s).2) := by
  rcases h with h | h
  · exact header_step E hB hW n0 s h
  · rw [read_packet_body_phase_eq E s h.1]
    have := body_step E hB n0 s h
    exact ⟨fun hc => Or.inr (this.1 hc), this.2⟩


theorem getD_of_initial (p q : Bytes) (h : p <+: q) (i : Nat) (hi : i < p.length) :
    q.getD i 0 = p.getD i 0 := by
  obtain ⟨t, rfl⟩ := h
  exact List.getD_append _ _ _ _ hi

theorem read_packet_body_buf (E : Env) (s : Sock) :
    ∃ d, (_read_packet_body E s).2.self_buf = s.self_buf ++ d := by
  rw [read_packet_body_eq]
  simp only
  split_ifs <;> exact ⟨_, rfl⟩

theorem read_packet_buf (E : Env) (s : Sock) :
    ∃ d, (_read_packet E s).2.self_buf = s.self_buf ++ d := by
  by_cases h : s.header_read_len = 4
  · rw [read_packet_body_phase_eq E s h]
    exact read_packet_body_buf E s
  · rw [read_packet_header_eq E s h]
    simp only
    split_ifs
    · exact ⟨_, rfl⟩
    · exact ⟨_, rfl⟩
    · exact ⟨_, rfl⟩
    · exact ⟨_, rfl⟩
    · obtain ⟨d, hd⟩ := read_packet_body_buf E
        (after_header s (4 - s.header_read_len) (E.real_read s.clock (4 - s.header_read_len)))
      refine ⟨(E.real_read s.clock (4 - s.header_read_len)).data ++ d, ?_⟩
      rw [hd, ← List.append_assoc]
      rfl

theorem read_calls_buf (E : Env) (s0 : Sock) (n k : Nat) :
    (read_calls E n s0).self_buf <+: (read_calls E (n + k) s0).self_buf := by
  induction k with
  | zero => exact ⟨[], by simp⟩
  | succ k ih =>
    obtain ⟨t, ht⟩ := ih
    obtain ⟨d, hd⟩ := read_packet_buf E (read_calls E (n + k) s0)
    refine ⟨t ++ d, ?_⟩
    show _ = (_read_packet E (read_calls E (n + k) s0)).2.self_buf
    rw [hd, ← ht, List.append_assoc]

/-- While every call so far has reported would-block, the reader is in the middle
of the packet that started at the boundary. -/
theorem run_midpacket (E : Env) (hB : ReadBounded E) (hW : ShortOnWait E) (s0 : Sock)
    (h0 : s0.header_read_len = 0) (h1 : s0.packet_read_len = 0) (n : Nat)
    (hwait : ∀ k, k < n → read_ret E k s0 = Ret.RET_WAIT_FOR_EVENT) :
    InHeader s0.self_buf.length (read_calls E n s0)
      ∨ InBody E s0.self_buf.length (read_calls E n s0) := by
  induction n with
  | zero => exact Or.inl ⟨by simp [read_calls, h0], by simp [read_calls, h0], h1, by simp [read_calls, h0]⟩
  | succ n ih =>
    have hp := ih (fun k hk => hwait k (Nat.lt_succ_of_lt hk))
    exact (read_packet_step E hB hW _ _ hp).1 (hwait n (Nat.lt_succ_self n))

/-- What a completed read means for a stream that begins with a given packet. -/
theorem complete_stream (E : Env) (n0 : Nat) (c : Sock) (hc : Complete E n0 c)
    (B0 body rest : Bytes) (l0 l1 l2 seq : Nat) (hB0 : B0.length = n0)
    (hl0 : l0 < 256) (hl1 : l1 < 256) (hbody : body.length = le24 l0 l1 l2)
    (hstream : c.self_buf <+: B0 ++ (l0 :: l1 :: l2 :: seq :: body) ++ rest) :
    c.packet_len = (le24 l0 l1 l2 : Nat) ∧ c.packet_id = seq
      ∧ c.self_buf = B0 ++ (l0 :: l1 :: l2 :: seq :: body) := by
  obtain ⟨_, _, c3, _, c5, c6, _⟩ := hc
  have hlen : n0 + 4 ≤ c.self_buf.length := by
    have : (0 : Int) ≤ c.packet_len := by rw [c5]; exact Int.natCast_nonneg _
    omega
  have g : ∀ i, i < 4 → c.self_buf.getD (n0 + i) 0
      = (l0 :: l1 :: l2 :: seq :: body).getD i 0 := by
    intro i hi
    rw [← getD_of_initial _ _ hstream (n0 + i) (by omega), List.append_assoc,
      List.getD_append_right _ _ _ _ (by omega), List.getD_append _ _ _ _ (by simp; omega)]
    congr 1
    omega
  have e0 := g 0 (by omega)
  have e1 := g 1 (by omega)
  have e2 := g 2 (by omega)
  have e3 := g 3 (by omega)
  simp only [Nat.add_zero, List.getD_cons_zero, List.getD_cons_succ] at e0 e1 e2 e3
  have hL : c.packet_len = (le24 l0 l1 l2 : Nat) := by
    rw [c5, hdr_len, e0, e1, e2, le24_or l0 l1 l2 hl0 hl1]
  refine ⟨hL, by rw [c6, e3], ?_⟩
  obtain ⟨t, ht⟩ := hstream
  have hlen2 : c.self_buf.length = (B0 ++ (l0 :: l1 :: l2 :: seq :: body)).length := by
    simp only [List.length_append, List.length_cons]
    omega
  exact (List.append_inj ht hlen2).1

theorem sample_env_bounded (chunks : List Bytes) (users : List UserInfo) :
    ReadBounded (sample_env chunks users) := by
  intro k want
  simp only [sample_env, List.length_take]
  omega

theorem sample_env_short (chunks : List Bytes) (users : List UserInfo) :
    ShortOnWait (sample_env chunks users) := by
  intro k want hw hret
  simp only [sample_env] at hret ⊢
  split_ifs at hret with h
  rw [h.1]
  simpa using hw

theorem sample_env_no_error (chunks : List Bytes) (users : List UserInfo) :
    NoReadError (sample_env chunks users) := by
  intro k want
  simp only [sample_env]
  split_ifs
  · exact Or.inr rfl
  · exact Or.inl rfl

theorem wait_env_bounded : ReadBounded wait_env := by
  intro k want
  simp only [wait_env, List.length_take]
  omega

/-- C5, as stated, fails: the reads of `wait_env` never append more than requested,
and the packet `2 0 0 7` with the body `10 11` is delivered header first; the first
read appends the four header bytes and reports would-block, so `_read_packet`
returns before it decodes the header (lines 465-468), and the next call, which
finds `header_read_len` at 4, asks for `packet_len - packet_read_len = 0` bytes and
returns `RET_SUCCESS` with `packet_len` 0 and `packet_id` 0 instead of 2 and 7,
no body byte having been read. -/
theorem C5_would_block_with_full_header :
    ReadBounded wait_env
    ∧ read_ret wait_env 0 sample_sock = Ret.RET_WAIT_FOR_EVENT
    ∧ read_ret wait_env 1 sample_sock = Ret.RET_SUCCESS
    ∧ (read_calls wait_env 1 sample_sock).self_buf = [2, 0, 0, 7]
    ∧ (read_calls wait_env 2 sample_sock).self_buf <+: [2, 0, 0, 7, 10, 11]
    ∧ (read_calls wait_env 2 sample_sock).packet_len = 0
    ∧ (read_calls wait_env 2 sample_sock).packet_id = 0
    ∧ wants_of (read_calls wait_env 2 sample_sock).log = [4, 0] :=
  ⟨wait_env_bounded, by decide, by decide, by decide, ⟨[10, 11], by decide⟩, by decide,
    by decide, by decide⟩

/-- C5, amended: reads never append more than requested and a read that reports
would-block has appended fewer bytes than requested. For every packet with header
bytes `l0 l1 l2 seq` and a body of `l0 + 256*l1 + 65536*l2` bytes at the head of
the incoming stream, and every run of `_read_packet` calls started at a packet
boundary in which the calls before call `n` report would-block and call `n`
returns `RET_SUCCESS`, that call leaves `packet_len` equal to the declared length,
`packet_id` equal to `seq`, `header_offset` at the boundary, the four header bytes
at `header_offset` and, right after them, exactly the bytes of the body, in
order. -/
theorem C5_read_packet_reassembles (E : Env) (hB : ReadBounded E) (hW : ShortOnWait E)
    (s0 : Sock) (h0 : s0.header_read_len = 0) (h1 : s0.packet_read_len = 0)
    (l0 l1 l2 seq : Nat) (body rest : Bytes) (hl0 : l0 < 256) (hl1 : l1 < 256)
    (hbody : body.length = le24 l0 l1 l2) (n : Nat)
    (hwait : ∀ k, k < n → read_ret E k s0 = Ret.RET_WAIT_FOR_EVENT)
    (hdone : read_ret E n s0 = Ret.RET_SUCCESS)
    (hstream : (read_calls E (n + 1) s0).self_buf
      <+: s0.self_buf ++ (l0 :: l1 :: l2 :: seq :: body) ++ rest) :
    (read_calls E (n + 1) s0).packet_len = (le24 l0 l1 l2 : Nat)
    ∧ (read_calls E (n + 1) s0).packet_id = seq
    ∧ (read_calls E (n + 1) s0).header_offset = (s0.self_buf.length : Nat)
    ∧ ((read_calls E (n + 1) s0).self_buf.drop
        (read_calls E (n + 1) s0).header_offset.toNat).take 4 = [l0, l1, l2, seq]
    ∧ ((read_calls E (n + 1) s0).self_buf.drop
        ((read_calls E (n + 1) s0).header_offset.toNat + 4)).take
          (read_calls E (n + 1) s0).packet_len.toNat = body := by
  have hp := run_midpacket E hB hW s0 h0 h1 n hwait
  have hc : Complete E s0.self_buf.length (read_calls E (n + 1) s0) :=
    (read_packet_step E hB hW _ _ hp).2 hdone
  obtain ⟨e1, e2, e3⟩ := complete_stream E _ _ hc s0.self_buf body rest l0 l1 l2 seq rfl
    hl0 hl1 hbody hstream
  have e4 : (read_calls E (n + 1) s0).header_offset = (s0.self_buf.length : Nat) := hc.2.2.2.1
  refine ⟨e1, e2, e4, ?_, ?_⟩
  · rw [e4, e3]
    simp
  · rw [e4, e3, e1]
    simp [← hbody]

theorem C5_read_packet_reassembles_witness :
    read_ret (sample_env sample_chunks []) 2 sample_sock = Ret.RET_SUCCESS
    ∧ (read_calls (sample_env sample_chunks []) 3 sample_sock).packet_len = 96
    ∧ (read_calls (sample_env sample_chunks []) 3 sample_sock).packet_id = 0
    ∧ ((read_calls (sample_env sample_chunks []) 3 sample_sock).self_buf.drop 4).take 96
        = sample_body := by
  have h := C5_read_packet_reassembles (sample_env sample_chunks [])
    (sample_env_bounded _ _) (sample_env_short _ _) sample_sock rfl rfl
    96 0 0 0 sample_body [] (by decide) (by decide) (by decide) 2 (by decide) (by decide)
    (by decide)
  refine ⟨by decide, h.1, h.2.1, ?_⟩
  have h5 := h.2.2.2.2
  rw [h.2.2.1, h.1] at h5
  exact h5

theorem read_packet_body_bounds (E : Env) (hB : ReadBounded E) (t : Sock)
    (h : CursorInv E t) (h4 : t.header_read_len = 4)
    (hret : (_read_packet_body E t).1 = Ret.RET_SUCCESS
      ∨ (_read_packet_body E t).1 = Ret.RET_WAIT_FOR_EVENT) :
    CursorInv E (_read_packet_body E t).2
    ∧ ((_read_packet_body E t).1 = Ret.RET_SUCCESS →
        (_read_packet_body E t).2.header_read_len = 0
        ∧ (_read_packet_body E t).2.packet_read_len = 0) := by
  obtain ⟨b1, b2, b0, b3, b4, _⟩ := h
  have hb := hB t.clock (t.packet_len - t.packet_read_len)
  revert hret
  rw [read_packet_body_eq]
  simp only
  split_ifs with c1 c2 c3
  · intro _
    refine ⟨⟨b1, b2, ?_, ?_, b4, fun hc => absurd h4 hc⟩, fun hc => by simp at hc⟩
    · show 0 ≤ t.packet_read_len + _
      omega
    · show t.packet_read_len + _ ≤ t.packet_len
      omega
  · intro hr
    rcases hr with hr | hr
    · exact absurd hr c2
    · exact absurd hr c1
  · intro _
    refine ⟨⟨b1, b2, ?_, ?_, b4, fun hc => absurd h4 hc⟩, fun hc => by simp at hc⟩
    · show 0 ≤ t.packet_read_len + _
      omega
    · show t.packet_read_len + _ ≤ t.packet_len
      omega
  · intro _
    refine ⟨⟨le_refl _, by norm_num, le_refl _, ?_, b4, fun _ => rfl⟩, fun _ => ⟨rfl, rfl⟩⟩
    show (0 : Int) ≤ t.packet_len
    omega

/-- The bounds `_read_packet` keeps on its cursors. -/
theorem read_packet_bounds (E : Env) (hB : ReadBounded E) (s : Sock) (h : CursorInv E s)
    (hret : (_read_packet E s).1 = Ret.RET_SUCCESS
      ∨ (_read_packet E s).1 = Ret.RET_WAIT_FOR_EVENT) :
    CursorInv E (_read_packet E s).2
    ∧ ((_read_packet E s).1 = Ret.RET_SUCCESS →
        (_read_packet E s).2.header_read_len = 0 ∧ (_read_packet E s).2.packet_read_len = 0) := by
  by_cases h4 : s.header_read_len = 4
  · rw [read_packet_body_phase_eq E s h4] at hret ⊢
    exact read_packet_body_bounds E hB s h h4 hret
  · obtain ⟨a1, a2, a0, a3, a4, a5⟩ := h
    have hb := hB s.clock (4 - s.header_read_len)
    have hprl := a5 h4
    revert hret
    rw [read_packet_header_eq E s h4]
    simp only
    split_ifs with c1 c2 c3 c4
    · intro _
      refine ⟨⟨?_, ?_, a0, a3, a4, fun _ => hprl⟩, fun hc => by simp at hc⟩
      · show 0 ≤ s.header_read_len + _
        omega
      · show s.header_read_len + _ ≤ 4
        omega
    · intro hr
      rcases hr with hr | hr
      · exact absurd hr c2
      · exact absurd hr c1
    · intro _
      refine ⟨⟨?_, ?_, a0, a3, a4, fun _ => hprl⟩, fun hc => by simp at hc⟩
      · show 0 ≤ s.header_read_len + _
        omega
      · show s.header_read_len + _ ≤ 4
        omega
    · intro hr
      simp at hr
    · intro hr
      have f5 : (after_header s (4 - s.header_read_len)
          (E.real_read s.clock (4 - s.header_read_len))).header_read_len
          = s.header_read_len + ((E.real_read s.clock (4 - s.header_read_len)).data.length : Int) :=
        rfl
      have f6 : (after_header s (4 - s.header_read_len)
          (E.real_read s.clock (4 - s.header_read_len))).packet_read_len = s.packet_read_len := rfl
      have f7 : (0 : Int) ≤ (after_header s (4 - s.header_read_len)
          (E.real_read s.clock (4 - s.header_read_len))).packet_len := by
        simp only [after_header]
        exact Int.natCast_nonneg _
      have f8 : (after_header s (4 - s.header_read_len)
          (E.real_read s.clock (4 - s.header_read_len))).header_read_len = 4 := by
        rw [f5]; omega
      refine read_packet_body_bounds E hB _ ⟨by rw [f8]; norm_num, by rw [f8],
        by rw [f6, hprl], by rw [f6, hprl]; exact f7, not_lt.mp c4,
        fun hc => absurd f8 hc⟩ f8 hr

/-- C8: starting from `header_read_len = 0` and `packet_read_len = 0` (with the
`packet_len` of the previous packet within its bounds) and assuming a socket read
never appends more bytes than requested, after every `_read_packet` call of a run
whose calls return `RET_SUCCESS` or `RET_WAIT_FOR_EVENT` it holds that
`0 ≤ header_read_len ≤ 4` and `packet_read_len ≤ packet_len ≤ PACKET_LEN_MAX`;
after a call that returns `RET_SUCCESS` both cursors are 0, and whenever body bytes
are pending (`packet_read_len ≠ 0`) `header_read_len` is 4. -/
theorem C8_read_packet_cursor_bounds (E : Env) (hB : ReadBounded E) (s0 : Sock)
    (h0 : s0.header_read_len = 0) (h1 : s0.packet_read_len = 0)
    (h2 : 0 ≤ s0.packet_len) (h3 : s0.packet_len ≤ E.PACKET_LEN_MAX) (n : Nat)
    (hlive : ∀ k, k ≤ n → (read_ret E k s0 = Ret.RET_SUCCESS
      ∨ read_ret E k s0 = Ret.RET_WAIT_FOR_EVENT)) :
    0 ≤ (read_calls E (n + 1) s0).header_read_len
    ∧ (read_calls E (n + 1) s0).header_read_len ≤ 4
    ∧ (read_calls E (n + 1) s0).packet_read_len ≤ (read_calls E (n + 1) s0).packet_len
    ∧ (read_calls E (n + 1) s0).packet_len ≤ E.PACKET_LEN_MAX
    ∧ (read_ret E n s0 = Ret.RET_SUCCESS →
        (read_calls E (n + 1) s0).header_read_len = 0
        ∧ (read_calls E (n + 1) s0).packet_read_len = 0)
    ∧ ((read_calls E (n + 1) s0).packet_read_len ≠ 0 →
        (read_calls E (n + 1) s0).header_read_len = 4) := by
  have inv : ∀ m, m ≤ n + 1 → CursorInv E (read_calls E m s0) := by
    intro m
    induction m with
    | zero =>
      intro _
      exact ⟨by simp [read_calls, h0], by simp [read_calls, h0], by simp [read_calls, h1],
        by simp [read_calls, h1, h2], h3, fun _ => h1⟩
    | succ m ih =>
      intro hm
      exact (read_packet_bounds E hB _ (ih (by omega)) (hlive m (by omega))).1
  have hn := read_packet_bounds E hB _ (inv n (by omega)) (hlive n (le_refl n))
  obtain ⟨⟨b1, b2, _, b3, b4, b5⟩, b6⟩ := hn
  exact ⟨b1, b2, b3, b4, b6, fun hne => by by_contra h4; exact hne (b5 h4)⟩

theorem C8_read_packet_cursor_bounds_witness :
    (read_calls (sample_env sample_chunks []) 2 sample_sock).header_read_len = 4
    ∧ 0 ≤ (read_calls (sample_env sample_chunks []) 3 sample_sock).header_read_len
    ∧ (read_calls (sample_env sample_chunks []) 3 sample_sock).header_read_len ≤ 4
    ∧ (read_calls (sample_env sample_chunks []) 3 sample_sock).packet_read_len
        ≤ (read_calls (sample_env sample_chunks []) 3 sample_sock).packet_len
    ∧ (read_calls (sample_env sample_chunks []) 3 sample_sock).packet_len ≤ 16777215
    ∧ (read_calls (sample_env sample_chunks []) 3 sample_sock).header_read_len = 0
    ∧ (read_calls (sample_env sample_chunks []) 3 sample_sock).packet_read_len = 0 := by
  have h := C8_read_packet_cursor_bounds (sample_env sample_chunks [])
    (sample_env_bounded _ _) sample_sock rfl rfl (by decide) (by decide) 2 (by decide)
  have hs := h.2.2.2.2.1 (by decide)
  exact ⟨by decide, h.1, h.2.1, h.2.2.1, h.2.2.2.1, hs.1, hs.2⟩

/-- What `_read_packet_body` leaves untouched and what it logs. -/
theorem read_packet_body_frame (E : Env) (s : Sock) :
    (_read_packet_body E s).2.state = s.state
    ∧ (_read_packet_body E s).2.log = s.log ++ [Event.real_read
        (s.packet_len - s.packet_read_len)
        (E.real_read s.clock (s.packet_len - s.packet_read_len)).ret
        (E.real_read s.clock (s.packet_len - s.packet_read_len)).data.length]
    ∧ (_read_packet_body E s).2.clock = s.clock + 1 := by
  rw [read_packet_body_eq]
  simp only
  split_ifs <;> exact ⟨rfl, rfl, rfl⟩

/-- The events of one `_read_packet` call: a header read alone, a header read
followed by a body read, or (when the header is already complete) a body read. -/
theorem read_packet_log (E : Env) (s : Sock) :
    (_read_packet E s).2.state = s.state
    ∧ ((s.header_read_len ≠ 4 ∧ ∃ r g, (_read_packet E s).2.log
          = s.log ++ [Event.real_read (4 - s.header_read_len) r g])
      ∨ (s.header_read_len ≠ 4
          ∧ (_read_packet E s).2.packet_len = (after_header s (4 - s.header_read_len)
              (E.real_read s.clock (4 - s.header_read_len))).packet_len
          ∧ (after_header s (4 - s.header_read_len)
              (E.real_read s.clock (4 - s.header_read_len))).self_buf
                <+: (_read_packet E s).2.self_buf
          ∧ 4 ≤ s.header_read_len
              + ((E.real_read s.clock (4 - s.header_read_len)).data.length : Int)
          ∧ ∃ r g r' g', (_read_packet E s).2.log
          = s.log ++ [Event.real_read (4 - s.header_read_len) r g,
              Event.real_read ((_read_packet E s).2.packet_len - s.packet_read_len) r' g'])
      ∨ (s.header_read_len = 4 ∧ ∃ r g, (_read_packet E s).2.log
          = s.log ++ [Event.real_read (s.packet_len - s.packet_read_len) r g])) := by
  by_cases h4 : s.header_read_len = 4
  · rw [read_packet_body_phase_eq E s h4]
    obtain ⟨f1, f2, _⟩ := read_packet_body_frame E s
    exact ⟨f1, Or.inr (Or.inr ⟨h4, _, _, f2⟩)⟩
  · rw [read_packet_header_eq E s h4]
    simp only
    generalize E.real_read s.clock (4 - s.header_read_len) = r1
    split_ifs with c1 c2 c3 c4
    · exact ⟨rfl, Or.inl ⟨h4, r1.ret, r1.data.length, rfl⟩⟩
    · exact ⟨rfl, Or.inl ⟨h4, r1.ret, r1.data.length, rfl⟩⟩
    · exact ⟨rfl, Or.inl ⟨h4, r1.ret, r1.data.length, rfl⟩⟩
    · exact ⟨rfl, Or.inl ⟨h4, r1.ret, r1.data.length, rfl⟩⟩
    · obtain ⟨f1, f2, _⟩ := read_packet_body_frame E (after_header s (4 - s.header_read_len) r1)
      obtain ⟨d, hd⟩ := read_packet_body_buf E (after_header s (4 - s.header_read_len) r1)
      have hpl : (_read_packet_body E (after_header s (4 - s.header_read_len) r1)).2.packet_len
          = (after_header s (4 - s.header_read_len) r1).packet_len := by
        rw [read_packet_body_eq]
        simp only
        split_ifs <;> rfl
      refine ⟨f1, Or.inr (Or.inl ⟨h4, hpl, ⟨d, hd.symm⟩, not_lt.mp c3, r1.ret, r1.data.length,
        (E.real_read (after_header s (4 - s.header_read_len) r1).clock
          ((after_header s (4 - s.header_read_len) r1).packet_len
            - (after_header s (4 - s.header_read_len) r1).packet_read_len)).ret,
        (E.real_read (after_header s (4 - s.header_read_len) r1).clock
          ((after_header s (4 - s.header_read_len) r1).packet_len
            - (after_header s (4 - s.header_read_len) r1).packet_read_len)).data.length, ?_⟩)⟩
      rw [f2, hpl]
      show (s.log ++ [_]) ++ [_] = _
      rw [List.append_assoc]
      rfl

/-- The header bytes of a buffer that holds the first bytes of a stream which
begins, at position `n0`, with a given packet. -/
theorem hdr_len_stream (b B0 body rest : Bytes) (l0 l1 l2 seq n0 : Nat)
    (hB0 : B0.length = n0) (hl0 : l0 < 256) (hl1 : l1 < 256) (hlen : n0 + 4 ≤ b.length)
    (hstream : b <+: B0 ++ (l0 :: l1 :: l2 :: seq :: body) ++ rest) :
    hdr_len b n0 = le24 l0 l1 l2 ∧ b.getD (n0 + 3) 0 = seq := by
  have g : ∀ i, i < 4 → b.getD (n0 + i) 0 = (l0 :: l1 :: l2 :: seq :: body).getD i 0 := by
    intro i hi
    rw [← getD_of_initial _ _ hstream (n0 + i) (by omega), List.append_assoc,
      List.getD_append_right _ _ _ _ (by omega), List.getD_append _ _ _ _ (by simp; omega)]
    congr 1
    omega
  have e0 := g 0 (by omega)
  have e1 := g 1 (by omega)
  have e2 := g 2 (by omega)
  have e3 := g 3 (by omega)
  simp only [Nat.add_zero, List.getD_cons_zero, List.getD_cons_succ] at e0 e1 e2 e3
  exact ⟨by rw [hdr_len, e0, e1, e2, le24_or l0 l1 l2 hl0 hl1], e3⟩

theorem prefix_length_le (p q : Bytes) (h : p <+: q) : p.length ≤ q.length := by
  obtain ⟨t, rfl⟩ := h
  simp

theorem prefix_chain (p q r : Bytes) (h1 : p <+: q) (h2 : q <+: r) : p <+: r := by
  obtain ⟨t, rfl⟩ := h1
  obtain ⟨u, rfl⟩ := h2
  exact ⟨t ++ u, by simp⟩

/-- A call in the middle of a packet reports would-block as long as the bytes
received are fewer than the packet holds, when the socket reports no error and the
declared length is within `PACKET_LEN_MAX`. -/
theorem wait_of_incomplete (E : Env) (hB : ReadBounded E) (hW : ShortOnWait E)
    (hN : NoReadError E) (s : Sock) (B0 body rest : Bytes) (l0 l1 l2 seq : Nat)
    (hl0 : l0 < 256) (hl1 : l1 < 256)
    (hmax : ((le24 l0 l1 l2 : Nat) : Int) ≤ E.PACKET_LEN_MAX)
    (hp : InHeader B0.length s ∨ InBody E B0.length s)
    (hstream : (_read_packet E s).2.self_buf <+: B0 ++ (l0 :: l1 :: l2 :: seq :: body) ++ rest)
    (hpart : (_read_packet E s).2.self_buf.length < B0.length + 4 + le24 l0 l1 l2) :
    (_read_packet E s).1 = Ret.RET_WAIT_FOR_EVENT := by
  have hstep := read_packet_step E hB hW B0.length s hp
  have nosucc : (_read_packet E s).1 ≠ Ret.RET_SUCCESS := by
    intro hs
    obtain ⟨_, _, c3, _, c5, _, _⟩ := hstep.2 hs
    have hl : B0.length + 4 ≤ (_read_packet E s).2.self_buf.length := by
      have : (0 : Int) ≤ (_read_packet E s).2.packet_len := by
        rw [c5]; exact Int.natCast_nonneg _
      omega
    have := (hdr_len_stream _ B0 body rest l0 l1 l2 seq _ rfl hl0 hl1 hl hstream).1
    rw [this] at c5
    omega
  have bodycase : ∀ t : Sock, (_read_packet_body E t).1 ≠ Ret.RET_SUCCESS →
      (_read_packet_body E t).1 = Ret.RET_WAIT_FOR_EVENT := by
    intro t
    have hn := hN t.clock (t.packet_len - t.packet_read_len)
    rw [read_packet_body_eq]
    simp only
    split_ifs with c1 c2 c3
    · intro _; rfl
    · rcases hn with hn | hn
      · exact absurd hn c2
      · exact absurd hn c1
    · intro _; rfl
    · intro hc; exact absurd rfl hc
  by_cases h4 : s.header_read_len = 4
  · rw [read_packet_body_phase_eq E s h4] at nosucc ⊢
    exact bodycase s nosucc
  · have hin : InHeader B0.length s := by
      rcases hp with hp | hp
      · exact hp
      · exact absurd hp.1 h4
    obtain ⟨i1, i2, i3, i4⟩ := hin
    have hb := hB s.clock (4 - s.header_read_len)
    have hn := hN s.clock (4 - s.header_read_len)
    revert nosucc hstream hpart
    rw [read_packet_header_eq E s h4]
    simp only
    split_ifs with c1 c2 c3 c4
    · intro _ _ _; rfl
    · rcases hn with hn | hn
      · exact absurd hn c2
      · exact absurd hn c1
    · intro _ _ _; rfl
    · intro hst _ _
      exfalso
      have hl : (s.self_buf ++ (E.real_read s.clock (4 - s.header_read_len)).data).length
          = B0.length + 4 := by
        simp; omega
      obtain ⟨_, f2, _, f4, _, _⟩ := after_header_fields s (4 - s.header_read_len)
        (E.real_read s.clock (4 - s.header_read_len)) B0.length hl
      have := (hdr_len_stream _ B0 body rest l0 l1 l2 seq _ rfl hl0 hl1
        (by rw [f4, hl]) hst).1
      rw [f4] at this
      rw [f2, this] at c4
      omega
    · intro _ _ ns
      exact bodycase _ ns

theorem query_read_not_success (E : Env) (client : Sock)
    (h : (_read_packet E (query_read_entry client)).1 ≠ Ret.RET_SUCCESS) :
    _query_read E (emit client Event.query_read) = _read_packet E (query_read_entry client) := by
  have e : emit { emit client Event.query_read with
      query_ctx := new_query_context (emit client Event.query_read).current_db }
      Event.new_query_ctx = query_read_entry client := rfl
  simp only [_query_read, e]
  generalize _read_packet E (query_read_entry client) = p at h ⊢
  obtain ⟨ret, s1⟩ := p
  simp only at h ⊢
  by_cases hw : ret = Ret.RET_WAIT_FOR_EVENT
  · simp [hw]
  · simp [hw, h]

theorem wants_of_append (a b : List Event) : wants_of (a ++ b) = wants_of a ++ wants_of b := by
  induction a with
  | nil => rfl
  | cons e a ih => cases e <;> simp [wants_of, ih]

/-- A call in the middle of a packet that does not fail reports would-block as
long as the bytes received are fewer than the packet holds. -/
theorem wait_of_live_incomplete (E : Env) (hB : ReadBounded E) (hW : ShortOnWait E)
    (s : Sock) (B0 body rest : Bytes) (l0 l1 l2 seq : Nat)
    (hl0 : l0 < 256) (hl1 : l1 < 256)
    (hp : InHeader B0.length s ∨ InBody E B0.length s)
    (hlive : (_read_packet E s).1 = Ret.RET_SUCCESS
      ∨ (_read_packet E s).1 = Ret.RET_WAIT_FOR_EVENT)
    (hstream : (_read_packet E s).2.self_buf <+: B0 ++ (l0 :: l1 :: l2 :: seq :: body) ++ rest)
    (hpart : (_read_packet E s).2.self_buf.length < B0.length + 4 + le24 l0 l1 l2) :
    (_read_packet E s).1 = Ret.RET_WAIT_FOR_EVENT := by
  have hstep := read_packet_step E hB hW B0.length s hp
  rcases hlive with hs | hw
  · exfalso
    obtain ⟨_, _, c3, _, c5, _, _⟩ := hstep.2 hs
    have hl : B0.length + 4 ≤ (_read_packet E s).2.self_buf.length := by
      have : (0 : Int) ≤ (_read_packet E s).2.packet_len := by
        rw [c5]; exact Int.natCast_nonneg _
      omega
    have := (hdr_len_stream _ B0 body rest l0 l1 l2 seq _ rfl hl0 hl1 hl hstream).1
    rw [this] at c5
    omega
  · exact hw

/-- C6, as stated, fails when a read that reports would-block has appended all the
bytes requested: in `wait_env` the first call of `_read_packet` returns
`RET_WAIT_FOR_EVENT` with the four header bytes of the packet `2 0 0 7`, `10 11`
received, and the next call, made when four of the six bytes of the packet have
arrived, asks for 0 bytes, not for the 2 that are missing, and returns
`RET_SUCCESS`, not `RET_WAIT_FOR_EVENT`. -/
theorem C6_stale_length_after_would_block :
    ReadBounded wait_env
    ∧ read_ret wait_env 0 sample_sock = Ret.RET_WAIT_FOR_EVENT
    ∧ (read_calls wait_env 1 sample_sock).header_read_len = 4
    ∧ (read_calls wait_env 1 sample_sock).packet_read_len = 0
    ∧ wants_of ((read_calls wait_env 2 sample_sock).log.drop
        (read_calls wait_env 1 sample_sock).log.length) = [0]
    ∧ (read_calls wait_env 2 sample_sock).self_buf = [2, 0, 0, 7]
    ∧ read_ret wait_env 1 sample_sock = Ret.RET_SUCCESS :=
  ⟨fun k want => by simp only [wait_env, List.length_take]; omega,
    by decide, by decide, by decide, by decide, by decide, by decide⟩

/-- C6, amended: a packet `l0 l1 l2 seq body` arrives in several chunks at a packet
boundary, over a socket that never appends more than requested and is short
whenever it reports would-block. As long as no call has failed and fewer than
`4 + L` bytes have been received after call `n`, that call returns
`RET_WAIT_FOR_EVENT`, `header_read_len` and `packet_read_len` are the numbers of
header and body bytes received so far, and the reads of the next call ask for
`4 - header_read_len` and then for `L - packet_read_len`. In state
`STATE_SEND_AUTH_RESULT`, when the read reports would-block, `run_machine` returns
with the state still `STATE_SEND_AUTH_RESULT`, the cursors as the read left them,
`EPOLLIN` re-armed as its last action, and neither a state assignment nor a
dispatch. -/
theorem C6_partial_reads_resume (E : Env) (hB : ReadBounded E) (hW : ShortOnWait E)
    (s0 : Sock)
    (h0 : s0.header_read_len = 0) (h1 : s0.packet_read_len = 0)
    (l0 l1 l2 seq : Nat) (body : Bytes) (hl0 : l0 < 256) (hl1 : l1 < 256) (n : Nat)
    (hlive : ∀ k, k ≤ n → (read_ret E k s0 = Ret.RET_SUCCESS
      ∨ read_ret E k s0 = Ret.RET_WAIT_FOR_EVENT))
    (hstream : (read_calls E (n + 2) s0).self_buf
      <+: s0.self_buf ++ (l0 :: l1 :: l2 :: seq :: body))
    (hpart : (read_calls E (n + 1) s0).self_buf.length
      < s0.self_buf.length + 4 + le24 l0 l1 l2) :
    read_ret E n s0 = Ret.RET_WAIT_FOR_EVENT
    ∧ (read_calls E (n + 1) s0).header_read_len
        = min 4 (((read_calls E (n + 1) s0).self_buf.length : Int) - s0.self_buf.length)
    ∧ (read_calls E (n + 1) s0).packet_read_len
        = ((read_calls E (n + 1) s0).self_buf.length : Int) - s0.self_buf.length
          - min 4 (((read_calls E (n + 1) s0).self_buf.length : Int) - s0.self_buf.length)
    ∧ (wants_of ((read_calls E (n + 2) s0).log.drop (read_calls E (n + 1) s0).log.length)
          = [4 - (read_calls E (n + 1) s0).header_read_len]
        ∨ wants_of ((read_calls E (n + 2) s0).log.drop (read_calls E (n + 1) s0).log.length)
          = [4 - (read_calls E (n + 1) s0).header_read_len,
              ((le24 l0 l1 l2 : Nat) : Int) - (read_calls E (n + 1) s0).packet_read_len]
        ∨ ((read_calls E (n + 1) s0).header_read_len = 4
          ∧ wants_of ((read_calls E (n + 2) s0).log.drop (read_calls E (n + 1) s0).log.length)
            = [((le24 l0 l1 l2 : Nat) : Int) - (read_calls E (n + 1) s0).packet_read_len]))
    ∧ (∀ (fuel : Nat) (client : Sock), client.state = State.STATE_SEND_AUTH_RESULT →
        (_read_packet E (query_read_entry client)).1 = Ret.RET_WAIT_FOR_EVENT →
        ∃ c, run_machine E (fuel + 1) client false = some c
          ∧ c.state = State.STATE_SEND_AUTH_RESULT
          ∧ c.header_read_len = (_read_packet E (query_read_entry client)).2.header_read_len
          ∧ c.packet_read_len = (_read_packet E (query_read_entry client)).2.packet_read_len
          ∧ c.self_buf = (_read_packet E (query_read_entry client)).2.self_buf
          ∧ c.log.getLast? = some (Event.poll_events_mod EpollEv.EPOLLIN)
          ∧ (∀ e, e ∈ c.log.drop client.log.length →
              e ≠ Event.query_process ∧ ∀ st, e ≠ Event.set_state st)) := by
  have hstream' : ∀ m, m ≤ n + 2 → (read_calls E m s0).self_buf
      <+: s0.self_buf ++ (l0 :: l1 :: l2 :: seq :: body) ++ [] := by
    intro m hm
    have := read_calls_buf E s0 m (n + 2 - m)
    rw [show m + (n + 2 - m) = n + 2 by omega] at this
    rw [List.append_nil]
    exact prefix_chain _ _ _ this hstream
  have hpart' : ∀ m, m ≤ n + 1 → (read_calls E m s0).self_buf.length
      < s0.self_buf.length + 4 + le24 l0 l1 l2 := by
    intro m hm
    have := read_calls_buf E s0 m (n + 1 - m)
    rw [show m + (n + 1 - m) = n + 1 by omega] at this
    exact lt_of_le_of_lt (prefix_length_le _ _ this) hpart
  have run : ∀ m, m ≤ n + 1 → (InHeader s0.self_buf.length (read_calls E m s0)
      ∨ InBody E s0.self_buf.length (read_calls E m s0))
      ∧ (∀ k, k < m → read_ret E k s0 = Ret.RET_WAIT_FOR_EVENT) := by
    intro m
    induction m with
    | zero =>
      intro _
      exact ⟨run_midpacket E hB hW s0 h0 h1 0 (fun k hk => absurd hk (Nat.not_lt_zero k)),
        fun k hk => absurd hk (Nat.not_lt_zero k)⟩
    | succ m ih =>
      intro hm
      obtain ⟨ip, iw⟩ := ih (by omega)
      have hw : read_ret E m s0 = Ret.RET_WAIT_FOR_EVENT :=
        wait_of_live_incomplete E hB hW _ s0.self_buf body [] l0 l1 l2 seq hl0 hl1 ip
          (hlive m (by omega)) (hstream' (m + 1) (by omega)) (hpart' (m + 1) hm)
      refine ⟨(read_packet_step E hB hW _ _ ip).1 hw, fun k hk => ?_⟩
      rcases Nat.lt_succ_iff_lt_or_eq.mp hk with hk | hk
      · exact iw k hk
      · rw [hk]; exact hw
  obtain ⟨hp, hw⟩ := run (n + 1) (le_refl _)
  refine ⟨hw n (Nat.lt_succ_self n), ?_, ?_, ?_, ?_⟩
  · rcases hp with ⟨a1, a2, a3, a4⟩ | ⟨b1, b2, b3, _⟩
    · rw [a4]; omega
    · rw [b2, b1]; omega
  · rcases hp with ⟨a1, a2, a3, a4⟩ | ⟨b1, b2, b3, _⟩
    · rw [a4, a3]; omega
    · rw [b2]; omega
  · have hnext : read_calls E (n + 2) s0 = (_read_packet E (read_calls E (n + 1) s0)).2 := rfl
    obtain ⟨_, hl⟩ := read_packet_log E (read_calls E (n + 1) s0)
    rw [hnext]
    rcases hl with ⟨_, r, g, hl⟩ | ⟨h4, hpl, hpre, hfull, r, g, r', g', hl⟩ | ⟨h4, r, g, hl⟩
    · left
      rw [hl, List.drop_left]
      rfl
    · right; left
      rw [hl, List.drop_left]
      have hin : InHeader s0.self_buf.length (read_calls E (n + 1) s0) := by
        rcases hp with hp | hp
        · exact hp
        · exact absurd hp.1 h4
      obtain ⟨i1, i2, i3, i4⟩ := hin
      have hb := hB (read_calls E (n + 1) s0).clock (4 - (read_calls E (n + 1) s0).header_read_len)
      have hlen : ((read_calls E (n + 1) s0).self_buf
          ++ (E.real_read (read_calls E (n + 1) s0).clock
            (4 - (read_calls E (n + 1) s0).header_read_len)).data).length
          = s0.self_buf.length + 4 := by
        simp; omega
      obtain ⟨_, f2, _, f4, _, _⟩ := after_header_fields (read_calls E (n + 1) s0)
        (4 - (read_calls E (n + 1) s0).header_read_len)
        (E.real_read (read_calls E (n + 1) s0).clock
          (4 - (read_calls E (n + 1) s0).header_read_len)) s0.self_buf.length hlen
      have hs2 := hstream' (n + 2) (le_refl _)
      rw [hnext] at hs2
      have := (hdr_len_stream _ s0.self_buf body [] l0 l1 l2 seq _ rfl hl0 hl1
        (by rw [f4, hlen]) (prefix_chain _ _ _ hpre hs2)).1
      rw [f4] at this
      rw [hpl, f2, this]
      rfl
    · right; right
      refine ⟨h4, ?_⟩
      rw [hl, List.drop_left]
      have hin : InBody E s0.self_buf.length (read_calls E (n + 1) s0) := by
        rcases hp with hp | hp
        · exact absurd h4 (ne_of_lt hp.2.1)
        · exact hp
      obtain ⟨_, b2, b3, _, _, b6, _, _⟩ := hin
      have := (hdr_len_stream _ s0.self_buf body [] l0 l1 l2 seq _ rfl hl0 hl1
        (by omega) (hstream' (n + 1) (by omega))).1
      rw [b6, this]
      rfl
  · intro fuel client hst hwait
    have hq := query_read_not_success E client (by rw [hwait]; decide)
    obtain ⟨fs, hl⟩ := read_packet_log E (query_read_entry client)
    refine ⟨poll_events_mod (_read_packet E (query_read_entry client)).2 EpollEv.EPOLLIN,
      ?_, ?_, rfl, rfl, rfl, ?_, ?_⟩
    · simp [run_machine, hst, case_send_auth_result, hq, hwait]
    · show (_read_packet E (query_read_entry client)).2.state = _
      rw [fs]
      exact hst
    · simp [poll_events_mod, emit]
    · have hlog : ∃ evs, (_read_packet E (query_read_entry client)).2.log
          = client.log ++ ([Event.query_read, Event.new_query_ctx] ++ evs)
          ∧ ∀ e, e ∈ evs → ∃ w r g, e = Event.real_read w r g := by
        have e0 : (query_read_entry client).log
            = client.log ++ [Event.query_read, Event.new_query_ctx] := by
          simp [query_read_entry, emit]
        rcases hl with ⟨_, r, g, hl⟩ | ⟨_, _, _, _, r, g, r', g', hl⟩ | ⟨_, r, g, hl⟩
        · refine ⟨_, by rw [hl, e0, List.append_assoc], ?_⟩
          intro e he
          simp only [List.mem_singleton] at he
          exact ⟨_, _, _, he⟩
        · refine ⟨_, by rw [hl, e0, List.append_assoc], ?_⟩
          intro e he
          simp only [List.mem_cons, List.mem_singleton, List.not_mem_nil, or_false] at he
          rcases he with he | he
          · exact ⟨_, _, _, he⟩
          · exact ⟨_, _, _, he⟩
        · refine ⟨_, by rw [hl, e0, List.append_assoc], ?_⟩
          intro e he
          simp only [List.mem_singleton] at he
          exact ⟨_, _, _, he⟩
      obtain ⟨evs, hlog, hev⟩ := hlog
      intro e he
      have : (poll_events_mod (_read_packet E (query_read_entry client)).2 EpollEv.EPOLLIN).log
          = client.log ++ ([Event.query_read, Event.new_query_ctx] ++ evs
            ++ [Event.poll_events_mod EpollEv.EPOLLIN]) := by
        simp [poll_events_mod, emit, hlog]
      rw [this, List.drop_left] at he
      simp only [List.mem_append, List.mem_cons, List.mem_singleton, List.not_mem_nil,
        or_false] at he
      rcases he with ((he | he) | he) | he
      · rw [he]; exact ⟨by simp, by simp⟩
      · rw [he]; exact ⟨by simp, by simp⟩
      · obtain ⟨w, r, g, hwrg⟩ := hev e he
        rw [hwrg]; exact ⟨by simp, by simp⟩
      · rw [he]; exact ⟨by simp, by simp⟩

theorem C6_partial_reads_resume_witness :
    read_ret (sample_env sample_chunks []) 0 sample_logged_in = Ret.RET_WAIT_FOR_EVENT
    ∧ read_ret (sample_env sample_chunks []) 1 sample_logged_in = Ret.RET_WAIT_FOR_EVENT
    ∧ (read_calls (sample_env sample_chunks []) 2 sample_logged_in).header_read_len = 4
    ∧ (read_calls (sample_env sample_chunks []) 2 sample_logged_in).packet_read_len = 0
    ∧ wants_of ((read_calls (sample_env sample_chunks []) 3 sample_logged_in).log.drop
        (read_calls (sample_env sample_chunks []) 2 sample_logged_in).log.length) = [96]
    ∧ read_ret (sample_env sample_chunks []) 2 sample_logged_in = Ret.RET_SUCCESS
    ∧ ∃ c, run_machine (sample_env sample_chunks []) 1 sample_logged_in false = some c
        ∧ c.state = State.STATE_SEND_AUTH_RESULT ∧ c.header_read_len = 3
        ∧ c.log.getLast? = some (Event.poll_events_mod EpollEv.EPOLLIN) := by
  have h := C6_partial_reads_resume (sample_env sample_chunks [])
    (sample_env_bounded _ _) (sample_env_short _ _)
    sample_logged_in rfl rfl 96 0 0 0 sample_body (by decide) (by decide) 1 (by decide)
    ⟨[], by decide⟩ (by decide)
  obtain ⟨c, hc, hs, hh, _, _, hlast, _⟩ := h.2.2.2.2 0 sample_logged_in rfl (by decide)
  refine ⟨by decide, h.1, by decide, by decide, by decide, by decide, c, hc, hs, ?_, hlast⟩
  rw [hh]
  decide

theorem auth_read_not_success (E : Env) (s : Sock)
    (h : (_read_packet E s).1 ≠ Ret.RET_SUCCESS) : _auth_read E s = _read_packet E s := by
  simp only [_auth_read]
  generalize _read_packet E s = p at h ⊢
  obtain ⟨ret, s1⟩ := p
  simp only at h ⊢
  simp [h]

/-- C7: when the read that completes a packet header leaves the header bytes
`l0 l1 l2 seq` at the end of `self_buf` and the declared length
`l0 + 256*l1 + 65536*l2` exceeds `PACKET_LEN_MAX`, `_read_packet` returns
`RET_ERROR` having issued the header read only (no body read, no byte appended
after the header), and `run_machine`, in either state that reads packets, assigns
`STATE_ERROR` and runs the `STATE_ERROR` case (flush and teardown) on it; in
`STATE_SEND_AUTH_RESULT` it first packs `ER_ERROR_ON_READ` with the message that
holds `errno` and its text. -/
theorem C7_oversized_packet_rejected (E : Env) (s : Sock) (pre : Bytes)
    (l0 l1 l2 seq : Nat) (hl0 : l0 < 256) (hl1 : l1 < 256)
    (hh : s.header_read_len ≠ 4)
    (hret : (E.real_read s.clock (4 - s.header_read_len)).ret = Ret.RET_SUCCESS)
    (hfull : 4 ≤ s.header_read_len
      + ((E.real_read s.clock (4 - s.header_read_len)).data.length : Int))
    (hbuf : s.self_buf ++ (E.real_read s.clock (4 - s.header_read_len)).data
      = pre ++ [l0, l1, l2, seq])
    (hbig : E.PACKET_LEN_MAX < ((le24 l0 l1 l2 : Nat) : Int)) :
    (_read_packet E s).1 = Ret.RET_ERROR
    ∧ (_read_packet E s).2.self_buf = pre ++ [l0, l1, l2, seq]
    ∧ (_read_packet E s).2.packet_len = ((le24 l0 l1 l2 : Nat) : Int)
    ∧ (_read_packet E s).2.log = s.log ++ [Event.real_read (4 - s.header_read_len)
        Ret.RET_SUCCESS (E.real_read s.clock (4 - s.header_read_len)).data.length]
    ∧ (∀ fuel : Nat, s.state = State.STATE_SEND_HANDSHAKE →
        run_machine E (fuel + 2) s false
          = some (case_error E (set_state (_read_packet E s).2 State.STATE_ERROR)))
    ∧ (∀ (fuel : Nat) (client : Sock), client.state = State.STATE_SEND_AUTH_RESULT →
        query_read_entry client = s →
        run_machine E (fuel + 2) client false
          = some (case_error E (set_state
              (make_err_packet E (_read_packet E s).2 ErrCode.ER_ERROR_ON_READ
                (read_error_msg E (_read_packet E s).2))
              State.STATE_ERROR))) := by
  have hlen : (s.self_buf ++ (E.real_read s.clock (4 - s.header_read_len)).data).length
      = pre.length + 4 := by
    rw [hbuf]; simp
  obtain ⟨_, f2, _, f4, _, _⟩ := after_header_fields s (4 - s.header_read_len)
    (E.real_read s.clock (4 - s.header_read_len)) pre.length hlen
  have hL := (hdr_len_stream (s.self_buf ++ (E.real_read s.clock (4 - s.header_read_len)).data)
    pre [] [] l0 l1 l2 seq pre.length rfl hl0 hl1 (by rw [hlen])
    (by rw [hbuf]; exact ⟨[], by simp⟩)).1
  have hpl : (after_header s (4 - s.header_read_len)
      (E.real_read s.clock (4 - s.header_read_len))).packet_len = ((le24 l0 l1 l2 : Nat) : Int) := by
    rw [f2, hL]
  have hrp : _read_packet E s = (Ret.RET_ERROR, after_header s (4 - s.header_read_len)
      (E.real_read s.clock (4 - s.header_read_len))) := by
    rw [read_packet_header_eq E s hh]
    simp only
    rw [if_neg (by rw [hret]; decide), if_neg (by rw [hret]; simp), if_neg (not_lt.mpr hfull),
      if_pos (by rw [hpl]; exact hbig)]
  have hst : (_read_packet E s).2.state = s.state := (read_packet_log E s).1
  have h1 : (_read_packet E s).1 = Ret.RET_ERROR := by rw [hrp]
  have hne : (_read_packet E s).1 ≠ Ret.RET_SUCCESS := by rw [h1]; exact Ret.noConfusion
  refine ⟨h1, ?_, ?_, ?_, ?_, ?_⟩
  · rw [hrp]; exact f4.trans hbuf
  · rw [hrp]; exact hpl
  · rw [hrp]
    show s.log ++ [Event.real_read (4 - s.header_read_len)
      (E.real_read s.clock (4 - s.header_read_len)).ret _] = _
    rw [hret]
  · intro fuel hs
    have ha := auth_read_not_success E s hne
    simp [run_machine, hs, case_send_handshake, ha, h1, set_state, case_error]
  · intro fuel client hs hq
    subst hq
    have hqr := query_read_not_success E client hne
    simp [run_machine, hs, case_send_auth_result, hqr, h1, set_state, case_error,
      make_err_packet]

theorem C7_oversized_packet_rejected_witness :
    (_read_packet sample_small_env sample_login).1 = Ret.RET_ERROR
    ∧ (_read_packet sample_small_env sample_login).2.self_buf = [0, 0, 1, 0]
    ∧ (_read_packet sample_small_env sample_login).2.packet_len = 65536
    ∧ (_read_packet sample_small_env sample_login).2.log
        = [Event.real_read 4 Ret.RET_SUCCESS 4]
    ∧ (run_machine sample_small_env 2 sample_login false).map (fun c => c.state)
        = some State.STATE_ERROR
    ∧ (run_machine sample_small_env 2 sample_logged_in false).map
        (fun c => (c.state, c.log.drop 4))
      = some (State.STATE_ERROR,
          [Event.set_state State.STATE_ERROR, Event.real_write Ret.RET_SUCCESS,
            Event.connection_dec, Event.new_query_ctx, Event.delete_fd_mapping,
            Event.poll_events_delete, Event.socket_pool_free])
    ∧ read_error_msg sample_small_env sample_logged_in
      = "read query from client error, errno: 104-Connection reset by peer".toList := by
  have h := C7_oversized_packet_rejected sample_small_env sample_login [] 0 0 1 0
    (by decide) (by decide) (by decide) (by decide) (by decide) (by decide) (by decide)
  refine ⟨h.1, h.2.1, h.2.2.1, h.2.2.2.1, ?_, by decide, by decide⟩
  rw [h.2.2.2.2.1 0 rfl]
  decide

/-- Once the packet is read, the charset byte and the user name are decoded and the
user is found with a non-empty name, `_auth_read` is the password check. -/
theorem auth_read_eq_password (E : Env) (s : Sock) (c off1 off2 : Nat) (name : Str)
    (u : UserInfo)
    (hread : (_read_packet E s).1 = Ret.RET_SUCCESS)
    (hchar : E.protocol_get_char (login_packet E s) 12 = some (c, off1))
    (hname : E.protocol_get_string (login_packet E s) ((_read_packet E s).2.packet_len + 4)
      ((off1 + 23) % U32) = some (name, off2))
    (huser : E.get_user_info name = some u) (hne : u.username ≠ []) :
    _auth_read E s = _auth_read_password E (at_password E s c name u) (with_defaults E u)
      (login_packet E s) off2 := by
  simp only [login_packet, at_password, with_defaults] at hchar hname ⊢
  simp only [_auth_read]
  generalize _read_packet E s = p at hread hchar hname ⊢
  obtain ⟨ret, s1⟩ := p
  simp only at hread hchar hname ⊢
  subst hread
  have e12 : (PACKET_HEADER_LEN + 8).toNat = 12 := by decide
  simp only [e12, hchar, ne_eq, not_true_eq_false, if_false]
  have hpl : ∀ t : Sock, t.packet_len = s1.packet_len →
      E.protocol_get_string (List.drop s1.header_offset.toNat s1.self_buf) (t.packet_len + 4)
        ((off1 + 23) % U32) = some (name, off2) := by
    intro t ht; rw [ht]; exact hname
  by_cases h28 : c = 28
  · simp [h28, hname, emit, huser, hne]
  · by_cases h33 : c = 33
    · simp [h33, hname, emit, huser, hne]
    · simp [h28, h33, hname, emit, huser, hne]

/-- C1: for a login packet that has been read completely and whose user name
resolves to a user `u` with a non-empty name, `_auth_read` returns `RET_SUCCESS`
only if the auth-response length byte is 20 and each of the 20 bytes after it
equals the corresponding byte of `u.scramble_password`; and when the 20 bytes
after the length byte lie inside the packet and one of them differs from the
corresponding byte of the scramble, `_auth_read` returns `RET_AUTH_FAILED`. -/
theorem C1_auth_read_compares_scramble (E : Env) (s : Sock) (c off1 off2 : Nat)
    (name : Str) (u : UserInfo)
    (hread : (_read_packet E s).1 = Ret.RET_SUCCESS)
    (hchar : E.protocol_get_char (login_packet E s) 12 = some (c, off1))
    (hname : E.protocol_get_string (login_packet E s) ((_read_packet E s).2.packet_len + 4)
      ((off1 + 23) % U32) = some (name, off2))
    (huser : E.get_user_info name = some u) (hne : u.username ≠ [])
    (hoff : off2 + 1 < U32) :
    ((_auth_read E s).1 = Ret.RET_SUCCESS →
      (login_packet E s).getD off2 0 = 20
      ∧ ∀ i, i < 20 → (login_packet E s).getD (off2 + 1 + i) 0 = u.scramble_password.getD i 0)
    ∧ (0 ≤ (_read_packet E s).2.packet_len → (_read_packet E s).2.packet_len + 4 < U32 →
        ((off2 + 1 + 20 : Nat) : Int) ≤ (_read_packet E s).2.packet_len + 4 →
        (∃ i, i < 20 ∧ (login_packet E s).getD (off2 + 1 + i) 0
          ≠ u.scramble_password.getD i 0) →
        (_auth_read E s).1 = Ret.RET_AUTH_FAILED) := by
  rw [auth_read_eq_password E s c off1 off2 name u hread hchar hname huser hne]
  have hsp : (with_defaults E u).scramble_password = u.scramble_password := by
    simp only [with_defaults]
    split_ifs <;> rfl
  have hplen : (at_password E s c name u).packet_len = (_read_packet E s).2.packet_len := by
    simp only [at_password, emit]
    split_ifs <;> rfl
  have hmod : (off2 + 1) % U32 = off2 + 1 := Nat.mod_eq_of_lt hoff
  have many : ∀ P : Nat → Prop, [DecidablePred P] →
      ((List.range 20).any (fun idx => decide (P idx)) = true ↔ ∃ i, i < 20 ∧ P i) := by
    intro P _
    simp [List.any_eq_true]
  constructor
  · intro hs
    simp only [_auth_read_password, hmod, hsp] at hs
    by_cases h3 : (login_packet E s).getD off2 0 = 20
    · refine ⟨h3, ?_⟩
      intro i hi
      by_contra hne'
      have hany := (many (fun idx => (login_packet E s).getD (off2 + 1 + idx) 0
        ≠ u.scramble_password.getD idx 0)).2 ⟨i, hi, hne'⟩
      rw [hany] at hs
      simp only [h3] at hs
      split_ifs at hs
    · exfalso
      split_ifs at hs
  · intro hnn hlt hin hex
    simp only [_auth_read_password, hmod, hsp, hplen, PACKET_HEADER_LEN]
    have hU : (U32 : Int) = 4294967296 := by decide
    have hU' : U32 = 4294967296 := rfl
    have hnat : (((_read_packet E s).2.packet_len + 4) % (U32 : Int)).toNat
        = ((_read_packet E s).2.packet_len + 4).toNat := by
      rw [Int.emod_eq_of_lt (by omega) hlt]
    have h20 : (20 + (off2 + 1)) % U32 = 20 + (off2 + 1) := by
      apply Nat.mod_eq_of_lt
      omega
    rw [hnat, h20]
    rw [if_neg (by omega)]
    split_ifs with h2 h3 h4 h5
    · rfl
    · exfalso; omega
    · rfl
    · exact absurd ((many _).2 hex) h5
    · rfl

theorem C1_auth_read_compares_scramble_witness :
    (_auth_read (sample_env (sample_login_chunks "bob".toList good_auth) [sample_user 0])
      sample_login).1 = Ret.RET_SUCCESS
    ∧ (login_packet (sample_env (sample_login_chunks "bob".toList good_auth) [sample_user 0])
        sample_login).getD 40 0 = 20
    ∧ (∀ i, i < 20 →
        (login_packet (sample_env (sample_login_chunks "bob".toList good_auth) [sample_user 0])
          sample_login).getD (40 + 1 + i) 0 = (sample_user 0).scramble_password.getD i 0)
    ∧ (_auth_read (sample_env (sample_login_chunks "bob".toList bad_auth) [sample_user 0])
      sample_login).1 = Ret.RET_AUTH_FAILED := by
  have h := C1_auth_read_compares_scramble
    (sample_env (sample_login_chunks "bob".toList good_auth) [sample_user 0]) sample_login
    33 13 40 "bob".toList (sample_user 0) (by decide) (by decide) (by decide) (by decide)
    (by decide) (by decide)
  have h' := C1_auth_read_compares_scramble
    (sample_env (sample_login_chunks "bob".toList bad_auth) [sample_user 0]) sample_login
    33 13 40 "bob".toList (sample_user 0) (by decide) (by decide) (by decide) (by decide)
    (by decide) (by decide)
  have hs := h.1 (by decide)
  exact ⟨by decide, hs.1, hs.2, h'.2 (by decide) (by decide) (by decide) ⟨19, by decide, by decide⟩⟩

/-- C2: for every found user and every packet in which the auth-response length
byte is present (it lies inside the `packet_len + 4` bytes of the packet), a
length byte other than 20, zero included, makes `_auth_read` return
`RET_AUTH_FAILED`, whatever bytes follow it. -/
theorem C2_auth_read_rejects_other_lengths (E : Env) (s : Sock) (c off1 off2 : Nat)
    (name : Str) (u : UserInfo)
    (hread : (_read_packet E s).1 = Ret.RET_SUCCESS)
    (hchar : E.protocol_get_char (login_packet E s) 12 = some (c, off1))
    (hname : E.protocol_get_string (login_packet E s) ((_read_packet E s).2.packet_len + 4)
      ((off1 + 23) % U32) = some (name, off2))
    (huser : E.get_user_info name = some u)
    (hnn : 0 ≤ (_read_packet E s).2.packet_len)
    (hlt : (_read_packet E s).2.packet_len + 4 < U32)
    (hpresent : ((off2 + 1 : Nat) : Int) ≤ (_read_packet E s).2.packet_len + 4)
    (hlen : (login_packet E s).getD off2 0 ≠ 20) :
    (_auth_read E s).1 = Ret.RET_AUTH_FAILED := by
  by_cases hne : u.username = []
  · simp only [login_packet] at hchar hname
    simp only [_auth_read]
    generalize _read_packet E s = p at hread hchar hname
    obtain ⟨ret, s1⟩ := p
    simp only at hread hchar hname ⊢
    subst hread
    have e12 : (PACKET_HEADER_LEN + 8).toNat = 12 := by decide
    simp only [e12, hchar, ne_eq, not_true_eq_false, if_false]
    by_cases h28 : c = 28
    · simp [h28, hname, emit, huser, hne]
    · by_cases h33 : c = 33
      · simp [h33, hname, emit, huser, hne]
      · simp [h28, h33, hname, emit, huser, hne]
  · rw [auth_read_eq_password E s c off1 off2 name u hread hchar hname huser hne]
    have hplen : (at_password E s c name u).packet_len = (_read_packet E s).2.packet_len := by
      simp only [at_password, emit]
      split_ifs <;> rfl
    have hU : (U32 : Int) = 4294967296 := by decide
    have hU' : U32 = 4294967296 := rfl
    have hmod : (off2 + 1) % U32 = off2 + 1 := by
      apply Nat.mod_eq_of_lt
      omega
    have hnat : (((_read_packet E s).2.packet_len + 4) % (U32 : Int)).toNat
        = ((_read_packet E s).2.packet_len + 4).toNat := by
      rw [Int.emod_eq_of_lt (by omega) hlt]
    simp only [_auth_read_password, hmod, hplen, PACKET_HEADER_LEN, hnat]
    rw [if_neg (by omega)]
    by_cases h2 : (login_packet E s).getD off2 0 = 0
    · rw [if_pos h2]
    · rw [if_neg h2, if_neg hlen]

theorem C2_auth_read_rejects_other_lengths_witness :
    (login_packet (sample_env (sample_login_chunks "bob".toList [0]) [sample_user 0])
        sample_login).getD 40 0 = 0
    ∧ (_auth_read (sample_env (sample_login_chunks "bob".toList [0]) [sample_user 0])
        sample_login).1 = Ret.RET_AUTH_FAILED
    ∧ (_auth_read (sample_env (sample_login_chunks "bob".toList [3, 1, 2, 3]) [sample_user 0])
        sample_login).1 = Ret.RET_AUTH_FAILED :=
  ⟨by decide,
   C2_auth_read_rejects_other_lengths
    (sample_env (sample_login_chunks "bob".toList [0]) [sample_user 0]) sample_login
    33 13 40 "bob".toList (sample_user 0) (by decide) (by decide) (by decide) (by decide)
    (by decide) (by decide) (by decide) (by decide),
   by decide⟩

theorem frame_refl (s : Sock) : Frame s s :=
  ⟨rfl, rfl, rfl, rfl, rfl, rfl, rfl, rfl, [], by simp, fun e he => by simp at he⟩

theorem frame_trans (s a b : Sock) (h1 : Frame s a) (h2 : Frame a b) : Frame s b := by
  obtain ⟨a1, a2, a3, a4, a5, a6, a7, a8, ev1, hl1, he1⟩ := h1
  obtain ⟨b1, b2, b3, b4, b5, b6, b7, b8, ev2, hl2, he2⟩ := h2
  refine ⟨b1.trans a1, b2.trans a2, b3.trans a3, b4.trans a4, b5.trans a5, b6.trans a6,
    b7.trans a7, b8.trans a8, ev1 ++ ev2, by rw [hl2, hl1, List.append_assoc], ?_⟩
  intro e he
  rcases List.mem_append.mp he with he | he
  · exact he1 e he
  · exact he2 e he

theorem frame_one_read (s a : Sock) (w : Int) (r : Ret) (g : Nat)
    (h : a.state = s.state ∧ a.is_counted = s.is_counted ∧ a.is_authed = s.is_authed
      ∧ a.txn_id = s.txn_id ∧ a.in_pool = s.in_pool ∧ a.fd = s.fd ∧ a.send_buf = s.send_buf
      ∧ a.ip = s.ip ∧ a.log = s.log ++ [Event.real_read w r g]) : Frame s a := by
  obtain ⟨a1, a2, a3, a4, a5, a6, a7, a8, a9⟩ := h
  refine ⟨a1, a2, a3, a4, a5, a6, a7, a8, _, a9, ?_⟩
  intro e he
  simp only [List.mem_singleton] at he
  exact Or.inl ⟨_, _, _, he⟩

theorem read_packet_body_frame_all (E : Env) (s : Sock) :
    Frame s (_read_packet_body E s).2 := by
  rw [read_packet_body_eq]
  simp only
  split_ifs <;>
    exact frame_one_read _ _ _ _ _ ⟨rfl, rfl, rfl, rfl, rfl, rfl, rfl, rfl, rfl⟩

theorem read_packet_frame (E : Env) (s : Sock) : Frame s (_read_packet E s).2 := by
  by_cases h4 : s.header_read_len = 4
  · rw [read_packet_body_phase_eq E s h4]
    exact read_packet_body_frame_all E s
  · rw [read_packet_header_eq E s h4]
    simp only
    have hah : Frame s (after_header s (4 - s.header_read_len)
        (E.real_read s.clock (4 - s.header_read_len))) :=
      frame_one_read _ _ _ _ _ ⟨rfl, rfl, rfl, rfl, rfl, rfl, rfl, rfl, rfl⟩
    split_ifs
    · exact frame_one_read _ _ _ _ _ ⟨rfl, rfl, rfl, rfl, rfl, rfl, rfl, rfl, rfl⟩
    · exact frame_one_read _ _ _ _ _ ⟨rfl, rfl, rfl, rfl, rfl, rfl, rfl, rfl, rfl⟩
    · exact frame_one_read _ _ _ _ _ ⟨rfl, rfl, rfl, rfl, rfl, rfl, rfl, rfl, rfl⟩
    · exact hah
    · exact frame_trans _ _ _ hah (read_packet_body_frame_all E _)

theorem auth_read_current_db_frame (E : Env) (s : Sock) (u : UserInfo) (packet : Bytes)
    (off : Nat) : Frame s (_auth_read_current_db E s u packet off).2 := by
  simp only [_auth_read_current_db]
  split_ifs
  · split
    · exact frame_refl s
    · exact ⟨rfl, rfl, rfl, rfl, rfl, rfl, rfl, rfl, [], by simp, fun e he => by simp at he⟩
  · exact ⟨rfl, rfl, rfl, rfl, rfl, rfl, rfl, rfl, [], by simp, fun e he => by simp at he⟩

theorem auth_read_password_frame (E : Env) (s : Sock) (u : UserInfo) (packet : Bytes)
    (off : Nat) : Frame s (_auth_read_password E s u packet off).2 := by
  simp only [_auth_read_password]
  split_ifs
  · exact frame_refl s
  · exact frame_refl s
  · exact frame_refl s
  · exact frame_refl s
  · exact auth_read_current_db_frame E s u packet _
  · exact frame_refl s

/-- The login path changes neither the state nor the flags of the connection,
and logs only socket reads and the user lookup. -/
theorem auth_read_frame (E : Env) (s : Sock) : Frame s (_auth_read E s).2 := by
  have hr := read_packet_frame E s
  simp only [_auth_read]
  generalize _read_packet E s = p at hr ⊢
  obtain ⟨ret, s1⟩ := p
  simp only at hr ⊢
  split_ifs with h0
  · exact hr
  · split
    · exact hr
    · rename_i charset_num off _
      have hcs : ∀ t : Sock, Frame s t → ∀ (cn : Str) (k : Nat),
          Frame s { t with charset_name := cn } ∧ Frame s { t with charset_name := cn, charset_num := k } := by
        intro t ht cn k
        exact ⟨frame_trans _ _ _ ht ⟨rfl, rfl, rfl, rfl, rfl, rfl, rfl, rfl, [], by simp,
            fun e he => by simp at he⟩,
          frame_trans _ _ _ ht ⟨rfl, rfl, rfl, rfl, rfl, rfl, rfl, rfl, [], by simp,
            fun e he => by simp at he⟩⟩
      have h2 : Frame s (if charset_num = 28 then { s1 with charset_name := "gbk".toList }
          else if charset_num = 33 then { s1 with charset_name := "utf8".toList }
          else { s1 with charset_name := "gbk".toList, charset_num := 28 }) := by
        split_ifs
        · exact (hcs s1 hr _ 0).1
        · exact (hcs s1 hr _ 0).1
        · exact (hcs s1 hr _ 28).2
      generalize (if charset_num = 28 then ({ s1 with charset_name := "gbk".toList } : Sock)
          else if charset_num = 33 then { s1 with charset_name := "utf8".toList }
          else { s1 with charset_name := "gbk".toList, charset_num := 28 }) = s2 at h2 ⊢
      split
      · exact h2
      · rename_i username off2 _
        have h3 : ∀ ui : Option UserInfo, Frame s
            { emit { s2 with user_info := E.get_user_info username }
                (Event.get_user_info username) with user_info := ui } := by
          intro ui
          refine frame_trans _ _ _ h2 ⟨rfl, rfl, rfl, rfl, rfl, rfl, rfl, rfl,
            [Event.get_user_info username], rfl, ?_⟩
          intro e he
          simp only [List.mem_singleton] at he
          exact Or.inr ⟨_, he⟩
        split
        · exact h3 _
        · rename_i u hu
          by_cases hne : u.username = []
          · rw [if_pos hne]
            exact h3 (E.get_user_info username)
          · rw [if_neg hne]
            exact frame_trans _ _ _ (h3 _) (auth_read_password_frame E _ _ _ _)

/-- The `STATE_ERROR` case on a live connection that is not counted and has no
open transaction: one flush attempt, then the teardown, which neither runs a query
nor calls `connection_dec`. -/
theorem teardown_uncounted (E : Env) (x : Sock) (hpool : x.in_pool = false) (hfd : x.fd ≠ 0)
    (htxn : x.txn_id = 0) (hcnt : x.is_counted = false) :
    (case_error E x).state = x.state ∧ (case_error E x).in_pool = true
    ∧ (case_error E x).is_counted = false ∧ (case_error E x).is_authed = x.is_authed
    ∧ (case_error E x).user_info = x.user_info
    ∧ ∃ tail, (case_error E x).log = x.log ++ tail
      ∧ Event.socket_pool_free ∈ tail
      ∧ ∀ e, e ∈ tail → (∃ r, e = Event.real_write r) ∨ e = Event.new_query_ctx
          ∨ e = Event.delete_fd_mapping ∨ e = Event.poll_events_delete
          ∨ e = Event.socket_pool_free := by
  by_cases hm : x.fd > 0 ∧ x.fd < E.CONFIG_MPL_EPOLL_MAX_SIZE
  · refine ⟨?_, ?_, ?_, ?_, ?_, [Event.real_write (E.real_write x.clock), Event.new_query_ctx,
      Event.delete_fd_mapping, Event.poll_events_delete, Event.socket_pool_free], ?_, ?_, ?_⟩
    all_goals simp [case_error, client_free, _query_result_send, emit, socket_pool_free,
      hpool, hfd, htxn, hcnt, hm]
  · refine ⟨?_, ?_, ?_, ?_, ?_, [Event.real_write (E.real_write x.clock), Event.new_query_ctx,
      Event.poll_events_delete, Event.socket_pool_free], ?_, ?_, ?_⟩
    all_goals simp [case_error, client_free, _query_result_send, emit, socket_pool_free,
      hpool, hfd, htxn, hcnt, hm]

/-- C3: when `_auth_read` returns `RET_AUTH_FAILED` in state `STATE_SEND_HANDSHAKE`
on a live connection that has not logged in (not counted, not authed, no open
transaction), `run_machine` fills the auth-failed ERR packet, assigns `STATE_ERROR`
and runs the `STATE_ERROR` case on it, which hands the connection to the pool;
`connection_inc` and `connection_dec` are never called, `is_counted` and
`is_authed` stay false, and `STATE_ERROR` is the only state assigned, so neither
`STATE_READ_AUTH` nor `STATE_SEND_AUTH_RESULT` is entered. -/
theorem C3_auth_failure_teardown (E : Env) (s : Sock) (fuel : Nat)
    (hs : s.state = State.STATE_SEND_HANDSHAKE)
    (hauth : (_auth_read E s).1 = Ret.RET_AUTH_FAILED)
    (hcnt : s.is_counted = false) (hau : s.is_authed = false) (htxn : s.txn_id = 0)
    (hpool : s.in_pool = false) (hfd : s.fd ≠ 0) :
    ∃ c, run_machine E (fuel + 2) s false = some c
      ∧ c = case_error E (set_state (fill_auth_failed_packet E (_auth_read E s).2
          (access_denied_msg (_auth_read E s).2)) State.STATE_ERROR)
      ∧ c.state = State.STATE_ERROR ∧ c.in_pool = true
      ∧ c.is_counted = false ∧ c.is_authed = false
      ∧ Event.fill_auth_failed_packet (access_denied_msg (_auth_read E s).2)
          ∈ events_since s c
      ∧ Event.set_state State.STATE_ERROR ∈ events_since s c
      ∧ Event.socket_pool_free ∈ events_since s c
      ∧ ∀ e, e ∈ events_since s c → (∀ ok, e ≠ Event.connection_inc ok)
          ∧ e ≠ Event.connection_dec ∧ (∀ st, e = Event.set_state st → st = State.STATE_ERROR) := by
  obtain ⟨f1, f2, f3, f4, f5, f6, _, _, evs, hlog, hevs⟩ := auth_read_frame E s
  have hx := teardown_uncounted E (set_state (fill_auth_failed_packet E (_auth_read E s).2
      (access_denied_msg (_auth_read E s).2)) State.STATE_ERROR)
    (by show (_auth_read E s).2.in_pool = false; rw [f5, hpool])
    (by show (_auth_read E s).2.fd ≠ 0; rw [f6]; exact hfd)
    (by show (_auth_read E s).2.txn_id = 0; rw [f4, htxn])
    (by show (_auth_read E s).2.is_counted = false; rw [f2, hcnt])
  obtain ⟨x1, x2, x3, x4, _, tail, htl, hfree, htail⟩ := hx
  have hlogc : (case_error E (set_state (fill_auth_failed_packet E (_auth_read E s).2
      (access_denied_msg (_auth_read E s).2)) State.STATE_ERROR)).log
      = s.log ++ (evs ++ [Event.fill_auth_failed_packet (access_denied_msg (_auth_read E s).2),
          Event.set_state State.STATE_ERROR] ++ tail) := by
    rw [htl]
    simp [set_state, fill_auth_failed_packet, hlog]
  refine ⟨_, ?_, rfl, ?_, x2, x3, ?_, ?_, ?_, ?_, ?_⟩
  · simp [run_machine, hs, case_send_handshake, hauth, set_state]
  · rw [x1]; rfl
  · rw [x4]
    show (_auth_read E s).2.is_authed = false
    rw [f3, hau]
  · simp [events_since, hlogc]
  · simp [events_since, hlogc]
  · simp [events_since, hlogc, hfree]
  · intro e he
    simp only [events_since, hlogc, List.drop_left, List.mem_append, List.mem_cons,
      List.mem_singleton, List.not_mem_nil, or_false] at he
    rcases he with (he | he | he) | he
    · rcases hevs e he with ⟨w, r, g, h⟩ | ⟨n, h⟩ <;> · rw [h]; simp
    · rw [he]; simp
    · rw [he]; simp
    · rcases htail e he with ⟨r, h⟩ | h | h | h | h <;> · rw [h]; simp

theorem C3_auth_failure_teardown_witness :
    (_auth_read (sample_env (sample_login_chunks "bob".toList bad_auth) [sample_user 0])
      sample_login).1 = Ret.RET_AUTH_FAILED
    ∧ ∃ c, run_machine (sample_env (sample_login_chunks "bob".toList bad_auth) [sample_user 0])
        2 sample_login false = some c
      ∧ c.state = State.STATE_ERROR ∧ c.in_pool = true
      ∧ c.is_counted = false ∧ c.is_authed = false
      ∧ Event.socket_pool_free ∈ events_since sample_login c := by
  obtain ⟨c, h1, _, h3, h4, h5, h6, _, _, h9, _⟩ := C3_auth_failure_teardown
    (sample_env (sample_login_chunks "bob".toList bad_auth) [sample_user 0]) sample_login 0
    rfl (by decide) rfl rfl rfl rfl (by decide)
  exact ⟨by decide, c, h1, h3, h4, h5, h6, h9⟩

theorem connection_inc_failed (a : Sock) (h : (connection_inc a).1 = false) :
    (connection_inc a).2 = emit a (Event.connection_inc false) := by
  unfold connection_inc at h ⊢
  cases hu : a.user_info with
  | none => simp [hu]
  | some u =>
    simp only [hu, UserInfo.connection_inc] at h ⊢
    split_ifs at h ⊢ with hlt
    show emit { a with user_info := some u } (Event.connection_inc false) = _
    rw [← hu]

/-- C4 (counterexample to the claim as stated): the catalog user whose name has
230 characters logs in with the right scramble while its only allowed connection
is open. The ERR packet is filled, but its message is not the text
`Username <username> has reach the max connection limit(1)`: that text has 277
characters and the message holds its first 255. -/
theorem C4_message_is_cut :
    (_auth_read long_env sample_login).1 = Ret.RET_SUCCESS
    ∧ (connection_inc (_auth_read long_env sample_login).2).1 = false
    ∧ (run_machine long_env 2 sample_login false).map (fun c =>
        decide (Event.fill_auth_failed_packet
          ("Username ".toList ++ long_name
            ++ " has reach the max connection limit(1)".toList) ∈ c.log)) = some false
    ∧ (run_machine long_env 2 sample_login false).map (fun c =>
        decide (Event.fill_auth_failed_packet
          (("Username ".toList ++ long_name
            ++ " has reach the max connection limit(1)".toList).take 255) ∈ c.log))
        = some true := by
  set_option maxRecDepth 100000 in decide

/-- C4 (amended): when a login authenticates correctly on a live connection that
has not logged in, but `connection_inc` reports that `max_connection` is reached,
`run_machine` fills an ERR packet whose message is the first 255 characters of
`Username <username> has reach the max connection limit(<max_connection>)` (the
whole text when it has at most 255 characters), assigns `STATE_ERROR` and runs the
`STATE_ERROR` case, which hands the connection to the pool; `is_counted` stays
false, the teardown does not call `connection_dec`, and the user record, with its
connection count, is the one `_auth_read` left. -/
theorem C4_max_connection_rejected (E : Env) (s : Sock) (fuel : Nat)
    (hs : s.state = State.STATE_SEND_HANDSHAKE)
    (hauth : (_auth_read E s).1 = Ret.RET_SUCCESS)
    (hmax : (connection_inc (_auth_read E s).2).1 = false)
    (hcnt : s.is_counted = false) (htxn : s.txn_id = 0)
    (hpool : s.in_pool = false) (hfd : s.fd ≠ 0) :
    ∃ c, run_machine E (fuel + 2) s false = some c
      ∧ Event.fill_auth_failed_packet ((max_connection_text (_auth_read E s).2).take 255)
          ∈ events_since s c
      ∧ ((max_connection_text (_auth_read E s).2).length ≤ 255 →
          Event.fill_auth_failed_packet (max_connection_text (_auth_read E s).2)
            ∈ events_since s c)
      ∧ c.state = State.STATE_ERROR ∧ c.in_pool = true ∧ c.is_counted = false
      ∧ c.user_info = (_auth_read E s).2.user_info
      ∧ ∀ e, e ∈ events_since s c → e ≠ Event.connection_dec
          ∧ e ≠ Event.connection_inc true
          ∧ (∀ st, e = Event.set_state st → st = State.STATE_ERROR) := by
  obtain ⟨f1, f2, f3, f4, f5, f6, _, _, evs, hlog, hevs⟩ := auth_read_frame E s
  have hi := connection_inc_failed _ hmax
  have hrun : run_machine E (fuel + 2) s false = some (case_error E (set_state
      (fill_auth_failed_packet E (connection_inc (_auth_read E s).2).2
        (max_connection_msg (connection_inc (_auth_read E s).2).2)) State.STATE_ERROR)) := by
    simp [run_machine, hs, case_send_handshake, hauth, hmax, set_state]
  refine ⟨_, hrun, ?_⟩
  clear hrun hauth hmax
  rw [hi]
  clear hi
  generalize (_auth_read E s).2 = a at f1 f2 f3 f4 f5 f6 hlog ⊢
  have hmsg : max_connection_msg (emit a (Event.connection_inc false))
      = (max_connection_text a).take 255 := rfl
  rw [hmsg]
  have hx := teardown_uncounted E (set_state (fill_auth_failed_packet E
      (emit a (Event.connection_inc false)) ((max_connection_text a).take 255))
      State.STATE_ERROR)
    (by show a.in_pool = false; rw [f5, hpool])
    (by show a.fd ≠ 0; rw [f6]; exact hfd)
    (by show a.txn_id = 0; rw [f4, htxn])
    (by show a.is_counted = false; rw [f2, hcnt])
  obtain ⟨x1, x2, x3, _, x5, tail, htl, _, htail⟩ := hx
  have hlogc : (case_error E (set_state (fill_auth_failed_packet E
      (emit a (Event.connection_inc false)) ((max_connection_text a).take 255))
      State.STATE_ERROR)).log
      = s.log ++ (evs ++ [Event.connection_inc false,
          Event.fill_auth_failed_packet ((max_connection_text a).take 255),
          Event.set_state State.STATE_ERROR] ++ tail) := by
    rw [htl]
    simp [set_state, fill_auth_failed_packet, emit, hlog]
  have hin : Event.fill_auth_failed_packet ((max_connection_text a).take 255)
      ∈ events_since s (case_error E (set_state (fill_auth_failed_packet E
        (emit a (Event.connection_inc false)) ((max_connection_text a).take 255))
        State.STATE_ERROR)) := by
    simp [events_since, hlogc]
  refine ⟨hin, ?_, ?_, x2, x3, ?_, ?_⟩
  · intro hle
    have := hin
    rw [List.take_of_length_le hle] at this ⊢
    exact this
  · rw [x1]; rfl
  · rw [x5]; rfl
  · intro e he
    simp only [events_since, hlogc, List.drop_left, List.mem_append, List.mem_cons,
      List.mem_singleton, List.not_mem_nil, or_false] at he
    rcases he with (he | he | he | he) | he
    · rcases hevs e he with ⟨w, r, g, h⟩ | ⟨n, h⟩ <;> · rw [h]; simp
    · rw [he]; simp
    · rw [he]; simp
    · rw [he]; simp
    · rcases htail e he with ⟨r, h⟩ | h | h | h | h <;> · rw [h]; simp

theorem C4_max_connection_rejected_witness :
    (connection_inc (_auth_read
      (sample_env (sample_login_chunks "bob".toList good_auth) [sample_user 1])
      sample_login).2).1 = false
    ∧ ∃ c, run_machine (sample_env (sample_login_chunks "bob".toList good_auth) [sample_user 1])
        2 sample_login false = some c
      ∧ Event.fill_auth_failed_packet
          "Username bob has reach the max connection limit(1)".toList
          ∈ events_since sample_login c
      ∧ c.state = State.STATE_ERROR ∧ c.is_counted = false
      ∧ c.user_info.map (fun u => u.cur_connection) = some 1 := by
  obtain ⟨c, h1, _, h3, h4, _, h6, h7, _⟩ := C4_max_connection_rejected
    (sample_env (sample_login_chunks "bob".toList good_auth) [sample_user 1]) sample_login 0
    rfl (by decide) (by decide) rfl rfl rfl (by decide)
  refine ⟨by decide, c, h1, h3 (by decide), h4, h6, ?_⟩
  rw [h7]
  decide

theorem make_field_packets_eq (E : Env) (cur_db : Str) (fs : List ResultField) :
    ∀ (buf : Bytes) (k : Nat), make_field_packets E cur_db fs buf (k : Int)
      = (buf ++ ((fs.enumFrom (k + 1)).map (fun p =>
          E.make_field_packet (fill_field cur_db p.2) (p.1 : Int))).flatten,
        ((k + fs.length : Nat) : Int)) := by
  induction fs with
  | nil => intro buf k; simp [make_field_packets]
  | cons f fs ih =>
    intro buf k
    have e : ((k : Int) + 1) = ((k + 1 : Nat) : Int) := by push_cast; rfl
    simp only [make_field_packets, e, ih, List.enumFrom_cons, List.map_cons, List.flatten_cons,
      List.append_assoc, List.length_cons]
    congr 2
    omega

theorem make_row_packets_eq (E : Env) (rows : List (List Str)) :
    ∀ (buf : Bytes) (j : Nat),
      (∀ p, p ∈ rows.enumFrom j → (E.make_row_packet p.2 (p.1 : Int)).1 = true
        ∧ (E.make_row_packet p.2 (p.1 : Int)).2.2 = (p.1 : Int) + 1) →
      make_row_packets E rows buf (j : Int)
      = (true, buf ++ ((rows.enumFrom j).map (fun p =>
          (E.make_row_packet p.2 (p.1 : Int)).2.1)).flatten,
        ((j + rows.length : Nat) : Int)) := by
  induction rows with
  | nil => intro buf j _; simp [make_row_packets]
  | cons r rs ih =>
    intro buf j hrows
    obtain ⟨h1, h2⟩ := hrows (j, r) (by simp)
    have ih' := ih (buf ++ (E.make_row_packet r (j : Int)).2.1) (j + 1)
      (fun p hp => hrows p (by simp [hp]))
    have e : ((j : Int) + 1) = ((j + 1 : Nat) : Int) := by push_cast; rfl
    simp only at h1 h2
    simp only [make_row_packets]
    rw [h1, h2, e, ih']
    simp only [Bool.not_true, Bool.false_eq_true, if_false, List.enumFrom_cons, List.map_cons,
      List.flatten_cons, List.append_assoc, List.length_cons]
    congr 2
    omega

theorem make_field_packets_one (E : Env) (cur_db : Str) (fs : List ResultField) (buf : Bytes) :
    make_field_packets E cur_db fs buf 1
      = (buf ++ ((fs.enumFrom 2).map (fun p =>
          E.make_field_packet (fill_field cur_db p.2) (p.1 : Int))).flatten,
        ((fs.length + 1 : Nat) : Int)) := by
  have h := make_field_packets_eq E cur_db fs buf 1
  rw [Nat.cast_one] at h
  rw [h, Nat.add_comm 1 fs.length]

theorem set_header_len (B t : Bytes) (x0 x1 x2 x3 a b c : Nat) :
    (((B ++ x0 :: x1 :: x2 :: x3 :: t).set B.length a).set (B.length + 1) b).set
        (B.length + 2) c = B ++ a :: b :: c :: x3 :: t := by
  induction B with
  | nil => rfl
  | cons y B ih => simp [ih]

/-- The buffer `_make_common_resultset_packet` builds when every row packs and the
packer advances the id by one at the ids it is given. -/
theorem resultset_packet_eq (E : Env) (s : Sock) (fields : List ResultField)
    (rows : List (List Str)) (hn : 1 ≤ fields.length)
    (hrows : ∀ p, p ∈ rows.enumFrom (fields.length + 3) →
      (E.make_row_packet p.2 (p.1 : Int)).1 = true
      ∧ (E.make_row_packet p.2 (p.1 : Int)).2.2 = (p.1 : Int) + 1) :
    _make_common_resultset_packet E s fields rows
      = (Ret.RET_SUCCESS, { s with send_buf := s.send_buf
          ++ ((resultset_layout E s.query_ctx.cur_db fields rows).map Prod.snd).flatten }) := by
  have hne : ¬ fields.length = 0 := by omega
  have hbody : (s.send_buf ++ [0x01, 0x00, 0x00, 0x01]
      ++ E.length_coded_binary fields.length).length - s.send_buf.length - 4
      = (E.length_coded_binary fields.length).length := by
    simp only [List.length_append, List.length_cons, List.length_nil]
    omega
  have hset := set_header_len s.send_buf (E.length_coded_binary fields.length) 1 0 0 1
    ((E.length_coded_binary fields.length).length % 256)
    (((E.length_coded_binary fields.length).length >>> 8) % 256)
    (((E.length_coded_binary fields.length).length >>> 16) % 256)
  simp only [_make_common_resultset_packet, if_neg hne, hbody]
  have hassoc : s.send_buf ++ [0x01, 0x00, 0x00, 0x01] ++ E.length_coded_binary fields.length
      = s.send_buf ++ 1 :: 0 :: 0 :: 1 :: E.length_coded_binary fields.length := by simp
  rw [hassoc, hset, make_field_packets_one]
  have e2 : (((fields.length + 1 : Nat) : Int) + 1) = ((fields.length + 2 : Nat) : Int) := by
    push_cast; ring
  have e3 : (((fields.length + 2 : Nat) : Int) + 1) = ((fields.length + 3 : Nat) : Int) := by
    push_cast; ring
  simp only [e2, e3]
  rw [make_row_packets_eq E rows _ _ hrows]
  simp only [Bool.not_true, Bool.false_eq_true, if_false, resultset_layout, List.map_append,
    List.map_cons, List.map_nil, List.map_map, List.flatten_append, List.flatten_cons,
    List.flatten_nil, List.append_nil, List.append_assoc, Nat.shiftRight_eq_div_pow]
  have e4 : fields.length + 3 + rows.length = fields.length + rows.length + 3 := by omega
  simp only [e4]
  rfl

/-- The sequence ids of the layout are `1, 2, ..., n + m + 3`. -/
theorem resultset_layout_ids (E : Env) (cur_db : Str) (fields : List ResultField)
    (rows : List (List Str)) :
    (resultset_layout E cur_db fields rows).map Prod.fst
      = (List.range' 1 (fields.length + rows.length + 3)).map (fun i : Nat => (i : Int)) := by
  simp only [resultset_layout, List.map_append, List.map_cons, List.map_nil, List.map_map]
  have f1 : (List.map (Prod.fst ∘ fun p : Nat × ResultField => ((p.1 : Int),
      E.make_field_packet (fill_field cur_db p.2) (p.1 : Int)))
      (List.enumFrom 2 fields)) = (List.range' 2 fields.length).map (fun i : Nat => (i : Int)) := by
    rw [← List.enumFrom_map_fst 2 fields, List.map_map]
    rfl
  have f2 : (List.map (Prod.fst ∘ fun p : Nat × List Str => ((p.1 : Int),
      (E.make_row_packet p.2 (p.1 : Int)).2.1))
      (List.enumFrom (fields.length + 3) rows))
      = (List.range' (fields.length + 3) rows.length).map (fun i : Nat => (i : Int)) := by
    rw [← List.enumFrom_map_fst (fields.length + 3) rows, List.map_map]
    rfl
  rw [f1, f2]
  have g : ∀ n m : Nat, List.range' 1 (n + m + 3)
      = [1] ++ List.range' 2 n ++ [n + 2] ++ List.range' (n + 3) m ++ [n + m + 3] := by
    intro n m
    have b4 := List.range'_append_1 1 1 n
    have b3 := @List.range'_1_concat 1 (n + 1)
    have b2 := List.range'_append_1 1 (n + 1 + 1) m
    have b1 := @List.range'_1_concat 1 (m + (n + 1 + 1))
    have t1 : n + m + 3 = m + (n + 1 + 1) + 1 := by omega
    have t2 : 1 + (n + 1) = n + 2 := by omega
    have t3 : 1 + (n + 1 + 1) = n + 3 := by omega
    have t4 : 1 + (m + (n + 1 + 1)) = m + (n + 1 + 1) + 1 := by omega
    rw [t2] at b3
    rw [t3] at b2
    rw [t4] at b1
    rw [t1, b1, ← b2, b3, ← b4]
    rfl
  rw [g fields.length rows.length]
  simp

/-- C9: for every result set with at least one field whose rows pack successfully
with a packer that advances the id by one per row, `_make_common_resultset_packet`
returns success and appends to `send_buf`, in this order, the set header carrying
the length-coded column count, one column-definition packet per field, an EOF
packet, one packet per row and a final EOF packet: `n + m + 3` packets whose
sequence ids are `1, 2, ..., n + m + 3`; the three length bytes of the set header
hold the byte length of the length-coded column count, little-endian. -/
theorem C9_resultset_packets_in_order (E : Env) (s : Sock) (fields : List ResultField)
    (rows : List (List Str)) (hn : 1 ≤ fields.length)
    (hrows : ∀ r, r ∈ rows → ∀ id, (E.make_row_packet r id).1 = true
      ∧ (E.make_row_packet r id).2.2 = id + 1) :
    (_make_common_resultset_packet E s fields rows).1 = Ret.RET_SUCCESS
    ∧ (_make_common_resultset_packet E s fields rows).2.send_buf
        = s.send_buf
          ++ ((resultset_layout E s.query_ctx.cur_db fields rows).map Prod.snd).flatten
    ∧ (resultset_layout E s.query_ctx.cur_db fields rows).length
        = fields.length + rows.length + 3
    ∧ (resultset_layout E s.query_ctx.cur_db fields rows).map Prod.fst
        = (List.range' 1 (fields.length + rows.length + 3)).map (fun i : Nat => (i : Int))
    ∧ (resultset_layout E s.query_ctx.cur_db fields rows).head?
        = some ((1 : Int),
            [(E.length_coded_binary fields.length).length % 256,
              ((E.length_coded_binary fields.length).length / 256) % 256,
              ((E.length_coded_binary fields.length).length / 65536) % 256, 1]
            ++ E.length_coded_binary fields.length)
    ∧ ((E.length_coded_binary fields.length).length < 16777216 →
        le24 ((E.length_coded_binary fields.length).length % 256)
          (((E.length_coded_binary fields.length).length / 256) % 256)
          (((E.length_coded_binary fields.length).length / 65536) % 256)
          = (E.length_coded_binary fields.length).length) := by
  have hrun := resultset_packet_eq E s fields rows hn
    (fun p hp => hrows p.2 (List.snd_mem_of_mem_enumFrom hp) (p.1 : Int))
  refine ⟨by rw [hrun], by rw [hrun], ?_, resultset_layout_ids E _ fields rows, ?_, ?_⟩
  · simp [resultset_layout, List.enumFrom_length]
    omega
  · simp [resultset_layout]
  · intro hlt
    simp only [le24]
    omega

theorem C9_resultset_packets_in_order_witness :
    (_make_common_resultset_packet (sample_env [] []) sample_client
      [mk_field "a".toList MysqlType.MYSQL_TYPE_LONG, mk_field "b".toList MysqlType.MYSQL_TYPE_LONG]
      [["1".toList, "2".toList]]).1 = Ret.RET_SUCCESS
    ∧ (resultset_layout (sample_env [] []) [] 
        [mk_field "a".toList MysqlType.MYSQL_TYPE_LONG, mk_field "b".toList MysqlType.MYSQL_TYPE_LONG]
        [["1".toList, "2".toList]]).map Prod.fst = [1, 2, 3, 4, 5, 6]
    ∧ (_make_common_resultset_packet (sample_env [] []) sample_client
      [mk_field "a".toList MysqlType.MYSQL_TYPE_LONG, mk_field "b".toList MysqlType.MYSQL_TYPE_LONG]
      [["1".toList, "2".toList]]).2.send_buf
      = [1, 0, 0, 1, 2] ++ [2, 0, 0, 2, 1, 97] ++ [2, 0, 0, 3, 1, 98] ++ [5, 0, 0, 4, 0xfe, 0, 0, 2, 0]
        ++ [4, 0, 0, 5, 1, 49, 1, 50] ++ [5, 0, 0, 6, 0xfe, 0, 0, 2, 0] := by
  have h := C9_resultset_packets_in_order (sample_env [] []) sample_client
    [mk_field "a".toList MysqlType.MYSQL_TYPE_LONG, mk_field "b".toList MysqlType.MYSQL_TYPE_LONG]
    [["1".toList, "2".toList]] (by decide) (fun r _ id => ⟨rfl, rfl⟩)
  refine ⟨h.1, ?_, ?_⟩
  · have := h.2.2.2.1
    exact this
  · rw [h.2.1]
    decide

theorem iequals_eq_map (a : Str) : ∀ b : Str,
    iequals a b = decide (a.map to_lower = b.map to_lower) := by
  induction a with
  | nil => intro b; cases b <;> simp [iequals]
  | cons c cs ih =>
    intro b
    cases b with
    | nil => simp [iequals]
    | cons t ts =>
      simp only [iequals, ih ts, List.map_cons, List.cons.injEq]
      by_cases h1 : to_lower c = to_lower t <;> simp [h1]

theorem istarts_with_eq_map (a : Str) : ∀ b : Str,
    istarts_with a b = starts_with (a.map to_lower) (b.map to_lower) := by
  induction a with
  | nil => intro b; cases b <;> simp [istarts_with, starts_with]
  | cons c cs ih =>
    intro b
    cases b with
    | nil => simp [istarts_with, starts_with]
    | cons t ts => simp only [istarts_with, starts_with, ih ts, List.map_cons]

/-- The function `_get_json_attributes` changes neither the text, the class, the
command byte nor the database of the context. -/
theorem get_json_attributes_frame (E : Env) (ctx : QueryContext) :
    (_get_json_attributes E ctx).sql = ctx.sql
    ∧ (_get_json_attributes E ctx).type = ctx.type
    ∧ (_get_json_attributes E ctx).mysql_cmd = ctx.mysql_cmd
    ∧ (_get_json_attributes E ctx).cur_db = ctx.cur_db := by
  unfold _get_json_attributes
  generalize ctx.comments = l
  induction l generalizing ctx with
  | nil => exact ⟨rfl, rfl, rfl, rfl⟩
  | cons c l ih =>
    simp only [List.foldl_cons]
    split_ifs
    · exact ih ctx
    · split
      · exact ih ctx
      · rename_i region_id enable_2pc _
        cases region_id <;> cases enable_2pc <;>
          · obtain ⟨a1, a2, a3, a4⟩ := ih _
            exact ⟨a1, a2, a3, a4⟩

/-- A text that does not begin with a comment is only trimmed by `_parse_comment`. -/
theorem parse_comment_plain (q : QueryContext)
    (h : istarts_with (trim_sql q.sql) "/*".toList = false) :
    _parse_comment q = { q with sql := trim_sql q.sql } := by
  simp only [_parse_comment, _parse_comment_loop, h, Bool.false_eq_true, if_false]

/-- A text that is `select 1` up to case is left alone by the comment loop and is
classified as a SELECT. -/
theorem classify_select_1 (q : QueryContext) (hcmd : q.mysql_cmd = COM_QUERY)
    (hsql : iequals (trim_sql q.sql) SQL_SELECT_1 = true) :
    _get_query_type q = (SqlType.SQL_SELECT_NUM, { q with sql := trim_sql q.sql }) := by
  rw [iequals_eq_map] at hsql
  have hmap : (trim_sql q.sql).map to_lower = ['s', 'e', 'l', 'e', 'c', 't', ' ', '1'] :=
    (of_decide_eq_true hsql).trans (by decide)
  have hlen : (trim_sql q.sql).length = 8 := by
    have := congrArg List.length hmap
    simpa using this
  have h1 : istarts_with (trim_sql q.sql) "/*".toList = false := by
    rw [istarts_with_eq_map, hmap]; decide
  have h2 : istarts_with (trim_sql q.sql) SQL_SELECT = true := by
    rw [istarts_with_eq_map, hmap]; decide
  have hc : q.mysql_cmd = 3 := hcmd
  unfold _get_query_type
  rw [parse_comment_plain q h1]
  simp only [hc, hlen, sql_type_of_text, h2, if_true]
  simp

/-- The dispatch of a `COM_QUERY` classified as a SELECT whose text is `select 1`
up to case. -/
theorem query_process_select_1 (E : Env) (c : Sock)
    (hcmd : c.query_ctx.mysql_cmd = COM_QUERY)
    (htype : c.query_ctx.type = SqlType.SQL_SELECT_NUM)
    (hsql : iequals c.query_ctx.sql SQL_SELECT_1 = true)
    (hrow : (E.make_row_packet ["1".toList] 4).1 = true
      ∧ (E.make_row_packet ["1".toList] 4).2.2 = 5) :
    _query_process E c = (true, set_state { c with send_buf := c.send_buf
        ++ ((resultset_layout E c.query_ctx.cur_db
          [mk_field "1".toList MysqlType.MYSQL_TYPE_LONG] [["1".toList]]).map Prod.snd).flatten }
        State.STATE_READ_QUERY_RESULT) := by
  have hsql' := hsql
  rw [iequals_eq_map] at hsql'
  have hmap : c.query_ctx.sql.map to_lower = ['s', 'e', 'l', 'e', 'c', 't', ' ', '1'] :=
    (of_decide_eq_true hsql').trans (by decide)
  have hlen : c.query_ctx.sql.length = 8 := by
    have := congrArg List.length hmap
    simpa using this
  have k1 : iequals c.query_ctx.sql SQL_VERSION_COMMENT = false := by
    rw [iequals_eq_map, hmap]; decide
  have k2 : iequals c.query_ctx.sql SQL_SESSION_AUTO_INCREMENT = false := by
    rw [iequals_eq_map, hmap]; decide
  have k3 : iequals c.query_ctx.sql SQL_SESSION_AUTO_AUTOCOMMIT = false := by
    rw [iequals_eq_map, hmap]; decide
  have k4 : iequals c.query_ctx.sql SQL_SESSION_TX_ISOLATION = false := by
    rw [iequals_eq_map, hmap]; decide
  have hpk := resultset_packet_eq E c
    [mk_field "1".toList MysqlType.MYSQL_TYPE_LONG] [["1".toList]] (by simp)
    (by
      intro p hp
      simp only [List.length_cons, List.length_nil, List.enumFrom_cons, List.enumFrom_nil,
        List.mem_singleton] at hp
      subst hp
      exact hrow)
  have hcq : ¬ COM_QUERY = COM_PING := by decide
  have hci : ¬ COM_QUERY = COM_INIT_DB := by decide
  have h8 : ¬ (8 : Nat) = 0 := by decide
  unfold _query_process
  simp only [hcmd, hlen, if_neg hcq, if_neg hci, if_neg h8, if_true]
  unfold _query_process_com_query
  simp only [htype, k1, k2, k3, k4, hsql, _handle_client_query_select_1,
    _handle_client_query_template, finish_resultset, hpk]
  simp

theorem trim_right_append_of_all (p : Char → Bool) (s w : Str) (h : ∀ c ∈ w, p c = true) :
    trim_right_if p (s ++ w) = trim_right_if p s := by
  unfold trim_right_if
  rw [List.reverse_append, List.dropWhile_append_of_pos]
  intro a ha
  exact h a (List.mem_reverse.mp ha)

theorem trim_right_of_all (p : Char → Bool) (w : Str) (h : ∀ c ∈ w, p c = true) :
    trim_right_if p w = [] := by
  have := trim_right_append_of_all p [] w h
  simpa [trim_right_if] using this

theorem trim_left_append_of_all (p : Char → Bool) (w s : Str) (h : ∀ c ∈ w, p c = true) :
    trim_left_if p (w ++ s) = trim_left_if p s := by
  unfold trim_left_if
  exact List.dropWhile_append_of_pos h

/-- Surrounding white space and trailing semicolons do not change the stripped
text. -/
theorem trim_sql_surround (w1 s w2 : Str) (h1 : ∀ c ∈ w1, is_blank c = true)
    (h2 : ∀ c ∈ w2, is_blank_or_semi c = true) :
    trim_sql (w1 ++ s ++ w2) = trim_sql s := by
  unfold trim_sql
  rw [List.append_assoc, trim_left_append_of_all is_blank w1 _ h1]
  unfold trim_left_if
  rw [List.dropWhile_append]
  split_ifs with he
  · have hs : List.dropWhile is_blank s = [] := by
      cases hd : List.dropWhile is_blank s with
      | nil => rfl
      | cons a l => rw [hd] at he; simp at he
    rw [hs]
    have : trim_right_if is_blank_or_semi [] = [] := rfl
    rw [this]
    apply trim_right_of_all
    intro c hc
    exact h2 c ((List.dropWhile_sublist is_blank).subset hc)
  · exact trim_right_append_of_all _ _ _ h2

/-- A text is its right-trimmed part followed by trimmed characters. -/
theorem trim_right_split (p : Char → Bool) (s : Str) :
    ∃ w, s = trim_right_if p s ++ w ∧ ∀ c ∈ w, p c = true := by
  refine ⟨(s.reverse.takeWhile p).reverse, ?_, ?_⟩
  · unfold trim_right_if
    rw [← List.reverse_append, List.takeWhile_append_dropWhile, List.reverse_reverse]
  · intro c hc
    exact (List.mem_takeWhile_imp (List.mem_reverse.mp hc))

/-- Right-trimming stops at a character that is kept. -/
theorem trim_right_after_kept (p : Char → Bool) (a : Str) (x : Char) (r : Str)
    (hx : p x = false) :
    trim_right_if p (a ++ x :: r) = a ++ x :: trim_right_if p r := by
  unfold trim_right_if
  have e : (a ++ x :: r).reverse = r.reverse ++ x :: a.reverse := by simp
  rw [e, List.dropWhile_append]
  split_ifs with he
  · have hs : List.dropWhile p r.reverse = [] := by
      cases hd : List.dropWhile p r.reverse with
      | nil => rfl
      | cons a l => rw [hd] at he; simp at he
    rw [hs, List.dropWhile_cons_of_neg (by simp [hx])]
    simp
  · simp

theorem trim_sql_trim_right (r : Str) :
    trim_sql (trim_right_if is_blank_or_semi r) = trim_sql r := by
  obtain ⟨w, hw, hall⟩ := trim_right_split is_blank_or_semi r
  have := trim_sql_surround [] (trim_right_if is_blank_or_semi r) w (by simp) hall
  rw [List.nil_append, ← hw] at this
  exact this.symm

theorem trim_sql_length_le (s : Str) : (trim_sql s).length ≤ s.length := by
  unfold trim_sql trim_right_if trim_left_if
  rw [List.length_reverse]
  exact le_trans (List.dropWhile_sublist _).length_le
    (by rw [List.length_reverse]; exact (List.dropWhile_sublist _).length_le)

/-- A stripped text does not begin with white space. -/
theorem trim_sql_head (s : Str) (c : Char) (r : Str) (h : trim_sql s = c :: r) :
    is_blank c = false := by
  unfold trim_sql at h
  obtain ⟨w, hw, -⟩ := trim_right_split is_blank_or_semi (trim_left_if is_blank s)
  rw [h] at hw
  unfold trim_left_if at hw
  have := List.head_dropWhile_not is_blank s (by rw [hw]; simp)
  simpa [hw] using this

/-! ## The comment loop -/

theorem find_close_block (b rest : Str) (h : no_close b = true) :
    find_close (b ++ '*' :: '/' :: rest) = some (b, rest) := by
  induction b with
  | nil => simp [find_close]
  | cons c b ih =>
    simp only [no_close, Bool.and_eq_true, Bool.not_eq_true', Bool.and_eq_false_imp] at h
    obtain ⟨h1, h2⟩ := h
    rw [List.cons_append, find_close, ih h2]
    have hc : ¬ (c = '*' ∧ (b ++ '*' :: '/' :: rest).head? = some '/') := by
      rintro ⟨e1, e2⟩
      cases b with
      | nil => simp at e2
      | cons d b =>
        simp only [List.cons_append, List.head?_cons, Option.some.injEq] at e2
        have := h1 (by simp [e1])
        simp [e2] at this
    rw [if_neg hc]
    rfl

theorem regex_match_block (b rest : Str) (h : no_close b = true) :
    regex_match (comment_block b ++ rest) = some ([], comment_block b, rest) := by
  have e : comment_block b ++ rest = '/' :: '*' :: (b ++ '*' :: '/' :: rest) := by
    simp [comment_block]
  rw [e, regex_match]
  simp only [List.head?_cons, List.tail_cons, and_self, if_true, find_close_block b rest h]
  rfl

/-- The parts of a match, put back together, are the text. -/
theorem find_close_parts : ∀ (s body after : Str), find_close s = some (body, after) →
    s = body ++ '*' :: '/' :: after := by
  intro s
  induction s with
  | nil => intro body after h; simp [find_close] at h
  | cons c rest ih =>
    intro body after h
    rw [find_close] at h
    split_ifs at h with hc
    · obtain ⟨e1, e2⟩ := hc
      cases rest with
      | nil => simp at e2
      | cons d rest =>
        simp only [List.head?_cons, Option.some.injEq] at e2
        simp only [List.tail_cons, Option.some.injEq, Prod.mk.injEq] at h
        obtain ⟨h1, h2⟩ := h
        subst h1 h2 e1 e2
        rfl
    · cases hf : find_close rest with
      | none => rw [hf] at h; simp at h
      | some r =>
        rw [hf] at h
        simp only [Option.map_some', Option.some.injEq, Prod.mk.injEq] at h
        obtain ⟨h1, h2⟩ := h
        have := ih r.1 r.2 (by rw [hf])
        rw [← h1, ← h2, List.cons_append, ← this]

theorem regex_match_parts : ∀ (s pre g1 g2 : Str), regex_match s = some (pre, g1, g2) →
    s = pre ++ g1 ++ g2 ∧ 4 ≤ g1.length := by
  intro s
  induction s with
  | nil => intro pre g1 g2 h; simp [regex_match] at h
  | cons c rest ih =>
    intro pre g1 g2 h
    rw [regex_match] at h
    split at h
    · rename_i body after hm
      split_ifs at hm with hc
      obtain ⟨e1, e2⟩ := hc
      cases rest with
      | nil => simp at e2
      | cons d rest =>
        simp only [List.head?_cons, Option.some.injEq] at e2
        simp only [List.tail_cons] at hm
        have := find_close_parts rest body after hm
        simp only [Option.some.injEq, Prod.mk.injEq] at h
        obtain ⟨h1, h2, h3⟩ := h
        subst h1 h2 h3 e1 e2
        constructor
        · simp [this]
        · simp
    · cases hf : regex_match rest with
      | none => rw [hf] at h; simp at h
      | some r =>
        rw [hf] at h
        simp only [Option.map_some', Option.some.injEq, Prod.mk.injEq] at h
        obtain ⟨h1, h2, h3⟩ := h
        have := ih r.1 r.2.1 r.2.2 (by rw [hf])
        subst h1 h2 h3
        constructor
        · simp only [List.cons_append]; rw [← this.1]
        · exact this.2

/-- The second replacement never lengthens the text, and shortens it when the
expression matches. -/
theorem regex_replace_2_length (s : Str) :
    (regex_replace_2 s).length ≤ s.length
    ∧ ((regex_match s).isSome = true → (regex_replace_2 s).length < s.length) := by
  unfold regex_replace_2
  cases h : regex_match s with
  | none => simp
  | some r =>
    obtain ⟨pre, g1, g2⟩ := r
    obtain ⟨e, hl⟩ := regex_match_parts s pre g1 g2 h
    simp only [Option.isSome_some, forall_true_left]
    have hlen := congrArg List.length e
    simp only [List.length_append] at hlen ⊢
    omega

/-- The fuel given by `_parse_comment` is enough: with any fuel above the length of
the text the loop gives the same context. -/
theorem parse_comment_loop_fuel : ∀ (n : Nat) (ctx : QueryContext) (f1 f2 : Nat),
    ctx.sql.length ≤ n → n < f1 → n < f2 →
    _parse_comment_loop f1 ctx = _parse_comment_loop f2 ctx := by
  intro n
  induction n with
  | zero =>
    intro ctx f1 f2 hn h1 h2
    obtain ⟨g1, rfl⟩ : ∃ g, f1 = g + 1 := ⟨f1 - 1, by omega⟩
    obtain ⟨g2, rfl⟩ : ∃ g, f2 = g + 1 := ⟨f2 - 1, by omega⟩
    have hs : ctx.sql = [] := List.length_eq_zero.mp (by omega)
    simp [_parse_comment_loop, hs, istarts_with]
  | succ n ih =>
    intro ctx f1 f2 hn h1 h2
    obtain ⟨g1, rfl⟩ : ∃ g, f1 = g + 1 := ⟨f1 - 1, by omega⟩
    obtain ⟨g2, rfl⟩ : ∃ g, f2 = g + 1 := ⟨f2 - 1, by omega⟩
    simp only [_parse_comment_loop]
    have h3 := (regex_replace_2_length ctx.sql).1
    have h4 := trim_sql_length_le (regex_replace_2 ctx.sql)
    split_ifs
    all_goals first
      | rfl
      | (apply ih
         · simp only at *
           omega
         · omega
         · omega)

/-- One turn of the loop on a text that begins with a comment block: the block
is appended to `comments` and the loop goes on with the stripped rest. -/
theorem parse_comment_loop_block (fuel : Nat) (ctx : QueryContext) (b rest : Str)
    (hb : no_close b = true) (hs : ctx.sql = comment_block b ++ rest) :
    _parse_comment_loop (fuel + 1) ctx
      = _parse_comment_loop fuel
          { ctx with comments := ctx.comments ++ [comment_block b], sql := trim_sql rest } := by
  have hm := regex_match_block b rest hb
  have h1 : istarts_with ctx.sql "/*".toList = true := by
    rw [hs]; simp [comment_block, istarts_with]
  have h2 : regex_replace_1 ctx.sql = comment_block b := by
    rw [hs, regex_replace_1, hm]; rfl
  have h3 : regex_replace_2 ctx.sql = rest := by
    rw [hs, regex_replace_2, hm]; rfl
  have h4 : (comment_block b).length ≠ 0 := by simp [comment_block]
  have h5 : ¬ rest.length = ctx.sql.length := by
    rw [hs]; simp [comment_block]; omega
  simp only [_parse_comment_loop, h1, h2, h3, if_true, ne_eq, h4, not_false_eq_true, if_neg h5]

theorem trim_sql_block (b r : Str) :
    trim_sql (comment_block b ++ r) = comment_block b ++ trim_right_if is_blank_or_semi r := by
  have e : comment_block b ++ r = ('/' :: '*' :: (b ++ ['*'])) ++ '/' :: r := by
    simp [comment_block]
  have hl : trim_left_if is_blank (comment_block b ++ r) = comment_block b ++ r := by
    rw [e]
    exact List.dropWhile_cons_of_neg (by decide)
  rw [trim_sql, hl, e, trim_right_after_kept _ _ _ _ (by decide)]
  simp [comment_block]

/-- The loop removes the leading comment blocks one after the other. -/
theorem parse_comment_loop_blocks (t : Str) (ht : istarts_with (trim_sql t) "/*".toList = false) :
    ∀ (blocks : List (Str × Str)) (ctx : QueryContext) (fuel : Nat),
    (∀ p ∈ blocks, no_close p.1 = true ∧ ∀ c ∈ p.2, is_blank c = true) →
    blocks.length < fuel →
    _parse_comment_loop fuel { ctx with sql := trim_sql (with_leading_comments blocks t) }
      = { ctx with sql := trim_sql t,
                   comments := ctx.comments ++ blocks.map (fun p => comment_block p.1) } := by
  intro blocks
  induction blocks with
  | nil =>
    intro ctx fuel _ hf
    obtain ⟨g, rfl⟩ : ∃ g, fuel = g + 1 := ⟨fuel - 1, by simp at hf; omega⟩
    simp only [_parse_comment_loop, with_leading_comments, ht, Bool.false_eq_true, if_false,
      List.map_nil, List.append_nil]
  | cons p bs ih =>
    intro ctx fuel hall hf
    obtain ⟨g, rfl⟩ : ∃ g, fuel = g + 1 := ⟨fuel - 1, by omega⟩
    obtain ⟨b, w⟩ := p
    have hp := hall (b, w) (List.mem_cons_self _ _)
    have hrest : ∀ q ∈ bs, no_close q.1 = true ∧ ∀ c ∈ q.2, is_blank c = true :=
      fun q hq => hall q (List.mem_cons_of_mem _ hq)
    have e1 : trim_sql (with_leading_comments ((b, w) :: bs) t)
        = comment_block b
          ++ trim_right_if is_blank_or_semi (w ++ with_leading_comments bs t) := by
      rw [with_leading_comments, trim_sql_block]
    have e2 : trim_sql (trim_right_if is_blank_or_semi (w ++ with_leading_comments bs t))
        = trim_sql (with_leading_comments bs t) := by
      rw [trim_sql_trim_right]
      have := trim_sql_surround w (with_leading_comments bs t) [] hp.2 (by simp)
      simpa using this
    rw [parse_comment_loop_block g _ b _ hp.1 e1]
    simp only [e2]
    have := ih { ctx with comments := ctx.comments ++ [comment_block b] } g hrest
      (by simp at hf; omega)
    simp only at this
    rw [this]
    simp

/-- What `_parse_comment` leaves of a text that begins with comment blocks. -/
theorem parse_comment_blocks (ctx : QueryContext) (blocks : List (Str × Str)) (t w0 w1 : Str)
    (hall : ∀ p ∈ blocks, no_close p.1 = true ∧ ∀ c ∈ p.2, is_blank c = true)
    (h0 : ∀ c ∈ w0, is_blank c = true) (h1 : ∀ c ∈ w1, is_blank_or_semi c = true)
    (ht : istarts_with (trim_sql t) "/*".toList = false) :
    _parse_comment { ctx with sql := w0 ++ with_leading_comments blocks t ++ w1 }
      = { ctx with sql := trim_sql t,
                   comments := ctx.comments ++ blocks.map (fun p => comment_block p.1) } := by
  unfold _parse_comment
  simp only [trim_sql_surround w0 _ w1 h0 h1]
  rw [parse_comment_loop_fuel (trim_sql (with_leading_comments blocks t)).length _ _
    ((trim_sql (with_leading_comments blocks t)).length + blocks.length + 1)
    (le_refl _) (by omega) (by omega)]
  exact parse_comment_loop_blocks t ht blocks ctx _ hall (by omega)

/-! ## The classifier -/

/-- The comment loop changes only the text and the list of comments. -/
theorem parse_comment_loop_fields : ∀ (fuel : Nat) (ctx : QueryContext),
    (_parse_comment_loop fuel ctx).mysql_cmd = ctx.mysql_cmd
    ∧ (_parse_comment_loop fuel ctx).type = ctx.type
    ∧ (_parse_comment_loop fuel ctx).cur_db = ctx.cur_db
    ∧ (_parse_comment_loop fuel ctx).debug_region_id = ctx.debug_region_id
    ∧ (_parse_comment_loop fuel ctx).enable_2pc = ctx.enable_2pc
    ∧ (_parse_comment_loop fuel ctx).stat_info = ctx.stat_info
    ∧ (_parse_comment_loop fuel ctx).succ_after_logical_plan = ctx.succ_after_logical_plan
    ∧ (_parse_comment_loop fuel ctx).succ_after_physical_plan = ctx.succ_after_physical_plan
    ∧ (_parse_comment_loop fuel ctx).has_root = ctx.has_root
    ∧ (_parse_comment_loop fuel ctx).rt_txn_id = ctx.rt_txn_id
    ∧ (_parse_comment_loop fuel ctx).rt_seq_id = ctx.rt_seq_id
    ∧ (_parse_comment_loop fuel ctx).thread_idx = ctx.thread_idx := by
  intro fuel
  induction fuel with
  | zero => intro ctx; simp [_parse_comment_loop]
  | succ n ih =>
    intro ctx
    simp only [_parse_comment_loop]
    split_ifs <;> simp [ih]

theorem parse_comment_frame (ctx : QueryContext) :
    _parse_comment ctx
      = { ctx with sql := (_parse_comment ctx).sql, comments := (_parse_comment ctx).comments } := by
  have h := parse_comment_loop_fields ((trim_sql ctx.sql).length + 1)
    { ctx with sql := trim_sql ctx.sql }
  unfold _parse_comment
  simp only at h ⊢
  generalize _parse_comment_loop _ _ = X at h ⊢
  obtain ⟨h1, h2, h3, h4, h5, h6, h7, h8, h9, h10, h11, h12⟩ := h
  cases X
  simp only at *
  subst h1 h2 h3 h4 h5 h6 h7 h8 h9 h10 h11 h12
  rfl

/-- The text the comment loop leaves depends on the text it is given only. -/
theorem parse_comment_loop_text : ∀ (fuel : Nat) (ctx ctx2 : QueryContext),
    ctx.sql = ctx2.sql →
    (_parse_comment_loop fuel ctx).sql = (_parse_comment_loop fuel ctx2).sql := by
  intro fuel
  induction fuel with
  | zero => intro ctx ctx2 h; exact h
  | succ n ih =>
    intro ctx ctx2 h
    simp only [_parse_comment_loop, h]
    split_ifs
    all_goals first
      | rfl
      | exact h
      | (apply ih; simp [h])
      | simp_all

theorem parse_comment_text (ctx ctx2 : QueryContext) (h : ctx.sql = ctx2.sql) :
    (_parse_comment ctx).sql = (_parse_comment ctx2).sql := by
  unfold _parse_comment
  simp only [h]
  exact parse_comment_loop_text _ _ _ rfl

theorem starts_with_iff_initial : ∀ (m k : Str), starts_with m k = true ↔ k <+: m := by
  intro m
  induction m with
  | nil => intro k; cases k <;> simp [starts_with]
  | cons c cs ih =>
    intro k
    cases k with
    | nil => simp [starts_with]
    | cons t ts =>
      simp only [starts_with, Bool.and_eq_true, beq_iff_eq, ih ts, List.cons_prefix_cons]
      constructor <;> rintro ⟨h1, h2⟩ <;> exact ⟨h1.symm, h2⟩

/-- Two keywords that differ on their common length cannot both begin a text. -/
theorem starts_with_disjoint (m k1 k2 : Str)
    (h : k1.take (min k1.length k2.length) ≠ k2.take (min k1.length k2.length))
    (h1 : starts_with m k1 = true) : starts_with m k2 = false := by
  by_contra h2
  rw [Bool.not_eq_false] at h2
  rw [starts_with_iff_initial, List.prefix_iff_eq_take] at h1 h2
  apply h
  rw [h1, h2]
  simp only [List.take_take, List.length_take]
  congr 1
  omega

theorem istarts_with_disjoint (s k1 k2 : Str)
    (h : (k1.map to_lower).take (min (k1.map to_lower).length (k2.map to_lower).length)
      ≠ (k2.map to_lower).take (min (k1.map to_lower).length (k2.map to_lower).length))
    (h1 : istarts_with s k1 = true) : istarts_with s k2 = false := by
  rw [istarts_with_eq_map] at h1 ⊢
  exact starts_with_disjoint _ _ _ h h1

/-- For the five command bytes that carry a statement the class is decided by the
stripped text. -/
theorem get_query_type_text (ctx : QueryContext)
    (hcmd : ctx.mysql_cmd = 0x03 ∨ ctx.mysql_cmd = 0x16 ∨ ctx.mysql_cmd = 0x17
      ∨ ctx.mysql_cmd = 0x19 ∨ ctx.mysql_cmd = 0x1c) :
    _get_query_type ctx
      = (if (_parse_comment ctx).sql = [] then SqlType.SQL_UNKNOWN_NUM
          else sql_type_of_text (_parse_comment ctx).sql, _parse_comment ctx) := by
  have hc : (_parse_comment ctx).mysql_cmd = ctx.mysql_cmd := by
    rw [parse_comment_frame]
  unfold _get_query_type
  simp only [hc, List.length_eq_zero]
  rcases hcmd with h | h | h | h | h <;> rw [h] <;> simp <;> split_ifs <;> rfl

/-- Two contexts with the same command byte and the same text after
`_parse_comment` get the same class. -/
theorem get_query_type_congr (ctx ctx2 : QueryContext)
    (h1 : ctx.mysql_cmd = ctx2.mysql_cmd)
    (h2 : (_parse_comment ctx).sql = (_parse_comment ctx2).sql) :
    (_get_query_type ctx).1 = (_get_query_type ctx2).1 := by
  have hc : (_parse_comment ctx).mysql_cmd = ctx.mysql_cmd := by
    rw [parse_comment_frame]
  have hc2 : (_parse_comment ctx2).mysql_cmd = ctx2.mysql_cmd := by
    rw [parse_comment_frame]
  unfold _get_query_type
  generalize _parse_comment ctx = a at hc h2 ⊢
  generalize _parse_comment ctx2 = b at hc2 h2 ⊢
  have hab : a.mysql_cmd = b.mysql_cmd := by rw [hc, hc2, h1]
  simp only [hab, h2, apply_ite Prod.fst]

/-- The class of a text that begins with SET, by the token that follows. -/
theorem sql_type_of_text_set (s : Str) (h : istarts_with s SQL_SET = true) :
    sql_type_of_text s =
      (if istarts_with (set_token s) "names".toList then SqlType.SQL_SET_NAMES_NUM
      else if istarts_with (set_token s) "charset".toList then SqlType.SQL_SET_CHARSET_NUM
      else if istarts_with (set_token s) "character_set_client".toList then
        SqlType.SQL_SET_CHARACTER_SET_CLIENT_NUM
      else if istarts_with (set_token s) "character_set_connection".toList then
        SqlType.SQL_SET_CHARACTER_SET_CONNECTION_NUM
      else if istarts_with (set_token s) "character_set_results".toList then
        SqlType.SQL_SET_CHARACTER_SET_RESULTS_NUM
      else if istarts_with (set_token s) "character set".toList then
        SqlType.SQL_SET_CHARACTER_SET_NUM
      else SqlType.SQL_SET_NUM) := by
  have d := fun k2 hk => istarts_with_disjoint s SQL_SET k2 hk h
  simp only [sql_type_of_text, h, d SQL_SELECT (by decide), d SQL_SHOW (by decide),
    d SQL_EXPLAIN (by decide), d SQL_KILL (by decide), d SQL_USE (by decide),
    d SQL_DESC (by decide), d SQL_CALL (by decide), if_true, Bool.false_eq_true, if_false,
    set_token]

/-- C17, as stated, fails on SET statements, whose class does not follow the token
after SET: line 2041 removes from the left of the text every character among
blank, `S`, `E`, `T`, `s`, `e`, `t` and compares what is left. In `set tnames utf8`
the token after SET is `tnames`, and the class is SetNames; in SET, a tab,
`names utf8` the token after SET is `names`, and the class is Set. -/
theorem C17_set_class_by_trimmed_text :
    (_get_query_type { new_query_context [] with
        mysql_cmd := COM_QUERY, sql := "set tnames utf8".toList }).1
      = SqlType.SQL_SET_NAMES_NUM
    ∧ set_token "set tnames utf8".toList = "names utf8".toList
    ∧ (_get_query_type { new_query_context [] with
        mysql_cmd := COM_QUERY, sql := "SET\tnames utf8".toList }).1 = SqlType.SQL_SET_NUM
    ∧ set_token "SET\tnames utf8".toList = "\tnames utf8".toList := by
  decide

/-- C17, amended: for the command byte `COM_QUERY` and a text that is not empty
once stripped, `_get_query_type` returns Select, Show, Explain, Kill, UseInQuery,
Desc or Call when the stripped text begins, whatever the case of its letters, with
SELECT, SHOW, EXPLAIN, KILL, USE, DESC or CALL (no two of these keywords can begin
the same text, so the order of the tests does not matter); when the text begins
with SET the class follows what begins the text once its leading characters among
blank, `S`, `E`, `T`, `s`, `e`, `t` are removed (`names`, `charset`,
`character_set_client`, `character_set_connection`, `character_set_results`,
`character set`, otherwise Set); every other text is Write. -/
theorem C17_query_type_by_keyword (ctx : QueryContext) (hcmd : ctx.mysql_cmd = COM_QUERY)
    (hne : (_parse_comment ctx).sql ≠ []) :
    (istarts_with (_parse_comment ctx).sql SQL_SELECT = true →
      (_get_query_type ctx).1 = SqlType.SQL_SELECT_NUM)
    ∧ (istarts_with (_parse_comment ctx).sql SQL_SHOW = true →
      (_get_query_type ctx).1 = SqlType.SQL_SHOW_NUM)
    ∧ (istarts_with (_parse_comment ctx).sql SQL_EXPLAIN = true →
      (_get_query_type ctx).1 = SqlType.SQL_EXPLAIN_NUM)
    ∧ (istarts_with (_parse_comment ctx).sql SQL_KILL = true →
      (_get_query_type ctx).1 = SqlType.SQL_KILL_NUM)
    ∧ (istarts_with (_parse_comment ctx).sql SQL_USE = true →
      (_get_query_type ctx).1 = SqlType.SQL_USE_IN_QUERY_NUM)
    ∧ (istarts_with (_parse_comment ctx).sql SQL_DESC = true →
      (_get_query_type ctx).1 = SqlType.SQL_DESC_NUM)
    ∧ (istarts_with (_parse_comment ctx).sql SQL_CALL = true →
      (_get_query_type ctx).1 = SqlType.SQL_CALL_NUM)
    ∧ (istarts_with (_parse_comment ctx).sql SQL_SET = true →
        (istarts_with (set_token (_parse_comment ctx).sql) "names".toList = true →
          (_get_query_type ctx).1 = SqlType.SQL_SET_NAMES_NUM)
        ∧ (istarts_with (set_token (_parse_comment ctx).sql) "charset".toList = true →
          (_get_query_type ctx).1 = SqlType.SQL_SET_CHARSET_NUM)
        ∧ (istarts_with (set_token (_parse_comment ctx).sql) "character_set_client".toList = true →
          (_get_query_type ctx).1 = SqlType.SQL_SET_CHARACTER_SET_CLIENT_NUM)
        ∧ (istarts_with (set_token (_parse_comment ctx).sql) "character_set_connection".toList = true →
          (_get_query_type ctx).1 = SqlType.SQL_SET_CHARACTER_SET_CONNECTION_NUM)
        ∧ (istarts_with (set_token (_parse_comment ctx).sql) "character_set_results".toList = true →
          (_get_query_type ctx).1 = SqlType.SQL_SET_CHARACTER_SET_RESULTS_NUM)
        ∧ (istarts_with (set_token (_parse_comment ctx).sql) "character set".toList = true →
          (_get_query_type ctx).1 = SqlType.SQL_SET_CHARACTER_SET_NUM)
        ∧ (istarts_with (set_token (_parse_comment ctx).sql) "names".toList = false →
            istarts_with (set_token (_parse_comment ctx).sql) "charset".toList = false →
            istarts_with (set_token (_parse_comment ctx).sql) "character_set_client".toList = false →
            istarts_with (set_token (_parse_comment ctx).sql) "character_set_connection".toList = false →
            istarts_with (set_token (_parse_comment ctx).sql) "character_set_results".toList = false →
            istarts_with (set_token (_parse_comment ctx).sql) "character set".toList = false →
          (_get_query_type ctx).1 = SqlType.SQL_SET_NUM))
    ∧ (istarts_with (_parse_comment ctx).sql SQL_SELECT = false →
        istarts_with (_parse_comment ctx).sql SQL_SHOW = false →
        istarts_with (_parse_comment ctx).sql SQL_EXPLAIN = false →
        istarts_with (_parse_comment ctx).sql SQL_KILL = false →
        istarts_with (_parse_comment ctx).sql SQL_USE = false →
        istarts_with (_parse_comment ctx).sql SQL_DESC = false →
        istarts_with (_parse_comment ctx).sql SQL_CALL = false →
        istarts_with (_parse_comment ctx).sql SQL_SET = false →
      (_get_query_type ctx).1 = SqlType.SQL_WRITE_NUM) := by
  rw [get_query_type_text ctx (Or.inl hcmd)]
  simp only [if_neg hne]
  generalize (_parse_comment ctx).sql = s
  generalize htok : set_token s = tok
  have d : ∀ k1 k2 : Str,
      (k1.map to_lower).take (min (k1.map to_lower).length (k2.map to_lower).length)
        ≠ (k2.map to_lower).take (min (k1.map to_lower).length (k2.map to_lower).length) →
      istarts_with s k1 = true → istarts_with s k2 = false :=
    fun k1 k2 => istarts_with_disjoint s k1 k2
  have dt : ∀ k1 k2 : Str,
      (k1.map to_lower).take (min (k1.map to_lower).length (k2.map to_lower).length)
        ≠ (k2.map to_lower).take (min (k1.map to_lower).length (k2.map to_lower).length) →
      istarts_with tok k1 = true → istarts_with tok k2 = false :=
    fun k1 k2 => istarts_with_disjoint tok k1 k2
  refine ⟨?_, ?_, ?_, ?_, ?_, ?_, ?_, ?_, ?_⟩
  · intro h
    simp only [sql_type_of_text, h, if_true]
  · intro h
    simp only [sql_type_of_text, h, d SQL_SHOW SQL_SELECT (by decide) h, if_true,
      Bool.false_eq_true, if_false]
  · intro h
    simp only [sql_type_of_text, h, d SQL_EXPLAIN SQL_SELECT (by decide) h,
      d SQL_EXPLAIN SQL_SHOW (by decide) h, if_true, Bool.false_eq_true, if_false]
  · intro h
    simp only [sql_type_of_text, h, d SQL_KILL SQL_SELECT (by decide) h,
      d SQL_KILL SQL_SHOW (by decide) h, d SQL_KILL SQL_EXPLAIN (by decide) h, if_true,
      Bool.false_eq_true, if_false]
  · intro h
    simp only [sql_type_of_text, h, d SQL_USE SQL_SELECT (by decide) h,
      d SQL_USE SQL_SHOW (by decide) h, d SQL_USE SQL_EXPLAIN (by decide) h,
      d SQL_USE SQL_KILL (by decide) h, if_true, Bool.false_eq_true, if_false]
  · intro h
    simp only [sql_type_of_text, h, d SQL_DESC SQL_SELECT (by decide) h,
      d SQL_DESC SQL_SHOW (by decide) h, d SQL_DESC SQL_EXPLAIN (by decide) h,
      d SQL_DESC SQL_KILL (by decide) h, d SQL_DESC SQL_USE (by decide) h, if_true,
      Bool.false_eq_true, if_false]
  · intro h
    simp only [sql_type_of_text, h, d SQL_CALL SQL_SELECT (by decide) h,
      d SQL_CALL SQL_SHOW (by decide) h, d SQL_CALL SQL_EXPLAIN (by decide) h,
      d SQL_CALL SQL_KILL (by decide) h, d SQL_CALL SQL_USE (by decide) h,
      d SQL_CALL SQL_DESC (by decide) h, if_true, Bool.false_eq_true, if_false]
  · intro h
    have hset := sql_type_of_text_set s h
    rw [htok] at hset
    rw [hset]
    refine ⟨?_, ?_, ?_, ?_, ?_, ?_, ?_⟩
    · intro g
      simp only [g, if_true]
    · intro g
      simp only [g, dt _ "names".toList (by decide) g, if_true, Bool.false_eq_true, if_false]
    · intro g
      simp only [g, dt _ "names".toList (by decide) g, dt _ "charset".toList (by decide) g,
        if_true, Bool.false_eq_true, if_false]
    · intro g
      simp only [g, dt _ "names".toList (by decide) g, dt _ "charset".toList (by decide) g,
        dt _ "character_set_client".toList (by decide) g, if_true, Bool.false_eq_true, if_false]
    · intro g
      simp only [g, dt _ "names".toList (by decide) g, dt _ "charset".toList (by decide) g,
        dt _ "character_set_client".toList (by decide) g,
        dt _ "character_set_connection".toList (by decide) g, if_true, Bool.false_eq_true,
        if_false]
    · intro g
      simp only [g, dt _ "names".toList (by decide) g, dt _ "charset".toList (by decide) g,
        dt _ "character_set_client".toList (by decide) g,
        dt _ "character_set_connection".toList (by decide) g,
        dt _ "character_set_results".toList (by decide) g, if_true, Bool.false_eq_true,
        if_false]
    · intro g1 g2 g3 g4 g5 g6
      simp only [g1, g2, g3, g4, g5, g6, Bool.false_eq_true, if_false]
  · intro h1 h2 h3 h4 h5 h6 h7 h8
    simp only [sql_type_of_text, h1, h2, h3, h4, h5, h6, h7, h8, Bool.false_eq_true, if_false]

theorem C17_query_type_by_keyword_witness :
    (_get_query_type (sample_query " Show Tables ;").query_ctx).1 = SqlType.SQL_SHOW_NUM
    ∧ (_get_query_type (sample_query "SET  Names utf8").query_ctx).1
        = SqlType.SQL_SET_NAMES_NUM
    ∧ (_get_query_type (sample_query "insert into t values (1)").query_ctx).1
        = SqlType.SQL_WRITE_NUM :=
  ⟨(C17_query_type_by_keyword (sample_query " Show Tables ;").query_ctx rfl
      (by decide)).2.1 (by decide),
    ((C17_query_type_by_keyword (sample_query "SET  Names utf8").query_ctx rfl
      (by decide)).2.2.2.2.2.2.2.1 (by decide)).1 (by decide),
    (C17_query_type_by_keyword (sample_query "insert into t values (1)").query_ctx rfl
      (by decide)).2.2.2.2.2.2.2.2 (by decide) (by decide) (by decide) (by decide)
      (by decide) (by decide) (by decide) (by decide)⟩

/-- C18: the class returned by `_get_query_type` depends on the command byte and
the SQL text only; for the bytes 0x02, 0x04, 0x05, 0x06, 0x07, 0x09, 0x0a, 0x0d,
0x11 and 0x0e it is Use, FieldList, CreateDb, DropDb, Refresh, Stat, ProcessInfo,
Debug, ChangeUser and Ping whatever the text is; for every byte outside that list
and outside 0x03, 0x16, 0x17, 0x19, 0x1c it is Unknown; for these five bytes the
comment-stripped text decides, and the class is Unknown when that text is empty. -/
theorem C18_query_type_by_command (ctx ctx2 : QueryContext) :
    (ctx.mysql_cmd = ctx2.mysql_cmd → ctx.sql = ctx2.sql →
      (_get_query_type ctx).1 = (_get_query_type ctx2).1)
    ∧ (ctx.mysql_cmd = 0x02 → (_get_query_type ctx).1 = SqlType.SQL_USE_NUM)
    ∧ (ctx.mysql_cmd = 0x04 → (_get_query_type ctx).1 = SqlType.SQL_FIELD_LIST_NUM)
    ∧ (ctx.mysql_cmd = 0x05 → (_get_query_type ctx).1 = SqlType.SQL_CREATE_DB_NUM)
    ∧ (ctx.mysql_cmd = 0x06 → (_get_query_type ctx).1 = SqlType.SQL_DROPD_DB_NUM)
    ∧ (ctx.mysql_cmd = 0x07 → (_get_query_type ctx).1 = SqlType.SQL_REFRESH_NUM)
    ∧ (ctx.mysql_cmd = 0x09 → (_get_query_type ctx).1 = SqlType.SQL_STAT_NUM)
    ∧ (ctx.mysql_cmd = 0x0a → (_get_query_type ctx).1 = SqlType.SQL_PROCESS_INFO_NUM)
    ∧ (ctx.mysql_cmd = 0x0d → (_get_query_type ctx).1 = SqlType.SQL_DEBUG_NUM)
    ∧ (ctx.mysql_cmd = 0x11 → (_get_query_type ctx).1 = SqlType.SQL_CHANGEUSER_NUM)
    ∧ (ctx.mysql_cmd = 0x0e → (_get_query_type ctx).1 = SqlType.SQL_PING_NUM)
    ∧ (ctx.mysql_cmd ∉ [0x02, 0x04, 0x05, 0x06, 0x07, 0x09, 0x0a, 0x0d, 0x11, 0x0e] →
        ctx.mysql_cmd ∉ [0x03, 0x16, 0x17, 0x19, 0x1c] →
      (_get_query_type ctx).1 = SqlType.SQL_UNKNOWN_NUM)
    ∧ (ctx.mysql_cmd ∈ [0x03, 0x16, 0x17, 0x19, 0x1c] →
      (_get_query_type ctx).1
        = if (_parse_comment ctx).sql = [] then SqlType.SQL_UNKNOWN_NUM
          else sql_type_of_text (_parse_comment ctx).sql) := by
  have hc : (_parse_comment ctx).mysql_cmd = ctx.mysql_cmd := by
    rw [parse_comment_frame]
  refine ⟨?_, ?_, ?_, ?_, ?_, ?_, ?_, ?_, ?_, ?_, ?_, ?_, ?_⟩
  · intro h1 h2
    exact get_query_type_congr ctx ctx2 h1 (parse_comment_text ctx ctx2 h2)
  all_goals try (intro h; unfold _get_query_type; simp only [hc, h]; rfl)
  · intro h1 h2
    simp only [List.mem_cons, List.mem_singleton, List.not_mem_nil, or_false, not_or] at h1 h2
    unfold _get_query_type
    simp only [hc]
    obtain ⟨a1, a2, a3, a4, a5, a6, a7, a8, a9, a10⟩ := h1
    obtain ⟨b1, b2, b3, b4, b5⟩ := h2
    simp [a1, a2, a3, a4, a5, a6, a7, a8, a9, a10, b1, b2, b3, b4, b5]
  · intro h
    simp only [List.mem_cons, List.mem_singleton, List.not_mem_nil, or_false] at h
    rw [get_query_type_text ctx h]

theorem C18_query_type_by_command_witness :
    (_get_query_type { new_query_context [] with mysql_cmd := 0x04, sql := "select 1".toList }).1
      = SqlType.SQL_FIELD_LIST_NUM
    ∧ (_get_query_type { new_query_context [] with mysql_cmd := 0x22, sql := "select 1".toList }).1
      = SqlType.SQL_UNKNOWN_NUM :=
  ⟨(C18_query_type_by_command
      { new_query_context [] with mysql_cmd := 0x04, sql := "select 1".toList }
      (new_query_context [])).2.2.1 rfl,
    (C18_query_type_by_command
      { new_query_context [] with mysql_cmd := 0x22, sql := "select 1".toList }
      (new_query_context [])).2.2.2.2.2.2.2.2.2.2.2.1 (by decide) (by decide)⟩

/-- C20, as stated, fails: in `set /* x */ names utf8` the comment block follows
other text; `_get_query_type` leaves it in `ctx.sql`, appends nothing to
`ctx.comments` and returns Set, whereas the same text with the block deleted is
classified SetNames. -/
theorem C20_inner_comment_stays :
    (_get_query_type (sample_query "set /* x */ names utf8").query_ctx).2.sql
      = "set /* x */ names utf8".toList
    ∧ (_get_query_type (sample_query "set /* x */ names utf8").query_ctx).2.comments = []
    ∧ (_get_query_type (sample_query "set /* x */ names utf8").query_ctx).1
      = SqlType.SQL_SET_NUM
    ∧ (_get_query_type (sample_query "set  names utf8").query_ctx).1
      = SqlType.SQL_SET_NAMES_NUM := by
  decide

/-- C20, amended: for every text made of comment blocks (each a `/*`, a body
without `*/`, a `*/`, followed by white space) in front of a statement text `t`
whose stripped form does not begin with `/*`, surrounded by white space and
trailing semicolons, `_get_query_type` removes these leading blocks from `ctx.sql`,
which becomes the stripped `t` (a block inside `t` stays there), appends them to
`ctx.comments` in order of appearance, and returns the class of the same text with
the leading blocks deleted. -/
theorem C20_leading_comments_moved (ctx : QueryContext) (blocks : List (Str × Str))
    (t w0 w1 : Str)
    (hall : ∀ p ∈ blocks, no_close p.1 = true ∧ ∀ c ∈ p.2, is_blank c = true)
    (h0 : ∀ c ∈ w0, is_blank c = true) (h1 : ∀ c ∈ w1, is_blank_or_semi c = true)
    (ht : istarts_with (trim_sql t) "/*".toList = false) :
    (_get_query_type { ctx with sql := w0 ++ with_leading_comments blocks t ++ w1 }).2.sql
      = trim_sql t
    ∧ (_get_query_type { ctx with sql := w0 ++ with_leading_comments blocks t ++ w1 }).2.comments
      = ctx.comments ++ blocks.map (fun p => comment_block p.1)
    ∧ (_get_query_type { ctx with sql := w0 ++ with_leading_comments blocks t ++ w1 }).1
      = (_get_query_type { ctx with sql := w0 ++ without_comments blocks t ++ w1 }).1 := by
  have hp := parse_comment_blocks ctx blocks t w0 w1 hall h0 h1 ht
  have h2 : (_get_query_type { ctx with sql := w0 ++ with_leading_comments blocks t ++ w1 }).2
      = _parse_comment { ctx with sql := w0 ++ with_leading_comments blocks t ++ w1 } := by
    unfold _get_query_type
    simp only [apply_ite Prod.snd, ite_self]
  have hw : ∀ c ∈ w0 ++ (blocks.map Prod.snd).flatten, is_blank c = true := by
    intro c hc
    rcases List.mem_append.mp hc with hc | hc
    · exact h0 c hc
    · obtain ⟨l, hl, hcl⟩ := List.mem_flatten.mp hc
      obtain ⟨p, hp1, rfl⟩ := List.mem_map.mp hl
      exact (hall p hp1).2 c hcl
  have hs : trim_sql (w0 ++ without_comments blocks t ++ w1) = trim_sql t := by
    have := trim_sql_surround (w0 ++ (blocks.map Prod.snd).flatten) t w1 hw h1
    rw [← this, without_comments]
    simp
  have hq : _parse_comment { ctx with sql := w0 ++ without_comments blocks t ++ w1 }
      = { ctx with sql := trim_sql t } := by
    rw [parse_comment_plain _ (by simp only [hs]; exact ht)]
    simp only [hs]
  refine ⟨?_, ?_, ?_⟩
  · rw [h2, hp]
  · rw [h2, hp]
  · apply get_query_type_congr
    · rfl
    · rw [hp, hq]

theorem C20_leading_comments_moved_witness :
    (_get_query_type { (sample_query "").query_ctx with
        sql := " ".toList ++ with_leading_comments
          [("a".toList, " ".toList), (" b ".toList, [])] "select /* in */ 1".toList
          ++ ";".toList }).2.sql = "select /* in */ 1".toList
    ∧ (_get_query_type { (sample_query "").query_ctx with
        sql := " ".toList ++ with_leading_comments
          [("a".toList, " ".toList), (" b ".toList, [])] "select /* in */ 1".toList
          ++ ";".toList }).2.comments = ["/*a*/".toList, "/* b */".toList] := by
  have h := C20_leading_comments_moved (sample_query "").query_ctx
    [("a".toList, " ".toList), (" b ".toList, [])] "select /* in */ 1".toList
    " ".toList ";".toList (by decide) (by decide) (by decide) (by decide)
  exact ⟨h.1.trans (by decide), h.2.1.trans (by decide)⟩

/-! ## `_query_read` on a received command -/

theorem query_read_rejects_statement (E : Env) (s : Sock) (command off : Nat) (s1 : Sock)
    (h : ReceivesCommand E s command off s1)
    (hc : command = COM_STMT_EXECUTE ∨ command = COM_STMT_CLOSE) :
    _query_read E s
      = (Ret.RET_CMD_UNSUPPORT, not_allowed E (with_command s1 command s1.query_ctx.sql)) := by
  obtain ⟨h1, h2, h3, h4⟩ := h
  unfold _query_read
  simp only [h1, h2, h3, h4]
  rcases hc with rfl | rfl <;> simp [COM_STMT_EXECUTE, COM_STMT_CLOSE, COM_PING, with_command]

theorem query_read_text (E : Env) (s : Sock) (command : Nat) (sql : Str) (s1 : Sock)
    (h : ReceivesText E s command sql s1)
    (hc1 : command ≠ COM_PING) (hc2 : command ≠ COM_STMT_EXECUTE)
    (hc3 : command ≠ COM_STMT_CLOSE) :
    _query_read E s = query_read_tail E (with_command s1 command sql) := by
  obtain ⟨off, ⟨h1, h2, h3, h4⟩, h5, h6, h7⟩ := h
  unfold _query_read
  simp only [h1, h2, h3, h4]
  simp [hc1, hc2, hc3, h5, h6, h7, query_read_tail, with_command, classified]

/-! ## The paths of `run_machine` out of `STATE_SEND_AUTH_RESULT` -/

theorem same_session_refl (s : Sock) : SameSession s s :=
  ⟨rfl, rfl, rfl, rfl, rfl, rfl, rfl, rfl, rfl, rfl⟩

theorem same_session_trans (a b c : Sock) (h1 : SameSession a b) (h2 : SameSession b c) :
    SameSession a c := by
  obtain ⟨a1, a2, a3, a4, a5, a6, a7, a8, a9, a10⟩ := h1
  obtain ⟨b1, b2, b3, b4, b5, b6, b7, b8, b9, b10⟩ := h2
  exact ⟨b1.trans a1, b2.trans a2, b3.trans a3, b4.trans a4, b5.trans a5, b6.trans a6,
    b7.trans a7, b8.trans a8, b9.trans a9, b10.trans a10⟩

theorem read_packet_body_session (E : Env) (s : Sock) :
    SameSession s (_read_packet_body E s).2 ∧ (_read_packet_body E s).2.query_ctx = s.query_ctx := by
  rw [read_packet_body_eq]
  simp only
  split_ifs <;> exact ⟨⟨rfl, rfl, rfl, rfl, rfl, rfl, rfl, rfl, rfl, rfl⟩, rfl⟩

/-- Reading a packet changes neither the session state nor the query context. -/
theorem read_packet_session (E : Env) (s : Sock) :
    SameSession s (_read_packet E s).2 ∧ (_read_packet E s).2.query_ctx = s.query_ctx := by
  by_cases h4 : s.header_read_len = 4
  · rw [read_packet_body_phase_eq E s h4]
    exact read_packet_body_session E s
  · rw [read_packet_header_eq E s h4]
    simp only
    split_ifs
    · exact ⟨⟨rfl, rfl, rfl, rfl, rfl, rfl, rfl, rfl, rfl, rfl⟩, rfl⟩
    · exact ⟨⟨rfl, rfl, rfl, rfl, rfl, rfl, rfl, rfl, rfl, rfl⟩, rfl⟩
    · exact ⟨⟨rfl, rfl, rfl, rfl, rfl, rfl, rfl, rfl, rfl, rfl⟩, rfl⟩
    · exact ⟨⟨rfl, rfl, rfl, rfl, rfl, rfl, rfl, rfl, rfl, rfl⟩, rfl⟩
    · have hb := read_packet_body_session E (after_header s (4 - s.header_read_len)
        (E.real_read s.clock (4 - s.header_read_len)))
      exact ⟨same_session_trans _ _ _ ⟨rfl, rfl, rfl, rfl, rfl, rfl, rfl, rfl, rfl, rfl⟩ hb.1,
        hb.2.trans rfl⟩

theorem run_send_auth_result (E : Env) (fuel : Nat) (client : Sock)
    (hst : client.state = State.STATE_SEND_AUTH_RESULT) :
    run_machine E (fuel + 1) client false
      = case_send_auth_result E (fun c => run_machine E fuel c false) client false := by
  simp [run_machine, hst]

/-- A command that `_query_read` answers itself is flushed through
`STATE_READ_QUERY_RESULT`. -/
theorem run_unsupported (E : Env) (fuel : Nat) (client r2 : Sock)
    (hst : client.state = State.STATE_SEND_AUTH_RESULT)
    (hq : _query_read E (emit client Event.query_read) = (Ret.RET_CMD_UNSUPPORT, r2)) :
    run_machine E (fuel + 2) client false
      = some (_send_result_to_client_and_reset_status E
          (set_state r2 State.STATE_READ_QUERY_RESULT)) := by
  rw [run_send_auth_result E _ client hst]
  simp [case_send_auth_result, hq, run_machine, set_state]

/-- A command whose processing fails, or ends in `STATE_ERROR_REUSE`, gets the
`ER_ERROR_COMMON` packet and is flushed by the case `STATE_ERROR_REUSE`. -/
theorem run_error_reuse (E : Env) (fuel : Nat) (client q : Sock)
    (hst : client.state = State.STATE_SEND_AUTH_RESULT)
    (hq : _query_read E (emit client Event.query_read) = (Ret.RET_SUCCESS, q))
    (hp : (_query_process E (emit q Event.query_process)).1 = false
      ∨ (_query_process E (emit q Event.query_process)).2.state = State.STATE_ERROR_REUSE)
    (hne : (_query_process E (emit q Event.query_process)).2.state ≠ State.STATE_ERROR) :
    run_machine E (fuel + 2) client false
      = some (case_error_reuse E (set_state
          (make_err_packet E (_query_process E (emit q Event.query_process)).2
            ErrCode.ER_ERROR_COMMON "handle query failed".toList)
          State.STATE_ERROR_REUSE)) := by
  rw [run_send_auth_result E _ client hst]
  simp only [case_send_auth_result, hq]
  generalize _query_process E (emit q Event.query_process) = p at hp hne ⊢
  have hc : (!p.1 ∨ p.2.state = State.STATE_ERROR ∨ p.2.state = State.STATE_ERROR_REUSE) := by
    rcases hp with h | h
    · left; simp [h]
    · right; right; exact h
  have hs : (make_err_packet E p.2 ErrCode.ER_ERROR_COMMON "handle query failed".toList).state
      ≠ State.STATE_ERROR := hne
  simp only [Bool.false_eq_true, if_false, if_true, if_pos hc, if_neg hs]
  simp [run_machine, set_state]

/-- A command that was processed with a reply in the send buffer is flushed by the
case `STATE_READ_QUERY_RESULT`. -/
theorem run_result (E : Env) (fuel : Nat) (client q : Sock)
    (hst : client.state = State.STATE_SEND_AUTH_RESULT)
    (hq : _query_read E (emit client Event.query_read) = (Ret.RET_SUCCESS, q))
    (hp1 : (_query_process E (emit q Event.query_process)).1 = true)
    (hp2 : (_query_process E (emit q Event.query_process)).2.state
      = State.STATE_READ_QUERY_RESULT) :
    run_machine E (fuel + 2) client false
      = some (_send_result_to_client_and_reset_status E
          (_query_process E (emit q Event.query_process)).2) := by
  rw [run_send_auth_result E _ client hst]
  simp only [case_send_auth_result, hq]
  generalize _query_process E (emit q Event.query_process) = p at hp1 hp2 ⊢
  simp [hp1, hp2, run_machine]

/-- What the case `STATE_ERROR_REUSE` leaves. -/
theorem case_error_reuse_fields (E : Env) (c : Sock) :
    (case_error_reuse E c).state = State.STATE_SEND_AUTH_RESULT
    ∧ SameSession c (case_error_reuse E c)
    ∧ (case_error_reuse E c).send_buf = [] ∧ (case_error_reuse E c).self_buf = []
    ∧ (case_error_reuse E c).header_read_len = c.header_read_len
    ∧ (case_error_reuse E c).packet_read_len = c.packet_read_len
    ∧ (case_error_reuse E c).log = c.log ++ [Event.real_write (E.real_write c.clock),
        Event.reset_when_err, Event.set_state State.STATE_SEND_AUTH_RESULT,
        Event.poll_events_mod EpollEv.EPOLLIN] := by
  refine ⟨rfl, ⟨rfl, rfl, rfl, rfl, rfl, rfl, rfl, rfl, rfl, rfl⟩, rfl, rfl, rfl, rfl, ?_⟩
  simp [case_error_reuse, poll_events_mod, set_state, reset_when_err, _query_result_send, emit]

/-- What the case `STATE_READ_QUERY_RESULT` leaves when the write completes. -/
theorem send_result_fields (E : Env) (c : Sock) (hw : E.real_write c.clock = Ret.RET_SUCCESS) :
    (_send_result_to_client_and_reset_status E c).state = State.STATE_SEND_AUTH_RESULT
    ∧ SameSession c (_send_result_to_client_and_reset_status E c)
    ∧ (_send_result_to_client_and_reset_status E c).send_buf = []
    ∧ (_send_result_to_client_and_reset_status E c).self_buf = []
    ∧ (_send_result_to_client_and_reset_status E c).header_read_len = c.header_read_len
    ∧ (_send_result_to_client_and_reset_status E c).packet_read_len = c.packet_read_len
    ∧ (_send_result_to_client_and_reset_status E c).log = c.log ++ [Event.real_write Ret.RET_SUCCESS,
        Event.set_state State.STATE_SEND_AUTH_RESULT,
        Event.poll_events_mod EpollEv.EPOLLIN] := by
  have e : _send_result_to_client_and_reset_status E c
      = poll_events_mod (set_state (_reset_network_socket_client_resource
          (emit { c with clock := c.clock + 1 } (Event.real_write Ret.RET_SUCCESS)))
          State.STATE_SEND_AUTH_RESULT) EpollEv.EPOLLIN := by
    simp [_send_result_to_client_and_reset_status, _query_result_send, hw]
  rw [e]
  refine ⟨rfl, ⟨rfl, rfl, rfl, rfl, rfl, rfl, rfl, rfl, rfl, rfl⟩, rfl, rfl, rfl, rfl, ?_⟩
  simp [poll_events_mod, set_state, _reset_network_socket_client_resource, emit]

/-! ## The classified connection -/

theorem get_query_type_snd (ctx : QueryContext) :
    (_get_query_type ctx).2 = _parse_comment ctx := by
  unfold _get_query_type
  simp only [apply_ite Prod.snd, ite_self]

theorem parse_comment_sql_eq (ctx : QueryContext) :
    (_parse_comment ctx).sql = stripped_text ctx.sql :=
  parse_comment_text ctx { new_query_context [] with sql := ctx.sql } rfl

/-- The text left by the comment loop does not begin with white space. -/
theorem parse_comment_loop_head : ∀ (fuel : Nat) (ctx : QueryContext),
    (∀ c r, ctx.sql = c :: r → is_blank c = false) →
    ∀ c r, (_parse_comment_loop fuel ctx).sql = c :: r → is_blank c = false := by
  intro fuel
  induction fuel with
  | zero => intro ctx h; exact h
  | succ n ih =>
    intro ctx h
    simp only [_parse_comment_loop]
    have hm := (regex_replace_2_length ctx.sql).2
    have hnone : (regex_replace_2 ctx.sql).length = ctx.sql.length →
        regex_replace_2 ctx.sql = ctx.sql := by
      intro hl
      cases hr : regex_match ctx.sql with
      | none => simp [regex_replace_2, hr]
      | some r =>
        have := hm (by rw [hr]; rfl)
        omega
    split_ifs with h1 h2 h3 h3
    · intro c r hc
      simp only at h3 hc
      rw [hnone h3] at hc
      exact h c r hc
    · apply ih
      intro c r hc
      exact trim_sql_head _ c r hc
    · intro c r hc
      simp only at h3 hc
      rw [hnone h3] at hc
      exact h c r hc
    · apply ih
      intro c r hc
      exact trim_sql_head _ c r hc
    · exact h

theorem stripped_text_head (sql : Str) (c : Char) (r : Str) (h : stripped_text sql = c :: r) :
    is_blank c = false := by
  unfold stripped_text _parse_comment at h
  exact parse_comment_loop_head _ _ (fun c r hc => trim_sql_head _ c r hc) c r h

theorem stripped_text_no_space (sql : Str) :
    trim_left_if (fun c => c == ' ') (stripped_text sql) = stripped_text sql := by
  unfold trim_left_if
  cases h : stripped_text sql with
  | nil => rfl
  | cons c r =>
    have := stripped_text_head sql c r h
    apply List.dropWhile_cons_of_neg
    intro hc
    have : c = ' ' := by simpa using hc
    subst this
    revert this
    decide

/-- The query context of the classified connection. -/
theorem classified_ctx (E : Env) (c : Sock) :
    (classified E c).query_ctx.sql = stripped_text c.query_ctx.sql
    ∧ (classified E c).query_ctx.mysql_cmd = c.query_ctx.mysql_cmd
    ∧ (classified E c).query_ctx.type = (_get_query_type c.query_ctx).1
    ∧ (classified E c).query_ctx.cur_db = c.query_ctx.cur_db
    ∧ (classify c).query_ctx.type = (_get_query_type c.query_ctx).1 := by
  obtain ⟨j1, j2, j3, j4⟩ := get_json_attributes_frame E (classify c).query_ctx
  have hf := parse_comment_frame c.query_ctx
  refine ⟨?_, ?_, ?_, ?_, rfl⟩
  · show (_get_json_attributes E (classify c).query_ctx).sql = _
    rw [j1]
    show (_get_query_type c.query_ctx).2.sql = _
    rw [get_query_type_snd, parse_comment_sql_eq]
  · show (_get_json_attributes E (classify c).query_ctx).mysql_cmd = _
    rw [j3]
    show (_get_query_type c.query_ctx).2.mysql_cmd = _
    rw [get_query_type_snd, hf]
  · show (_get_json_attributes E (classify c).query_ctx).type = _
    rw [j2]
    rfl
  · show (_get_json_attributes E (classify c).query_ctx).cur_db = _
    rw [j4]
    show (_get_query_type c.query_ctx).2.cur_db = _
    rw [get_query_type_snd, hf]
/-- The classification changes the query context only. -/
theorem classified_fields (E : Env) (c : Sock) :
    SameSession c (classified E c) ∧ (classified E c).send_buf = c.send_buf
    ∧ (classified E c).packet_id = c.packet_id ∧ (classified E c).state = c.state
    ∧ (classified E c).log = c.log ∧ (classified E c).clock = c.clock
    ∧ (classified E c).self_buf = c.self_buf
    ∧ (classified E c).header_read_len = c.header_read_len
    ∧ (classified E c).packet_read_len = c.packet_read_len := by
  simp only [classified, classify, SameSession, and_self]

/-! ## `COM_INIT_DB` -/

theorem get_query_type_use (ctx : QueryContext) (h : ctx.mysql_cmd = 0x02) :
    (_get_query_type ctx).1 = SqlType.SQL_USE_NUM := by
  have hc : (_parse_comment ctx).mysql_cmd = ctx.mysql_cmd := by
    rw [parse_comment_frame]
  unfold _get_query_type
  simp only [hc, h]
  rfl

theorem get_query_type_field_list (ctx : QueryContext) (h : ctx.mysql_cmd = 0x04) :
    (_get_query_type ctx).1 = SqlType.SQL_FIELD_LIST_NUM := by
  have hc : (_parse_comment ctx).mysql_cmd = ctx.mysql_cmd := by
    rw [parse_comment_frame]
  unfold _get_query_type
  simp only [hc, h]
  rfl

/-- When the class is neither of the two rejected SET classes nor Unknown,
`_query_read` succeeds and hands over the classified connection. -/
theorem query_read_tail_success (E : Env) (s3 : Sock)
    (h1 : (_get_query_type s3.query_ctx).1 ≠ SqlType.SQL_SET_CHARSET_NUM)
    (h2 : (_get_query_type s3.query_ctx).1 ≠ SqlType.SQL_SET_CHARACTER_SET_NUM)
    (h3 : (_get_query_type s3.query_ctx).1 ≠ SqlType.SQL_UNKNOWN_NUM) :
    query_read_tail E s3 = (Ret.RET_SUCCESS, classified E s3) := by
  obtain ⟨-, -, c3, -, c5⟩ := classified_ctx E s3
  unfold query_read_tail
  simp only [c3, c5, h1, h2, h3, or_self, if_false]

/-- What reading a command packet leaves of the connection `_query_read` was called
on. -/
theorem receives_command_fields (E : Env) (s : Sock) (command off : Nat) (s1 : Sock)
    (h : ReceivesCommand E s command off s1) :
    SameSession s s1 ∧ s1.send_buf = s.send_buf ∧ s1.state = s.state
    ∧ s1.query_ctx = new_query_context s.current_db := by
  obtain ⟨h1, -⟩ := h
  have hs := read_packet_session E
    (emit { s with query_ctx := new_query_context s.current_db } Event.new_query_ctx)
  have hf := read_packet_frame E
    (emit { s with query_ctx := new_query_context s.current_db } Event.new_query_ctx)
  rw [h1] at hs hf
  obtain ⟨f1, -, -, -, -, -, f7, -⟩ := hf
  exact ⟨same_session_trans _ _ _ ⟨rfl, rfl, rfl, rfl, rfl, rfl, rfl, rfl, rfl, rfl⟩ hs.1,
    f7, f1, hs.2⟩

/-- C16, as stated, fails: for the non-empty payload made of one blank the
stripped statement text is empty, `_query_process` returns false, no OK packet is
made, the reply is the `ER_ERROR_COMMON` packet sent through `STATE_ERROR_REUSE`,
and `current_db` keeps its former value. -/
theorem C16_blank_payload_rejected :
    (run_machine (sample_env [[2, 0, 0, 0], [2, 32]] []) 3
        { sample_client with current_db := "old".toList } false).map
      (fun c => (c.log, c.current_db))
      = some ([Event.query_read, Event.new_query_ctx,
          Event.real_read 4 Ret.RET_SUCCESS 4, Event.real_read 2 Ret.RET_SUCCESS 2,
          Event.query_process,
          Event.make_err_packet ErrCode.ER_ERROR_COMMON "handle query failed".toList,
          Event.set_state State.STATE_ERROR_REUSE, Event.real_write Ret.RET_SUCCESS,
          Event.reset_when_err, Event.set_state State.STATE_SEND_AUTH_RESULT,
          Event.poll_events_mod EpollEv.EPOLLIN], "old".toList) := by
  decide

/-- C16, amended: for every `COM_INIT_DB` packet whose payload is not empty once
surrounding white space, trailing semicolons and leading comment blocks are
stripped, `_query_read` succeeds and after `_query_process` the connection's
`current_db` and the query context's `cur_db` equal the stripped payload, the OK
packet has been appended to the send buffer, the state is
`STATE_READ_QUERY_RESULT` and the call returned true. -/
theorem C16_init_db_sets_database (E : Env) (s : Sock) (payload : Str) (s1 : Sock)
    (hrecv : ReceivesText E s COM_INIT_DB payload s1)
    (hne : stripped_text payload ≠ []) :
    ∃ q, _query_read E s = (Ret.RET_SUCCESS, q)
      ∧ (_query_process E (emit q Event.query_process)).1 = true
      ∧ (_query_process E (emit q Event.query_process)).2.current_db = stripped_text payload
      ∧ (_query_process E (emit q Event.query_process)).2.query_ctx.cur_db
          = stripped_text payload
      ∧ (_query_process E (emit q Event.query_process)).2.send_buf
          = s.send_buf ++ E.make_simple_ok_packet s1.packet_id
      ∧ (_query_process E (emit q Event.query_process)).2.state
          = State.STATE_READ_QUERY_RESULT := by
  have hq := query_read_text E s COM_INIT_DB payload s1 hrecv (by decide) (by decide)
    (by decide)
  obtain ⟨off, hcmd, -⟩ := hrecv
  obtain ⟨-, hsend, -, -⟩ := receives_command_fields E s _ _ s1 hcmd
  have hty : (_get_query_type (with_command s1 COM_INIT_DB payload).query_ctx).1
      = SqlType.SQL_USE_NUM := get_query_type_use _ rfl
  rw [query_read_tail_success E _ (by rw [hty]; decide) (by rw [hty]; decide)
    (by rw [hty]; decide)] at hq
  obtain ⟨c1, c2, c3, -, -⟩ := classified_ctx E (with_command s1 COM_INIT_DB payload)
  have c1' : (classified E (with_command s1 COM_INIT_DB payload)).query_ctx.sql
      = stripped_text payload := c1
  have c2' : (classified E (with_command s1 COM_INIT_DB payload)).query_ctx.mysql_cmd
      = COM_INIT_DB := c2
  rw [hty] at c3
  have c4 : (classified E (with_command s1 COM_INIT_DB payload)).send_buf = s.send_buf :=
    hsend
  have c5 : (classified E (with_command s1 COM_INIT_DB payload)).packet_id = s1.packet_id :=
    rfl
  refine ⟨_, hq, ?_⟩
  generalize classified E (with_command s1 COM_INIT_DB payload) = q at c1' c2' c3 c4 c5
  have hl : ¬ (stripped_text payload).length = 0 := by
    rw [List.length_eq_zero]; exact hne
  have e1 : (emit q Event.query_process).query_ctx = q.query_ctx := rfl
  have hproc : _query_process E (emit q Event.query_process)
      = _handle_client_query_use_database E (emit q Event.query_process) := by
    unfold _query_process
    simp only [e1, c1', c2', c3, hl, if_false, true_or, if_true]
    try rfl
  have hres : _handle_client_query_use_database E (emit q Event.query_process)
      = (true, set_state (make_simple_ok_packet E
          { emit q Event.query_process with
            current_db := stripped_text payload,
            query_ctx := { q.query_ctx with cur_db := stripped_text payload } })
          State.STATE_READ_QUERY_RESULT) := by
    unfold _handle_client_query_use_database
    simp only [e1, c1', stripped_text_no_space]
  rw [hproc, hres]
  refine ⟨rfl, rfl, rfl, ?_, rfl⟩
  show q.send_buf ++ E.make_simple_ok_packet q.packet_id = _
  rw [c4, c5]

theorem C16_init_db_sets_database_witness :
    ∃ q, _query_read (sample_env [[7, 0, 0, 0], [2, 32, 115, 104, 111, 112, 59]] [])
        sample_client = (Ret.RET_SUCCESS, q)
      ∧ (_query_process (sample_env [[7, 0, 0, 0], [2, 32, 115, 104, 111, 112, 59]] [])
          (emit q Event.query_process)).2.current_db = "shop".toList := by
  obtain ⟨q, h1, -, h3, -⟩ := C16_init_db_sets_database
    (sample_env [[7, 0, 0, 0], [2, 32, 115, 104, 111, 112, 59]] []) sample_client
    " shop;".toList
    (_read_packet (sample_env [[7, 0, 0, 0], [2, 32, 115, 104, 111, 112, 59]] [])
      (emit { sample_client with query_ctx := new_query_context sample_client.current_db }
        Event.new_query_ctx)).2
    ⟨5, ⟨by decide, by decide, by decide, by decide⟩, by decide, by decide, by decide⟩
    (by decide)
  exact ⟨q, h1, h3.trans (by decide)⟩

/-! ## SET statements -/

/-- C15, as stated, fails, on a connection that is logged in: for
`set charset utf8` the reply `_query_read` puts in the send buffer is the
`ER_UNKNOWN_CHARACTER_SET` packet, and no OK packet is made; and for SET, a tab and
`names utf8` the class is the plain SET (the tab is not among the characters line
2041 removes), so the statement goes through the planner stages and no OK packet
is made either. -/
theorem C15_set_charset_rejected :
    (run_machine (sample_env (sample_command 3 "set charset utf8") []) 3 sample_logged_in
        false).map (fun c => c.log)
      = some [Event.query_read, Event.new_query_ctx,
          Event.real_read 4 Ret.RET_SUCCESS 4, Event.real_read 17 Ret.RET_SUCCESS 17,
          Event.make_err_packet ErrCode.ER_UNKNOWN_CHARACTER_SET "unsupport charset".toList,
          Event.set_state State.STATE_READ_QUERY_RESULT, Event.real_write Ret.RET_SUCCESS,
          Event.set_state State.STATE_SEND_AUTH_RESULT,
          Event.poll_events_mod EpollEv.EPOLLIN]
    ∧ (run_machine (sample_env (sample_command 3 "SET\tnames utf8") []) 3 sample_logged_in
        false).map (fun c => c.log)
      = some [Event.query_read, Event.new_query_ctx,
          Event.real_read 4 Ret.RET_SUCCESS 4, Event.real_read 15 Ret.RET_SUCCESS 15,
          Event.query_process, Event.is_exceed_quota false, Event.logical_analyze 0,
          Event.create_plan_tree 0, Event.physical_analyze 0, Event.execute 0,
          Event.on_commit_rollback,
          Event.set_state State.STATE_READ_QUERY_RESULT, Event.real_write Ret.RET_SUCCESS,
          Event.set_state State.STATE_SEND_AUTH_RESULT,
          Event.poll_events_mod EpollEv.EPOLLIN] := by
  constructor <;> decide

/-- The class of a `COM_QUERY` text that begins with SET, token by token. -/
theorem set_type_of_token (ctx : QueryContext) (hcmd : ctx.mysql_cmd = COM_QUERY)
    (hset : istarts_with (stripped_text ctx.sql) SQL_SET = true) :
    (istarts_with (set_token (stripped_text ctx.sql)) "names".toList = true →
      (_get_query_type ctx).1 = SqlType.SQL_SET_NAMES_NUM)
    ∧ (istarts_with (set_token (stripped_text ctx.sql)) "charset".toList = true →
      (_get_query_type ctx).1 = SqlType.SQL_SET_CHARSET_NUM)
    ∧ (istarts_with (set_token (stripped_text ctx.sql)) "character_set_client".toList = true →
      (_get_query_type ctx).1 = SqlType.SQL_SET_CHARACTER_SET_CLIENT_NUM)
    ∧ (istarts_with (set_token (stripped_text ctx.sql)) "character_set_connection".toList = true →
      (_get_query_type ctx).1 = SqlType.SQL_SET_CHARACTER_SET_CONNECTION_NUM)
    ∧ (istarts_with (set_token (stripped_text ctx.sql)) "character_set_results".toList = true →
      (_get_query_type ctx).1 = SqlType.SQL_SET_CHARACTER_SET_RESULTS_NUM)
    ∧ (istarts_with (set_token (stripped_text ctx.sql)) "character set".toList = true →
      (_get_query_type ctx).1 = SqlType.SQL_SET_CHARACTER_SET_NUM) := by
  have hne : stripped_text ctx.sql ≠ [] := by
    intro h0
    rw [h0] at hset
    revert hset
    decide
  rw [get_query_type_text ctx (Or.inl hcmd)]
  simp only [parse_comment_sql_eq, if_neg hne, sql_type_of_text_set _ hset]
  generalize set_token (stripped_text ctx.sql) = tok
  have dt := fun k1 k2 hk h => istarts_with_disjoint tok k1 k2 hk h
  refine ⟨?_, ?_, ?_, ?_, ?_, ?_⟩
  · intro g
    simp only [g, if_true]
  · intro g
    simp only [g, dt _ "names".toList (by decide) g, if_true, Bool.false_eq_true, if_false]
  · intro g
    simp only [g, dt _ "names".toList (by decide) g, dt _ "charset".toList (by decide) g,
      if_true, Bool.false_eq_true, if_false]
  · intro g
    simp only [g, dt _ "names".toList (by decide) g, dt _ "charset".toList (by decide) g,
      dt _ "character_set_client".toList (by decide) g, if_true, Bool.false_eq_true, if_false]
  · intro g
    simp only [g, dt _ "names".toList (by decide) g, dt _ "charset".toList (by decide) g,
      dt _ "character_set_client".toList (by decide) g,
      dt _ "character_set_connection".toList (by decide) g, if_true, Bool.false_eq_true,
      if_false]
  · intro g
    simp only [g, dt _ "names".toList (by decide) g, dt _ "charset".toList (by decide) g,
      dt _ "character_set_client".toList (by decide) g,
      dt _ "character_set_connection".toList (by decide) g,
      dt _ "character_set_results".toList (by decide) g, if_true, Bool.false_eq_true,
      if_false]

/-- The four SET classes that `_query_process` answers with the OK packet. -/
theorem query_process_set_ok (E : Env) (c : Sock)
    (hcmd : c.query_ctx.mysql_cmd = COM_QUERY) (hne : c.query_ctx.sql ≠ [])
    (hty : c.query_ctx.type = SqlType.SQL_SET_NAMES_NUM
      ∨ c.query_ctx.type = SqlType.SQL_SET_CHARACTER_SET_CLIENT_NUM
      ∨ c.query_ctx.type = SqlType.SQL_SET_CHARACTER_SET_CONNECTION_NUM
      ∨ c.query_ctx.type = SqlType.SQL_SET_CHARACTER_SET_RESULTS_NUM) :
    _query_process E c
      = (true, set_state (make_simple_ok_packet E c) State.STATE_READ_QUERY_RESULT) := by
  have hl : ¬ c.query_ctx.sql.length = 0 := by
    rw [List.length_eq_zero]; exact hne
  have h1 : ¬ (c.query_ctx.type = SqlType.SQL_SET_CHARSET_NUM
      ∨ c.query_ctx.type = SqlType.SQL_SET_CHARACTER_SET_NUM) := by
    rcases hty with h | h | h | h <;> rw [h] <;> decide
  unfold _query_process
  rw [if_neg (by rw [hcmd]; decide), if_neg hl, if_neg (by rw [hcmd]; decide), if_pos hcmd]
  unfold _query_process_com_query
  simp only []
  rw [if_neg h1, if_pos hty]

/-- C15, amended: for every `COM_QUERY` whose stripped text begins with SET, the
token is what begins the text once its leading characters among blank, `S`, `E`,
`T`, `s`, `e`, `t` are removed (`set_token`, line 2041). When the token is `names`,
`character_set_client`,
`character_set_connection` or `character_set_results`, `_query_read` succeeds and
`_query_process` returns true with the OK packet appended to the send buffer and
the state `STATE_READ_QUERY_RESULT`; when the token is `charset` or
`character set`, `_query_read` itself appends the `ER_UNKNOWN_CHARACTER_SET`
packet and returns `RET_CMD_UNSUPPORT`; in both cases the session state of the
connection (`charset_name`, `charset_num`, `current_db` among it) is
unchanged. -/
theorem C15_set_statements (E : Env) (s : Sock) (sql : Str) (s1 : Sock)
    (hrecv : ReceivesText E s COM_QUERY sql s1)
    (hset : istarts_with (stripped_text sql) SQL_SET = true) :
    ((istarts_with (set_token (stripped_text sql)) "names".toList = true
        ∨ istarts_with (set_token (stripped_text sql)) "character_set_client".toList = true
        ∨ istarts_with (set_token (stripped_text sql)) "character_set_connection".toList = true
        ∨ istarts_with (set_token (stripped_text sql)) "character_set_results".toList = true) →
      ∃ q, _query_read E s = (Ret.RET_SUCCESS, q)
        ∧ (_query_process E (emit q Event.query_process)).1 = true
        ∧ (_query_process E (emit q Event.query_process)).2.send_buf
            = s.send_buf ++ E.make_simple_ok_packet s1.packet_id
        ∧ (_query_process E (emit q Event.query_process)).2.state
            = State.STATE_READ_QUERY_RESULT
        ∧ SameSession s (_query_process E (emit q Event.query_process)).2)
    ∧ ((istarts_with (set_token (stripped_text sql)) "charset".toList = true
        ∨ istarts_with (set_token (stripped_text sql)) "character set".toList = true) →
      ∃ r, _query_read E s = (Ret.RET_CMD_UNSUPPORT, r)
        ∧ r.send_buf = s.send_buf
            ++ E.make_err_packet ErrCode.ER_UNKNOWN_CHARACTER_SET "unsupport charset".toList
        ∧ SameSession s r) := by
  have hq := query_read_text E s COM_QUERY sql s1 hrecv (by decide) (by decide) (by decide)
  obtain ⟨off, hcmd, -⟩ := hrecv
  obtain ⟨hsess, hsend, -, -⟩ := receives_command_fields E s _ _ s1 hcmd
  obtain ⟨t1, t2, t3, t4, t5, t6⟩ :=
    set_type_of_token (with_command s1 COM_QUERY sql).query_ctx rfl hset
  have hne : stripped_text sql ≠ [] := by
    intro h0
    rw [h0] at hset
    revert hset
    decide
  obtain ⟨c1, c2, c3, -, c5⟩ := classified_ctx E (with_command s1 COM_QUERY sql)
  have f1 : (classified E (with_command s1 COM_QUERY sql)).query_ctx.sql
      = stripped_text sql := c1
  have f2 : (classified E (with_command s1 COM_QUERY sql)).query_ctx.mysql_cmd
      = COM_QUERY := c2
  obtain ⟨g1, g2, g3, -⟩ := classified_fields E (with_command s1 COM_QUERY sql)
  have f4 : (classified E (with_command s1 COM_QUERY sql)).send_buf = s.send_buf :=
    g2.trans hsend
  have f5 : (classified E (with_command s1 COM_QUERY sql)).packet_id = s1.packet_id := g3
  have f6 : SameSession s (classified E (with_command s1 COM_QUERY sql)) :=
    same_session_trans _ _ _ hsess g1
  unfold query_read_tail at hq
  simp only [c5] at hq
  rw [← c3] at t1 t2 t3 t4 t5 t6 hq
  generalize classified E (with_command s1 COM_QUERY sql) = q at hq f1 f2 f4 f5 f6 t1 t2 t3 t4 t5 t6
  constructor
  · intro htok
    have hty : q.query_ctx.type = SqlType.SQL_SET_NAMES_NUM
        ∨ q.query_ctx.type = SqlType.SQL_SET_CHARACTER_SET_CLIENT_NUM
        ∨ q.query_ctx.type = SqlType.SQL_SET_CHARACTER_SET_CONNECTION_NUM
        ∨ q.query_ctx.type = SqlType.SQL_SET_CHARACTER_SET_RESULTS_NUM := by
      rcases htok with h | h | h | h
      · exact Or.inl (t1 h)
      · exact Or.inr (Or.inl (t3 h))
      · exact Or.inr (Or.inr (Or.inl (t4 h)))
      · exact Or.inr (Or.inr (Or.inr (t5 h)))
    have n1 : ¬ (q.query_ctx.type = SqlType.SQL_SET_CHARSET_NUM
        ∨ q.query_ctx.type = SqlType.SQL_SET_CHARACTER_SET_NUM) := by
      rcases hty with h | h | h | h <;> rw [h] <;> decide
    have n2 : ¬ q.query_ctx.type = SqlType.SQL_UNKNOWN_NUM := by
      rcases hty with h | h | h | h <;> rw [h] <;> decide
    rw [if_neg n1, if_neg n2] at hq
    refine ⟨q, hq, ?_⟩
    have hproc := query_process_set_ok E (emit q Event.query_process) f2
      (by show q.query_ctx.sql ≠ []; rw [f1]; exact hne) hty
    rw [hproc]
    refine ⟨rfl, ?_, rfl, ?_⟩
    · show q.send_buf ++ E.make_simple_ok_packet q.packet_id = _
      rw [f4, f5]
    · exact same_session_trans _ _ _ f6 ⟨rfl, rfl, rfl, rfl, rfl, rfl, rfl, rfl, rfl, rfl⟩
  · intro htok
    have hty : q.query_ctx.type = SqlType.SQL_SET_CHARSET_NUM
        ∨ q.query_ctx.type = SqlType.SQL_SET_CHARACTER_SET_NUM := by
      rcases htok with h | h
      · exact Or.inl (t2 h)
      · exact Or.inr (t6 h)
    rw [if_pos hty] at hq
    refine ⟨_, hq, ?_, ?_⟩
    · show q.send_buf ++ _ = _
      rw [f4]
    · exact same_session_trans _ _ _ f6 ⟨rfl, rfl, rfl, rfl, rfl, rfl, rfl, rfl, rfl, rfl⟩

theorem C15_set_statements_witness :
    ∃ q, _query_read (sample_env (sample_command 3 "SET NAMES utf8") []) sample_logged_in
        = (Ret.RET_SUCCESS, q)
      ∧ (_query_process (sample_env (sample_command 3 "SET NAMES utf8") [])
          (emit q Event.query_process)).2.send_buf = [7, 0, 0, 1, 0, 0, 0, 2, 0, 0, 0] := by
  obtain ⟨q, h1, -, h3, -⟩ := (C15_set_statements
    (sample_env (sample_command 3 "SET NAMES utf8") []) sample_logged_in "SET NAMES utf8".toList
    (_read_packet (sample_env (sample_command 3 "SET NAMES utf8") [])
      (emit { sample_logged_in with query_ctx := new_query_context sample_logged_in.current_db }
        Event.new_query_ctx)).2
    ⟨5, ⟨by decide, by decide, by decide, by decide⟩, by decide, by decide, by decide⟩
    (by decide)).1 (Or.inl (by decide))
  exact ⟨q, h1, h3.trans (by decide)⟩

/-! ## The quota -/

/-- On the planner path `_query_process` consults the quota and then either packs
`ER_QUERY_EXCEED_QUOTA` or runs the common query path. -/
theorem query_process_planner_path (E : Env) (c : Sock) (h : reaches_planner c) :
    _query_process E c
      = (if (is_exceed_quota E c).1 then
          (true, set_state
            (make_err_packet E (is_exceed_quota E c).2 ErrCode.ER_QUERY_EXCEED_QUOTA
              "query exceed quota(qps)".toList)
            State.STATE_READ_QUERY_RESULT)
        else
          ((_handle_client_query_common_query E (is_exceed_quota E c).2).1,
            set_state (_handle_client_query_common_query E (is_exceed_quota E c).2).2
              State.STATE_READ_QUERY_RESULT)) := by
  obtain ⟨h1, h2, h3, h4, h5, h6, h7, h8, h9, h10, h11, h12, h13, h14, h15, h16, h17, h18,
    h19, h20, h21, h22, h23, h24, h25⟩ := h
  have hl : ¬ c.query_ctx.sql.length = 0 := by
    rw [List.length_eq_zero]; exact h2
  unfold _query_process
  rw [if_neg (by rw [h1]; decide), if_neg hl, if_neg (by rw [h1]; decide), if_pos h1]
  unfold _query_process_com_query
  simp only [h3, h4, h5, h6, h7, h8, h9, h10, h11, h12, h13, h14, h15, h16, h17, h18, h19,
    h20, h21, h22, h23, h24, h25, or_self, Bool.false_eq_true, if_false, false_and]

/-- C12: for every `COM_QUERY` that reaches the last alternative of
`_query_process` (no SET form, no built-in statement, neither SHOW, DESC nor USE),
when `is_exceed_quota` reports the quota exceeded, `_query_process` returns true,
appends the `ER_QUERY_EXCEED_QUOTA` packet to the send buffer and sets the state
to `STATE_READ_QUERY_RESULT`; the only actions it logs are the quota check, the
ERR packet and the state assignment, so no planner stage is invoked; when the
write that follows completes, `run_machine` leaves the connection in
`STATE_SEND_AUTH_RESULT`, with `in_pool` as before and the log extended by the
write, the state assignment and the re-arming of EPOLLIN only, so the connection
is not freed. -/
theorem C12_quota_exceeded (E : Env) (client : Sock) (fuel : Nat)
    (hpath : reaches_planner client) (hq : (is_exceed_quota E client).1 = true) :
    (_query_process E client).1 = true
    ∧ (_query_process E client).2.state = State.STATE_READ_QUERY_RESULT
    ∧ (_query_process E client).2.send_buf
        = client.send_buf
          ++ E.make_err_packet ErrCode.ER_QUERY_EXCEED_QUOTA "query exceed quota(qps)".toList
    ∧ (_query_process E client).2.log
        = client.log ++ [Event.is_exceed_quota true,
            Event.make_err_packet ErrCode.ER_QUERY_EXCEED_QUOTA
              "query exceed quota(qps)".toList,
            Event.set_state State.STATE_READ_QUERY_RESULT]
    ∧ (E.real_write (client.clock + 1) = Ret.RET_SUCCESS →
        ∃ c, run_machine E (fuel + 1) (_query_process E client).2 false = some c
          ∧ c.state = State.STATE_SEND_AUTH_RESULT
          ∧ c.in_pool = client.in_pool
          ∧ c.log = client.log ++ [Event.is_exceed_quota true,
              Event.make_err_packet ErrCode.ER_QUERY_EXCEED_QUOTA
                "query exceed quota(qps)".toList,
              Event.set_state State.STATE_READ_QUERY_RESULT,
              Event.real_write Ret.RET_SUCCESS,
              Event.set_state State.STATE_SEND_AUTH_RESULT,
              Event.poll_events_mod EpollEv.EPOLLIN]) := by
  rw [query_process_planner_path E client hpath, if_pos hq]
  have hu : ∃ u, client.user_info = some u ∧ (E.is_exceed_quota client.clock u).1 = true := by
    cases hui : client.user_info with
    | none => simp [is_exceed_quota, hui] at hq
    | some u => exact ⟨u, rfl, by simpa [is_exceed_quota, hui] using hq⟩
  obtain ⟨u, hui, hu1⟩ := hu
  have hlog : (is_exceed_quota E client).2.log = client.log ++ [Event.is_exceed_quota true] := by
    simp [is_exceed_quota, hui, hu1, emit]
  have hbuf : (is_exceed_quota E client).2.send_buf = client.send_buf := by
    simp [is_exceed_quota, hui, emit]
  have hpool : (is_exceed_quota E client).2.in_pool = client.in_pool := by
    simp [is_exceed_quota, hui, emit]
  have hclk : (is_exceed_quota E client).2.clock = client.clock + 1 := by
    simp [is_exceed_quota, hui, emit]
  generalize (is_exceed_quota E client).2 = x at hlog hbuf hpool hclk
  refine ⟨rfl, rfl, ?_, ?_, ?_⟩
  · show x.send_buf ++ _ = _
    rw [hbuf]
  · show (x.log ++ _) ++ _ = _
    rw [hlog]; simp
  · intro hw
    have hw2 : E.real_write (set_state (make_err_packet E x ErrCode.ER_QUERY_EXCEED_QUOTA
        "query exceed quota(qps)".toList) State.STATE_READ_QUERY_RESULT).clock
        = Ret.RET_SUCCESS := by
      show E.real_write x.clock = _
      rw [hclk]; exact hw
    obtain ⟨f1, f2, -, -, -, -, f7⟩ := send_result_fields E _ hw2
    refine ⟨_, by simp [run_machine, set_state], f1, ?_, ?_⟩
    · rw [f2.2.2.2.2.2.1]
      exact hpool
    · rw [f7]
      show ((x.log ++ _) ++ _) ++ _ = _
      rw [hlog]; simp

theorem C12_quota_exceeded_witness :
    (_query_process (quota_env []) (sample_statement "insert into t values (1)")).2.log
      = [Event.is_exceed_quota true,
          Event.make_err_packet ErrCode.ER_QUERY_EXCEED_QUOTA "query exceed quota(qps)".toList,
          Event.set_state State.STATE_READ_QUERY_RESULT] :=
  (C12_quota_exceeded (quota_env []) (sample_statement "insert into t values (1)") 0
    (by unfold reaches_planner; decide) (by decide)).2.2.2.1

/-! ## Failures of the planner stages -/

/-- C14: on the sample statement, with a `create_plan_tree` that fails after
leaving error 1064 and a message in `stat_info`,
`_handle_client_query_common_query` returns false without packing any ERR packet:
the send buffer stays empty and the only logged actions are the two planner
calls, although `stat_info` holds the error; in the run of `run_machine` the only
ERR packet made is the generic `ER_ERROR_COMMON` one. -/
theorem C14_create_plan_tree_failure_unreported :
    (_handle_client_query_common_query (failing_plan_env [])
        (sample_statement "insert into t values (1)")).1 = false
    ∧ (_handle_client_query_common_query (failing_plan_env [])
        (sample_statement "insert into t values (1)")).2.send_buf = []
    ∧ (_handle_client_query_common_query (failing_plan_env [])
        (sample_statement "insert into t values (1)")).2.log
      = [Event.logical_analyze 0, Event.create_plan_tree (-1)]
    ∧ (_handle_client_query_common_query (failing_plan_env [])
        (sample_statement "insert into t values (1)")).2.query_ctx.stat_info.error_code
      = ErrCode.ER_OTHER 1064
    ∧ (run_machine (failing_plan_env (sample_command 3 "insert into t values (1)")) 3
        sample_logged_in false).map (fun c => c.log)
      = some [Event.query_read, Event.new_query_ctx,
          Event.real_read 4 Ret.RET_SUCCESS 4, Event.real_read 25 Ret.RET_SUCCESS 25,
          Event.query_process, Event.is_exceed_quota false,
          Event.logical_analyze 0, Event.create_plan_tree (-1),
          Event.set_state State.STATE_READ_QUERY_RESULT,
          Event.make_err_packet ErrCode.ER_ERROR_COMMON "handle query failed".toList,
          Event.set_state State.STATE_ERROR_REUSE, Event.real_write Ret.RET_SUCCESS,
          Event.reset_when_err, Event.set_state State.STATE_SEND_AUTH_RESULT,
          Event.poll_events_mod EpollEv.EPOLLIN] := by
  decide

/-- The three stages that report their failure: the ERR packet carries the code
and message of `stat_info`, or the default of the stage when the code is still
`ER_ERROR_FIRST`. -/
theorem plan_failed_packet (E : Env) (s : Sock) (dflt : ErrCode) (text : Str) :
    (plan_failed E s dflt text).send_buf
      = s.send_buf ++ E.make_err_packet
          (if s.query_ctx.stat_info.error_code = ErrCode.ER_ERROR_FIRST then dflt
            else s.query_ctx.stat_info.error_code)
          (if s.query_ctx.stat_info.error_code = ErrCode.ER_ERROR_FIRST then
            s.query_ctx.stat_info.error_msg ++ text
            else s.query_ctx.stat_info.error_msg) := by
  by_cases h : s.query_ctx.stat_info.error_code = ErrCode.ER_ERROR_FIRST
  · simp [plan_failed, make_err_packet, h]
  · simp [plan_failed, make_err_packet, h]

/-! ## Errors of one command -/

/-- A command other than `COM_PING`, `COM_INIT_DB` and `COM_QUERY` that carries a
text is answered by `_query_process` with `ER_NOT_ALLOWED_COMMAND` and the state
`STATE_ERROR_REUSE`. -/
theorem query_process_rejects (E : Env) (c : Sock)
    (h1 : c.query_ctx.mysql_cmd ≠ COM_PING) (h2 : c.query_ctx.mysql_cmd ≠ COM_INIT_DB)
    (h3 : c.query_ctx.mysql_cmd ≠ COM_QUERY) (h4 : c.query_ctx.sql ≠ []) :
    _query_process E c = (true, set_state (not_allowed E c) State.STATE_ERROR_REUSE) := by
  have hl : ¬ c.query_ctx.sql.length = 0 := by
    rw [List.length_eq_zero]; exact h4
  unfold _query_process
  rw [if_neg h1, if_neg hl, if_neg h2, if_neg h3]
  split_ifs <;> rfl

/-- `SHOW TABLES` without a selected database. -/
theorem query_process_show_tables_no_db (E : Env) (c : Sock)
    (hcmd : c.query_ctx.mysql_cmd = COM_QUERY)
    (hty : c.query_ctx.type = SqlType.SQL_SHOW_NUM)
    (hsql : iequals c.query_ctx.sql SQL_SHOW_TABLES = true) (hdb : c.current_db = []) :
    _query_process E c
      = (false, set_state
          (make_err_packet E c ErrCode.ER_NO_DB_ERROR "No database selected".toList)
          State.STATE_READ_QUERY_RESULT) := by
  have hsql' := hsql
  rw [iequals_eq_map] at hsql'
  have hmap : c.query_ctx.sql.map to_lower = "show tables".toList :=
    (of_decide_eq_true hsql').trans (by decide)
  have hl : ¬ c.query_ctx.sql.length = 0 := by
    have := congrArg List.length hmap
    simp at this
    omega
  have k1 : iequals c.query_ctx.sql SQL_VERSION_COMMENT = false := by
    rw [iequals_eq_map, hmap]; decide
  have k2 : iequals c.query_ctx.sql SQL_SESSION_AUTO_INCREMENT = false := by
    rw [iequals_eq_map, hmap]; decide
  have k3 : iequals c.query_ctx.sql SQL_SESSION_AUTO_AUTOCOMMIT = false := by
    rw [iequals_eq_map, hmap]; decide
  have k4 : iequals c.query_ctx.sql SQL_SESSION_TX_ISOLATION = false := by
    rw [iequals_eq_map, hmap]; decide
  have k5 : iequals c.query_ctx.sql SQL_SELECT_1 = false := by
    rw [iequals_eq_map, hmap]; decide
  have k6 : iequals c.query_ctx.sql SQL_SELECT_DATABASE = false := by
    rw [iequals_eq_map, hmap]; decide
  have k7 : iequals c.query_ctx.sql SQL_SHOW_DATABASES = false := by
    rw [iequals_eq_map, hmap]; decide
  unfold _query_process
  rw [if_neg (by rw [hcmd]; decide), if_neg hl, if_neg (by rw [hcmd]; decide), if_pos hcmd]
  unfold _query_process_com_query
  simp only [hty, k1, k2, k3, k4, k5, k6, k7, hsql, _handle_client_query_show_tables, hdb,
    if_true, Bool.false_eq_true, if_false]
  simp

/-- C13, as stated, fails for the quota: the `ER_QUERY_EXCEED_QUOTA` packet is sent
through `STATE_READ_QUERY_RESULT`, and the connection never passes through
`STATE_ERROR_REUSE`. -/
theorem C13_quota_skips_error_reuse :
    (run_machine (quota_env (sample_command 3 "insert into t values (1)")) 3
        sample_logged_in false).map (fun c => c.log)
      = some [Event.query_read, Event.new_query_ctx,
          Event.real_read 4 Ret.RET_SUCCESS 4, Event.real_read 25 Ret.RET_SUCCESS 25,
          Event.query_process, Event.is_exceed_quota true,
          Event.make_err_packet ErrCode.ER_QUERY_EXCEED_QUOTA "query exceed quota(qps)".toList,
          Event.set_state State.STATE_READ_QUERY_RESULT, Event.real_write Ret.RET_SUCCESS,
          Event.set_state State.STATE_SEND_AUTH_RESULT,
          Event.poll_events_mod EpollEv.EPOLLIN] := by
  decide

/-- C13, amended: let `_query_read` have accepted a command in
`STATE_SEND_AUTH_RESULT`. When the command is rejected by `_query_process`
(a command byte other than `COM_PING`, `COM_INIT_DB`, `COM_QUERY`), when the
common query path fails (a planner stage or the executor failed), or when the
statement is `SHOW TABLES` with no database selected, `run_machine` appends the
`ER_ERROR_COMMON` packet to the send buffer left by `_query_process`, assigns
`STATE_ERROR_REUSE`, and the case `STATE_ERROR_REUSE` leaves the connection in
`STATE_SEND_AUTH_RESULT` with its session state and `in_pool` as `_query_process`
left them, logging only the write, the buffer reset, the state assignment and the
re-arming of EPOLLIN. When instead the quota is exceeded, the reply is flushed by
the case `STATE_READ_QUERY_RESULT` without passing through `STATE_ERROR_REUSE`, and
the connection is in `STATE_SEND_AUTH_RESULT`, not freed, once the write
completes. -/
theorem C13_semantic_errors_keep_connection (E : Env) (client q : Sock) (fuel : Nat)
    (hst : client.state = State.STATE_SEND_AUTH_RESULT)
    (hread : _query_read E (emit client Event.query_read) = (Ret.RET_SUCCESS, q)) :
    (((q.query_ctx.mysql_cmd ≠ COM_PING ∧ q.query_ctx.mysql_cmd ≠ COM_INIT_DB
          ∧ q.query_ctx.mysql_cmd ≠ COM_QUERY ∧ q.query_ctx.sql ≠ [])
        ∨ (reaches_planner q ∧ (is_exceed_quota E (emit q Event.query_process)).1 = false
          ∧ (_handle_client_query_common_query E
              (is_exceed_quota E (emit q Event.query_process)).2).1 = false)
        ∨ (q.query_ctx.mysql_cmd = COM_QUERY ∧ q.query_ctx.type = SqlType.SQL_SHOW_NUM
          ∧ iequals q.query_ctx.sql SQL_SHOW_TABLES = true ∧ q.current_db = [])) →
      ∃ c3, run_machine E (fuel + 2) client false = some (case_error_reuse E c3)
        ∧ c3.state = State.STATE_ERROR_REUSE
        ∧ c3.send_buf = (_query_process E (emit q Event.query_process)).2.send_buf
            ++ E.make_err_packet ErrCode.ER_ERROR_COMMON "handle query failed".toList
        ∧ c3.log = (_query_process E (emit q Event.query_process)).2.log
            ++ [Event.make_err_packet ErrCode.ER_ERROR_COMMON "handle query failed".toList,
                Event.set_state State.STATE_ERROR_REUSE]
        ∧ (case_error_reuse E c3).state = State.STATE_SEND_AUTH_RESULT
        ∧ SameSession (_query_process E (emit q Event.query_process)).2
            (case_error_reuse E c3)
        ∧ (case_error_reuse E c3).log = c3.log ++ [Event.real_write (E.real_write c3.clock),
            Event.reset_when_err, Event.set_state State.STATE_SEND_AUTH_RESULT,
            Event.poll_events_mod EpollEv.EPOLLIN])
    ∧ (reaches_planner q ∧ (is_exceed_quota E (emit q Event.query_process)).1 = true →
      run_machine E (fuel + 2) client false
          = some (_send_result_to_client_and_reset_status E
              (_query_process E (emit q Event.query_process)).2)
        ∧ (_query_process E (emit q Event.query_process)).2.state
            = State.STATE_READ_QUERY_RESULT
        ∧ (_query_process E (emit q Event.query_process)).2.send_buf
            = q.send_buf ++ E.make_err_packet ErrCode.ER_QUERY_EXCEED_QUOTA
                "query exceed quota(qps)".toList
        ∧ (E.real_write (q.clock + 1) = Ret.RET_SUCCESS →
            (_send_result_to_client_and_reset_status E
                (_query_process E (emit q Event.query_process)).2).state
              = State.STATE_SEND_AUTH_RESULT
            ∧ (_send_result_to_client_and_reset_status E
                (_query_process E (emit q Event.query_process)).2).in_pool = q.in_pool
            ∧ (_send_result_to_client_and_reset_status E
                (_query_process E (emit q Event.query_process)).2).log
              = q.log ++ [Event.query_process, Event.is_exceed_quota true,
                  Event.make_err_packet ErrCode.ER_QUERY_EXCEED_QUOTA
                    "query exceed quota(qps)".toList,
                  Event.set_state State.STATE_READ_QUERY_RESULT,
                  Event.real_write Ret.RET_SUCCESS,
                  Event.set_state State.STATE_SEND_AUTH_RESULT,
                  Event.poll_events_mod EpollEv.EPOLLIN])) := by
  constructor
  · intro hkind
    have hp : ((_query_process E (emit q Event.query_process)).1 = false
          ∨ (_query_process E (emit q Event.query_process)).2.state
            = State.STATE_ERROR_REUSE)
        ∧ (_query_process E (emit q Event.query_process)).2.state ≠ State.STATE_ERROR := by
      rcases hkind with ⟨a1, a2, a3, a4⟩ | ⟨b1, b2, b3⟩ | ⟨d1, d2, d3, d4⟩
      · rw [query_process_rejects E (emit q Event.query_process) a1 a2 a3 a4]
        exact ⟨Or.inr rfl, by simp [set_state]⟩
      · rw [query_process_planner_path E (emit q Event.query_process) b1, b2]
        simp only [Bool.false_eq_true, if_false]
        exact ⟨Or.inl b3, by simp [set_state]⟩
      · rw [query_process_show_tables_no_db E (emit q Event.query_process) d1 d2 d3 d4]
        exact ⟨Or.inl rfl, by simp [set_state]⟩
    have hrun := run_error_reuse E fuel client q hst hread hp.1 hp.2
    generalize (_query_process E (emit q Event.query_process)).2 = p at hrun ⊢
    obtain ⟨f1, f2, -, -, -, -, f7⟩ := case_error_reuse_fields E
      (set_state (make_err_packet E p ErrCode.ER_ERROR_COMMON "handle query failed".toList)
        State.STATE_ERROR_REUSE)
    refine ⟨_, hrun, rfl, rfl, ?_, f1, ?_, f7⟩
    · simp [set_state, make_err_packet]
    · exact same_session_trans _ _ _ ⟨rfl, rfl, rfl, rfl, rfl, rfl, rfl, rfl, rfl, rfl⟩ f2
  · rintro ⟨hpath, hq⟩
    have hpath' : reaches_planner (emit q Event.query_process) := hpath
    have hproc := query_process_planner_path E (emit q Event.query_process) hpath'
    rw [if_pos hq] at hproc
    have hu : ∃ u, q.user_info = some u ∧ (E.is_exceed_quota q.clock u).1 = true := by
      cases hui : q.user_info with
      | none => simp [is_exceed_quota, emit, hui] at hq
      | some u => exact ⟨u, rfl, by simpa [is_exceed_quota, emit, hui] using hq⟩
    obtain ⟨u, hui, hu1⟩ := hu
    have hx : (is_exceed_quota E (emit q Event.query_process)).2
        = emit { emit q Event.query_process with
            user_info := some (E.is_exceed_quota q.clock u).2, clock := q.clock + 1 }
          (Event.is_exceed_quota true) := by
      simp [is_exceed_quota, emit, hui, hu1]
    rw [hx] at hproc
    have hrun := run_result E fuel client q hst hread (by rw [hproc]) (by rw [hproc]; rfl)
    rw [hproc] at hrun ⊢
    refine ⟨hrun, rfl, rfl, ?_⟩
    intro hw
    obtain ⟨f1, f2, -, -, -, -, f7⟩ := send_result_fields E
      (set_state (make_err_packet E (emit { emit q Event.query_process with
            user_info := some (E.is_exceed_quota q.clock u).2, clock := q.clock + 1 }
          (Event.is_exceed_quota true)) ErrCode.ER_QUERY_EXCEED_QUOTA
          "query exceed quota(qps)".toList) State.STATE_READ_QUERY_RESULT) hw
    refine ⟨f1, f2.2.2.2.2.2.1, ?_⟩
    rw [f7]
    simp [set_state, make_err_packet, emit]

theorem C13_semantic_errors_keep_connection_witness :
    ∃ c3, run_machine (sample_env (sample_command 3 "show tables") []) 2 sample_logged_in false
        = some (case_error_reuse (sample_env (sample_command 3 "show tables") []) c3)
      ∧ c3.state = State.STATE_ERROR_REUSE
      ∧ (case_error_reuse (sample_env (sample_command 3 "show tables") []) c3).state
        = State.STATE_SEND_AUTH_RESULT := by
  obtain ⟨c3, h1, h2, -, -, h5, -⟩ := (C13_semantic_errors_keep_connection
    (sample_env (sample_command 3 "show tables") []) sample_logged_in
    (_query_read (sample_env (sample_command 3 "show tables") [])
      (emit sample_logged_in Event.query_read)).2 0 rfl (by decide)).1
    (Or.inr (Or.inr ⟨by decide, by decide, by decide, by decide⟩))
  exact ⟨c3, h1, h2, h5⟩

/-! ## Commands that are not supported -/

/-- A `select 1` received in `STATE_SEND_AUTH_RESULT` is answered with the
five-packet result set, flushed by the case `STATE_READ_QUERY_RESULT`. -/
theorem run_select_1 (E : Env) (client : Sock) (fuel : Nat) (sql : Str) (s1 : Sock)
    (hst : client.state = State.STATE_SEND_AUTH_RESULT)
    (hrecv : ReceivesText E (emit client Event.query_read) COM_QUERY sql s1)
    (hsql : iequals (trim_sql sql) SQL_SELECT_1 = true)
    (hrow : (E.make_row_packet ["1".toList] 4).1 = true
      ∧ (E.make_row_packet ["1".toList] 4).2.2 = 5) :
    ∃ x, run_machine E (fuel + 2) client false
        = some (_send_result_to_client_and_reset_status E x)
      ∧ x.state = State.STATE_READ_QUERY_RESULT
      ∧ x.send_buf = client.send_buf ++ ((resultset_layout E client.current_db
          [mk_field "1".toList MysqlType.MYSQL_TYPE_LONG] [["1".toList]]).map Prod.snd).flatten := by
  have hq := query_read_text E _ COM_QUERY sql s1 hrecv (by decide) (by decide) (by decide)
  obtain ⟨off, hcmd, -⟩ := hrecv
  obtain ⟨-, hsend, -, hctx⟩ := receives_command_fields E _ _ _ s1 hcmd
  have hcl := classify_select_1 (with_command s1 COM_QUERY sql).query_ctx rfl hsql
  have hty : (_get_query_type (with_command s1 COM_QUERY sql).query_ctx).1
      = SqlType.SQL_SELECT_NUM := by rw [hcl]
  have hstr : stripped_text sql = trim_sql sql := by
    have h1 := parse_comment_sql_eq (with_command s1 COM_QUERY sql).query_ctx
    rw [← get_query_type_snd, hcl] at h1
    exact h1.symm
  rw [query_read_tail_success E _ (by rw [hty]; decide) (by rw [hty]; decide)
    (by rw [hty]; decide)] at hq
  obtain ⟨c1, c2, c3, c4, -⟩ := classified_ctx E (with_command s1 COM_QUERY sql)
  obtain ⟨-, g2, -⟩ := classified_fields E (with_command s1 COM_QUERY sql)
  have f1 : (classified E (with_command s1 COM_QUERY sql)).query_ctx.sql = trim_sql sql :=
    c1.trans hstr
  have f2 : (classified E (with_command s1 COM_QUERY sql)).query_ctx.mysql_cmd
      = COM_QUERY := c2
  have f3 : (classified E (with_command s1 COM_QUERY sql)).query_ctx.type
      = SqlType.SQL_SELECT_NUM := c3.trans hty
  have f4 : (classified E (with_command s1 COM_QUERY sql)).query_ctx.cur_db
      = client.current_db := by
    rw [c4]
    show s1.query_ctx.cur_db = _
    rw [hctx]
    rfl
  have f5 : (classified E (with_command s1 COM_QUERY sql)).send_buf = client.send_buf :=
    g2.trans hsend
  generalize classified E (with_command s1 COM_QUERY sql) = q at hq f1 f2 f3 f4 f5
  have hproc := query_process_select_1 E (emit q Event.query_process) f2 f3
    (by show iequals q.query_ctx.sql _ = true; rw [f1]; exact hsql) hrow
  have hrun := run_result E fuel client q hst hq (by rw [hproc]) (by rw [hproc]; rfl)
  rw [hproc] at hrun
  refine ⟨_, hrun, rfl, ?_⟩
  show q.send_buf ++ ((resultset_layout E q.query_ctx.cur_db _ _).map Prod.snd).flatten = _
  rw [f4, f5]

/-- C11, as stated, fails: the command byte 0x22 carrying a payload is classified
Unknown by `_get_query_type`, `_query_read` answers it with the OK packet, and the
reply is flushed through `STATE_READ_QUERY_RESULT`; no `ER_NOT_ALLOWED_COMMAND`
packet is made and the connection does not pass through `STATE_ERROR_REUSE`. -/
theorem C11_unknown_command_gets_ok :
    (run_machine (sample_env (sample_command 0x22 "x") []) 3 sample_client false).map
        (fun c => c.log)
      = some [Event.query_read, Event.new_query_ctx,
          Event.real_read 4 Ret.RET_SUCCESS 4, Event.real_read 2 Ret.RET_SUCCESS 2,
          Event.make_simple_ok_packet,
          Event.set_state State.STATE_READ_QUERY_RESULT, Event.real_write Ret.RET_SUCCESS,
          Event.set_state State.STATE_SEND_AUTH_RESULT,
          Event.poll_events_mod EpollEv.EPOLLIN] := by
  decide

/-- C11, amended: in `STATE_SEND_AUTH_RESULT`, (1) a command packet with the byte
`COM_STMT_EXECUTE` (0x17) or `COM_STMT_CLOSE` (0x19) is answered by `_query_read`
with the `ER_NOT_ALLOWED_COMMAND` packet, which is flushed by the case
`STATE_READ_QUERY_RESULT`; (2) a command packet with any other byte than
`COM_PING`, `COM_INIT_DB`, `COM_QUERY` that carries a text which is not empty once
stripped and that `_query_read` accepts (always so for `COM_FIELD_LIST`, 0x04;
for the other bytes when the class is none of SetCharset, SetCharacterSet,
Unknown) is answered by `_query_process` with the `ER_NOT_ALLOWED_COMMAND` packet
and `STATE_ERROR_REUSE`; `run_machine` adds the `ER_ERROR_COMMON` packet, and the
case `STATE_ERROR_REUSE` leaves the connection in `STATE_SEND_AUTH_RESULT` with
empty buffers and its session state unchanged; a `select 1` received next is
answered with the five-packet result set. -/
theorem C11_unsupported_commands (E : Env) (client : Sock) (fuel : Nat) (command : Nat)
    (s1 : Sock) (hst : client.state = State.STATE_SEND_AUTH_RESULT) :
    (∀ off, (command = COM_STMT_EXECUTE ∨ command = COM_STMT_CLOSE) →
      ReceivesCommand E (emit client Event.query_read) command off s1 →
      run_machine E (fuel + 2) client false
        = some (_send_result_to_client_and_reset_status E
            (set_state (not_allowed E (with_command s1 command s1.query_ctx.sql))
              State.STATE_READ_QUERY_RESULT)))
    ∧ (∀ sql, ReceivesText E (emit client Event.query_read) command sql s1 →
      command ≠ COM_PING → command ≠ COM_INIT_DB → command ≠ COM_QUERY →
      command ≠ COM_STMT_EXECUTE → command ≠ COM_STMT_CLOSE →
      stripped_text sql ≠ [] →
      (command = COM_FIELD_LIST
        ∨ ((_get_query_type (with_command s1 command sql).query_ctx).1
              ≠ SqlType.SQL_SET_CHARSET_NUM
          ∧ (_get_query_type (with_command s1 command sql).query_ctx).1
              ≠ SqlType.SQL_SET_CHARACTER_SET_NUM
          ∧ (_get_query_type (with_command s1 command sql).query_ctx).1
              ≠ SqlType.SQL_UNKNOWN_NUM)) →
      ∃ c3, run_machine E (fuel + 2) client false = some (case_error_reuse E c3)
        ∧ c3.state = State.STATE_ERROR_REUSE
        ∧ c3.send_buf = client.send_buf
            ++ E.make_err_packet ErrCode.ER_NOT_ALLOWED_COMMAND "comand not supported".toList
            ++ E.make_err_packet ErrCode.ER_ERROR_COMMON "handle query failed".toList
        ∧ (case_error_reuse E c3).state = State.STATE_SEND_AUTH_RESULT
        ∧ (case_error_reuse E c3).send_buf = []
        ∧ SameSession client (case_error_reuse E c3)
        ∧ (∀ fuel2 sql2 s2,
            ReceivesText E (emit (case_error_reuse E c3) Event.query_read) COM_QUERY sql2 s2 →
            iequals (trim_sql sql2) SQL_SELECT_1 = true →
            (E.make_row_packet ["1".toList] 4).1 = true
              ∧ (E.make_row_packet ["1".toList] 4).2.2 = 5 →
            ∃ x, run_machine E (fuel2 + 2) (case_error_reuse E c3) false
                = some (_send_result_to_client_and_reset_status E x)
              ∧ x.state = State.STATE_READ_QUERY_RESULT
              ∧ x.send_buf = ((resultset_layout E client.current_db
                  [mk_field "1".toList MysqlType.MYSQL_TYPE_LONG]
                  [["1".toList]]).map Prod.snd).flatten)) := by
  constructor
  · intro off hc hrecv
    exact run_unsupported E fuel client _ hst
      (query_read_rejects_statement E _ command off s1 hrecv hc)
  · intro sql hrecv n1 n2 n3 n4 n5 hne hacc
    have hq := query_read_text E _ command sql s1 hrecv n1 n4 n5
    obtain ⟨off, hcmd, -⟩ := hrecv
    obtain ⟨hsess, hsend, -, -⟩ := receives_command_fields E _ _ _ s1 hcmd
    have hty : (_get_query_type (with_command s1 command sql).query_ctx).1
          ≠ SqlType.SQL_SET_CHARSET_NUM
        ∧ (_get_query_type (with_command s1 command sql).query_ctx).1
          ≠ SqlType.SQL_SET_CHARACTER_SET_NUM
        ∧ (_get_query_type (with_command s1 command sql).query_ctx).1
          ≠ SqlType.SQL_UNKNOWN_NUM := by
      rcases hacc with h | h
      · have := get_query_type_field_list (with_command s1 command sql).query_ctx
          (by show command = 4; rw [h]; rfl)
        rw [this]
        exact ⟨by decide, by decide, by decide⟩
      · exact h
    rw [query_read_tail_success E _ hty.1 hty.2.1 hty.2.2] at hq
    obtain ⟨c1, c2, -, -, -⟩ := classified_ctx E (with_command s1 command sql)
    obtain ⟨g1, g2, -⟩ := classified_fields E (with_command s1 command sql)
    have f1 : (classified E (with_command s1 command sql)).query_ctx.sql
        = stripped_text sql := c1
    have f2 : (classified E (with_command s1 command sql)).query_ctx.mysql_cmd = command := c2
    have f5 : (classified E (with_command s1 command sql)).send_buf = client.send_buf :=
      g2.trans hsend
    have f6 : SameSession client (classified E (with_command s1 command sql)) :=
      same_session_trans _ _ _ hsess g1
    generalize classified E (with_command s1 command sql) = q at hq f1 f2 f5 f6
    have hproc := query_process_rejects E (emit q Event.query_process)
      (by show q.query_ctx.mysql_cmd ≠ _; rw [f2]; exact n1)
      (by show q.query_ctx.mysql_cmd ≠ _; rw [f2]; exact n2)
      (by show q.query_ctx.mysql_cmd ≠ _; rw [f2]; exact n3)
      (by show q.query_ctx.sql ≠ []; rw [f1]; exact hne)
    have hrun := run_error_reuse E fuel client q hst hq (by rw [hproc]; exact Or.inr rfl)
      (by rw [hproc]; simp [set_state])
    rw [hproc] at hrun
    obtain ⟨e1, e2, e3, -, -, -, -⟩ := case_error_reuse_fields E
      (set_state (make_err_packet E (set_state (not_allowed E (emit q Event.query_process))
        State.STATE_ERROR_REUSE) ErrCode.ER_ERROR_COMMON "handle query failed".toList)
        State.STATE_ERROR_REUSE)
    have hsame : SameSession client (case_error_reuse E
        (set_state (make_err_packet E (set_state (not_allowed E (emit q Event.query_process))
          State.STATE_ERROR_REUSE) ErrCode.ER_ERROR_COMMON "handle query failed".toList)
          State.STATE_ERROR_REUSE)) :=
      same_session_trans _ _ _ f6
        (same_session_trans _ _ _ ⟨rfl, rfl, rfl, rfl, rfl, rfl, rfl, rfl, rfl, rfl⟩ e2)
    refine ⟨_, hrun, rfl, ?_, e1, e3, hsame, ?_⟩
    · show (q.send_buf ++ _) ++ _ = _
      rw [f5]
    · intro fuel2 sql2 s2 hrecv2 hsql2 hrow
      obtain ⟨x, hx1, hx2, hx3⟩ := run_select_1 E _ fuel2 sql2 s2 e1 hrecv2 hsql2 hrow
      refine ⟨x, hx1, hx2, ?_⟩
      rw [hx3, e3, hsame.2.2.1]
      rfl

theorem C11_unsupported_commands_witness :
    (∃ c3, run_machine (sample_env (sample_command 4 "x" ++ [[]]
          ++ sample_command 3 "select 1") []) 2 sample_client false
        = some (case_error_reuse (sample_env (sample_command 4 "x" ++ [[]]
            ++ sample_command 3 "select 1") []) c3)
      ∧ (case_error_reuse (sample_env (sample_command 4 "x" ++ [[]]
            ++ sample_command 3 "select 1") []) c3).state = State.STATE_SEND_AUTH_RESULT)
    ∧ ((run_machine (sample_env (sample_command 4 "x" ++ [[]]
          ++ sample_command 3 "select 1") []) 3 sample_client false).bind
        (fun c => run_machine (sample_env (sample_command 4 "x" ++ [[]]
          ++ sample_command 3 "select 1") []) 3 c false)).map (fun c => c.log)
      = some [Event.query_read, Event.new_query_ctx,
          Event.real_read 4 Ret.RET_SUCCESS 4, Event.real_read 2 Ret.RET_SUCCESS 2,
          Event.query_process,
          Event.make_err_packet ErrCode.ER_NOT_ALLOWED_COMMAND "comand not supported".toList,
          Event.set_state State.STATE_ERROR_REUSE,
          Event.make_err_packet ErrCode.ER_ERROR_COMMON "handle query failed".toList,
          Event.set_state State.STATE_ERROR_REUSE, Event.real_write Ret.RET_SUCCESS,
          Event.reset_when_err, Event.set_state State.STATE_SEND_AUTH_RESULT,
          Event.poll_events_mod EpollEv.EPOLLIN,
          Event.query_read, Event.new_query_ctx,
          Event.real_read 4 Ret.RET_SUCCESS 4, Event.real_read 9 Ret.RET_SUCCESS 9,
          Event.query_process, Event.set_state State.STATE_READ_QUERY_RESULT,
          Event.real_write Ret.RET_SUCCESS, Event.set_state State.STATE_SEND_AUTH_RESULT,
          Event.poll_events_mod EpollEv.EPOLLIN] := by
  constructor
  · obtain ⟨c3, h1, -, -, h4, -⟩ := (C11_unsupported_commands
      (sample_env (sample_command 4 "x" ++ [[]] ++ sample_command 3 "select 1") [])
      sample_client 0 4
      (_read_packet (sample_env (sample_command 4 "x" ++ [[]] ++ sample_command 3 "select 1") [])
        (emit { emit sample_client Event.query_read with
          query_ctx := new_query_context sample_client.current_db } Event.new_query_ctx)).2
      rfl).2 "x".toList
      ⟨5, ⟨by decide, by decide, by decide, by decide⟩, by decide, by decide, by decide⟩
      (by decide) (by decide) (by decide) (by decide) (by decide) (by decide)
      (Or.inl rfl)
    exact ⟨c3, h1, h4⟩
  · decide

/-! ## Teardown -/

theorem client_free_eq (E : Env) (sock : Sock) (h1 : sock.in_pool = false)
    (h2 : sock.fd ≠ 0) :
    client_free E sock = client_free_tail E (rollback_on_free E sock) := by
  have h : ¬ (sock.in_pool = true ∨ sock.fd = 0) := by
    rintro (h | h)
    · rw [h1] at h; exact Bool.noConfusion h
    · exact h2 h
  unfold client_free
  rw [if_neg h]
  rfl

theorem client_free_tail_log (E : Env) (s1 : Sock) :
    (client_free_tail E s1).log = s1.log ++ free_events E s1
    ∧ (client_free_tail E s1).in_pool = true := by
  unfold client_free_tail free_events
  by_cases hc : s1.is_counted = true <;>
    by_cases hf : s1.fd > 0 ∧ s1.fd < E.CONFIG_MPL_EPOLL_MAX_SIZE <;>
    simp [hc, hf, connection_dec, emit, socket_pool_free]

/-- C25: `client_free` on a connection whose `in_pool` flag is already true, or
whose `fd` is 0, returns the connection as it is: nothing is dispatched, nothing
is logged, no field changes. -/
theorem C25_client_free_idempotent (E : Env) (sock : Sock)
    (h : sock.in_pool = true ∨ sock.fd = 0) : client_free E sock = sock := by
  unfold client_free
  rw [if_pos h]

theorem C25_client_free_idempotent_witness :
    client_free (sample_env [] []) { sample_in_txn with in_pool := true }
      = { sample_in_txn with in_pool := true } :=
  C25_client_free_idempotent (sample_env [] []) { sample_in_txn with in_pool := true }
    (Or.inl rfl)

/-- C24, as stated, fails: a counted connection that is not in the pool but whose
`fd` is 0 is taken for already free, and `connection_dec` is not called. -/
theorem C24_fd_zero_not_decremented :
    ({ sample_logged_in with fd := 0 } : Sock).in_pool = false
    ∧ ({ sample_logged_in with fd := 0 } : Sock).is_counted = true
    ∧ (client_free (sample_env [] []) { sample_logged_in with fd := 0 }).log = [] := by
  decide

/-- C24, amended: for every connection that is not already in the pool and whose
`fd` is not 0, the events `client_free` logs after the optional rollback query
hold `connection_dec` exactly once when `is_counted` is true and not at all when
it is false (with no open transaction nothing precedes them and `is_counted` is
that of the connection at the call); the connection is then marked `in_pool`, and
any number of further `client_free` calls leave it unchanged, so `connection_dec`
is called at most once in total. -/
theorem C24_connection_dec_once (E : Env) (sock : Sock) (h1 : sock.in_pool = false)
    (h2 : sock.fd ≠ 0) :
    (client_free E sock).log
        = (rollback_on_free E sock).log ++ free_events E (rollback_on_free E sock)
    ∧ (free_events E (rollback_on_free E sock)).count Event.connection_dec
        = (if (rollback_on_free E sock).is_counted then 1 else 0)
    ∧ (sock.txn_id = 0 → rollback_on_free E sock = sock)
    ∧ (client_free E sock).in_pool = true
    ∧ ∀ n, (client_free E)^[n] (client_free E sock) = client_free E sock := by
  have hlog := client_free_tail_log E (rollback_on_free E sock)
  rw [client_free_eq E sock h1 h2]
  refine ⟨hlog.1, ?_, ?_, hlog.2, ?_⟩
  · unfold free_events
    by_cases hc : (rollback_on_free E sock).is_counted = true <;>
      by_cases hf : (rollback_on_free E sock).fd > 0
        ∧ (rollback_on_free E sock).fd < E.CONFIG_MPL_EPOLL_MAX_SIZE <;>
      simp [hc, hf]
  · intro h0
    simp [rollback_on_free, h0]
  · intro n
    induction n with
    | zero => rfl
    | succ n ih =>
      rw [Function.iterate_succ_apply']
      rw [ih]
      unfold client_free
      rw [if_pos (Or.inl hlog.2)]

theorem C24_connection_dec_once_witness :
    (client_free (sample_env [] []) sample_logged_in).log
      = [Event.connection_dec, Event.new_query_ctx, Event.delete_fd_mapping,
          Event.poll_events_delete, Event.socket_pool_free]
    ∧ (client_free (sample_env [] []))^[3] (client_free (sample_env [] []) sample_logged_in)
      = client_free (sample_env [] []) sample_logged_in := by
  have h := C24_connection_dec_once (sample_env [] []) sample_logged_in rfl (by decide)
  exact ⟨h.1.trans (by decide), h.2.2.2.2 3⟩

/-- C26: for every connection torn down by `client_free` (not in the pool, `fd`
not 0) with `txn_id` other than 0, a new query context for the connection's
database whose text is exactly `rollback` is run through
`_handle_client_query_common_query`, and the decrement, the removal from epoll
and the hand-over to the pool are applied to the connection the query returns,
their events being logged after everything the query logged; with `txn_id` equal
to 0 no query is dispatched and only the teardown events are logged. -/
theorem C26_rollback_on_teardown (E : Env) (sock : Sock) (h1 : sock.in_pool = false)
    (h2 : sock.fd ≠ 0) :
    (sock.txn_id ≠ 0 →
      client_free E sock
        = client_free_tail E (_handle_client_query_common_query E
            (emit { sock with query_ctx :=
              { new_query_context sock.current_db with sql := "rollback".toList } }
              Event.new_query_ctx)).2
      ∧ (emit { sock with query_ctx :=
            { new_query_context sock.current_db with sql := "rollback".toList } }
            Event.new_query_ctx).query_ctx.sql = "rollback".toList
      ∧ (client_free E sock).log
        = (_handle_client_query_common_query E
            (emit { sock with query_ctx :=
              { new_query_context sock.current_db with sql := "rollback".toList } }
              Event.new_query_ctx)).2.log
          ++ free_events E (_handle_client_query_common_query E
            (emit { sock with query_ctx :=
              { new_query_context sock.current_db with sql := "rollback".toList } }
              Event.new_query_ctx)).2)
    ∧ (sock.txn_id = 0 →
      client_free E sock = client_free_tail E sock
      ∧ (client_free E sock).log = sock.log ++ free_events E sock) := by
  rw [client_free_eq E sock h1 h2]
  constructor
  · intro h
    have e : rollback_on_free E sock = (_handle_client_query_common_query E
        (emit { sock with query_ctx :=
          { new_query_context sock.current_db with sql := "rollback".toList } }
          Event.new_query_ctx)).2 := by
      simp [rollback_on_free, h]
    rw [e]
    exact ⟨rfl, rfl, (client_free_tail_log E _).1⟩
  · intro h
    have e : rollback_on_free E sock = sock := by
      simp [rollback_on_free, h]
    rw [e]
    exact ⟨rfl, (client_free_tail_log E _).1⟩

theorem C26_rollback_on_teardown_witness :
    (client_free (sample_env [] []) sample_in_txn).log
      = [Event.new_query_ctx, Event.logical_analyze 0, Event.create_plan_tree 0,
          Event.physical_analyze 0, Event.execute 0, Event.connection_dec,
          Event.new_query_ctx, Event.delete_fd_mapping, Event.poll_events_delete,
          Event.socket_pool_free]
    ∧ (client_free (sample_env [] []) sample_logged_in).log
      = [Event.connection_dec, Event.new_query_ctx, Event.delete_fd_mapping,
          Event.poll_events_delete, Event.socket_pool_free] := by
  have h := C26_rollback_on_teardown (sample_env [] []) sample_in_txn rfl (by decide)
  have g := C26_rollback_on_teardown (sample_env [] []) sample_logged_in rfl (by decide)
  exact ⟨(h.1 (by decide)).2.2.trans (by decide), (g.2 rfl).2.trans (by decide)⟩

/-! ## Shutdown and the flush of a reply -/

/-- C21, as stated, fails: in `STATE_READ_QUERY_RESULT` a call with `shutdown`
true flushes the reply as usual and leaves the connection in
`STATE_SEND_AUTH_RESULT`, not torn down. -/
theorem C21_flush_ignores_shutdown :
    (run_machine (sample_env [] []) 2
        { sample_logged_in with state := State.STATE_READ_QUERY_RESULT } true).map
      (fun c => (c.state, c.in_pool, c.log))
      = some (State.STATE_SEND_AUTH_RESULT, false,
          [Event.real_write Ret.RET_SUCCESS,
            Event.set_state State.STATE_SEND_AUTH_RESULT,
            Event.poll_events_mod EpollEv.EPOLLIN]) := by
  decide

/-- C21, amended: in the states `STATE_CONNECTED_CLIENT`, `STATE_SEND_HANDSHAKE`,
`STATE_READ_AUTH` and `STATE_SEND_AUTH_RESULT`, `run_machine` called with
`shutdown` true assigns `STATE_ERROR` and runs the case `STATE_ERROR` (the flush
attempt and `client_free`) instead of the state's own action; in
`STATE_READ_QUERY_RESULT` and `STATE_ERROR_REUSE` it performs the state's own
action whatever `shutdown` is. -/
theorem C21_shutdown_forces_error (E : Env) (client : Sock) (fuel : Nat) :
    ((client.state = State.STATE_CONNECTED_CLIENT
        ∨ client.state = State.STATE_SEND_HANDSHAKE
        ∨ client.state = State.STATE_READ_AUTH
        ∨ client.state = State.STATE_SEND_AUTH_RESULT) →
      run_machine E (fuel + 2) client true
          = some (case_error E (set_state client State.STATE_ERROR))
        ∧ (case_error E (set_state client State.STATE_ERROR))
          = client_free E (emit { set_state client State.STATE_ERROR with
              clock := client.clock + 1 } (Event.real_write (E.real_write client.clock))))
    ∧ (client.state = State.STATE_READ_QUERY_RESULT →
      run_machine E (fuel + 1) client true
        = some (_send_result_to_client_and_reset_status E client))
    ∧ (client.state = State.STATE_ERROR_REUSE →
      run_machine E (fuel + 1) client true = some (case_error_reuse E client)) := by
  refine ⟨?_, ?_, ?_⟩
  · intro h
    refine ⟨?_, rfl⟩
    rcases h with h | h | h | h
    · simp [run_machine, h, case_connected_client, set_state]
    · simp [run_machine, h, case_send_handshake, set_state]
    · simp [run_machine, h, case_read_auth, set_state]
    · simp [run_machine, h, case_send_auth_result, set_state]
  · intro h
    simp [run_machine, h]
  · intro h
    simp [run_machine, h]

theorem C21_shutdown_forces_error_witness :
    run_machine (sample_env [] []) 2 sample_logged_in true
        = some (case_error (sample_env [] []) (set_state sample_logged_in State.STATE_ERROR))
    ∧ (case_error (sample_env [] []) (set_state sample_logged_in State.STATE_ERROR)).log
      = [Event.set_state State.STATE_ERROR, Event.real_write Ret.RET_SUCCESS,
          Event.connection_dec, Event.new_query_ctx, Event.delete_fd_mapping,
          Event.poll_events_delete, Event.socket_pool_free] :=
  ⟨((C21_shutdown_forces_error (sample_env [] []) sample_logged_in 0).1
      (Or.inr (Or.inr (Or.inr rfl)))).1, by decide⟩

/-- C23: in `STATE_READ_QUERY_RESULT`, whatever `shutdown` is: when the write
completes, `send_buf` and `self_buf` are cleared, the state becomes
`STATE_SEND_AUTH_RESULT` and EPOLLIN is armed; when the write is partial, the
state stays `STATE_READ_QUERY_RESULT`, both buffers are kept and EPOLLOUT is
armed; on any other result of the write `client_free` is applied to the
connection. -/
theorem C23_flush_outcomes (E : Env) (client : Sock) (fuel : Nat) (shutdown : Bool)
    (hst : client.state = State.STATE_READ_QUERY_RESULT) :
    (E.real_write client.clock = Ret.RET_SUCCESS →
      ∃ c, run_machine E (fuel + 1) client shutdown = some c
        ∧ c.send_buf = [] ∧ c.self_buf = [] ∧ c.state = State.STATE_SEND_AUTH_RESULT
        ∧ c.log = client.log ++ [Event.real_write Ret.RET_SUCCESS,
            Event.set_state State.STATE_SEND_AUTH_RESULT,
            Event.poll_events_mod EpollEv.EPOLLIN])
    ∧ (E.real_write client.clock = Ret.RET_WAIT_FOR_EVENT →
      ∃ c, run_machine E (fuel + 1) client shutdown = some c
        ∧ c.send_buf = client.send_buf ∧ c.self_buf = client.self_buf
        ∧ c.state = State.STATE_READ_QUERY_RESULT
        ∧ c.log = client.log ++ [Event.real_write Ret.RET_WAIT_FOR_EVENT,
            Event.poll_events_mod EpollEv.EPOLLOUT])
    ∧ (E.real_write client.clock ≠ Ret.RET_SUCCESS →
        E.real_write client.clock ≠ Ret.RET_WAIT_FOR_EVENT →
      run_machine E (fuel + 1) client shutdown
        = some (client_free E (emit { client with clock := client.clock + 1 }
            (Event.real_write (E.real_write client.clock))))) := by
  have hrun : run_machine E (fuel + 1) client shutdown
      = some (_send_result_to_client_and_reset_status E client) := by
    simp [run_machine, hst]
  rw [hrun]
  refine ⟨?_, ?_, ?_⟩
  · intro hw
    obtain ⟨f1, -, f3, f4, -, -, f7⟩ := send_result_fields E client hw
    exact ⟨_, rfl, f3, f4, f1, f7⟩
  · intro hw
    refine ⟨_, rfl, ?_, ?_, ?_, ?_⟩ <;>
      simp [_send_result_to_client_and_reset_status, _query_result_send, hw, poll_events_mod,
        emit, hst]
  · intro h1 h2
    simp [_send_result_to_client_and_reset_status, _query_result_send, h1, h2]

theorem C23_flush_outcomes_witness :
    ∃ c, run_machine (sample_env [] []) 1
        { sample_logged_in with state := State.STATE_READ_QUERY_RESULT,
                                send_buf := [1, 2, 3], self_buf := [4, 5] } false = some c
      ∧ c.send_buf = [] ∧ c.self_buf = [] ∧ c.state = State.STATE_SEND_AUTH_RESULT := by
  obtain ⟨c, h1, h2, h3, h4, -⟩ := (C23_flush_outcomes (sample_env [] [])
    { sample_logged_in with state := State.STATE_READ_QUERY_RESULT,
                            send_buf := [1, 2, 3], self_buf := [4, 5] } 0 false rfl).1 rfl
  exact ⟨c, h1, h2, h3, h4⟩

/-! ## What the login path leaves -/

theorem auth_read_current_db_fields (E : Env) (s : Sock) (u : UserInfo) (packet : Bytes)
    (off : Nat) :
    (_auth_read_current_db E s u packet off).2.charset_name = s.charset_name
    ∧ (_auth_read_current_db E s u packet off).2.charset_num = s.charset_num
    ∧ (_auth_read_current_db E s u packet off).2.user_info = s.user_info
    ∧ ((_auth_read_current_db E s u packet off).1 = Ret.RET_SUCCESS →
        (_auth_read_current_db E s u packet off).2.username = u.username) := by
  simp only [_auth_read_current_db]
  split_ifs
  · split
    · exact ⟨rfl, rfl, rfl, fun h => by simp at h⟩
    · exact ⟨rfl, rfl, rfl, fun _ => rfl⟩
  · exact ⟨rfl, rfl, rfl, fun _ => rfl⟩

theorem auth_read_password_fields (E : Env) (s : Sock) (u : UserInfo) (packet : Bytes)
    (off : Nat) :
    (_auth_read_password E s u packet off).2.charset_name = s.charset_name
    ∧ (_auth_read_password E s u packet off).2.charset_num = s.charset_num
    ∧ (_auth_read_password E s u packet off).2.user_info = s.user_info
    ∧ ((_auth_read_password E s u packet off).1 = Ret.RET_SUCCESS →
        (_auth_read_password E s u packet off).2.username = u.username) := by
  simp only [_auth_read_password]
  split_ifs
  · exact ⟨rfl, rfl, rfl, fun h => by simp at h⟩
  · exact ⟨rfl, rfl, rfl, fun h => by simp at h⟩
  · exact ⟨rfl, rfl, rfl, fun h => by simp at h⟩
  · exact ⟨rfl, rfl, rfl, fun h => by simp at h⟩
  · exact auth_read_current_db_fields E s u packet _
  · exact ⟨rfl, rfl, rfl, fun h => by simp at h⟩

/-- The function `_auth_read` in its parts: the packet read, the charset byte, the
rest. -/
theorem auth_read_parts (E : Env) (s : Sock) :
    _auth_read E s
      = (if (_read_packet E s).1 ≠ Ret.RET_SUCCESS then _read_packet E s
        else
          match E.protocol_get_char (login_packet E s) 12 with
          | none => (Ret.RET_ERROR, (_read_packet E s).2)
          | some (c, off) =>
            auth_read_user E (with_charset (_read_packet E s).2 c) (login_packet E s) off) := by
  unfold _auth_read login_packet
  generalize _read_packet E s = p
  obtain ⟨ret, s1⟩ := p
  rfl

theorem with_charset_fields (s1 : Sock) (c : Nat) :
    (with_charset s1 c).charset_name = (if c = 33 then "utf8".toList else "gbk".toList)
    ∧ (with_charset s1 c).charset_num = (if c = 28 ∨ c = 33 then s1.charset_num else 28)
    ∧ (with_charset s1 c).user_info = s1.user_info
    ∧ (with_charset s1 c).is_authed = s1.is_authed
    ∧ (with_charset s1 c).state = s1.state := by
  unfold with_charset
  by_cases h28 : c = 28
  · simp [h28]
  · by_cases h33 : c = 33
    · simp [h33]
    · simp [h28, h33]

/-- What the lookup of the user and the password check leave. -/
theorem auth_read_user_fields (E : Env) (s2 : Sock) (packet : Bytes) (off : Nat) :
    (auth_read_user E s2 packet off).2.charset_name = s2.charset_name
    ∧ (auth_read_user E s2 packet off).2.charset_num = s2.charset_num
    ∧ (s2.user_info ≠ none → (auth_read_user E s2 packet off).2.user_info ≠ none)
    ∧ ((auth_read_user E s2 packet off).1 = Ret.RET_SUCCESS →
        ∃ u, (auth_read_user E s2 packet off).2.user_info = some u
          ∧ (auth_read_user E s2 packet off).2.username = u.username) := by
  unfold auth_read_user
  split
  · exact ⟨rfl, rfl, fun h => h, fun h => by simp at h⟩
  · rename_i name off2 _
    simp only [emit]
    split
    · exact ⟨rfl, rfl, fun _ => by simp, fun h => by simp at h⟩
    · rename_i u hu
      split_ifs
      · exact ⟨rfl, rfl, fun _ => by simp [hu], fun h => by simp at h⟩
      all_goals
        have key := fun s1 u1 => auth_read_password_fields E s1 u1 packet off2
        refine ⟨(key _ _).1, (key _ _).2.1, fun _ => ?_,
          fun h => ⟨_, (key _ _).2.2.1, (key _ _).2.2.2 h⟩⟩
        rw [(key _ _).2.2.1]
        simp

/-- The charset fields after `_auth_read`, from the charset byte it decoded. -/
theorem auth_read_charset (E : Env) (s : Sock) (c off : Nat)
    (hread : (_read_packet E s).1 = Ret.RET_SUCCESS)
    (hchar : E.protocol_get_char (login_packet E s) 12 = some (c, off)) :
    (_auth_read E s).2.charset_name = (if c = 33 then "utf8".toList else "gbk".toList)
    ∧ (_auth_read E s).2.charset_num = (if c = 28 ∨ c = 33 then s.charset_num else 28) := by
  have hs := (read_packet_session E s).1
  rw [auth_read_parts, if_neg (by rw [hread]; simp), hchar]
  simp only
  obtain ⟨a1, a2, -, -⟩ := auth_read_user_fields E (with_charset (_read_packet E s).2 c)
    (login_packet E s) off
  obtain ⟨w1, w2, -⟩ := with_charset_fields (_read_packet E s).2 c
  rw [a1, a2, w1, w2, hs.2.1]
  exact ⟨rfl, rfl⟩

/-- A successful login leaves a user whose name is the connection's `username`; and
the login path never turns a known user into none. -/
theorem auth_read_user_known (E : Env) (s : Sock) :
    ((_auth_read E s).1 = Ret.RET_SUCCESS →
      ∃ u, (_auth_read E s).2.user_info = some u ∧ (_auth_read E s).2.username = u.username)
    ∧ (s.user_info ≠ none → (_auth_read E s).2.user_info ≠ none) := by
  have hs := (read_packet_session E s).1
  rw [auth_read_parts]
  split_ifs with h
  · exact ⟨fun h2 => absurd h2 h, fun hn => by rw [hs.2.2.2.2.1]; exact hn⟩
  · split
    · exact ⟨fun h2 => by simp at h2, fun hn => by rw [hs.2.2.2.2.1]; exact hn⟩
    · rename_i c off _
      obtain ⟨-, -, a3, a4⟩ := auth_read_user_fields E (with_charset (_read_packet E s).2 c)
        (login_packet E s) off
      obtain ⟨-, -, w3, -⟩ := with_charset_fields (_read_packet E s).2 c
      refine ⟨a4, fun hn => a3 ?_⟩
      rw [w3, hs.2.2.2.2.1]
      exact hn

/-- C30: once `_read_packet` has delivered the login packet and the charset byte `c`
was decoded from it, `_auth_read` leaves `charset_name` equal to `utf8` when
`c = 33` and to `gbk` for every other `c` (28 included), whatever the rest of the
login does; for every `c` other than 28 and 33 `charset_num` is 28, and for 28
and 33 `charset_num` is the value the connection had. -/
theorem C30_charset_from_login (E : Env) (s : Sock) (c off : Nat)
    (hread : (_read_packet E s).1 = Ret.RET_SUCCESS)
    (hchar : E.protocol_get_char (login_packet E s) 12 = some (c, off)) :
    (c = 33 → (_auth_read E s).2.charset_name = "utf8".toList)
    ∧ (c ≠ 33 → (_auth_read E s).2.charset_name = "gbk".toList)
    ∧ (c ≠ 28 → c ≠ 33 → (_auth_read E s).2.charset_num = 28)
    ∧ (c = 28 ∨ c = 33 → (_auth_read E s).2.charset_num = s.charset_num) := by
  obtain ⟨h1, h2⟩ := auth_read_charset E s c off hread hchar
  refine ⟨fun h => ?_, fun h => ?_, fun h h3 => ?_, fun h => ?_⟩
  · rw [h1, if_pos h]
  · rw [h1, if_neg h]
  · rw [h2, if_neg (by omega)]
  · rw [h2, if_pos h]

theorem C30_charset_from_login_witness :
    (_auth_read (sample_env (sample_login_charset 8) [sample_user 0]) sample_login).2.charset_name
      = "gbk".toList
    ∧ (_auth_read (sample_env (sample_login_charset 8) [sample_user 0]) sample_login).2.charset_num
      = 28
    ∧ (_auth_read (sample_env (sample_login_charset 33) [sample_user 0])
        sample_login).2.charset_name = "utf8".toList
    ∧ (_auth_read (sample_env (sample_login_charset 28) [sample_user 0])
        sample_login).2.charset_num = 0 := by
  have h8 := C30_charset_from_login (sample_env (sample_login_charset 8) [sample_user 0])
    sample_login 8 13 (by decide) (by decide)
  have h33 := C30_charset_from_login (sample_env (sample_login_charset 33) [sample_user 0])
    sample_login 33 13 (by decide) (by decide)
  have h28 := C30_charset_from_login (sample_env (sample_login_charset 28) [sample_user 0])
    sample_login 28 13 (by decide) (by decide)
  exact ⟨h8.2.1 (by decide), h8.2.2.1 (by decide) (by decide), h33.1 rfl,
    h28.2.2.2 (Or.inl rfl)⟩

/-- C22: from a connection in `STATE_CONNECTED_CLIENT` with `shutdown = false`, when
the handshake write completes, `_auth_read` then returns `RET_SUCCESS` (the login
packet was read completely, the user is known and the scramble matches),
`connection_inc` succeeds and the auth-result write completes: the first
`run_machine` call returns with the state `STATE_SEND_HANDSHAKE`, the second returns
with the state `STATE_SEND_AUTH_RESULT`, `is_counted` and `is_authed` true, `username`
equal to the name of the user held in `user_info`, and over both calls
`connection_inc` was called exactly once. -/
theorem C22_login_sequence (E : Env) (client : Sock) (fuel1 fuel2 : Nat)
    (hstate : client.state = State.STATE_CONNECTED_CLIENT)
    (hhs : E.handshake_send client.clock = Ret.RET_SUCCESS)
    (hauth : (_auth_read E (handshake_sent client)).1 = Ret.RET_SUCCESS)
    (hinc : (connection_inc (_auth_read E (handshake_sent client)).2).1 = true)
    (hres : E.auth_result_send (_auth_read E (handshake_sent client)).2.clock
      = Ret.RET_SUCCESS) :
    run_machine E (fuel1 + 1) client false = some (handshake_sent client)
    ∧ (handshake_sent client).state = State.STATE_SEND_HANDSHAKE
    ∧ ∃ c2 u, run_machine E (fuel2 + 1) (handshake_sent client) false = some c2
      ∧ c2.state = State.STATE_SEND_AUTH_RESULT
      ∧ c2.is_counted = true ∧ c2.is_authed = true
      ∧ c2.user_info = some u ∧ c2.username = u.username
      ∧ connection_inc_calls (events_since client c2) = 1 := by
  refine ⟨?_, rfl, ?_⟩
  · simp [run_machine, hstate, case_connected_client, hhs, handshake_sent]
  · obtain ⟨_, _, _, _, _, _, _, _, evs, hlog, hevs⟩ := auth_read_frame E (handshake_sent client)
    obtain ⟨u, hu, hname⟩ := (auth_read_user_known E (handshake_sent client)).1 hauth
    generalize ha : (_auth_read E (handshake_sent client)).2 = a at *
    have hi : connection_inc a = (true, emit { a with user_info := some u.connection_inc.2 }
        (Event.connection_inc true)) := by
      simp only [connection_inc, hu] at hinc ⊢
      rw [hinc]
    have hun : u.connection_inc.2.username = u.username := by
      unfold UserInfo.connection_inc
      split_ifs <;> rfl
    have hclk : (set_state { (connection_inc a).2 with is_counted := true }
        State.STATE_READ_AUTH).clock = a.clock := by
      rw [hi]; rfl
    refine ⟨{ poll_events_mod (set_state (emit
        { set_state { (connection_inc a).2 with is_counted := true } State.STATE_READ_AUTH with
          clock := (set_state { (connection_inc a).2 with is_counted := true }
            State.STATE_READ_AUTH).clock + 1 }
        (Event.auth_result_send Ret.RET_SUCCESS)) State.STATE_SEND_AUTH_RESULT)
        EpollEv.EPOLLIN with is_authed := true }, u.connection_inc.2, ?_, rfl, rfl, rfl, ?_, ?_, ?_⟩
    · have hst : (handshake_sent client).state = State.STATE_SEND_HANDSHAKE := rfl
      have hi1 : (connection_inc a).1 = true := hinc
      simp only [run_machine, hst, case_send_handshake, Bool.false_eq_true, if_false, if_true,
        hauth, ha, hi1, Bool.not_true, case_read_auth, hclk, hres, Option.map_some']
    · show (connection_inc a).2.user_info = some u.connection_inc.2
      rw [hi]; rfl
    · show (connection_inc a).2.username = u.connection_inc.2.username
      rw [hi, hun, ← hname]; rfl
    · have hcnt : ∀ l : List Event,
          (∀ e, e ∈ l → (∃ w r g, e = Event.real_read w r g) ∨ (∃ n, e = Event.get_user_info n)) →
          connection_inc_calls l = 0 := by
        intro l hl
        unfold connection_inc_calls
        rw [List.length_eq_zero, List.filter_eq_nil_iff]
        intro e he
        rcases hl e he with ⟨w, r, g, h⟩ | ⟨n, h⟩ <;> · rw [h]; simp
      have h0 := hcnt evs hevs
      unfold connection_inc_calls at h0 ⊢
      rw [hi]
      simp only [events_since, emit, hlog, handshake_sent, poll_events_mod, set_state,
        List.append_assoc, List.drop_left, List.filter_append, List.length_append, h0]
      rfl

theorem C22_login_sequence_witness :
    run_machine (sample_env ([] :: sample_login_chunks "bob".toList good_auth) [sample_user 0])
      1 sample_sock false = some (handshake_sent sample_sock)
    ∧ ∃ c2 u, run_machine
        (sample_env ([] :: sample_login_chunks "bob".toList good_auth) [sample_user 0])
        1 (handshake_sent sample_sock) false = some c2
      ∧ c2.state = State.STATE_SEND_AUTH_RESULT
      ∧ c2.is_counted = true ∧ c2.is_authed = true
      ∧ c2.user_info = some u ∧ c2.username = u.username
      ∧ connection_inc_calls (events_since sample_sock c2) = 1 :=
  (fun h => ⟨h.1, h.2.2⟩)
    (C22_login_sequence
      (sample_env ([] :: sample_login_chunks "bob".toList good_auth) [sample_user 0])
      sample_sock 0 0 (by decide) (by decide) (by decide) (by decide) (by decide))

/-! ## The catalog responders -/

/-- A result set without rows is always packed: the responder returns true and the
state is `STATE_READ_QUERY_RESULT`. -/
theorem finish_resultset_no_rows (E : Env) (s : Sock) (f : ResultField)
    (fields : List ResultField) (errmsg : Str) :
    (finish_resultset E s (f :: fields) [] errmsg).1 = true
    ∧ (finish_resultset E s (f :: fields) [] errmsg).2.state
        = State.STATE_READ_QUERY_RESULT := by
  simp [finish_resultset, _make_common_resultset_packet, make_row_packets, set_state]

/-- What `_handle_client_query_show_region` returns once `std::stoll` has read the
region id. -/
theorem show_region_of_id (E : Env) (C : SchemaFactory) (client : Sock) (region_id : Int)
    (h : show_region_id C client.query_ctx.sql = some region_id) :
    _handle_client_query_show_region E C client
      = some (show_region_answer E C client region_id) := by
  simp only [_handle_client_query_show_region, h]

/-- C27, as the code has it: `SHOW CREATE TABLE`, `SHOW FULL COLUMNS` and `DESC`
assign `STATE_ERROR` and return false when `get_table_id` does not find the table
they name (and when the statement has the wrong number of tokens);
`SHOW REGION_<id>`, once `std::stoll` has read the number `id`, returns true with
the state `STATE_READ_QUERY_RESULT` when `get_region_info` does not find the
region, the result set having no rows; and
`SHOW DATABASES` and `SHOW TABLES`, whose lookups give a list, return true with the
state `STATE_READ_QUERY_RESULT` when the list is empty. -/
theorem C27_failed_lookups (E : Env) (C : SchemaFactory) (client : Sock) :
    ((show_create_table_target C client = none
        ∨ ∃ db table, show_create_table_target C client = some (db, table)
            ∧ C.get_table_id (full_name client db table) = none) →
      _handle_client_query_show_create_table E C client
        = (false, set_state client State.STATE_ERROR))
    ∧ ((show_full_columns_target C client = none
        ∨ ∃ db table, show_full_columns_target C client = some (db, table)
            ∧ C.get_table_id (full_name client db table) = none) →
      _handle_client_query_show_full_columns E C client
        = (false, set_state client State.STATE_ERROR))
    ∧ ((desc_table_target C client = none
        ∨ ∃ db table, desc_table_target C client = some (db, table)
            ∧ C.get_table_id (full_name client db table) = none) →
      _handle_client_query_desc_table E C client
        = (false, set_state client State.STATE_ERROR))
    ∧ (∀ region_id, show_region_id C client.query_ctx.sql = some region_id →
      C.get_region_info region_id = none →
      ∃ r, _handle_client_query_show_region E C client = some r
        ∧ r = finish_resultset E client
            [mk_field "region_id".toList MysqlType.MYSQL_TYPE_VAR_STRING,
              mk_field "region_info".toList MysqlType.MYSQL_TYPE_VAR_STRING] []
            "Failed to make result packet.".toList
        ∧ r.1 = true ∧ r.2.state = State.STATE_READ_QUERY_RESULT)
    ∧ (E.get_db_list (user_namespace client) = [] →
      (_handle_client_query_show_databases E client).1 = true
      ∧ (_handle_client_query_show_databases E client).2.state
          = State.STATE_READ_QUERY_RESULT)
    ∧ (client.current_db ≠ [] → E.get_table_list (user_namespace client) client.current_db = [] →
      (_handle_client_query_show_tables E client).1 = true
      ∧ (_handle_client_query_show_tables E client).2.state
          = State.STATE_READ_QUERY_RESULT) := by
  refine ⟨?_, ?_, ?_, ?_, ?_, ?_⟩
  · rintro (h | ⟨db, table, h, hid⟩)
    · simp only [_handle_client_query_show_create_table, h]
    · simp only [_handle_client_query_show_create_table, h, hid]
  · rintro (h | ⟨db, table, h, hid⟩)
    · simp only [_handle_client_query_show_full_columns, h]
    · simp only [_handle_client_query_show_full_columns, h, hid]
  · rintro (h | ⟨db, table, h, hid⟩)
    · simp only [_handle_client_query_desc_table, h]
    · simp only [_handle_client_query_desc_table, h, hid]
  · intro region_id hid h
    refine ⟨_, show_region_of_id E C client region_id hid, ?_, ?_⟩
    · simp only [show_region_answer, h]
    · simp only [show_region_answer, h]
      exact finish_resultset_no_rows E client _ _ _
  · intro h
    simp only [_handle_client_query_show_databases, h, List.map_nil]
    exact finish_resultset_no_rows E client _ _ _
  · intro hdb h
    simp only [_handle_client_query_show_tables, if_neg hdb, h, List.map_nil]
    exact finish_resultset_no_rows E client _ _ _

/-- C27 fails on `SHOW REGION_<id>`: with a catalog that knows no region, the
responder of `show region_5` reads the id 5, returns true and leaves the state
`STATE_READ_QUERY_RESULT`, not `STATE_ERROR`. -/
theorem C27_unknown_region_is_answered :
    show_region_id sample_catalog "show region_5".toList = some 5
    ∧ sample_catalog.get_region_info 5 = none
    ∧ (_handle_client_query_show_region (sample_env [] []) sample_catalog
        (sample_responder_input "show region_5")).map (fun r => (r.1, r.2.state))
      = some (true, State.STATE_READ_QUERY_RESULT) := by
  decide

theorem C27_failed_lookups_witness :
    _handle_client_query_show_create_table (sample_env [] []) sample_catalog
        (sample_responder_input "show create table nope")
      = (false, set_state (sample_responder_input "show create table nope") State.STATE_ERROR)
    ∧ _handle_client_query_show_full_columns (sample_env [] []) sample_catalog
        (sample_responder_input "show full columns from nope")
      = (false, set_state (sample_responder_input "show full columns from nope")
          State.STATE_ERROR)
    ∧ _handle_client_query_desc_table (sample_env [] []) sample_catalog
        (sample_responder_input "desc")
      = (false, set_state (sample_responder_input "desc") State.STATE_ERROR) :=
  ⟨(C27_failed_lookups (sample_env [] []) sample_catalog
      (sample_responder_input "show create table nope")).1
      (Or.inr ⟨"db".toList, "nope".toList, by decide, by decide⟩),
    (C27_failed_lookups (sample_env [] []) sample_catalog
      (sample_responder_input "show full columns from nope")).2.1
      (Or.inr ⟨"db".toList, "nope".toList, by decide, by decide⟩),
    (C27_failed_lookups (sample_env [] []) sample_catalog
      (sample_responder_input "desc")).2.2.1 (Or.inl (by decide))⟩

/-! ## The answers of the responders of the sources -/

theorem answer_ite (E : Env) (s : Sock) (c : Prop) [Decidable c] (x y : Bool × Sock)
    (hx : ResponderAnswer E s x) (hy : ResponderAnswer E s y) :
    ResponderAnswer E s (if c then x else y) := by
  split_ifs
  · exact hx
  · exact hy

theorem answer_same (E : Env) (s : Sock) : ResponderAnswer E s (false, s) := Or.inl rfl

theorem answer_error (E : Env) (s : Sock) :
    ResponderAnswer E s (false, set_state s State.STATE_ERROR) := Or.inr (Or.inl rfl)

theorem answer_resultset (E : Env) (s : Sock) (fields : List ResultField)
    (rows : List (List Str)) (errmsg : Str) :
    ResponderAnswer E s (finish_resultset E s fields rows errmsg) :=
  Or.inr (Or.inr ⟨fields, rows, errmsg, rfl⟩)

theorem answer_show_create_table (E : Env) (C : SchemaFactory) (s : Sock) :
    ResponderAnswer E s (_handle_client_query_show_create_table E C s) := by
  unfold _handle_client_query_show_create_table
  dsimp only
  split
  · exact answer_error E s
  · split
    · exact answer_error E s
    · exact answer_resultset E s _ _ _

theorem answer_show_full_columns (E : Env) (C : SchemaFactory) (s : Sock) :
    ResponderAnswer E s (_handle_client_query_show_full_columns E C s) := by
  unfold _handle_client_query_show_full_columns
  dsimp only
  split
  · exact answer_error E s
  · split
    · exact answer_error E s
    · exact answer_resultset E s _ _ _

theorem answer_desc_table (E : Env) (C : SchemaFactory) (s : Sock) :
    ResponderAnswer E s (_handle_client_query_desc_table E C s) := by
  unfold _handle_client_query_desc_table
  dsimp only
  split
  · exact answer_error E s
  · split
    · exact answer_error E s
    · exact answer_resultset E s _ _ _

theorem answer_show_table_status (E : Env) (C : SchemaFactory) (s : Sock) :
    ResponderAnswer E s (_handle_client_query_show_table_status E C s) := by
  unfold _handle_client_query_show_table_status
  dsimp only
  split_ifs
  · split
    · exact answer_error E s
    · exact answer_resultset E s _ _ _
  · exact answer_error E s

theorem answer_show_region (E : Env) (C : SchemaFactory) (s : Sock) (r : Bool × Sock)
    (h : _handle_client_query_show_region E C s = some r) : ResponderAnswer E s r := by
  unfold _handle_client_query_show_region at h
  split at h
  · cases h
  · rw [← Option.some.inj h]
    unfold show_region_answer
    exact answer_resultset E s _ _ _

/-- Every answer of the responders of the sources has one of the three forms. -/
theorem answer_responders (E : Env) (C : SchemaFactory) (name : Str) (s : Sock) :
    ResponderAnswer E s (responders E C name s) := by
  unfold responders
  repeat' with_reducible apply answer_ite
  · exact answer_show_create_table E C s
  · exact answer_show_full_columns E C s
  · exact answer_show_table_status E C s
  · exact answer_resultset E s _ _ _
  · exact answer_resultset E s _ _ _
  · split
    · rename_i r h
      exact answer_show_region E C s r h
    · exact answer_same E s
  · exact answer_resultset E s _ _ _
  · exact answer_desc_table E C s
  · exact answer_same E s

/-! ## The text of `SHOW CREATE TABLE` -/

/-- The loop over the fields writes one line per field that is not deleted, in the
order of `info.fields`. -/
theorem ddl_fields_eq (fields : List FieldInfo) :
    ddl_fields fields
      = ((fields.filter (fun field => !field.deleted)).map ddl_field).flatten := by
  induction fields with
  | nil => rfl
  | cons f rest ih =>
    by_cases h : f.deleted = true
    · simp [ddl_fields, h, ih]
    · simp [ddl_fields, h, ih]

/-- The loop over the indices writes the text of every index, in the order of
`info.indices`, each followed by a closing bracket, a comma or none, and a newline. -/
theorem ddl_indices_eq (C : SchemaFactory) (size : Nat) (indices : List Int) (index_idx : Nat) :
    ∃ seps : List Str, seps.length = indices.length
      ∧ (∀ sep, sep ∈ seps → sep = "),\n".toList ∨ sep = ")\n".toList)
      ∧ ddl_indices C size indices index_idx
        = (List.zipWith (fun index_id sep => ddl_index C index_id ++ sep) indices seps).flatten := by
  induction indices generalizing index_idx with
  | nil => exact ⟨[], rfl, fun _ h => by simp at h, rfl⟩
  | cons i rest ih =>
    obtain ⟨seps, hlen, hsep, heq⟩ := ih ((index_idx + 1) % U32)
    refine ⟨(if (index_idx + 1) % U32 < size then "),\n".toList else ")\n".toList) :: seps,
      by simp [hlen], ?_, ?_⟩
    · intro sep hmem
      rcases List.mem_cons.1 hmem with h | h
      · rw [h]
        split_ifs
        · exact Or.inl rfl
        · exact Or.inr rfl
      · exact hsep sep h
    · simp only [ddl_indices, heq, List.zipWith_cons_cons, List.flatten_cons, List.append_assoc]

/-- C29, as the code has it: for a statement that names a table found in the
catalog, `SHOW CREATE TABLE` answers with one row holding the table name and the
DDL text; the text is the `CREATE TABLE` line, then one line per field that is not
deleted in the order of `info.fields`, then the indices in the order of
`info.indices`, and it ends character for character with `) ENGINE=Rocksdb
DEFAULT CHARSET=` and `gbk` or `utf8`, then ` AVG_ROW_LENGTH=` and the decimal
`byte_size_per_record`, then the comment in which a comma and one blank separate
the resource tag from the namespace. -/
theorem C29_show_create_table_text (E : Env) (C : SchemaFactory) (client : Sock)
    (db table : Str) (table_id : Int)
    (htarget : show_create_table_target C client = some (db, table))
    (hfound : C.get_table_id (full_name client db table) = some table_id) :
    _handle_client_query_show_create_table E C client
      = finish_resultset E client
          [mk_field "Table".toList MysqlType.MYSQL_TYPE_VAR_STRING,
            mk_field "Create Table".toList MysqlType.MYSQL_TYPE_VAR_STRING]
          [[table, show_create_table_text C table (C.get_table_info table_id)]]
          client.query_ctx.sql
    ∧ (∃ seps : List Str, seps.length = (C.get_table_info table_id).indices.length
      ∧ (∀ sep, sep ∈ seps → sep = "),\n".toList ∨ sep = ")\n".toList)
      ∧ show_create_table_text C table (C.get_table_info table_id)
        = "CREATE TABLE `".toList ++ table ++ "` (\n".toList
          ++ (((C.get_table_info table_id).fields.filter (fun field => !field.deleted)).map
              ddl_field).flatten
          ++ (List.zipWith (fun index_id sep => ddl_index C index_id ++ sep)
              (C.get_table_info table_id).indices seps).flatten
          ++ (") ENGINE=Rocksdb DEFAULT CHARSET=".toList
            ++ charset_map (C.get_table_info table_id).charset
            ++ " AVG_ROW_LENGTH=".toList ++ fmt_d (C.get_table_info table_id).byte_size_per_record
            ++ " COMMENT='\x7b\"resource_tag\":\"".toList
            ++ (C.get_table_info table_id).resource_tag
            ++ "\", \"namespace\":\"".toList ++ (C.get_table_info table_id).namespace_
            ++ "\"\x7d'".toList))
    ∧ (charset_map (C.get_table_info table_id).charset = "gbk".toList
      ∨ charset_map (C.get_table_info table_id).charset = "utf8".toList) := by
  refine ⟨?_, ?_, ?_⟩
  · simp only [_handle_client_query_show_create_table, htarget, hfound]
  · obtain ⟨seps, hlen, hsep, heq⟩ := ddl_indices_eq C
      (C.get_table_info table_id).indices.length (C.get_table_info table_id).indices 0
    refine ⟨seps, hlen, hsep, ?_⟩
    simp only [show_create_table_text, ddl_fields_eq, heq, ddl_tail, List.append_assoc]
    rfl
  · cases (C.get_table_info table_id).charset
    · exact Or.inr rfl
    · exact Or.inl rfl

/-- C29 fails on the comment: the code writes a blank after the comma that
separates the resource tag from the namespace, so the text of the sample table
does not end with the tail the claim gives. -/
theorem C29_comment_has_a_blank :
    show_create_table_text sample_catalog "t".toList sample_table
      = ("CREATE TABLE `t` (\n  `id` bigint(20) NOT NULL  ,\n"
        ++ "  `name` varchar(1024) NOT NULL  ,\n  PRIMARY KEY (`id`),\n"
        ++ "  KEY `name_key` (`name`)\n) ENGINE=Rocksdb DEFAULT CHARSET=gbk"
        ++ " AVG_ROW_LENGTH=50 COMMENT='\x7b\"resource_tag\":\"e0\", \"namespace\":\"ns\"\x7d'").toList
    ∧ (spec_ddl_tail sample_table).isSuffixOf
        (show_create_table_text sample_catalog "t".toList sample_table) = false
    ∧ spec_ddl_tail sample_table
      = ("ENGINE=Rocksdb DEFAULT CHARSET=gbk AVG_ROW_LENGTH=50"
        ++ " COMMENT='\x7b\"resource_tag\":\"e0\",\"namespace\":\"ns\"\x7d'").toList := by
  set_option maxRecDepth 100000 in decide

theorem C29_show_create_table_text_witness :
    _handle_client_query_show_create_table (sample_env [] []) sample_catalog
        (sample_responder_input "show create table t")
      = finish_resultset (sample_env [] []) (sample_responder_input "show create table t")
          [mk_field "Table".toList MysqlType.MYSQL_TYPE_VAR_STRING,
            mk_field "Create Table".toList MysqlType.MYSQL_TYPE_VAR_STRING]
          [["t".toList, show_create_table_text sample_catalog "t".toList
            (sample_catalog.get_table_info 1)]]
          (sample_responder_input "show create table t").query_ctx.sql :=
  (C29_show_create_table_text (sample_env [] []) sample_catalog
    (sample_responder_input "show create table t") "db".toList "t".toList 1
    (by decide) (by decide)).1

/-! ## The login status is kept -/

theorem keeps_refl (s : Sock) : KeepsLogin s s := ⟨fun h => h, rfl, fun h => h⟩

theorem keeps_trans (s a b : Sock) (h1 : KeepsLogin s a) (h2 : KeepsLogin a b) :
    KeepsLogin s b :=
  ⟨fun h => h1.1 (h2.1 h), h2.2.1.trans h1.2.1, fun h => h1.2.2 (h2.2.2 h)⟩

theorem keeps_of_eq (s a : Sock) (h1 : a.user_info = s.user_info)
    (h2 : a.is_authed = s.is_authed) (h3 : a.state = s.state) : KeepsLogin s a :=
  ⟨fun h => by rw [← h1]; exact h, h2, fun h => by rw [← h3]; exact h⟩

theorem keeps_set_state (s : Sock) (st : State) (h : st ≠ State.STATE_READ_AUTH) :
    KeepsLogin s (set_state s st) :=
  ⟨fun h1 => h1, rfl, fun h1 => absurd h1 h⟩

theorem keeps_read_packet (E : Env) (s : Sock) : KeepsLogin s (_read_packet E s).2 := by
  obtain ⟨f1, _, f3, _⟩ := read_packet_frame E s
  have hs := (read_packet_session E s).1
  exact keeps_of_eq _ _ hs.2.2.2.2.1 f3 f1

theorem keeps_auth_read (E : Env) (s : Sock) : KeepsLogin s (_auth_read E s).2 := by
  obtain ⟨f1, _, f3, _⟩ := auth_read_frame E s
  refine ⟨fun h => ?_, f3, fun h => by rw [← f1]; exact h⟩
  by_contra hn
  exact (auth_read_user_known E s).2 hn h

theorem keeps_ite {α : Type} (c : Prop) [Decidable c] (s : Sock) (x y : α × Sock)
    (hx : KeepsLogin s x.2) (hy : KeepsLogin s y.2) : KeepsLogin s (if c then x else y).2 := by
  split_ifs
  · exact hx
  · exact hy

theorem keeps_query_read (E : Env) (s : Sock) : KeepsLogin s (_query_read E s).2 := by
  have h0 : KeepsLogin s (emit { s with query_ctx := new_query_context s.current_db }
      Event.new_query_ctx) := keeps_of_eq _ _ rfl rfl rfl
  have h1 := keeps_read_packet E (emit { s with query_ctx := new_query_context s.current_db }
      Event.new_query_ctx)
  have h2 := keeps_trans _ _ _ h0 h1
  unfold _query_read
  lift_lets
  intro s0
  generalize hp : _read_packet E s0 = p
  have h3 : KeepsLogin s p.2 := by rw [← hp]; exact h2
  clear hp h0 h1 h2
  obtain ⟨ret, s1⟩ := p
  refine keeps_trans _ _ _ h3 ?_
  dsimp only
  apply keeps_ite
  · exact keeps_refl _
  apply keeps_ite
  · exact keeps_refl _
  split
  · exact keeps_refl _
  · repeat' apply keeps_ite
    all_goals exact keeps_of_eq _ _ rfl rfl rfl

theorem keeps_snd {α : Type} (s y : Sock) (b : α) (h : KeepsLogin s y) :
    KeepsLogin s (b, y).2 := h

theorem keeps_ite_sock (c : Prop) [Decidable c] (s x y : Sock)
    (hx : KeepsLogin s x) (hy : KeepsLogin s y) : KeepsLogin s (if c then x else y) := by
  split_ifs
  · exact hx
  · exact hy

theorem keeps_emit (s y : Sock) (e : Event) (h : KeepsLogin s y) : KeepsLogin s (emit y e) :=
  keeps_trans _ _ _ h (keeps_of_eq _ _ rfl rfl rfl)

theorem keeps_state (s y : Sock) (st : State) (hst : st ≠ State.STATE_READ_AUTH)
    (h : KeepsLogin s y) : KeepsLogin s (set_state y st) :=
  keeps_trans _ _ _ h (keeps_set_state y st hst)

theorem keeps_poll (s y : Sock) (ev : EpollEv) (h : KeepsLogin s y) :
    KeepsLogin s (poll_events_mod y ev) :=
  keeps_trans _ _ _ h (keeps_of_eq _ _ rfl rfl rfl)

theorem keeps_err_packet (E : Env) (s y : Sock) (code : ErrCode) (msg : Str)
    (h : KeepsLogin s y) : KeepsLogin s (make_err_packet E y code msg) :=
  keeps_trans _ _ _ h (keeps_of_eq _ _ rfl rfl rfl)

theorem keeps_ok_packet (E : Env) (s y : Sock) (h : KeepsLogin s y) :
    KeepsLogin s (make_simple_ok_packet E y) :=
  keeps_trans _ _ _ h (keeps_of_eq _ _ rfl rfl rfl)

theorem keeps_auth_failed_packet (E : Env) (s y : Sock) (msg : Str) (h : KeepsLogin s y) :
    KeepsLogin s (fill_auth_failed_packet E y msg) :=
  keeps_trans _ _ _ h (keeps_of_eq _ _ rfl rfl rfl)

theorem keeps_not_allowed (E : Env) (s y : Sock) (h : KeepsLogin s y) :
    KeepsLogin s (not_allowed E y) :=
  keeps_trans _ _ _ h (keeps_of_eq _ _ rfl rfl rfl)

theorem keeps_plan_failed (E : Env) (s y : Sock) (dflt : ErrCode) (text : Str)
    (h : KeepsLogin s y) : KeepsLogin s (plan_failed E y dflt text) :=
  keeps_trans _ _ _ h (keeps_of_eq _ _ rfl rfl rfl)

theorem keeps_query_ctx (s y : Sock) (q : QueryContext) (h : KeepsLogin s y) :
    KeepsLogin s { y with query_ctx := q } :=
  keeps_trans _ _ _ h (keeps_of_eq _ _ rfl rfl rfl)

theorem keeps_seq_id (s y : Sock) (n : Int) (q : QueryContext) (h : KeepsLogin s y) :
    KeepsLogin s { y with seq_id := n, query_ctx := q } :=
  keeps_trans _ _ _ h (keeps_of_eq _ _ rfl rfl rfl)

theorem keeps_scope_exit (E : Env) (hE : EnvKeepsLogin E) (s y : Sock)
    (h : KeepsLogin s y) : KeepsLogin s (scope_exit E y) := by
  unfold scope_exit
  split_ifs
  · exact keeps_trans _ _ _ (keeps_emit _ _ _ h) (hE.2.2.2.2.1 _)
  · exact h

theorem keeps_finish_resultset (E : Env) (s y : Sock) (fields : List ResultField)
    (rows : List (List Str)) (errmsg : Str) (hy : KeepsLogin s y) :
    KeepsLogin s (finish_resultset E y fields rows errmsg).2 := by
  refine keeps_trans _ _ _ hy ?_
  have h : ∀ r : Ret × Sock, r.2.user_info = y.user_info → r.2.is_authed = y.is_authed →
      KeepsLogin y (if r.1 ≠ Ret.RET_SUCCESS then
        (false, set_state (make_err_packet E r.2 ErrCode.ER_MAKE_RESULT_PACKET errmsg)
          State.STATE_ERROR)
        else (true, set_state r.2 State.STATE_READ_QUERY_RESULT)).2 := by
    intro r h1 h2
    apply keeps_ite
    · exact ⟨fun h => by rw [← h1]; exact h, h2, fun h => by cases h⟩
    · exact ⟨fun h => by rw [← h1]; exact h, h2, fun h => by cases h⟩
  have hu : (_make_common_resultset_packet E y fields rows).2.user_info = y.user_info
      ∧ (_make_common_resultset_packet E y fields rows).2.is_authed = y.is_authed := by
    unfold _make_common_resultset_packet
    split_ifs
    · exact ⟨rfl, rfl⟩
    · dsimp only
      split_ifs <;> exact ⟨rfl, rfl⟩
  exact h (_make_common_resultset_packet E y fields rows) hu.1 hu.2

theorem keeps_is_exceed_quota (E : Env) (s y : Sock) (hy : KeepsLogin s y) :
    KeepsLogin s (is_exceed_quota E y).2 := by
  refine keeps_trans _ _ _ hy ?_
  unfold is_exceed_quota
  split
  · rename_i h
    exact ⟨fun _ => h, rfl, fun h => h⟩
  · exact ⟨fun h => by simp [emit] at h, rfl, fun h => h⟩

theorem keeps_common_query (E : Env) (hE : EnvKeepsLogin E) (s y : Sock)
    (hy : KeepsLogin s y) : KeepsLogin s (_handle_client_query_common_query E y).2 := by
  have e1 : ∀ a b, KeepsLogin a b → KeepsLogin a (E.logical_analyze b).2 :=
    fun a b h => keeps_trans _ _ _ h (hE.1 b)
  have e2 : ∀ a b, KeepsLogin a b → KeepsLogin a (E.create_plan_tree b).2 :=
    fun a b h => keeps_trans _ _ _ h (hE.2.1 b)
  have e3 : ∀ a b, KeepsLogin a b → KeepsLogin a (E.physical_analyze b).2 :=
    fun a b h => keeps_trans _ _ _ h (hE.2.2.1 b)
  have e4 : ∀ a b, KeepsLogin a b → KeepsLogin a (E.execute b).2 :=
    fun a b h => keeps_trans _ _ _ h (hE.2.2.2.1 b)
  unfold _handle_client_query_common_query
  lift_lets
  intro _ _ s0 r1 s1 r2 s2 _ s3 r4 s4 r5 s5 _ _
  have k0 : KeepsLogin s s0 := keeps_query_ctx _ _ _ hy
  have k1 : KeepsLogin s s1 := keeps_emit _ _ _ (e1 _ _ k0)
  have k2 : KeepsLogin s s2 := keeps_emit _ _ _ (e2 _ _ k1)
  have k3 : KeepsLogin s s3 := keeps_ite_sock _ _ _ _ (keeps_seq_id _ _ _ _ k2) k2
  have k4 : KeepsLogin s s4 := keeps_emit _ _ _ (e3 _ _ k3)
  have k5 : KeepsLogin s s5 := keeps_emit _ _ _ (e4 _ _ k4)
  clear_value s5 r5 s4 r4 s3 s2 r2 s1 r1 s0
  apply keeps_ite
  · exact keeps_plan_failed E _ _ _ _ k1
  apply keeps_ite
  · exact keeps_ok_packet E _ _ k1
  apply keeps_ite
  · exact k2
  apply keeps_ite
  · exact keeps_scope_exit E hE _ _ (keeps_plan_failed E _ _ _ _ k4)
  apply keeps_ite
  · exact keeps_scope_exit E hE _ _ (keeps_ok_packet E _ _ k4)
  apply keeps_ite
  · exact keeps_scope_exit E hE _ _ (keeps_plan_failed E _ _ _ _ k5)
  · exact keeps_scope_exit E hE _ _ (keeps_query_ctx _ _ _ k5)

theorem keeps_template (E : Env) (s : Sock) (field_name : Str) (data_type : MysqlType)
    (value : Str) :
    KeepsLogin s (_handle_client_query_template E s field_name data_type value).2 :=
  keeps_finish_resultset E s s _ _ _ (keeps_refl s)

theorem keeps_ok_result (E : Env) (s : Sock) :
    KeepsLogin s (true,
      set_state (make_simple_ok_packet E s) State.STATE_READ_QUERY_RESULT).2 :=
  ⟨fun h => h, rfl, fun h => by cases h⟩

theorem keeps_use_database (E : Env) (s : Sock) :
    KeepsLogin s (_handle_client_query_use_database E s).2 :=
  ⟨fun h => h, rfl, fun h => by cases h⟩

theorem keeps_show_tables (E : Env) (s : Sock) :
    KeepsLogin s (_handle_client_query_show_tables E s).2 := by
  unfold _handle_client_query_show_tables
  dsimp only
  apply keeps_ite
  · exact ⟨fun h => h, rfl, fun h => by cases h⟩
  · exact keeps_finish_resultset E s s _ _ _ (keeps_refl s)

theorem keeps_catalog (E : Env) (hE : EnvKeepsLogin E) (name : String) (s : Sock) :
    KeepsLogin s (_handle_client_query_catalog E name s).2 :=
  keeps_trans _ _ _ (keeps_emit _ _ _ (keeps_refl s)) (hE.2.2.2.2.2 _ _)

theorem keeps_not_allowed_reuse (E : Env) (s : Sock) :
    KeepsLogin s (true, set_state (not_allowed E s) State.STATE_ERROR_REUSE).2 :=
  ⟨fun h => h, rfl, fun h => by cases h⟩

theorem keeps_com_query (E : Env) (hE : EnvKeepsLogin E) (s : Sock) :
    KeepsLogin s (_query_process_com_query E s).2 := by
  unfold _query_process_com_query
  lift_lets
  intro type sql q r
  have kq : KeepsLogin s q.2 := keeps_is_exceed_quota E s s (keeps_refl s)
  have kr : KeepsLogin s r.2 := keeps_common_query E hE s q.2 kq
  clear_value r q
  repeat' with_reducible apply keeps_ite
  · exact keeps_ok_result E s
  · exact keeps_ok_result E s
  · exact keeps_template E s _ _ _
  · exact keeps_template E s _ _ _
  · exact keeps_template E s _ _ _
  · exact keeps_template E s _ _ _
  · exact keeps_template E s _ _ _
  · exact keeps_template E s _ _ _
  · exact keeps_finish_resultset E s s _ _ _ (keeps_refl s)
  · exact keeps_show_tables E s
  · exact keeps_catalog E hE _ s
  · exact keeps_catalog E hE _ s
  · exact keeps_catalog E hE _ s
  · exact keeps_catalog E hE _ s
  · exact keeps_catalog E hE _ s
  · exact keeps_catalog E hE _ s
  · exact keeps_catalog E hE _ s
  · exact keeps_use_database E s
  · exact keeps_catalog E hE _ s
  · exact keeps_ok_result E s
  · exact keeps_state _ _ _ (by decide) (keeps_err_packet E _ _ _ _ kq)
  · exact keeps_state _ _ _ (by decide) kr

theorem keeps_query_process (E : Env) (hE : EnvKeepsLogin E) (s : Sock) :
    KeepsLogin s (_query_process E s).2 := by
  unfold _query_process
  dsimp only
  repeat' with_reducible apply keeps_ite
  · exact keeps_ok_result E s
  · exact keeps_refl s
  · exact keeps_use_database E s
  · exact keeps_ok_result E s
  · exact keeps_com_query E hE s
  · exact keeps_not_allowed_reuse E s
  · exact keeps_not_allowed_reuse E s
  · exact keeps_not_allowed_reuse E s
  · exact keeps_not_allowed_reuse E s
  · exact keeps_not_allowed_reuse E s

theorem keeps_connection_dec (s y : Sock) (h : KeepsLogin s y) :
    KeepsLogin s (connection_dec y) := by
  refine keeps_trans _ _ _ h ⟨fun hn => ?_, rfl, fun h => h⟩
  cases hu : y.user_info with
  | none => rfl
  | some u => simp [connection_dec, emit, hu] at hn

theorem keeps_query_result_send (E : Env) (s y : Sock) (h : KeepsLogin s y) :
    KeepsLogin s (_query_result_send E y).2 :=
  keeps_trans _ _ _ h (keeps_of_eq _ _ rfl rfl rfl)

theorem keeps_client_free (E : Env) (hE : EnvKeepsLogin E) (s y : Sock)
    (h : KeepsLogin s y) : KeepsLogin s (client_free E y) := by
  unfold client_free
  lift_lets
  intro _ s1 s2 s3 s4
  have k1 : KeepsLogin s s1 :=
    keeps_ite_sock _ _ _ _
      (keeps_common_query E hE _ _ (keeps_emit _ _ _ (keeps_query_ctx _ _ _ h))) h
  have k2 : KeepsLogin s s2 := keeps_ite_sock _ _ _ _ (keeps_connection_dec _ _ k1) k1
  have k3 : KeepsLogin s s3 := keeps_emit _ _ _ (keeps_query_ctx _ _ _ k2)
  have k4 : KeepsLogin s s4 := keeps_ite_sock _ _ _ _ (keeps_emit _ _ _ k3) k3
  clear_value s4 s3 s2 s1
  apply keeps_ite_sock
  · exact h
  · exact keeps_trans _ (emit s4 Event.poll_events_delete) _ (keeps_emit _ _ _ k4)
      (keeps_of_eq _ _ rfl rfl rfl)

theorem keeps_send_result (E : Env) (hE : EnvKeepsLogin E) (s : Sock) :
    KeepsLogin s (_send_result_to_client_and_reset_status E s) := by
  unfold _send_result_to_client_and_reset_status
  lift_lets
  intro r
  have kr : KeepsLogin s r.2 := keeps_query_result_send E s s (keeps_refl s)
  clear_value r
  apply keeps_ite_sock
  · exact keeps_poll _ _ _ (keeps_state _ _ _ (by decide)
      (keeps_trans _ _ _ kr (keeps_of_eq _ _ rfl rfl rfl)))
  apply keeps_ite_sock
  · exact keeps_poll _ _ _ kr
  · exact keeps_client_free E hE _ _ kr

theorem keeps_case_error (E : Env) (hE : EnvKeepsLogin E) (s y : Sock)
    (h : KeepsLogin s y) : KeepsLogin s (case_error E y) :=
  keeps_client_free E hE _ _ (keeps_query_result_send E _ _ h)

theorem keeps_case_error_reuse (E : Env) (s : Sock) : KeepsLogin s (case_error_reuse E s) :=
  keeps_poll _ _ _ (keeps_state _ _ _ (by decide)
    (keeps_trans _ _ _ (keeps_query_result_send E s s (keeps_refl s))
      (keeps_of_eq _ _ rfl rfl rfl)))

/-- A nested call of `run_machine` on a connection in `STATE_ERROR`,
`STATE_ERROR_REUSE`, `STATE_READ_QUERY_RESULT` or `STATE_READ_QUERY` keeps the login
status. -/
theorem keeps_run_terminal (E : Env) (hE : EnvKeepsLogin E) (fuel : Nat) (s y a : Sock)
    (shutdown : Bool) (h : KeepsLogin s y)
    (hst : y.state = State.STATE_ERROR ∨ y.state = State.STATE_ERROR_REUSE
      ∨ y.state = State.STATE_READ_QUERY_RESULT ∨ y.state = State.STATE_READ_QUERY)
    (hrun : run_machine E fuel y shutdown = some a) : KeepsLogin s a := by
  cases fuel with
  | zero => simp [run_machine] at hrun
  | succ n =>
    rcases hst with h1 | h1 | h1 | h1
    · simp only [run_machine, h1, Option.some.injEq] at hrun
      rw [← hrun]
      exact keeps_case_error E hE _ _ h
    · simp only [run_machine, h1, Option.some.injEq] at hrun
      rw [← hrun]
      exact keeps_trans _ _ _ h (keeps_case_error_reuse E y)
    · simp only [run_machine, h1, Option.some.injEq] at hrun
      rw [← hrun]
      exact keeps_trans _ _ _ h (keeps_send_result E hE y)
    · simp only [run_machine, h1, Option.some.injEq] at hrun
      rw [← hrun]
      exact h

theorem keeps_user (s a : Sock) (h : KeepsLogin s a) (hu : s.user_info ≠ none) :
    a.user_info ≠ none := fun hn => hu (h.1 hn)

theorem login_inv_of_keeps (s a : Sock) (h : KeepsLogin s a) (hs : LoginInv s) : LoginInv a := by
  intro hn
  obtain ⟨h1, h2⟩ := hs (h.1 hn)
  exact ⟨by rw [h.2.1]; exact h1, fun hst => h2 (h.2.2 hst)⟩

theorem keeps_connected_client (E : Env) (hE : EnvKeepsLogin E) (fuel : Nat)
    (c a : Sock) (shutdown : Bool)
    (hrun : case_connected_client E (fun x => run_machine E fuel x shutdown) c shutdown
      = some a) : KeepsLogin c a := by
  unfold case_connected_client at hrun
  lift_lets at hrun
  extract_lets ret c1 at hrun
  have k1 : KeepsLogin c c1 := keeps_emit _ _ _ (keeps_of_eq _ _ rfl rfl rfl)
  clear_value c1 ret
  split_ifs at hrun
  · exact keeps_run_terminal E hE fuel c _ a shutdown
      (keeps_state _ _ _ (by decide) (keeps_refl c)) (Or.inl rfl) hrun
  · rw [← Option.some.inj hrun]
    exact keeps_poll _ _ _ (keeps_state _ _ _ (by decide) k1)
  · rw [← Option.some.inj hrun]
    exact keeps_poll _ _ _ k1
  · exact keeps_run_terminal E hE fuel c _ a shutdown
      (keeps_state _ _ _ (by decide) k1) (Or.inl rfl) hrun

theorem keeps_send_auth_result (E : Env) (hE : EnvKeepsLogin E) (fuel : Nat)
    (c a : Sock) (shutdown : Bool)
    (hrun : case_send_auth_result E (fun x => run_machine E fuel x shutdown) c shutdown
      = some a) : KeepsLogin c a := by
  unfold case_send_auth_result at hrun
  lift_lets at hrun
  extract_lets r p c3 at hrun
  have kr : KeepsLogin c r.2 :=
    keeps_trans _ _ _ (keeps_emit _ _ _ (keeps_refl c)) (keeps_query_read E _)
  have kp : KeepsLogin c p.2 :=
    keeps_trans _ _ _ (keeps_emit _ _ _ kr) (keeps_query_process E hE _)
  have k3 : KeepsLogin c c3 := keeps_err_packet E _ _ _ _ kp
  clear_value c3 p r
  split_ifs at hrun with h1 h2 h3 h4 h5 h6 h7 h8 h9 h10
  · exact keeps_run_terminal E hE fuel c _ a shutdown
      (keeps_state _ _ _ (by decide) (keeps_refl c)) (Or.inl rfl) hrun
  all_goals first
    | (rw [← Option.some.inj hrun]
       first
        | exact keeps_poll _ _ _ kp
        | exact keeps_poll _ _ _ kr)
    | exact keeps_run_terminal E hE fuel c _ a shutdown
        (keeps_state _ _ _ (by decide) k3) (Or.inl rfl) hrun
    | exact keeps_run_terminal E hE fuel c _ a shutdown
        (keeps_state _ _ _ (by decide) k3) (Or.inr (Or.inl rfl)) hrun
    | exact keeps_run_terminal E hE fuel c _ a shutdown kp
        (Or.inr (Or.inr (Or.inl (by assumption)))) hrun
    | exact keeps_run_terminal E hE fuel c _ a shutdown
        (keeps_state _ _ _ (by decide) (keeps_err_packet E _ _ _ _ kp)) (Or.inl rfl) hrun
    | exact keeps_run_terminal E hE fuel c _ a shutdown
        (keeps_state _ _ _ (by decide) kr) (Or.inl rfl) hrun
    | exact keeps_run_terminal E hE fuel c _ a shutdown
        (keeps_state _ _ _ (by decide) kr) (Or.inr (Or.inr (Or.inl rfl))) hrun
    | exact keeps_run_terminal E hE fuel c _ a shutdown
        (keeps_state _ _ _ (by decide) (keeps_err_packet E _ _ _ _ kr)) (Or.inl rfl) hrun

/-- The case `STATE_READ_AUTH` on a connection that holds a user record returns a
connection that holds one. -/
theorem read_auth_user (E : Env) (hE : EnvKeepsLogin E) (fuel : Nat)
    (x a : Sock) (shutdown : Bool) (hu : x.user_info ≠ none)
    (hrun : case_read_auth E (fun y => run_machine E fuel y shutdown) x shutdown = some a) :
    a.user_info ≠ none := by
  unfold case_read_auth at hrun
  lift_lets at hrun
  extract_lets ret c1 r at hrun
  have k1 : KeepsLogin x c1 := keeps_emit _ _ _ (keeps_of_eq _ _ rfl rfl rfl)
  have hr : ∀ b, r = some b → b.user_info ≠ none := by
    intro b hb
    have hb2 : (if ret = Ret.RET_SUCCESS then
        some (poll_events_mod (set_state c1 State.STATE_SEND_AUTH_RESULT) EpollEv.EPOLLIN)
      else if ret = Ret.RET_WAIT_FOR_EVENT then some (poll_events_mod c1 EpollEv.EPOLLOUT)
      else run_machine E fuel (set_state c1 State.STATE_ERROR) shutdown) = some b := hb
    clear_value c1
    split_ifs at hb2
    · rw [← Option.some.inj hb2]
      exact keeps_user _ _ (keeps_poll _ _ _ (keeps_state _ _ _ (by decide) k1)) hu
    · rw [← Option.some.inj hb2]
      exact keeps_user _ _ (keeps_poll _ _ _ k1) hu
    · exact keeps_user _ _ (keeps_run_terminal E hE fuel x _ b shutdown
        (keeps_state _ _ _ (by decide) k1) (Or.inl rfl) hb2) hu
  clear_value r
  split_ifs at hrun
  · exact keeps_user _ _ (keeps_run_terminal E hE fuel x _ a shutdown
      (keeps_state _ _ _ (by decide) (keeps_refl x)) (Or.inl rfl) hrun) hu
  · cases hr2 : r with
    | none => rw [hr2] at hrun; simp at hrun
    | some b =>
      rw [hr2] at hrun
      rw [← Option.some.inj hrun]
      exact hr b hr2

theorem keeps_connection_inc (s y : Sock) (h : KeepsLogin s y) :
    KeepsLogin s (connection_inc y).2 := by
  refine keeps_trans _ _ _ h ?_
  unfold connection_inc
  split
  · exact keeps_emit _ _ _ (keeps_refl y)
  · exact ⟨fun hn => by simp [emit] at hn, rfl, fun h => h⟩

/-- The case `STATE_SEND_HANDSHAKE` keeps the invariant. -/
theorem send_handshake_inv (E : Env) (hE : EnvKeepsLogin E) (fuel : Nat)
    (c a : Sock) (shutdown : Bool) (hc : LoginInv c)
    (hrun : case_send_handshake E (fun y => run_machine E fuel y shutdown) c shutdown = some a) :
    LoginInv a := by
  unfold case_send_handshake at hrun
  lift_lets at hrun
  extract_lets r i at hrun
  have kr : KeepsLogin c r.2 := keeps_auth_read E c
  have hr : r.1 = Ret.RET_SUCCESS → r.2.user_info ≠ none := by
    intro h
    obtain ⟨u, hu, _⟩ := (auth_read_user_known E c).1 h
    show (_auth_read E c).2.user_info ≠ none
    rw [hu]
    simp
  have ki : KeepsLogin r.2 i.2 := keeps_connection_inc _ _ (keeps_refl _)
  clear_value i r
  split_ifs at hrun with h1 h2 h3 h4 h5
  · exact login_inv_of_keeps _ _ (keeps_run_terminal E hE fuel c _ a shutdown
      (keeps_state _ _ _ (by decide) (keeps_refl c)) (Or.inl rfl) hrun) hc
  · exact login_inv_of_keeps _ _ (keeps_run_terminal E hE fuel c _ a shutdown
      (keeps_state _ _ _ (by decide) (keeps_auth_failed_packet E _ _ _
        (keeps_trans _ _ _ kr ki))) (Or.inl rfl) hrun) hc
  · have hu : (set_state { i.2 with is_counted := true } State.STATE_READ_AUTH).user_info
        ≠ none := keeps_user r.2 i.2 ki (hr h2)
    have ha := read_auth_user E hE fuel _ a shutdown hu hrun
    exact fun hn => absurd hn ha
  · exact login_inv_of_keeps _ _ (keeps_run_terminal E hE fuel c _ a shutdown
      (keeps_state _ _ _ (by decide) (keeps_auth_failed_packet E _ _ _ kr)) (Or.inl rfl) hrun) hc
  · rw [← Option.some.inj hrun]
    exact login_inv_of_keeps _ _ (keeps_poll _ _ _ kr) hc
  · exact login_inv_of_keeps _ _ (keeps_run_terminal E hE fuel c _ a shutdown
      (keeps_state _ _ _ (by decide) kr) (Or.inl rfl) hrun) hc

/-- Every call of `run_machine` that returns keeps the invariant. -/
theorem run_machine_inv (E : Env) (hE : EnvKeepsLogin E) (fuel : Nat)
    (c a : Sock) (shutdown : Bool) (hc : LoginInv c)
    (hrun : run_machine E fuel c shutdown = some a) : LoginInv a := by
  cases fuel with
  | zero => simp [run_machine] at hrun
  | succ n =>
    cases hst : c.state with
    | STATE_CONNECTED_CLIENT =>
      simp only [run_machine, hst] at hrun
      exact login_inv_of_keeps _ _ (keeps_connected_client E hE n c a shutdown hrun) hc
    | STATE_SEND_HANDSHAKE =>
      simp only [run_machine, hst] at hrun
      exact send_handshake_inv E hE n c a shutdown hc hrun
    | STATE_READ_AUTH =>
      simp only [run_machine, hst] at hrun
      have hu : c.user_info ≠ none := fun hn => (hc hn).2 hst
      have ha := read_auth_user E hE n c a shutdown hu hrun
      exact fun hn => absurd hn ha
    | STATE_SEND_AUTH_RESULT =>
      simp only [run_machine, hst] at hrun
      exact login_inv_of_keeps _ _ (keeps_send_auth_result E hE n c a shutdown hrun) hc
    | STATE_READ_QUERY_RESULT =>
      exact login_inv_of_keeps _ _ (keeps_run_terminal E hE (n + 1) c c a shutdown
        (keeps_refl c) (Or.inr (Or.inr (Or.inl hst))) hrun) hc
    | STATE_ERROR_REUSE =>
      exact login_inv_of_keeps _ _ (keeps_run_terminal E hE (n + 1) c c a shutdown
        (keeps_refl c) (Or.inr (Or.inl hst)) hrun) hc
    | STATE_ERROR =>
      exact login_inv_of_keeps _ _ (keeps_run_terminal E hE (n + 1) c c a shutdown
        (keeps_refl c) (Or.inl hst) hrun) hc
    | STATE_READ_QUERY =>
      exact login_inv_of_keeps _ _ (keeps_run_terminal E hE (n + 1) c c a shutdown
        (keeps_refl c) (Or.inr (Or.inr (Or.inr hst))) hrun) hc

theorem reachable_inv (E : Env) (hE : EnvKeepsLogin E) (c : Sock)
    (h : Reachable E c) : LoginInv c := by
  induction h with
  | fresh c hf => exact fun _ => ⟨hf.2.1, fun hst => by rw [hf.1] at hst; cases hst⟩
  | step c c2 fuel shutdown _ hrun ih => exact run_machine_inv E hE fuel c c2 shutdown ih hrun

/-- The responders of the sources keep the login status. -/
theorem keeps_responders (E : Env) (C : SchemaFactory) (name : Str) (s : Sock) :
    KeepsLogin s (responders E C name s).2 := by
  rcases answer_responders E C name s with h | h | ⟨fields, rows, errmsg, h⟩
  · rw [h]; exact keeps_refl s
  · rw [h]; exact keeps_set_state s _ (by decide)
  · rw [h]; exact keeps_finish_resultset E s s _ _ _ (keeps_refl s)

/-- With the responders of the sources in place, the planner stages and the commit
hook are all that is left to assume. -/
theorem env_keeps_login (E : Env) (C : SchemaFactory) (hE : PlannerKeepsLogin E) :
    EnvKeepsLogin (with_responders E C) :=
  ⟨hE.1, hE.2.1, hE.2.2.1, hE.2.2.2.1, hE.2.2.2.2, keeps_responders E C⟩

/-- C28, as stated, fails when a planner stage does not keep the user record. In
`forgetful_env` the responders are those of the sources and `execute` drops the
user record; the connection is fresh, the handshake is sent, `bob` logs in and
sends `insert into t values (1)`; the write of the reply would block, so
`run_machine` returns in `STATE_READ_QUERY_RESULT`, with `is_authed` true and
`user_info` null. -/
theorem C28_planner_may_drop_user :
    Fresh sample_sock
    ∧ run_machine forgetful_env 1 sample_sock false = some (handshake_sent sample_sock)
    ∧ run_machine forgetful_env 1 (handshake_sent sample_sock) false
        = some (after_login forgetful_env)
    ∧ run_machine forgetful_env 3 (after_login forgetful_env) false
        = some (after_command forgetful_env)
    ∧ Reachable forgetful_env (after_command forgetful_env)
    ∧ (after_command forgetful_env).state = State.STATE_READ_QUERY_RESULT
    ∧ (after_command forgetful_env).is_authed = true
    ∧ (after_command forgetful_env).user_info = none :=
  (fun h1 h2 h3 => ⟨⟨rfl, rfl, rfl, rfl⟩, h1, h2, h3,
    Reachable.step _ _ 3 false
      (Reachable.step _ _ 1 false
        (Reachable.step _ _ 1 false (Reachable.fresh _ ⟨rfl, rfl, rfl, rfl⟩) h1) h2) h3,
    by decide, by decide, by decide⟩)
    (by decide) (by decide) (by decide)

/-- C28, amended: when the planner stages and the commit hook keep the login
status (they do not drop the user record, do not change `is_authed` and do not
assign `STATE_READ_AUTH`), then with the responders of the sources, over any
catalog, every connection reached from a fresh one (`STATE_CONNECTED_CLIENT`,
`is_authed` and `is_counted` false, no user record) by calls of `run_machine`,
whatever `shutdown` is at each call, satisfies: `is_authed` true implies
`user_info` is not null. -/
theorem C28_authed_has_user (E : Env) (C : SchemaFactory) (hE : PlannerKeepsLogin E)
    (c : Sock) (h : Reachable (with_responders E C) c) (hauth : c.is_authed = true) :
    c.user_info ≠ none := by
  intro hn
  have h1 := (reachable_inv (with_responders E C) (env_keeps_login E C hE) c h hn).1
  rw [hauth] at h1
  cases h1

theorem sample_env_keeps_login (chunks : List Bytes) (users : List UserInfo) :
    PlannerKeepsLogin (sample_env chunks users) :=
  ⟨fun s => keeps_refl s, fun s => keeps_refl s, fun s => keeps_refl s, fun s => keeps_refl s,
    fun s => keeps_refl s⟩

theorem C28_authed_has_user_witness :
    PlannerKeepsLogin (sample_env session_chunks [sample_user 0])
    ∧ Reachable session_env (after_command session_env)
    ∧ (after_command session_env).is_authed = true
    ∧ (after_command session_env).user_info ≠ none :=
  (fun hreach => ⟨sample_env_keeps_login _ _, hreach, by decide,
    C28_authed_has_user (sample_env session_chunks [sample_user 0]) sample_catalog
      (sample_env_keeps_login _ _) (after_command session_env) hreach (by decide)⟩)
    (Reachable.step (after_login session_env) (after_command session_env) 3 false
      (Reachable.step (handshake_sent sample_sock) (after_login session_env) 1 false
        (Reachable.step sample_sock (handshake_sent sample_sock) 1 false
          (Reachable.fresh _ ⟨rfl, rfl, rfl, rfl⟩) (by decide)) (by decide)) (by decide))

/-! ## Termination of `_parse_comment` -/

theorem no_close_tail (c : Char) (rest : Str) (h : no_close (c :: rest) = true) :
    no_close rest = true := by
  simp only [no_close, Bool.and_eq_true] at h
  exact h.2

theorem find_close_none : ∀ (t : Str), no_close t = true → find_close t = none := by
  intro t
  induction t with
  | nil => intro _; rfl
  | cons c rest ih =>
    intro h
    have h2 := no_close_tail c rest h
    simp only [no_close, Bool.and_eq_true, Bool.not_eq_true', Bool.and_eq_false_imp,
      beq_iff_eq] at h
    have hc : ¬ (c = '*' ∧ rest.head? = some '/') := by
      rintro ⟨h3, h4⟩
      have := h.1 h3
      rw [h4] at this
      simp at this
    rw [find_close, if_neg hc, ih h2]
    rfl

theorem regex_match_none : ∀ (t : Str), no_close t = true → regex_match t = none := by
  intro t
  induction t with
  | nil => intro _; rfl
  | cons c rest ih =>
    intro h
    have h2 := no_close_tail c rest h
    have h3 : find_close rest.tail = none := by
      cases rest with
      | nil => rfl
      | cons d r => exact find_close_none r (no_close_tail d r h2)
    rw [regex_match, ih h2]
    split_ifs <;> simp [h3]

/-- A text that opens a comment and holds no `*/` after the opening is not matched
by the regular expression. -/
theorem regex_match_open (b : Str) (h : no_close b = true) :
    regex_match ('/' :: '*' :: b) = none := by
  have h1 : regex_match ('*' :: b) = none := by
    rw [regex_match, regex_match_none b h]
    simp
  rw [regex_match, h1]
  simp [find_close_none b h]

/-- One iteration of the loop on a text that opens a comment without closing it:
the text is kept, it is appended to the comments, and the loop is left. -/
theorem parse_comment_loop_open (fuel : Nat) (ctx : QueryContext) (b : Str)
    (hs : ctx.sql = '/' :: '*' :: b) (hb : no_close b = true) :
    _parse_comment_loop (fuel + 1) ctx
      = { ctx with comments := ctx.comments ++ [ctx.sql] } := by
  have hm : regex_match ctx.sql = none := by rw [hs]; exact regex_match_open b hb
  have h1 : istarts_with ctx.sql "/*".toList = true := by
    rw [hs]
    show istarts_with ('/' :: '*' :: b) ['/', '*'] = true
    simp [istarts_with]
  have h2 : regex_replace_1 ctx.sql = ctx.sql := by simp [regex_replace_1, hm]
  have h3 : regex_replace_2 ctx.sql = ctx.sql := by simp [regex_replace_2, hm]
  have h4 : ctx.sql.length ≠ 0 := by rw [hs]; simp
  rw [_parse_comment_loop]
  simp only [h1, if_true, h2, h4, ne_eq, not_false_eq_true, h3]

/-- C40: `_parse_comment` terminates on every text. The loop needs no more
iterations than the length of the text plus one (more iterations allowed change
nothing); every iteration either leaves the loop (the text does not open a
comment, or the regular expression finds no block and the text keeps its length)
or goes on with a strictly shorter text; and when the stripped text starts with
`/*` and holds no `*/` after it, the loop is left after one iteration with the
text unchanged and the whole text appended to `comments`. -/
theorem C40_parse_comment_terminates :
    (∀ (ctx : QueryContext) (fuel : Nat), ctx.sql.length < fuel →
      _parse_comment_loop fuel ctx = _parse_comment_loop (ctx.sql.length + 1) ctx)
    ∧ (∀ (ctx : QueryContext) (fuel : Nat),
      (istarts_with ctx.sql "/*".toList = false ∧ _parse_comment_loop (fuel + 1) ctx = ctx)
      ∨ (regex_match ctx.sql = none
        ∧ _parse_comment_loop (fuel + 1) ctx
          = { ctx with comments := ctx.comments ++ [ctx.sql] })
      ∨ (∃ next : QueryContext, next.sql.length < ctx.sql.length
        ∧ _parse_comment_loop (fuel + 1) ctx = _parse_comment_loop fuel next))
    ∧ (∀ (ctx : QueryContext) (b : Str), trim_sql ctx.sql = '/' :: '*' :: b →
      no_close b = true →
      _parse_comment ctx
        = { ctx with sql := trim_sql ctx.sql,
                     comments := ctx.comments ++ [trim_sql ctx.sql] }) := by
  refine ⟨?_, ?_, ?_⟩
  · intro ctx fuel h
    exact parse_comment_loop_fuel ctx.sql.length ctx fuel (ctx.sql.length + 1) (le_refl _) h
      (Nat.lt_succ_self _)
  · intro ctx fuel
    by_cases hs : istarts_with ctx.sql "/*".toList = true
    · have h4 : ctx.sql.length ≠ 0 := by
        intro h0
        rw [List.length_eq_zero] at h0
        rw [h0] at hs
        exact Bool.noConfusion hs
      cases hm : regex_match ctx.sql with
      | none =>
        refine Or.inr (Or.inl ⟨rfl, ?_⟩)
        have h2 : regex_replace_1 ctx.sql = ctx.sql := by simp [regex_replace_1, hm]
        have h3 : regex_replace_2 ctx.sql = ctx.sql := by simp [regex_replace_2, hm]
        rw [_parse_comment_loop]
        simp only [hs, if_true, h2, h4, ne_eq, not_false_eq_true, h3]
      | some r =>
        have hlt := (regex_replace_2_length ctx.sql).2 (by rw [hm]; rfl)
        refine Or.inr (Or.inr ⟨{ (if (regex_replace_1 ctx.sql).length ≠ 0 then
            { ctx with comments := ctx.comments ++ [regex_replace_1 ctx.sql] } else ctx) with
          sql := trim_sql (regex_replace_2 ctx.sql) }, ?_, ?_⟩)
        · exact lt_of_le_of_lt (trim_sql_length_le _) hlt
        · rw [_parse_comment_loop]
          have hne : ¬ (regex_replace_2 ctx.sql).length = ctx.sql.length := by omega
          by_cases h1 : (regex_replace_1 ctx.sql).length ≠ 0
          · simp only [hs, if_true, h1, ne_eq, not_false_eq_true, hne, if_false]
          · simp only [hs, if_true, h1, ne_eq, not_false_eq_true, hne, if_false]
    · refine Or.inl ⟨by simpa using hs, ?_⟩
      rw [_parse_comment_loop]
      simp only [hs, Bool.false_eq_true, if_false]
  · intro ctx b hs hb
    unfold _parse_comment
    exact parse_comment_loop_open _ { ctx with sql := trim_sql ctx.sql } b hs hb

theorem C40_parse_comment_terminates_witness :
    _parse_comment { new_query_context [] with sql := "  /* hint ; ".toList }
      = { new_query_context [] with sql := "/* hint".toList,
                                    comments := ["/* hint".toList] } :=
  (C40_parse_comment_terminates.2.2 { new_query_context [] with sql := "  /* hint ; ".toList }
    " hint".toList (by decide) (by decide)).trans (by decide)

/-- C32: from `STATE_ERROR_REUSE`, whatever `shutdown` is and whatever the write
returns, `run_machine` returns after exactly one write attempt, the call of
`reset_when_err`, the assignment of `STATE_SEND_AUTH_RESULT` and the arming of
EPOLLIN, in this order and nothing else: the connection is in
`STATE_SEND_AUTH_RESULT`, both buffers are empty, the session fields and `in_pool`
are as before, and no teardown event is logged. -/
theorem C32_error_reuse_recovers (E : Env) (client : Sock) (fuel : Nat) (shutdown : Bool)
    (hst : client.state = State.STATE_ERROR_REUSE) :
    ∃ c, run_machine E (fuel + 1) client shutdown = some c
      ∧ c.state = State.STATE_SEND_AUTH_RESULT
      ∧ c.log = client.log ++ [Event.real_write (E.real_write client.clock),
          Event.reset_when_err, Event.set_state State.STATE_SEND_AUTH_RESULT,
          Event.poll_events_mod EpollEv.EPOLLIN]
      ∧ c.send_buf = [] ∧ c.self_buf = []
      ∧ SameSession client c
      ∧ Event.socket_pool_free ∉ events_since client c
      ∧ Event.connection_dec ∉ events_since client c := by
  obtain ⟨f1, f2, f3, f4, -, -, f7⟩ := case_error_reuse_fields E client
  refine ⟨case_error_reuse E client, ?_, f1, f7, f3, f4, f2, ?_, ?_⟩
  · simp [run_machine, hst]
  · rw [events_since, f7]
    simp
  · rw [events_since, f7]
    simp

theorem C32_error_reuse_recovers_witness :
    ∃ c, run_machine { sample_env [] [] with real_write := fun _ => Ret.RET_ERROR } 1
        { sample_logged_in with state := State.STATE_ERROR_REUSE, send_buf := [1, 2, 3] } true
        = some c
      ∧ c.state = State.STATE_SEND_AUTH_RESULT ∧ c.in_pool = false ∧ c.send_buf = [] := by
  obtain ⟨c, h1, h2, -, h4, -, h6, -⟩ := C32_error_reuse_recovers
    { sample_env [] [] with real_write := fun _ => Ret.RET_ERROR }
    { sample_logged_in with state := State.STATE_ERROR_REUSE, send_buf := [1, 2, 3] } 0 true rfl
  exact ⟨c, h1, h2, h6.2.2.2.2.2.1.trans rfl, h4⟩

/-- C31: when `_auth_read` has read the login packet, decoded the charset byte
and the user name, and `get_user_info` returns a record `u` whose name is not
empty (the test by which the code takes the user for found), the record the
connection holds afterwards, whatever the password check returns, is `u` with
`max_connection` replaced by `FLAGS_max_connections_per_user` when it was 0 and
`query_quota` replaced by `FLAGS_query_quota_per_user` when it was 0, every other
member and every non-zero value being left as it was; with the flags at their
defaults the substituted values are 4000 and 3000. -/
theorem C31_user_defaults (E : Env) (s : Sock) (c off1 off2 : Nat) (name : Str)
    (u : UserInfo)
    (hread : (_read_packet E s).1 = Ret.RET_SUCCESS)
    (hchar : E.protocol_get_char (login_packet E s) 12 = some (c, off1))
    (hname : E.protocol_get_string (login_packet E s) ((_read_packet E s).2.packet_len + 4)
      ((off1 + 23) % U32) = some (name, off2))
    (huser : E.get_user_info name = some u) (hne : u.username ≠ []) :
    ∃ v, (_auth_read E s).2.user_info = some v
      ∧ v.max_connection
        = (if u.max_connection = 0 then E.FLAGS_max_connections_per_user else u.max_connection)
      ∧ v.query_quota
        = (if u.query_quota = 0 then E.FLAGS_query_quota_per_user else u.query_quota)
      ∧ v.username = u.username ∧ v.scramble_password = u.scramble_password
      ∧ v.namespace_ = u.namespace_ ∧ v.cur_connection = u.cur_connection
      ∧ (E.FLAGS_max_connections_per_user = DEFINE_max_connections_per_user →
          u.max_connection = 0 → v.max_connection = 4000)
      ∧ (E.FLAGS_query_quota_per_user = DEFINE_query_quota_per_user →
          u.query_quota = 0 → v.query_quota = 3000) := by
  have h1 : (_auth_read E s).2.user_info = some (with_defaults E u) := by
    rw [auth_read_eq_password E s c off1 off2 name u hread hchar hname huser hne]
    exact (auth_read_password_fields E _ _ _ _).2.2.1
  have hall : (with_defaults E u).max_connection
        = (if u.max_connection = 0 then E.FLAGS_max_connections_per_user
          else u.max_connection)
      ∧ (with_defaults E u).query_quota
        = (if u.query_quota = 0 then E.FLAGS_query_quota_per_user else u.query_quota)
      ∧ (with_defaults E u).username = u.username
      ∧ (with_defaults E u).scramble_password = u.scramble_password
      ∧ (with_defaults E u).namespace_ = u.namespace_
      ∧ (with_defaults E u).cur_connection = u.cur_connection := by
    unfold with_defaults
    by_cases h : u.max_connection = 0 <;> by_cases h' : u.query_quota = 0 <;> simp [h, h']
  obtain ⟨h2, h3, h4, h5, h6, h7⟩ := hall
  refine ⟨with_defaults E u, h1, h2, h3, h4, h5, h6, h7, ?_, ?_⟩
  · intro hf h0
    rw [h2, if_pos h0, hf]
    rfl
  · intro hf h0
    rw [h3, if_pos h0, hf]
    rfl

theorem C31_user_defaults_witness :
    ∃ v, (_auth_read (sample_env (sample_login_chunks "bob".toList bad_auth) [sample_user 0])
        sample_login).2.user_info = some v
      ∧ v.max_connection = 1 ∧ v.query_quota = 3000 := by
  obtain ⟨v, h1, h2, h3, -⟩ := C31_user_defaults
    (sample_env (sample_login_chunks "bob".toList bad_auth) [sample_user 0]) sample_login
    33 13 40 "bob".toList (sample_user 0) (by decide) (by decide) (by decide) (by decide)
    (by decide)
  exact ⟨v, h1, h2.trans (by decide), h3.trans (by decide)⟩

/-! ## `USE` inside `COM_QUERY` -/

theorem starts_with_istarts_with : ∀ (s k : Str), starts_with s k = true →
    istarts_with s k = true := by
  intro s
  induction s with
  | nil => intro k h; cases k <;> simp_all [starts_with, istarts_with]
  | cons c cs ih =>
    intro k h
    cases k with
    | nil => simp [istarts_with]
    | cons t ts =>
      simp only [starts_with, Bool.and_eq_true, beq_iff_eq] at h
      simp only [istarts_with, Bool.and_eq_true, beq_iff_eq]
      exact ⟨by rw [h.1], ih ts h.2⟩

/-- A text that begins with one keyword is not equal, letter case apart, to a
text that does not begin with it. -/
theorem iequals_of_istarts_with (s k x : Str) (hk : istarts_with s k = true)
    (hx : starts_with (x.map to_lower) (k.map to_lower) = false) : iequals s x = false := by
  rw [iequals_eq_map]
  rw [istarts_with_eq_map] at hk
  by_contra h
  have h2 : s.map to_lower = x.map to_lower := by simpa using h
  rw [h2, hx] at hk
  exact Bool.noConfusion hk

/-- The `COM_QUERY` branch of `_query_process` on a statement of class UseInQuery
that begins with USE is the USE responder. -/
theorem query_process_use (E : Env) (x : Sock)
    (hcmd : x.query_ctx.mysql_cmd = COM_QUERY)
    (hty : x.query_ctx.type = SqlType.SQL_USE_IN_QUERY_NUM)
    (huse : istarts_with x.query_ctx.sql SQL_USE = true) :
    _query_process E x = _handle_client_query_use_database E x := by
  have hl : ¬ x.query_ctx.sql.length = 0 := by
    intro h0
    rw [List.length_eq_zero] at h0
    rw [h0] at huse
    exact Bool.noConfusion huse
  have e : ∀ k, starts_with (k.map to_lower) (SQL_USE.map to_lower) = false →
      iequals x.query_ctx.sql k = false :=
    fun k hk => iequals_of_istarts_with _ _ k huse hk
  have d : ∀ k, (SQL_USE.map to_lower).take
        (min (SQL_USE.map to_lower).length (k.map to_lower).length)
      ≠ (k.map to_lower).take (min (SQL_USE.map to_lower).length (k.map to_lower).length) →
      istarts_with x.query_ctx.sql k = false :=
    fun k hk => istarts_with_disjoint _ _ k hk huse
  have hreg : starts_with x.query_ctx.sql SQL_SHOW_REGION = false := by
    by_contra h
    rw [Bool.not_eq_false] at h
    have h2 := starts_with_istarts_with _ _ h
    rw [d SQL_SHOW_REGION (by decide)] at h2
    exact Bool.noConfusion h2
  unfold _query_process
  rw [if_neg (by rw [hcmd]; decide), if_neg hl, if_neg (by rw [hcmd]; decide), if_pos hcmd]
  unfold _query_process_com_query
  simp only [hty, e SQL_VERSION_COMMENT (by decide), e SQL_SESSION_AUTO_INCREMENT (by decide),
    e SQL_SESSION_AUTO_AUTOCOMMIT (by decide), e SQL_SESSION_TX_ISOLATION (by decide),
    e SQL_SELECT_1 (by decide), e SQL_SELECT_DATABASE (by decide),
    e SQL_SHOW_DATABASES (by decide), e SQL_SHOW_TABLES (by decide),
    e SQL_SHOW_COLLATION (by decide), e SQL_SHOW_WARNINGS (by decide),
    d SQL_SHOW_CREATE_TABLE (by decide), d SQL_SHOW_FULL_COLUMNS (by decide),
    d SQL_SHOW_TABLE_STATUS (by decide), d SQL_SHOW_VARIABLES (by decide), hreg, huse,
    or_self, Bool.false_eq_true, if_false, false_and, and_self, if_true, reduceCtorEq]

theorem sql_type_of_text_use (t : Str) (h : istarts_with t SQL_USE = true) :
    sql_type_of_text t = SqlType.SQL_USE_IN_QUERY_NUM := by
  have d : ∀ k, (SQL_USE.map to_lower).take
        (min (SQL_USE.map to_lower).length (k.map to_lower).length)
      ≠ (k.map to_lower).take (min (SQL_USE.map to_lower).length (k.map to_lower).length) →
      istarts_with t k = false :=
    fun k hk => istarts_with_disjoint _ _ k hk h
  unfold sql_type_of_text
  simp only [d SQL_SELECT (by decide), d SQL_SHOW (by decide), d SQL_EXPLAIN (by decide),
    d SQL_KILL (by decide), h, Bool.false_eq_true, if_false, if_true]

/-- C37: for every `COM_QUERY` whose stripped text begins with USE, whatever the
case of the letters, the class is UseInQuery and `_query_process`, through the USE
responder, assigns to `current_db` and to `query_ctx.cur_db` the whole stripped
statement, keyword included (the responder only removes leading blanks, and the
stripped text has none), appends the OK packet, sets `STATE_READ_QUERY_RESULT`
and returns true. -/
theorem C37_use_keeps_keyword (E : Env) (c : Sock)
    (hcmd : c.query_ctx.mysql_cmd = COM_QUERY)
    (huse : istarts_with (stripped_text c.query_ctx.sql) SQL_USE = true) :
    (classified E c).query_ctx.type = SqlType.SQL_USE_IN_QUERY_NUM
    ∧ (classified E c).query_ctx.sql = stripped_text c.query_ctx.sql
    ∧ ∀ x : Sock, x.query_ctx = (classified E c).query_ctx →
      (_query_process E x).1 = true
      ∧ (_query_process E x).2.current_db = stripped_text c.query_ctx.sql
      ∧ (_query_process E x).2.query_ctx.cur_db = stripped_text c.query_ctx.sql
      ∧ (_query_process E x).2.state = State.STATE_READ_QUERY_RESULT
      ∧ (_query_process E x).2.send_buf = x.send_buf ++ E.make_simple_ok_packet x.packet_id
      ∧ (_query_process E x).2.log
        = x.log ++ [Event.make_simple_ok_packet,
            Event.set_state State.STATE_READ_QUERY_RESULT] := by
  obtain ⟨c1, c2, c3, -, -⟩ := classified_ctx E c
  have hne : (_parse_comment c.query_ctx).sql ≠ [] := by
    rw [parse_comment_sql_eq]
    intro h0
    rw [h0] at huse
    exact Bool.noConfusion huse
  have hty : (classified E c).query_ctx.type = SqlType.SQL_USE_IN_QUERY_NUM := by
    rw [c3, get_query_type_text c.query_ctx (Or.inl hcmd), if_neg hne, parse_comment_sql_eq]
    exact sql_type_of_text_use _ huse
  refine ⟨hty, c1, ?_⟩
  intro x hx
  have hp := query_process_use E x (by rw [hx, c2]; exact hcmd) (by rw [hx]; exact hty)
    (by rw [hx, c1]; exact huse)
  have hdb : trim_left_if (fun ch => ch == ' ') x.query_ctx.sql
      = stripped_text c.query_ctx.sql := by
    rw [hx, c1]
    exact stripped_text_no_space _
  rw [hp]
  refine ⟨rfl, hdb, hdb, rfl, rfl, ?_⟩
  simp [_handle_client_query_use_database, set_state, make_simple_ok_packet]

theorem C37_use_keeps_keyword_witness :
    (_query_process (sample_env [] []) (classified (sample_env [] []) (sample_query "use d"))).1
      = true
    ∧ (_query_process (sample_env [] [])
        (classified (sample_env [] []) (sample_query "use d"))).2.current_db = "use d".toList :=
  (fun h => ⟨h.1, h.2.1.trans (by decide)⟩)
    ((C37_use_keeps_keyword (sample_env [] []) (sample_query "use d") rfl (by decide)).2.2
      (classified (sample_env [] []) (sample_query "use d")) rfl)

/-! ## The depth of the nested calls of `run_machine` -/

theorem nested_self (x : Sock)
    (hx : x.state = State.STATE_ERROR ∨ x.state = State.STATE_ERROR_REUSE
      ∨ x.state = State.STATE_READ_QUERY_RESULT) :
    OneNestedCall (fun self => self x) :=
  Or.inr ⟨x, id, hx, fun self => by simp⟩

theorem nested_some (a : Sock) : OneNestedCall (fun _ => some a) :=
  Or.inl ⟨a, fun _ => rfl⟩

theorem nested_connected_client (E : Env) (c : Sock) (shutdown : Bool) :
    OneNestedCall (fun self => case_connected_client E self c shutdown) := by
  unfold case_connected_client
  cases shutdown
  · simp only [Bool.false_eq_true, if_false]
    by_cases h2 : E.handshake_send c.clock = Ret.RET_SUCCESS
    · simp only [h2, if_true]
      exact nested_some _
    by_cases h3 : E.handshake_send c.clock = Ret.RET_WAIT_FOR_EVENT
    · simp only [h3, if_true, if_false, reduceCtorEq]
      exact nested_some _
    · simp only [h2, h3, if_false]
      exact nested_self _ (Or.inl rfl)
  · simp only [if_true]
    exact nested_self _ (Or.inl rfl)

theorem nested_read_auth (E : Env) (c : Sock) (shutdown : Bool) :
    OneNestedCall (fun self => case_read_auth E self c shutdown) := by
  unfold case_read_auth
  cases shutdown
  · simp only [Bool.false_eq_true, if_false]
    by_cases h2 : E.auth_result_send c.clock = Ret.RET_SUCCESS
    · simp only [h2, if_true, Option.map_some']
      exact nested_some _
    by_cases h3 : E.auth_result_send c.clock = Ret.RET_WAIT_FOR_EVENT
    · simp only [h3, if_true, if_false, reduceCtorEq, Option.map_some']
      exact nested_some _
    · simp only [h2, h3, if_false]
      exact Or.inr ⟨_, fun a => { a with is_authed := true }, Or.inl rfl, fun self => rfl⟩
  · simp only [if_true]
    exact nested_self _ (Or.inl rfl)

theorem nested_send_handshake (E : Env) (c : Sock) (shutdown : Bool) :
    OneNestedCall (fun self => case_send_handshake E self c shutdown) := by
  unfold case_send_handshake
  cases shutdown
  · simp only [Bool.false_eq_true, if_false]
    by_cases h2 : (_auth_read E c).1 = Ret.RET_SUCCESS
    · simp only [h2, if_true]
      by_cases h3 : (connection_inc (_auth_read E c).2).1 = true
      · simp only [h3, Bool.not_true, Bool.false_eq_true, if_false]
        exact nested_read_auth E _ false
      · have h3' : (connection_inc (_auth_read E c).2).1 = false := by simpa using h3
        simp only [h3', Bool.not_false, if_true]
        exact nested_self _ (Or.inl rfl)
    by_cases h4 : (_auth_read E c).1 = Ret.RET_AUTH_FAILED
    · simp only [h4, if_true, if_false, reduceCtorEq]
      exact nested_self _ (Or.inl rfl)
    by_cases h5 : (_auth_read E c).1 = Ret.RET_WAIT_FOR_EVENT
    · simp only [h5, if_true, if_false, reduceCtorEq]
      exact nested_some _
    · simp only [h2, h4, h5, if_false]
      exact nested_self _ (Or.inl rfl)
  · simp only [if_true]
    exact nested_self _ (Or.inl rfl)

theorem nested_send_auth_result (E : Env) (c : Sock) (shutdown : Bool) :
    OneNestedCall (fun self => case_send_auth_result E self c shutdown) := by
  unfold case_send_auth_result
  cases shutdown
  · simp only [Bool.false_eq_true, if_false]
    generalize _query_read E (emit c Event.query_read) = r
    by_cases h2 : r.1 = Ret.RET_SUCCESS
    · simp only [h2, if_true]
      generalize _query_process E (emit r.2 Event.query_process) = p
      by_cases h3 : (!p.1 ∨ p.2.state = State.STATE_ERROR ∨ p.2.state = State.STATE_ERROR_REUSE)
      · simp only [h3, if_true]
        refine nested_self _ ?_
        show (if _ then State.STATE_ERROR else State.STATE_ERROR_REUSE) = State.STATE_ERROR
          ∨ (if _ then State.STATE_ERROR else State.STATE_ERROR_REUSE) = State.STATE_ERROR_REUSE
          ∨ _
        split_ifs
        · exact Or.inl rfl
        · exact Or.inr (Or.inl rfl)
      simp only [h3, if_false]
      by_cases h4 : p.2.state = State.STATE_READ_QUERY
      · simp only [h4, if_true]
        exact nested_some _
      simp only [h4, if_false]
      by_cases h5 : p.2.state = State.STATE_READ_QUERY_RESULT
      · simp only [h5, if_true]
        exact nested_self _ (Or.inr (Or.inr h5))
      simp only [h5, if_false]
      by_cases h6 : p.2.state = State.STATE_SEND_AUTH_RESULT
      · simp only [h6, if_true]
        exact nested_some _
      · simp only [h6, if_false]
        exact nested_self _ (Or.inl rfl)
    simp only [h2, if_false]
    by_cases h7 : r.1 = Ret.RET_WAIT_FOR_EVENT
    · simp only [h7, if_true]
      exact nested_some _
    simp only [h7, if_false]
    by_cases h8 : r.1 = Ret.RET_COMMAND_SHUTDOWN ∨ r.1 = Ret.RET_SHUTDOWN
    · simp only [h8, if_true]
      exact nested_self _ (Or.inl rfl)
    simp only [h8, if_false]
    by_cases h9 : r.1 = Ret.RET_CMD_UNSUPPORT
    · simp only [h9, if_true]
      exact nested_self _ (Or.inr (Or.inr rfl))
    · simp only [h9, if_false]
      exact nested_self _ (Or.inl rfl)
  · simp only [if_true]
    exact nested_self _ (Or.inl rfl)

/-- In the three states in which nested calls are made, and in `STATE_READ_QUERY`,
`run_machine` returns without a nested call. -/
theorem run_machine_terminal (E : Env) (x : Sock) (shutdown : Bool)
    (hx : x.state = State.STATE_ERROR ∨ x.state = State.STATE_ERROR_REUSE
      ∨ x.state = State.STATE_READ_QUERY_RESULT ∨ x.state = State.STATE_READ_QUERY) :
    ∃ a, ∀ fuel, run_machine E (fuel + 1) x shutdown = some a := by
  rcases hx with h | h | h | h
  · exact ⟨case_error E x, fun fuel => by simp only [run_machine, h]⟩
  · exact ⟨case_error_reuse E x, fun fuel => by simp only [run_machine, h]⟩
  · exact ⟨_send_result_to_client_and_reset_status E x, fun fuel => by
      simp only [run_machine, h]⟩
  · exact ⟨x, fun fuel => by simp only [run_machine, h]⟩

theorem run_machine_nested (E : Env) (c : Sock) (shutdown : Bool) :
    ∃ F, OneNestedCall F
      ∧ ∀ fuel, run_machine E (fuel + 1) c shutdown
          = F (fun x => run_machine E fuel x shutdown) := by
  cases h : c.state with
  | STATE_CONNECTED_CLIENT =>
    exact ⟨_, nested_connected_client E c shutdown, fun fuel => by simp only [run_machine, h]⟩
  | STATE_SEND_HANDSHAKE =>
    exact ⟨_, nested_send_handshake E c shutdown, fun fuel => by simp only [run_machine, h]⟩
  | STATE_READ_AUTH =>
    exact ⟨_, nested_read_auth E c shutdown, fun fuel => by simp only [run_machine, h]⟩
  | STATE_SEND_AUTH_RESULT =>
    exact ⟨_, nested_send_auth_result E c shutdown, fun fuel => by simp only [run_machine, h]⟩
  | STATE_READ_QUERY_RESULT =>
    exact ⟨_, nested_some (_send_result_to_client_and_reset_status E c), fun fuel => by
      simp only [run_machine, h]⟩
  | STATE_ERROR_REUSE =>
    exact ⟨_, nested_some (case_error_reuse E c), fun fuel => by simp only [run_machine, h]⟩
  | STATE_ERROR =>
    exact ⟨_, nested_some (case_error E c), fun fuel => by simp only [run_machine, h]⟩
  | STATE_READ_QUERY =>
    exact ⟨_, nested_some c, fun fuel => by simp only [run_machine, h]⟩

/-- C34: `run_machine` returns on every input with nested calls at most two deep.
Every invocation makes no nested call or exactly one, and that one on a connection
whose state was just set to `STATE_ERROR`, `STATE_ERROR_REUSE` or
`STATE_READ_QUERY_RESULT`; in these three states (and in `STATE_READ_QUERY`) the
invocation makes no nested call; so an outer call and one nested call always
suffice: with any bound of at least 2 on the depth the function returns, and the
result does not depend on the bound. -/
theorem C34_nesting_bounded (E : Env) (c : Sock) (shutdown : Bool) :
    (∃ F, OneNestedCall F
      ∧ ∀ fuel, run_machine E (fuel + 1) c shutdown
          = F (fun x => run_machine E fuel x shutdown))
    ∧ (∀ x : Sock, (x.state = State.STATE_ERROR ∨ x.state = State.STATE_ERROR_REUSE
        ∨ x.state = State.STATE_READ_QUERY_RESULT ∨ x.state = State.STATE_READ_QUERY) →
      ∃ a, ∀ fuel, run_machine E (fuel + 1) x shutdown = some a)
    ∧ ∃ a, ∀ fuel, run_machine E (fuel + 2) c shutdown = some a := by
  refine ⟨run_machine_nested E c shutdown, fun x hx => run_machine_terminal E x shutdown hx, ?_⟩
  obtain ⟨F, hF, hrun⟩ := run_machine_nested E c shutdown
  rcases hF with ⟨a, ha⟩ | ⟨x, g, hx, hg⟩
  · exact ⟨a, fun fuel => by rw [hrun, ha]⟩
  · have hx' : x.state = State.STATE_ERROR ∨ x.state = State.STATE_ERROR_REUSE
        ∨ x.state = State.STATE_READ_QUERY_RESULT ∨ x.state = State.STATE_READ_QUERY := by
      rcases hx with h | h | h
      · exact Or.inl h
      · exact Or.inr (Or.inl h)
      · exact Or.inr (Or.inr (Or.inl h))
    obtain ⟨b, hb⟩ := run_machine_terminal E x shutdown hx'
    exact ⟨g b, fun fuel => by rw [hrun, hg, hb]; rfl⟩

theorem C34_nesting_bounded_witness :
    ∃ a, ∀ fuel, run_machine (sample_env [] []) (fuel + 2) sample_sock true = some a :=
  (C34_nesting_bounded (sample_env [] []) sample_sock true).2.2

/-! ## The result sets of the built-in responders -/

theorem show_full_columns_found (E : Env) (C : SchemaFactory) (client : Sock) (db table : Str)
    (table_id : Int) (h1 : show_full_columns_target C client = some (db, table))
    (h2 : C.get_table_id (full_name client db table) = some table_id) :
    _handle_client_query_show_full_columns E C client
      = finish_resultset E client full_columns_fields
          (((C.get_table_info table_id).fields.filter (fun field => !field.deleted)).map
            (full_columns_row C (C.get_table_info table_id)
              (fill_field_index C (C.get_table_info table_id).indices [])))
          "Failed to make result packet.".toList := by
  simp only [_handle_client_query_show_full_columns, h1, h2]
  rfl

theorem desc_table_found (E : Env) (C : SchemaFactory) (client : Sock) (db table : Str)
    (table_id : Int) (h1 : desc_table_target C client = some (db, table))
    (h2 : C.get_table_id (full_name client db table) = some table_id) :
    _handle_client_query_desc_table E C client
      = finish_resultset E client desc_fields
          (((C.get_table_info table_id).fields.filter (fun field => !field.deleted)).map
            (desc_row C (C.get_table_info table_id)
              (fill_field_index C (C.get_table_info table_id).indices [])))
          "Failed to make result packet.".toList := by
  simp only [_handle_client_query_desc_table, h1, h2]
  rfl

/-- C38: every result set a built-in responder makes has as many cells in each row
as it has columns. One column and one row of one cell for the single-value
template (which `SELECT @@...`, `SELECT 1` and `SELECT DATABASE()` use), one cell
per row for `SHOW DATABASES` and `SHOW TABLES`; two for `SHOW CREATE TABLE`,
`SHOW REGION_` and `SHOW VARIABLES`; six for `SHOW COLLATION` and `DESC`; nine for
`SHOW FULL COLUMNS`; eighteen for `SHOW TABLE STATUS`; and `SHOW WARNINGS` has three
columns and no row. The responders that look a table up make their result set
when the table is found, and `SHOW REGION_` makes its own once `std::stoll` has
read the region id. -/
theorem C38_rows_match_fields (E : Env) (C : SchemaFactory) (client : Sock) :
    (∀ name type value,
      ResultSetOf E client (_handle_client_query_template E client name type value) 1
        [mk_field name type] [[value]])
    ∧ ResultSetOf E client (_handle_client_query_show_databases E client) 1
        [mk_field "Database".toList MysqlType.MYSQL_TYPE_VAR_STRING]
        ((E.get_db_list (user_namespace client)).map (fun db => [db]))
    ∧ (client.current_db ≠ [] →
      ResultSetOf E client (_handle_client_query_show_tables E client) 1
        [mk_field ("Tables_in_".toList ++ client.current_db) MysqlType.MYSQL_TYPE_VAR_STRING]
        ((E.get_table_list (user_namespace client) client.current_db).map (fun t => [t])))
    ∧ (∀ db table table_id, show_create_table_target C client = some (db, table) →
      C.get_table_id (full_name client db table) = some table_id →
      ResultSetOf E client (_handle_client_query_show_create_table E C client) 2
        [mk_field "Table".toList MysqlType.MYSQL_TYPE_VAR_STRING,
          mk_field "Create Table".toList MysqlType.MYSQL_TYPE_VAR_STRING]
        [[table, show_create_table_text C table (C.get_table_info table_id)]])
    ∧ (∀ region_id, show_region_id C client.query_ctx.sql = some region_id →
      ∃ r, _handle_client_query_show_region E C client = some r
        ∧ ResultSetOf E client r 2
          [mk_field "region_id".toList MysqlType.MYSQL_TYPE_VAR_STRING,
            mk_field "region_info".toList MysqlType.MYSQL_TYPE_VAR_STRING]
          (match C.get_region_info region_id with
            | some region_info => [[fmt_d region_id, region_info]]
            | none => []))
    ∧ ResultSetOf E client (_handle_client_query_show_variables E client) 2
        variables_fields variables_rows
    ∧ ResultSetOf E client (_handle_client_query_show_collation E client) 6
        collation_fields collation_rows
    ∧ (∀ db table table_id, desc_table_target C client = some (db, table) →
      C.get_table_id (full_name client db table) = some table_id →
      ResultSetOf E client (_handle_client_query_desc_table E C client) 6 desc_fields
        (((C.get_table_info table_id).fields.filter (fun field => !field.deleted)).map
          (desc_row C (C.get_table_info table_id)
            (fill_field_index C (C.get_table_info table_id).indices []))))
    ∧ (∀ db table table_id, show_full_columns_target C client = some (db, table) →
      C.get_table_id (full_name client db table) = some table_id →
      ResultSetOf E client (_handle_client_query_show_full_columns E C client) 9
        full_columns_fields
        (((C.get_table_info table_id).fields.filter (fun field => !field.deleted)).map
          (full_columns_row C (C.get_table_info table_id)
            (fill_field_index C (C.get_table_info table_id).indices []))))
    ∧ (∀ table_id, (split (is_any_of " \t\n\r") client.query_ctx.sql).length = 5 →
      C.get_table_id (full_name client client.current_db
        (C.remove_single_quote ((split (is_any_of " \t\n\r") client.query_ctx.sql).getD 4 [])))
        = some table_id →
      ResultSetOf E client (_handle_client_query_show_table_status E C client) 18
        table_status_fields
        [table_status_row
          (C.remove_single_quote ((split (is_any_of " \t\n\r") client.query_ctx.sql).getD 4 []))
          (C.get_table_info table_id)])
    ∧ ResultSetOf E client (_handle_client_query_show_warnings E client) 3 warnings_fields []
    ∧ warnings_fields.length = 3 := by
  refine ⟨?_, ?_, ?_, ?_, ?_, ?_, ?_, ?_, ?_, ?_, ?_, rfl⟩
  · intro name type value
    exact ⟨⟨_, rfl⟩, rfl, by simp⟩
  · exact ⟨⟨_, rfl⟩, rfl, by simp⟩
  · intro hdb
    refine ⟨⟨client.query_ctx.sql, ?_⟩, rfl, by simp⟩
    simp only [_handle_client_query_show_tables, if_neg hdb]
  · intro db table table_id h1 h2
    refine ⟨⟨client.query_ctx.sql, ?_⟩, rfl, by simp⟩
    simp only [_handle_client_query_show_create_table, h1, h2]
  · intro region_id hid
    refine ⟨_, show_region_of_id E C client region_id hid, ⟨_, rfl⟩, rfl, ?_⟩
    intro row hrow
    split at hrow
    · simp only [List.mem_singleton] at hrow
      rw [hrow]; rfl
    · simp at hrow
  · exact ⟨⟨_, rfl⟩, rfl, by decide⟩
  · exact ⟨⟨_, rfl⟩, rfl, by decide⟩
  · intro db table table_id h1 h2
    refine ⟨⟨"Failed to make result packet.".toList, ?_⟩, rfl, ?_⟩
    · exact desc_table_found E C client db table table_id h1 h2
    · intro row hrow
      obtain ⟨f, -, rfl⟩ := List.mem_map.1 hrow
      rfl
  · intro db table table_id h1 h2
    refine ⟨⟨"Failed to make result packet.".toList, ?_⟩, rfl, ?_⟩
    · exact show_full_columns_found E C client db table table_id h1 h2
    · intro row hrow
      obtain ⟨f, -, rfl⟩ := List.mem_map.1 hrow
      rfl
  · intro table_id h1 h2
    refine ⟨⟨"Failed to make result packet.".toList, ?_⟩, rfl, by simp [table_status_row]⟩
    simp only [_handle_client_query_show_table_status, h1, h2, if_true]
  · exact ⟨⟨_, rfl⟩, rfl, by simp⟩

theorem C38_rows_match_fields_witness :
    ResultSetOf (sample_env [] []) (sample_responder_input "show full columns from t")
      (_handle_client_query_show_full_columns (sample_env [] []) sample_catalog
        (sample_responder_input "show full columns from t")) 9 full_columns_fields
      (((sample_catalog.get_table_info 1).fields.filter (fun field => !field.deleted)).map
        (full_columns_row sample_catalog (sample_catalog.get_table_info 1)
          (fill_field_index sample_catalog (sample_catalog.get_table_info 1).indices []))) :=
  (C38_rows_match_fields (sample_env [] []) sample_catalog
    (sample_responder_input "show full columns from t")).2.2.2.2.2.2.2.2.1
    "db".toList "t".toList 1 (by decide) (by decide)

/-- C39: for a table found in the catalog, `SHOW FULL COLUMNS` and `DESC` make one
row per field that is not deleted, in the same order. In the row of
`SHOW FULL COLUMNS` the cell of index 1, under the column named Type, is the
constant `NULL`, and the cell of index 2, under the column named Collation, is
the name of the primitive type of the field; in the row of `DESC` the cell under
Type is that type name; and the cells under Field, Null, Key, default and Extra
are the same in the two rows. -/
theorem C39_type_under_collation (E : Env) (C : SchemaFactory) (c1 c2 : Sock)
    (db1 t1 db2 t2 : Str) (table_id : Int)
    (h1 : show_full_columns_target C c1 = some (db1, t1))
    (h2 : C.get_table_id (full_name c1 db1 t1) = some table_id)
    (h3 : desc_table_target C c2 = some (db2, t2))
    (h4 : C.get_table_id (full_name c2 db2 t2) = some table_id) :
    _handle_client_query_show_full_columns E C c1
      = finish_resultset E c1 full_columns_fields
          (((C.get_table_info table_id).fields.filter (fun field => !field.deleted)).map
            (full_columns_row C (C.get_table_info table_id)
              (fill_field_index C (C.get_table_info table_id).indices [])))
          "Failed to make result packet.".toList
    ∧ _handle_client_query_desc_table E C c2
      = finish_resultset E c2 desc_fields
          (((C.get_table_info table_id).fields.filter (fun field => !field.deleted)).map
            (desc_row C (C.get_table_info table_id)
              (fill_field_index C (C.get_table_info table_id).indices [])))
          "Failed to make result packet.".toList
    ∧ full_columns_fields.map (fun f => f.name)
      = ["Field", "Type", "Collation", "Null", "Key", "default", "Extra", "Privileges",
          "Comment"].map String.toList
    ∧ desc_fields.map (fun f => f.name)
      = ["Field", "Type", "Null", "Key", "default", "Extra"].map String.toList
    ∧ ∀ (info : TableInfo) (field_index : List (Int × IndexType)) (field : FieldInfo),
      (full_columns_row C info field_index field).getD 1 [] = "NULL".toList
      ∧ (full_columns_row C info field_index field).getD 2 [] = C.PrimitiveType_Name field.type
      ∧ (desc_row C info field_index field).getD 1 [] = C.PrimitiveType_Name field.type
      ∧ (full_columns_row C info field_index field).getD 0 []
        = (desc_row C info field_index field).getD 0 []
      ∧ (full_columns_row C info field_index field).getD 3 []
        = (desc_row C info field_index field).getD 2 []
      ∧ (full_columns_row C info field_index field).getD 4 []
        = (desc_row C info field_index field).getD 3 []
      ∧ (full_columns_row C info field_index field).getD 5 []
        = (desc_row C info field_index field).getD 4 []
      ∧ (full_columns_row C info field_index field).getD 6 []
        = (desc_row C info field_index field).getD 5 [] :=
  ⟨show_full_columns_found E C c1 db1 t1 table_id h1 h2,
    desc_table_found E C c2 db2 t2 table_id h3 h4, by decide, by decide,
    fun _ _ _ => ⟨rfl, rfl, rfl, rfl, rfl, rfl, rfl, rfl⟩⟩

theorem C39_type_under_collation_witness :
    (full_columns_row sample_catalog sample_table
        (fill_field_index sample_catalog sample_table.indices [])
        (sample_field 1 "db.t.id" PrimitiveType.INT64 false))
      = ["id", "NULL", "bigint(20)", "NO", "PRIMARY KEY", "NULL", " ",
          "select,insert,update,references", " "].map String.toList
    ∧ (desc_row sample_catalog sample_table
        (fill_field_index sample_catalog sample_table.indices [])
        (sample_field 1 "db.t.id" PrimitiveType.INT64 false))
      = ["id", "bigint(20)", "NO", "PRIMARY KEY", "NULL", " "].map String.toList
    ∧ _handle_client_query_desc_table (sample_env [] []) sample_catalog
        (sample_responder_input "desc t")
      = finish_resultset (sample_env [] []) (sample_responder_input "desc t") desc_fields
          (((sample_catalog.get_table_info 1).fields.filter (fun field => !field.deleted)).map
            (desc_row sample_catalog (sample_catalog.get_table_info 1)
              (fill_field_index sample_catalog (sample_catalog.get_table_info 1).indices [])))
          "Failed to make result packet.".toList :=
  ⟨by decide, by decide,
    (C39_type_under_collation (sample_env [] []) sample_catalog
      (sample_responder_input "show full columns from t") (sample_responder_input "desc t")
      "db".toList "t".toList "db".toList "t".toList 1
      (by decide) (by decide) (by decide) (by decide)).2.1⟩

/-! ## What `_query_process` returns with true -/

theorem ready_ite (c : Prop) [Decidable c] (x y : Bool × Sock) (hx : ReplyReady x)
    (hy : ReplyReady y) : ReplyReady (if c then x else y) := by
  split_ifs
  · exact hx
  · exact hy

theorem ready_false (s : Sock) : ReplyReady (false, s) := fun h => Bool.noConfusion h

theorem ready_result (b : Bool) (s : Sock) :
    ReplyReady (b, set_state s State.STATE_READ_QUERY_RESULT) := fun _ => Or.inl rfl

theorem ready_reuse (b : Bool) (s : Sock) :
    ReplyReady (b, set_state s State.STATE_ERROR_REUSE) := fun _ => Or.inr rfl

theorem ready_finish_resultset (E : Env) (s : Sock) (fields : List ResultField)
    (rows : List (List Str)) (errmsg : Str) :
    ReplyReady (finish_resultset E s fields rows errmsg) := by
  unfold finish_resultset
  generalize _make_common_resultset_packet E s fields rows = r
  obtain ⟨ret, s1⟩ := r
  dsimp only
  split_ifs
  · exact ready_false _
  · exact ready_result _ _

theorem ready_show_create_table (E : Env) (C : SchemaFactory) (s : Sock) :
    ReplyReady (_handle_client_query_show_create_table E C s) := by
  unfold _handle_client_query_show_create_table
  dsimp only
  split
  · exact ready_false _
  · split
    · exact ready_false _
    · exact ready_finish_resultset E s _ _ _

theorem ready_show_full_columns (E : Env) (C : SchemaFactory) (s : Sock) :
    ReplyReady (_handle_client_query_show_full_columns E C s) := by
  unfold _handle_client_query_show_full_columns
  dsimp only
  split
  · exact ready_false _
  · split
    · exact ready_false _
    · exact ready_finish_resultset E s _ _ _

theorem ready_desc_table (E : Env) (C : SchemaFactory) (s : Sock) :
    ReplyReady (_handle_client_query_desc_table E C s) := by
  unfold _handle_client_query_desc_table
  dsimp only
  split
  · exact ready_false _
  · split
    · exact ready_false _
    · exact ready_finish_resultset E s _ _ _

theorem ready_show_table_status (E : Env) (C : SchemaFactory) (s : Sock) :
    ReplyReady (_handle_client_query_show_table_status E C s) := by
  unfold _handle_client_query_show_table_status
  dsimp only
  split_ifs
  · split
    · exact ready_false _
    · exact ready_finish_resultset E s _ _ _
  · exact ready_false _

theorem ready_responders (E : Env) (C : SchemaFactory) (name : Str) (s : Sock) :
    ReplyReady (responders E C name s) := by
  unfold responders
  repeat' with_reducible apply ready_ite
  · exact ready_show_create_table E C s
  · exact ready_show_full_columns E C s
  · exact ready_show_table_status E C s
  · exact ready_finish_resultset E s _ _ _
  · exact ready_finish_resultset E s _ _ _
  · split
    · rename_i r h
      unfold _handle_client_query_show_region at h
      split at h
      · cases h
      · rw [← Option.some.inj h]
        unfold show_region_answer
        exact ready_finish_resultset E s _ _ _
    · exact ready_false _
  · exact ready_finish_resultset E s _ _ _
  · exact ready_desc_table E C s
  · exact ready_false _

theorem ready_catalog (E : Env) (C : SchemaFactory) (name : String) (s : Sock) :
    ReplyReady (_handle_client_query_catalog (with_responders E C) name s) :=
  ready_responders E C _ _

theorem ready_show_tables (E : Env) (s : Sock) :
    ReplyReady (_handle_client_query_show_tables E s) := by
  unfold _handle_client_query_show_tables
  dsimp only
  with_reducible apply ready_ite
  · exact ready_false _
  · exact ready_finish_resultset E s _ _ _

theorem ready_com_query (E : Env) (C : SchemaFactory) (s : Sock) :
    ReplyReady (_query_process_com_query (with_responders E C) s) := by
  unfold _query_process_com_query
  lift_lets
  intro type sql q r
  clear_value r q
  repeat' with_reducible apply ready_ite
  · exact ready_result _ _
  · exact ready_result _ _
  · exact ready_finish_resultset _ s _ _ _
  · exact ready_finish_resultset _ s _ _ _
  · exact ready_finish_resultset _ s _ _ _
  · exact ready_finish_resultset _ s _ _ _
  · exact ready_finish_resultset _ s _ _ _
  · exact ready_finish_resultset _ s _ _ _
  · exact ready_finish_resultset _ s _ _ _
  · exact ready_show_tables _ s
  · exact ready_catalog E C _ s
  · exact ready_catalog E C _ s
  · exact ready_catalog E C _ s
  · exact ready_catalog E C _ s
  · exact ready_catalog E C _ s
  · exact ready_catalog E C _ s
  · exact ready_catalog E C _ s
  · exact ready_result _ _
  · exact ready_catalog E C _ s
  · exact ready_result _ _
  · exact ready_result _ _
  · exact ready_result _ _

theorem ready_query_process (E : Env) (C : SchemaFactory) (s : Sock) :
    ReplyReady (_query_process (with_responders E C) s) := by
  unfold _query_process
  dsimp only
  repeat' with_reducible apply ready_ite
  · exact ready_result _ _
  · exact ready_false _
  · exact ready_result _ _
  · exact ready_result _ _
  · exact ready_com_query E C s
  · exact ready_reuse _ _
  · exact ready_reuse _ _
  · exact ready_reuse _ _
  · exact ready_reuse _ _
  · exact ready_reuse _ _

/-- C35: with the responders of the sources in place, whenever `_query_process`
returns true the state is `STATE_READ_QUERY_RESULT` or `STATE_ERROR_REUSE` (the
planner stages run before the state is assigned, so nothing is assumed of them);
hence in `STATE_SEND_AUTH_RESULT`, once a command was read, `run_machine` takes
the error branch (when `_query_process` returned false or left `STATE_ERROR` or
`STATE_ERROR_REUSE`) or the branch of `STATE_READ_QUERY_RESULT`, and never the
branches of `STATE_READ_QUERY`, of `STATE_SEND_AUTH_RESULT`, nor the last one. -/
theorem C35_true_means_reply (E : Env) (C : SchemaFactory) (client : Sock)
    (self : Sock → Option Sock)
    (hread : (_query_read (with_responders E C) (emit client Event.query_read)).1
      = Ret.RET_SUCCESS) :
    (∀ x : Sock, (_query_process (with_responders E C) x).1 = true →
      (_query_process (with_responders E C) x).2.state = State.STATE_READ_QUERY_RESULT
      ∨ (_query_process (with_responders E C) x).2.state = State.STATE_ERROR_REUSE)
    ∧ case_send_auth_result (with_responders E C) self client false
      = (if (!(_query_process (with_responders E C)
              (emit (_query_read (with_responders E C) (emit client Event.query_read)).2
                Event.query_process)).1)
            ∨ (_query_process (with_responders E C)
              (emit (_query_read (with_responders E C) (emit client Event.query_read)).2
                Event.query_process)).2.state = State.STATE_ERROR
            ∨ (_query_process (with_responders E C)
              (emit (_query_read (with_responders E C) (emit client Event.query_read)).2
                Event.query_process)).2.state = State.STATE_ERROR_REUSE then
          self (set_state
            (make_err_packet (with_responders E C) (_query_process (with_responders E C)
              (emit (_query_read (with_responders E C) (emit client Event.query_read)).2
                Event.query_process)).2 ErrCode.ER_ERROR_COMMON "handle query failed".toList)
            (if (_query_process (with_responders E C)
              (emit (_query_read (with_responders E C) (emit client Event.query_read)).2
                Event.query_process)).2.state = State.STATE_ERROR
              then State.STATE_ERROR else State.STATE_ERROR_REUSE))
        else
          self (_query_process (with_responders E C)
            (emit (_query_read (with_responders E C) (emit client Event.query_read)).2
              Event.query_process)).2) := by
  refine ⟨fun x => ready_query_process E C x, ?_⟩
  have hp := ready_query_process E C
    (emit (_query_read (with_responders E C) (emit client Event.query_read)).2
      Event.query_process)
  unfold case_send_auth_result
  simp only [Bool.false_eq_true, if_false, hread, if_true]
  generalize _query_process (with_responders E C)
    (emit (_query_read (with_responders E C) (emit client Event.query_read)).2
      Event.query_process) = p at hp ⊢
  by_cases h3 : (!p.1 ∨ p.2.state = State.STATE_ERROR ∨ p.2.state = State.STATE_ERROR_REUSE)
  · rw [if_pos h3, if_pos h3]
    rfl
  · rw [if_neg h3, if_neg h3]
    have h1 : p.1 = true := by
      by_contra h
      exact h3 (Or.inl (by simpa using h))
    have h2 : p.2.state = State.STATE_READ_QUERY_RESULT := by
      rcases hp h1 with h | h
      · exact h
      · exact absurd (Or.inr (Or.inr h)) h3
    simp [h2]

theorem C35_true_means_reply_witness :
    case_send_auth_result
        (with_responders (sample_env (sample_command 3 "desc t") []) sample_catalog)
        (fun _ => none) (sample_responder_input "") false = none :=
  ((C35_true_means_reply (sample_env (sample_command 3 "desc t") []) sample_catalog
    (sample_responder_input "") (fun _ => none) (by decide)).2).trans (by simp)

/-! ## The second ERR packet -/

theorem scope_exit_send_buf (E : Env)
    (hhook : ∀ s, (E.on_commit_rollback s).send_buf = s.send_buf) (x : Sock) :
    (scope_exit E x).send_buf = x.send_buf := by
  unfold scope_exit
  split_ifs
  · rw [hhook]; rfl
  · rfl

/-- When the common query path returns false, a stage has packed its ERR packet
at the end of the send buffer, unless the stage that failed is `create_plan_tree`,
which returns as it is. The commit hook is taken not to touch the send buffer. -/
theorem common_query_failure (E : Env)
    (hhook : ∀ s, (E.on_commit_rollback s).send_buf = s.send_buf) (s : Sock)
    (hf : (_handle_client_query_common_query E s).1 = false) :
    (∃ y code msg, (_handle_client_query_common_query E s).2.send_buf
        = y ++ E.make_err_packet code msg)
    ∨ (∃ s1, (E.create_plan_tree s1).1 < 0
        ∧ (_handle_client_query_common_query E s).2
          = emit (E.create_plan_tree s1).2 (Event.create_plan_tree (E.create_plan_tree s1).1)) := by
  revert hf
  unfold _handle_client_query_common_query
  lift_lets
  intro _ _ s0 r1 s1 r2 s2 _ s3 r4 s4 r5 s5 _ _
  split_ifs with h1 h2 h3 h4 h5 h6
  · intro _
    exact Or.inl ⟨_, _, _, plan_failed_packet E s1 _ _⟩
  · intro h; exact h.elim
  · intro _
    exact Or.inr ⟨s1, h3, rfl⟩
  · intro _
    exact Or.inl ⟨_, _, _,
      (scope_exit_send_buf E hhook _).trans (plan_failed_packet E s4 _ _)⟩
  · intro h; exact h.elim
  · intro _
    exact Or.inl ⟨_, _, _,
      (scope_exit_send_buf E hhook _).trans (plan_failed_packet E s5 _ _)⟩
  · intro h; exact h.elim

/-- C36: let `_query_read` have accepted a command in `STATE_SEND_AUTH_RESULT`.
Whenever `_query_process` returns false or leaves `STATE_ERROR_REUSE` (the state
not being `STATE_ERROR`) with an ERR packet at the end of the send buffer,
`run_machine` appends the packet `ER_ERROR_COMMON` with the message
`handle query failed` right after it and assigns `STATE_ERROR_REUSE`, so the send
buffer flushed by the case `STATE_ERROR_REUSE` holds the two ERR packets one after
the other. This is the case of `SHOW TABLES` without a selected database
(`ER_NO_DB_ERROR`), of the commands `_query_process` rejects, `COM_FIELD_LIST` and
`COM_STMT_PREPARE` among them (`ER_NOT_ALLOWED_COMMAND`), and of a failure of the
common query path in a stage that packs its error (every stage but
`create_plan_tree`; the commit hook is taken not to touch the send buffer). -/
theorem C36_two_err_packets (E : Env) (client q : Sock) (fuel : Nat)
    (hst : client.state = State.STATE_SEND_AUTH_RESULT)
    (hread : _query_read E (emit client Event.query_read) = (Ret.RET_SUCCESS, q)) :
    (∀ y code msg,
      ((_query_process E (emit q Event.query_process)).1 = false
        ∨ (_query_process E (emit q Event.query_process)).2.state = State.STATE_ERROR_REUSE) →
      (_query_process E (emit q Event.query_process)).2.state ≠ State.STATE_ERROR →
      (_query_process E (emit q Event.query_process)).2.send_buf
        = y ++ E.make_err_packet code msg →
      ∃ c3, run_machine E (fuel + 2) client false = some (case_error_reuse E c3)
        ∧ c3.state = State.STATE_ERROR_REUSE
        ∧ c3.send_buf = y ++ E.make_err_packet code msg
            ++ E.make_err_packet ErrCode.ER_ERROR_COMMON "handle query failed".toList
        ∧ c3.log = (_query_process E (emit q Event.query_process)).2.log
            ++ [Event.make_err_packet ErrCode.ER_ERROR_COMMON "handle query failed".toList,
                Event.set_state State.STATE_ERROR_REUSE])
    ∧ ((q.query_ctx.mysql_cmd = COM_QUERY ∧ q.query_ctx.type = SqlType.SQL_SHOW_NUM
        ∧ iequals q.query_ctx.sql SQL_SHOW_TABLES = true ∧ q.current_db = []) →
      (_query_process E (emit q Event.query_process)).1 = false
      ∧ (_query_process E (emit q Event.query_process)).2.state ≠ State.STATE_ERROR
      ∧ (_query_process E (emit q Event.query_process)).2.send_buf
        = q.send_buf ++ E.make_err_packet ErrCode.ER_NO_DB_ERROR "No database selected".toList)
    ∧ ((q.query_ctx.mysql_cmd ≠ COM_PING ∧ q.query_ctx.mysql_cmd ≠ COM_INIT_DB
        ∧ q.query_ctx.mysql_cmd ≠ COM_QUERY ∧ q.query_ctx.sql ≠ []) →
      (_query_process E (emit q Event.query_process)).2.state = State.STATE_ERROR_REUSE
      ∧ (_query_process E (emit q Event.query_process)).2.send_buf
        = q.send_buf
          ++ E.make_err_packet ErrCode.ER_NOT_ALLOWED_COMMAND "comand not supported".toList)
    ∧ ((reaches_planner q ∧ (is_exceed_quota E (emit q Event.query_process)).1 = false
        ∧ (_handle_client_query_common_query E
            (is_exceed_quota E (emit q Event.query_process)).2).1 = false
        ∧ ∀ s, (E.on_commit_rollback s).send_buf = s.send_buf) →
      (_query_process E (emit q Event.query_process)).1 = false
      ∧ (_query_process E (emit q Event.query_process)).2.state ≠ State.STATE_ERROR
      ∧ ((∃ y code msg, (_query_process E (emit q Event.query_process)).2.send_buf
            = y ++ E.make_err_packet code msg)
        ∨ ∃ s1, (E.create_plan_tree s1).1 < 0
          ∧ (_handle_client_query_common_query E
              (is_exceed_quota E (emit q Event.query_process)).2).2
            = emit (E.create_plan_tree s1).2
                (Event.create_plan_tree (E.create_plan_tree s1).1))) := by
  refine ⟨?_, ?_, ?_, ?_⟩
  · intro y code msg hp hne hbuf
    have hrun := run_error_reuse E fuel client q hst hread hp hne
    generalize (_query_process E (emit q Event.query_process)).2 = p at hrun hbuf ⊢
    refine ⟨_, hrun, rfl, ?_, ?_⟩
    · simp [set_state, make_err_packet, hbuf]
    · simp [set_state, make_err_packet]
  · rintro ⟨d1, d2, d3, d4⟩
    rw [query_process_show_tables_no_db E (emit q Event.query_process) d1 d2 d3 d4]
    exact ⟨rfl, by simp [set_state], rfl⟩
  · rintro ⟨a1, a2, a3, a4⟩
    rw [query_process_rejects E (emit q Event.query_process) a1 a2 a3 a4]
    exact ⟨rfl, rfl⟩
  · rintro ⟨b1, b2, b3, hhook⟩
    have hc := common_query_failure E hhook _ b3
    rw [query_process_planner_path E (emit q Event.query_process) b1, b2]
    simp only [Bool.false_eq_true, if_false]
    refine ⟨b3, by simp [set_state], ?_⟩
    rcases hc with ⟨y, code, msg, h⟩ | h
    · exact Or.inl ⟨y, code, msg, h⟩
    · exact Or.inr h

theorem C36_two_err_packets_witness :
    ∃ c3, run_machine (sample_env (sample_command 3 "show tables") []) 2 sample_logged_in false
        = some (case_error_reuse (sample_env (sample_command 3 "show tables") []) c3)
      ∧ c3.state = State.STATE_ERROR_REUSE
      ∧ c3.send_buf
        = (sample_env [] []).make_err_packet ErrCode.ER_NO_DB_ERROR "No database selected".toList
          ++ (sample_env [] []).make_err_packet ErrCode.ER_ERROR_COMMON
              "handle query failed".toList := by
  have h := C36_two_err_packets (sample_env (sample_command 3 "show tables") [])
    sample_logged_in
    (_query_read (sample_env (sample_command 3 "show tables") [])
      (emit sample_logged_in Event.query_read)).2 0 rfl (by decide)
  obtain ⟨k1, k2, k3⟩ := h.2.1 ⟨by decide, by decide, by decide, by decide⟩
  obtain ⟨c3, r1, r2, r3, -⟩ := h.1 _ _ _ (Or.inl k1) k2 k3
  exact ⟨c3, r1, r2, r3.trans (by decide)⟩

/-! ## No command before the login -/

theorem sess_refl (s : Sock) : KeepsSession s s := ⟨fun h => h, fun h => h⟩

theorem sess_trans (s a b : Sock) (h1 : KeepsSession s a) (h2 : KeepsSession a b) :
    KeepsSession s b :=
  ⟨fun h => h2.1 (h1.1 h), fun h => h2.2 (h1.2 h)⟩

theorem sess_of_eq (s a : Sock) (h1 : a.is_counted = s.is_counted)
    (h2 : a.user_info = s.user_info) : KeepsSession s a :=
  ⟨fun h => by rw [h1]; exact h, fun h => by rw [h2]; exact h⟩

theorem sess_ite {α : Type} (c : Prop) [Decidable c] (s : Sock) (x y : α × Sock)
    (hx : KeepsSession s x.2) (hy : KeepsSession s y.2) :
    KeepsSession s (if c then x else y).2 := by
  split_ifs
  · exact hx
  · exact hy

theorem calm_refl (s : Sock) : Calm s s :=
  ⟨sess_refl s, fun h => h, [], by simp, fun e he => by simp at he⟩

theorem calm_trans (s a b : Sock) (h1 : Calm s a) (h2 : Calm a b) : Calm s b := by
  obtain ⟨k1, t1, e1, l1, n1⟩ := h1
  obtain ⟨k2, t2, e2, l2, n2⟩ := h2
  refine ⟨sess_trans _ _ _ k1 k2, fun h => t1 (t2 h), e1 ++ e2, ?_, ?_⟩
  · rw [l2, l1, List.append_assoc]
  · intro e he
    rcases List.mem_append.1 he with h | h
    · exact n1 e h
    · exact n2 e h

/-- One step that changes neither `is_counted` nor the user record, keeps the state
or leaves the states of `LoggedIn`, and logs the events `evs`. -/
theorem calm_step (s y a : Sock) (evs : List Event) (h : Calm s y)
    (hc : a.is_counted = y.is_counted) (hu : a.user_info = y.user_info)
    (hst : LoggedIn a.state → LoggedIn y.state) (hlog : a.log = y.log ++ evs)
    (hev : ∀ e, e ∈ evs → NoQueryEvent e) : Calm s a :=
  calm_trans _ _ _ h ⟨sess_of_eq _ _ hc hu, hst, evs, hlog, hev⟩

theorem calm_ite (c : Prop) [Decidable c] (s x y : Sock) (hx : Calm s x) (hy : Calm s y) :
    Calm s (if c then x else y) := by
  split_ifs
  · exact hx
  · exact hy

theorem calm_emit (s y : Sock) (e : Event) (hne : NoQueryEvent e) (h : Calm s y) :
    Calm s (emit y e) :=
  calm_step s y _ [e] h rfl rfl (fun h => h) rfl
    (fun x hx => by rw [List.mem_singleton.1 hx]; exact hne)

theorem calm_state (s y : Sock) (st : State) (hst : ¬ LoggedIn st) (h : Calm s y) :
    Calm s (set_state y st) :=
  calm_step s y _ [Event.set_state st] h rfl rfl (fun h => absurd h hst) rfl
    (fun x hx => by rw [List.mem_singleton.1 hx]; exact ⟨by simp, by simp⟩)

/-- From a state of `LoggedIn` every assignment of the state is calm. -/
theorem calm_state_in (s y : Sock) (st : State) (hs : LoggedIn s.state) (h : Calm s y) :
    Calm s (set_state y st) := by
  obtain ⟨k, -, evs, l, n⟩ := h
  refine ⟨sess_trans _ _ _ k (sess_of_eq _ _ rfl rfl), fun _ => hs,
    evs ++ [Event.set_state st], ?_, ?_⟩
  · show y.log ++ [Event.set_state st] = _
    rw [l, List.append_assoc]
  · intro e he
    rcases List.mem_append.1 he with h | h
    · exact n e h
    · rw [List.mem_singleton.1 h]; exact ⟨by simp, by simp⟩

theorem calm_poll (s y : Sock) (ev : EpollEv) (h : Calm s y) :
    Calm s (poll_events_mod y ev) :=
  calm_emit s y _ ⟨by simp, by simp⟩ h

theorem calm_err_packet (E : Env) (s y : Sock) (code : ErrCode) (msg : Str)
    (h : Calm s y) : Calm s (make_err_packet E y code msg) :=
  calm_step s y _ [Event.make_err_packet code msg] h rfl rfl (fun h => h) rfl
    (fun x hx => by rw [List.mem_singleton.1 hx]; exact ⟨by simp, by simp⟩)

theorem calm_ok_packet (E : Env) (s y : Sock) (h : Calm s y) :
    Calm s (make_simple_ok_packet E y) :=
  calm_step s y _ [Event.make_simple_ok_packet] h rfl rfl (fun h => h) rfl
    (fun x hx => by rw [List.mem_singleton.1 hx]; exact ⟨by simp, by simp⟩)

theorem calm_auth_failed_packet (E : Env) (s y : Sock) (msg : Str) (h : Calm s y) :
    Calm s (fill_auth_failed_packet E y msg) :=
  calm_step s y _ [Event.fill_auth_failed_packet msg] h rfl rfl (fun h => h) rfl
    (fun x hx => by rw [List.mem_singleton.1 hx]; exact ⟨by simp, by simp⟩)

theorem calm_plan_failed (E : Env) (s y : Sock) (dflt : ErrCode) (text : Str)
    (h : Calm s y) : Calm s (plan_failed E y dflt text) :=
  calm_step s y _ [Event.make_err_packet _ _] h rfl rfl (fun h => h) rfl
    (fun x hx => by rw [List.mem_singleton.1 hx]; exact ⟨by simp, by simp⟩)

theorem calm_query_ctx (s y : Sock) (q : QueryContext) (h : Calm s y) :
    Calm s { y with query_ctx := q } :=
  calm_step s y _ [] h rfl rfl (fun h => h) (by simp) (fun x hx => by simp at hx)

theorem calm_seq_id (s y : Sock) (n : Int) (q : QueryContext) (h : Calm s y) :
    Calm s { y with seq_id := n, query_ctx := q } :=
  calm_step s y _ [] h rfl rfl (fun h => h) (by simp) (fun x hx => by simp at hx)

theorem calm_scope_exit (E : Env) (hE : EnvKeepsSession E) (s y : Sock)
    (h : Calm s y) : Calm s (scope_exit E y) := by
  unfold scope_exit
  split_ifs
  · exact calm_trans _ _ _ (calm_emit _ _ _ ⟨by simp, by simp⟩ h) (hE.2.2.2.2.1 _)
  · exact h

theorem calm_common_query (E : Env) (hE : EnvKeepsSession E) (s y : Sock)
    (hy : Calm s y) : Calm s (_handle_client_query_common_query E y).2 := by
  have e1 : ∀ a b, Calm a b → Calm a (E.logical_analyze b).2 :=
    fun a b h => calm_trans _ _ _ h (hE.1 b)
  have e2 : ∀ a b, Calm a b → Calm a (E.create_plan_tree b).2 :=
    fun a b h => calm_trans _ _ _ h (hE.2.1 b)
  have e3 : ∀ a b, Calm a b → Calm a (E.physical_analyze b).2 :=
    fun a b h => calm_trans _ _ _ h (hE.2.2.1 b)
  have e4 : ∀ a b, Calm a b → Calm a (E.execute b).2 :=
    fun a b h => calm_trans _ _ _ h (hE.2.2.2.1 b)
  unfold _handle_client_query_common_query
  lift_lets
  intro _ _ s0 r1 s1 r2 s2 _ s3 r4 s4 r5 s5 _ _
  have k0 : Calm s s0 := calm_query_ctx _ _ _ hy
  have k1 : Calm s s1 := calm_emit _ _ _ ⟨by simp, by simp⟩ (e1 _ _ k0)
  have k2 : Calm s s2 := calm_emit _ _ _ ⟨by simp, by simp⟩ (e2 _ _ k1)
  have k3 : Calm s s3 := calm_ite _ _ _ _ (calm_seq_id _ _ _ _ k2) k2
  have k4 : Calm s s4 := calm_emit _ _ _ ⟨by simp, by simp⟩ (e3 _ _ k3)
  have k5 : Calm s s5 := calm_emit _ _ _ ⟨by simp, by simp⟩ (e4 _ _ k4)
  clear_value s5 r5 s4 r4 s3 s2 r2 s1 r1 s0
  split_ifs
  · exact calm_plan_failed E _ _ _ _ k1
  · exact calm_ok_packet E _ _ k1
  · exact k2
  · exact calm_scope_exit E hE _ _ (calm_plan_failed E _ _ _ _ k4)
  · exact calm_scope_exit E hE _ _ (calm_ok_packet E _ _ k4)
  · exact calm_scope_exit E hE _ _ (calm_plan_failed E _ _ _ _ k5)
  · exact calm_scope_exit E hE _ _ (calm_query_ctx _ _ _ k5)

theorem calm_session (s a : Sock) (h : Calm s a) : KeepsSession s a := h.1

/-- A step given by what it keeps, the state it leaves, and the events it logs. -/
theorem calm_then (s y a : Sock) (evs : List Event) (h : Calm s y)
    (hk : KeepsSession y a) (hst : a.state = y.state) (hlog : a.log = y.log ++ evs)
    (hev : ∀ e, e ∈ evs → NoQueryEvent e) : Calm s a :=
  calm_trans _ _ _ h ⟨hk, fun h => by rw [← hst]; exact h, evs, hlog, hev⟩

theorem sess_read_packet (E : Env) (s : Sock) : KeepsSession s (_read_packet E s).2 := by
  obtain ⟨_, f2, _⟩ := read_packet_frame E s
  have hs := (read_packet_session E s).1
  exact sess_of_eq _ _ f2 hs.2.2.2.2.1

theorem sess_auth_read (E : Env) (s : Sock) : KeepsSession s (_auth_read E s).2 := by
  obtain ⟨_, f2, _⟩ := auth_read_frame E s
  exact ⟨fun h => by rw [f2]; exact h, (auth_read_user_known E s).2⟩

theorem calm_auth_read (E : Env) (s : Sock) : Calm s (_auth_read E s).2 := by
  obtain ⟨f1, _, _, _, _, _, _, _, evs, hl, hev⟩ := auth_read_frame E s
  refine ⟨sess_auth_read E s, fun h => by rw [← f1]; exact h, evs, hl, fun e he => ?_⟩
  rcases hev e he with ⟨w, r, g, h⟩ | ⟨n, h⟩
  · rw [h]; exact ⟨by simp, by simp⟩
  · rw [h]; exact ⟨by simp, by simp⟩

theorem sess_connection_inc (y : Sock) : KeepsSession y (connection_inc y).2 := by
  unfold connection_inc
  split
  · exact sess_of_eq _ _ rfl rfl
  · exact ⟨fun h => h, fun _ => by simp [emit]⟩

theorem calm_connection_inc (s y : Sock) (h : Calm s y) : Calm s (connection_inc y).2 := by
  refine calm_then s y _ [Event.connection_inc (connection_inc y).1] h
    (sess_connection_inc y) ?_ ?_
    (fun x hx => by rw [List.mem_singleton.1 hx]; exact ⟨by simp, by simp⟩)
  · unfold connection_inc
    split <;> rfl
  · unfold connection_inc
    split <;> rfl

theorem sess_connection_dec (y : Sock) : KeepsSession y (connection_dec y) :=
  ⟨fun h => h, fun hn => by
    cases hu : y.user_info with
    | none => exact absurd hu hn
    | some u => simp [connection_dec, emit, hu]⟩

theorem calm_connection_dec (s y : Sock) (h : Calm s y) : Calm s (connection_dec y) :=
  calm_then s y _ [Event.connection_dec] h (sess_connection_dec y) rfl rfl
    (fun x hx => by rw [List.mem_singleton.1 hx]; exact ⟨by simp, by simp⟩)

theorem calm_query_result_send (E : Env) (s y : Sock) (h : Calm s y) :
    Calm s (_query_result_send E y).2 :=
  calm_step s y _ [Event.real_write _] h rfl rfl (fun h => h) rfl
    (fun x hx => by rw [List.mem_singleton.1 hx]; exact ⟨by simp, by simp⟩)

theorem calm_client_free (E : Env) (hE : EnvKeepsSession E) (s y : Sock)
    (h : Calm s y) : Calm s (client_free E y) := by
  unfold client_free
  lift_lets
  intro _ s1 s2 s3 s4
  have k1 : Calm s s1 :=
    calm_ite _ _ _ _
      (calm_common_query E hE _ _
        (calm_emit _ _ _ ⟨by simp, by simp⟩ (calm_query_ctx _ _ _ h))) h
  have k2 : Calm s s2 := calm_ite _ _ _ _ (calm_connection_dec _ _ k1) k1
  have k3 : Calm s s3 := calm_emit _ _ _ ⟨by simp, by simp⟩ (calm_query_ctx _ _ _ k2)
  have k4 : Calm s s4 := calm_ite _ _ _ _ (calm_emit _ _ _ ⟨by simp, by simp⟩ k3) k3
  clear_value s4 s3 s2 s1
  apply calm_ite
  · exact h
  · exact calm_step s (emit s4 Event.poll_events_delete) _ [Event.socket_pool_free]
      (calm_emit _ _ _ ⟨by simp, by simp⟩ k4) rfl rfl (fun h => h) rfl
      (fun x hx => by rw [List.mem_singleton.1 hx]; exact ⟨by simp, by simp⟩)

theorem calm_case_error (E : Env) (hE : EnvKeepsSession E) (s y : Sock)
    (h : Calm s y) : Calm s (case_error E y) :=
  calm_client_free E hE _ _ (calm_query_result_send E _ _ h)

theorem calm_buffers (s y : Sock) (h : Calm s y) :
    Calm s (_reset_network_socket_client_resource y) :=
  calm_step s y _ [] h rfl rfl (fun h => h) (by simp [_reset_network_socket_client_resource])
    (fun x hx => by simp at hx)

theorem calm_reset_when_err (s y : Sock) (h : Calm s y) : Calm s (reset_when_err y) :=
  calm_step s y _ [Event.reset_when_err] h rfl rfl (fun h => h) rfl
    (fun x hx => by rw [List.mem_singleton.1 hx]; exact ⟨by simp, by simp⟩)

theorem calm_send_result (E : Env) (hE : EnvKeepsSession E) (s y : Sock)
    (hs : LoggedIn s.state) (h : Calm s y) :
    Calm s (_send_result_to_client_and_reset_status E y) := by
  unfold _send_result_to_client_and_reset_status
  lift_lets
  intro r
  have kr : Calm s r.2 := calm_query_result_send E s y h
  clear_value r
  apply calm_ite
  · exact calm_poll _ _ _ (calm_state_in _ _ _ hs (calm_buffers _ _ kr))
  apply calm_ite
  · exact calm_poll _ _ _ kr
  · exact calm_client_free E hE _ _ kr

theorem calm_case_error_reuse (E : Env) (s y : Sock) (hs : LoggedIn s.state)
    (h : Calm s y) : Calm s (case_error_reuse E y) :=
  calm_poll _ _ _ (calm_state_in _ _ _ hs
    (calm_reset_when_err _ _ (calm_query_result_send E _ _ h)))

theorem logged_in_of_state (st : State)
    (h : st = State.STATE_ERROR_REUSE ∨ st = State.STATE_READ_QUERY_RESULT) : LoggedIn st := by
  rcases h with h | h
  · exact Or.inr (Or.inr (Or.inr h))
  · exact Or.inr (Or.inr (Or.inl h))

/-- A nested call of `run_machine` on a connection in `STATE_ERROR`,
`STATE_ERROR_REUSE`, `STATE_READ_QUERY_RESULT` or `STATE_READ_QUERY` is calm. -/
theorem calm_run_terminal (E : Env) (hE : EnvKeepsSession E) (fuel : Nat)
    (s y a : Sock) (shutdown : Bool) (h : Calm s y)
    (hst : y.state = State.STATE_ERROR ∨ y.state = State.STATE_ERROR_REUSE
      ∨ y.state = State.STATE_READ_QUERY_RESULT ∨ y.state = State.STATE_READ_QUERY)
    (hrun : run_machine E fuel y shutdown = some a) : Calm s a := by
  cases fuel with
  | zero => simp [run_machine] at hrun
  | succ n =>
    rcases hst with h1 | h1 | h1 | h1
    · simp only [run_machine, h1, Option.some.injEq] at hrun
      rw [← hrun]
      exact calm_case_error E hE _ _ h
    · simp only [run_machine, h1, Option.some.injEq] at hrun
      rw [← hrun]
      exact calm_case_error_reuse E s y (h.2.1 (logged_in_of_state _ (Or.inl h1))) h
    · simp only [run_machine, h1, Option.some.injEq] at hrun
      rw [← hrun]
      exact calm_send_result E hE s y (h.2.1 (logged_in_of_state _ (Or.inr h1))) h
    · simp only [run_machine, h1, Option.some.injEq] at hrun
      rw [← hrun]
      exact h

theorem not_logged_error : ¬ LoggedIn State.STATE_ERROR := by
  intro h
  rcases h with h | h | h | h <;> cases h

theorem not_logged_handshake : ¬ LoggedIn State.STATE_SEND_HANDSHAKE := by
  intro h
  rcases h with h | h | h | h <;> cases h

theorem calm_connected_client (E : Env) (hE : EnvKeepsSession E) (fuel : Nat)
    (c a : Sock) (shutdown : Bool)
    (hrun : case_connected_client E (fun x => run_machine E fuel x shutdown) c shutdown
      = some a) : Calm c a := by
  unfold case_connected_client at hrun
  lift_lets at hrun
  extract_lets ret c1 at hrun
  have k1 : Calm c c1 :=
    calm_step c c _ [Event.handshake_send ret] (calm_refl c) rfl rfl (fun h => h) rfl
      (fun x hx => by rw [List.mem_singleton.1 hx]; exact ⟨by simp, by simp⟩)
  clear_value c1 ret
  split_ifs at hrun
  · exact calm_run_terminal E hE fuel c _ a shutdown
      (calm_state _ _ _ not_logged_error (calm_refl c)) (Or.inl rfl) hrun
  · rw [← Option.some.inj hrun]
    exact calm_poll _ _ _ (calm_state _ _ _ not_logged_handshake k1)
  · rw [← Option.some.inj hrun]
    exact calm_poll _ _ _ k1
  · exact calm_run_terminal E hE fuel c _ a shutdown
      (calm_state _ _ _ not_logged_error k1) (Or.inl rfl) hrun

/-- The case `STATE_READ_AUTH`, entered on a connection reached calmly from a
logged-in one, is calm. -/
theorem calm_read_auth (E : Env) (hE : EnvKeepsSession E) (fuel : Nat)
    (s x a : Sock) (shutdown : Bool) (hs : LoggedIn s.state) (hx : Calm s x)
    (hrun : case_read_auth E (fun y => run_machine E fuel y shutdown) x shutdown = some a) :
    Calm s a := by
  unfold case_read_auth at hrun
  lift_lets at hrun
  extract_lets ret c1 r at hrun
  have k1 : Calm s c1 :=
    calm_step s x _ [Event.auth_result_send ret] hx rfl rfl (fun h => h) rfl
      (fun e he => by rw [List.mem_singleton.1 he]; exact ⟨by simp, by simp⟩)
  have hr : ∀ b, r = some b → Calm s b := by
    intro b hb
    have hb2 : (if ret = Ret.RET_SUCCESS then
        some (poll_events_mod (set_state c1 State.STATE_SEND_AUTH_RESULT) EpollEv.EPOLLIN)
      else if ret = Ret.RET_WAIT_FOR_EVENT then some (poll_events_mod c1 EpollEv.EPOLLOUT)
      else run_machine E fuel (set_state c1 State.STATE_ERROR) shutdown) = some b := hb
    clear_value c1
    split_ifs at hb2
    · rw [← Option.some.inj hb2]
      exact calm_poll _ _ _ (calm_state_in _ _ _ hs k1)
    · rw [← Option.some.inj hb2]
      exact calm_poll _ _ _ k1
    · exact calm_run_terminal E hE fuel s _ b shutdown
        (calm_state _ _ _ not_logged_error k1) (Or.inl rfl) hb2
  clear_value r
  split_ifs at hrun
  · exact calm_run_terminal E hE fuel s _ a shutdown
      (calm_state _ _ _ not_logged_error hx) (Or.inl rfl) hrun
  · cases hr2 : r with
    | none => rw [hr2] at hrun; simp at hrun
    | some b =>
      rw [hr2] at hrun
      rw [← Option.some.inj hrun]
      exact calm_step s b _ [] (hr b hr2) rfl rfl (fun h => h) (by simp)
        (fun e he => by simp at he)

theorem sess_ite_sock (c : Prop) [Decidable c] (s x y : Sock)
    (hx : KeepsSession s x) (hy : KeepsSession s y) : KeepsSession s (if c then x else y) := by
  split_ifs
  · exact hx
  · exact hy

theorem sess_query_read (E : Env) (s : Sock) : KeepsSession s (_query_read E s).2 := by
  have h0 : KeepsSession s (emit { s with query_ctx := new_query_context s.current_db }
      Event.new_query_ctx) := sess_of_eq _ _ rfl rfl
  have h1 := sess_read_packet E (emit { s with query_ctx := new_query_context s.current_db }
      Event.new_query_ctx)
  have h2 := sess_trans _ _ _ h0 h1
  unfold _query_read
  lift_lets
  intro s0
  generalize hp : _read_packet E s0 = p
  have h3 : KeepsSession s p.2 := by rw [← hp]; exact h2
  clear hp h0 h1 h2
  obtain ⟨ret, s1⟩ := p
  refine sess_trans _ _ _ h3 ?_
  dsimp only
  apply sess_ite
  · exact sess_refl _
  apply sess_ite
  · exact sess_refl _
  split
  · exact sess_refl _
  · repeat' apply sess_ite
    all_goals exact sess_of_eq _ _ rfl rfl

theorem sess_finish_resultset (E : Env) (s : Sock) (fields : List ResultField)
    (rows : List (List Str)) (errmsg : Str) :
    KeepsSession s (finish_resultset E s fields rows errmsg).2 := by
  have h : ∀ r : Ret × Sock, r.2.is_counted = s.is_counted → r.2.user_info = s.user_info →
      KeepsSession s (if r.1 ≠ Ret.RET_SUCCESS then
        (false, set_state (make_err_packet E r.2 ErrCode.ER_MAKE_RESULT_PACKET errmsg)
          State.STATE_ERROR)
        else (true, set_state r.2 State.STATE_READ_QUERY_RESULT)).2 := by
    intro r h1 h2
    apply sess_ite
    · exact sess_of_eq _ _ h1 h2
    · exact sess_of_eq _ _ h1 h2
  have hu : (_make_common_resultset_packet E s fields rows).2.is_counted = s.is_counted
      ∧ (_make_common_resultset_packet E s fields rows).2.user_info = s.user_info := by
    unfold _make_common_resultset_packet
    split_ifs
    · exact ⟨rfl, rfl⟩
    · dsimp only
      split_ifs <;> exact ⟨rfl, rfl⟩
  exact h (_make_common_resultset_packet E s fields rows) hu.1 hu.2

theorem sess_is_exceed_quota (E : Env) (s : Sock) :
    KeepsSession s (is_exceed_quota E s).2 := by
  unfold is_exceed_quota
  split
  · exact sess_of_eq _ _ rfl rfl
  · exact ⟨fun h => h, fun _ => by simp [emit]⟩

theorem sess_common_query (E : Env) (hE : EnvKeepsSession E) (s : Sock) :
    KeepsSession s (_handle_client_query_common_query E s).2 :=
  (calm_common_query E hE s s (calm_refl s)).1

theorem sess_ok_result (E : Env) (s : Sock) :
    KeepsSession s (true,
      set_state (make_simple_ok_packet E s) State.STATE_READ_QUERY_RESULT).2 :=
  sess_of_eq _ _ rfl rfl

theorem sess_use_database (E : Env) (s : Sock) :
    KeepsSession s (_handle_client_query_use_database E s).2 :=
  sess_of_eq _ _ rfl rfl

theorem sess_show_tables (E : Env) (s : Sock) :
    KeepsSession s (_handle_client_query_show_tables E s).2 := by
  unfold _handle_client_query_show_tables
  dsimp only
  apply sess_ite
  · exact sess_of_eq _ _ rfl rfl
  · exact sess_finish_resultset E s _ _ _

theorem sess_catalog (E : Env) (hE : EnvKeepsSession E) (name : String) (s : Sock) :
    KeepsSession s (_handle_client_query_catalog E name s).2 :=
  sess_trans _ (emit s (Event.builtin name.toList)) _ (sess_of_eq _ _ rfl rfl)
    (hE.2.2.2.2.2 _ _)

theorem sess_not_allowed_reuse (E : Env) (s : Sock) :
    KeepsSession s (true, set_state (not_allowed E s) State.STATE_ERROR_REUSE).2 :=
  sess_of_eq _ _ rfl rfl

theorem sess_template (E : Env) (s : Sock) (field_name : Str) (data_type : MysqlType)
    (value : Str) :
    KeepsSession s (_handle_client_query_template E s field_name data_type value).2 :=
  sess_finish_resultset E s _ _ _

theorem sess_com_query (E : Env) (hE : EnvKeepsSession E) (s : Sock) :
    KeepsSession s (_query_process_com_query E s).2 := by
  unfold _query_process_com_query
  lift_lets
  intro type sql q r
  have kq : KeepsSession s q.2 := sess_is_exceed_quota E s
  have kr : KeepsSession s r.2 := sess_trans _ _ _ kq (sess_common_query E hE q.2)
  clear_value r q
  repeat' with_reducible apply sess_ite
  · exact sess_ok_result E s
  · exact sess_ok_result E s
  · exact sess_template E s _ _ _
  · exact sess_template E s _ _ _
  · exact sess_template E s _ _ _
  · exact sess_template E s _ _ _
  · exact sess_template E s _ _ _
  · exact sess_template E s _ _ _
  · exact sess_finish_resultset E s _ _ _
  · exact sess_show_tables E s
  · exact sess_catalog E hE _ s
  · exact sess_catalog E hE _ s
  · exact sess_catalog E hE _ s
  · exact sess_catalog E hE _ s
  · exact sess_catalog E hE _ s
  · exact sess_catalog E hE _ s
  · exact sess_catalog E hE _ s
  · exact sess_use_database E s
  · exact sess_catalog E hE _ s
  · exact sess_ok_result E s
  · exact sess_trans _ _ _ kq (sess_of_eq _ _ rfl rfl)
  · exact sess_trans _ _ _ kr (sess_of_eq _ _ rfl rfl)

theorem sess_query_process (E : Env) (hE : EnvKeepsSession E) (s : Sock) :
    KeepsSession s (_query_process E s).2 := by
  unfold _query_process
  dsimp only
  repeat' with_reducible apply sess_ite
  · exact sess_ok_result E s
  · exact sess_refl s
  · exact sess_use_database E s
  · exact sess_ok_result E s
  · exact sess_com_query E hE s
  · exact sess_not_allowed_reuse E s
  · exact sess_not_allowed_reuse E s
  · exact sess_not_allowed_reuse E s
  · exact sess_not_allowed_reuse E s
  · exact sess_not_allowed_reuse E s

theorem sess_run_terminal (E : Env) (hE : EnvKeepsSession E) (fuel : Nat)
    (s y a : Sock) (shutdown : Bool) (h : KeepsSession s y)
    (hst : y.state = State.STATE_ERROR ∨ y.state = State.STATE_ERROR_REUSE
      ∨ y.state = State.STATE_READ_QUERY_RESULT ∨ y.state = State.STATE_READ_QUERY)
    (hrun : run_machine E fuel y shutdown = some a) : KeepsSession s a :=
  sess_trans _ _ _ h (calm_run_terminal E hE fuel y y a shutdown (calm_refl y) hst hrun).1

theorem sess_set (s y : Sock) (st : State) (h : KeepsSession s y) :
    KeepsSession s (set_state y st) :=
  sess_trans _ _ _ h (sess_of_eq _ _ rfl rfl)

theorem sess_err (E : Env) (s y : Sock) (code : ErrCode) (msg : Str)
    (h : KeepsSession s y) : KeepsSession s (make_err_packet E y code msg) :=
  sess_trans _ _ _ h (sess_of_eq _ _ rfl rfl)

theorem sess_poll (s y : Sock) (ev : EpollEv) (h : KeepsSession s y) :
    KeepsSession s (poll_events_mod y ev) :=
  sess_trans _ _ _ h (sess_of_eq _ _ rfl rfl)

theorem sess_emit (s y : Sock) (e : Event) (h : KeepsSession s y) :
    KeepsSession s (emit y e) :=
  sess_trans _ _ _ h (sess_of_eq _ _ rfl rfl)

theorem sess_send_auth_result (E : Env) (hE : EnvKeepsSession E) (fuel : Nat)
    (c a : Sock) (shutdown : Bool)
    (hrun : case_send_auth_result E (fun x => run_machine E fuel x shutdown) c shutdown
      = some a) : KeepsSession c a := by
  unfold case_send_auth_result at hrun
  lift_lets at hrun
  extract_lets r p c3 at hrun
  have kr : KeepsSession c r.2 :=
    sess_trans _ _ _ (sess_emit _ _ _ (sess_refl c)) (sess_query_read E _)
  have kp : KeepsSession c p.2 :=
    sess_trans _ _ _ (sess_emit _ _ _ kr) (sess_query_process E hE _)
  have k3 : KeepsSession c c3 := sess_err E _ _ _ _ kp
  clear_value c3 p r
  split_ifs at hrun with h1 h2 h3 h4 h5 h6 h7 h8 h9 h10
  · exact sess_run_terminal E hE fuel c _ a shutdown
      (sess_set _ _ _ (sess_refl c)) (Or.inl rfl) hrun
  all_goals first
    | (rw [← Option.some.inj hrun]
       first
        | exact sess_poll _ _ _ kp
        | exact sess_poll _ _ _ kr)
    | exact sess_run_terminal E hE fuel c _ a shutdown
        (sess_set _ _ _ k3) (Or.inl rfl) hrun
    | exact sess_run_terminal E hE fuel c _ a shutdown
        (sess_set _ _ _ k3) (Or.inr (Or.inl rfl)) hrun
    | exact sess_run_terminal E hE fuel c _ a shutdown kp
        (Or.inr (Or.inr (Or.inl (by assumption)))) hrun
    | exact sess_run_terminal E hE fuel c _ a shutdown
        (sess_set _ _ _ (sess_err E _ _ _ _ kp)) (Or.inl rfl) hrun
    | exact sess_run_terminal E hE fuel c _ a shutdown
        (sess_set _ _ _ kr) (Or.inl rfl) hrun
    | exact sess_run_terminal E hE fuel c _ a shutdown
        (sess_set _ _ _ kr) (Or.inr (Or.inr (Or.inl rfl))) hrun
    | exact sess_run_terminal E hE fuel c _ a shutdown
        (sess_set _ _ _ (sess_err E _ _ _ _ kr)) (Or.inl rfl) hrun

theorem connection_inc_user (y : Sock) (h : (connection_inc y).1 = true) :
    (connection_inc y).2.user_info ≠ none := by
  unfold connection_inc at h ⊢
  split at h
  · cases h
  · simp [emit]

/-- The case `STATE_SEND_HANDSHAKE`: the call is calm, or `_auth_read` returned
`RET_SUCCESS` and `connection_inc` succeeded, and then the connection returned is
counted and holds a user record. In both cases the call logs no query event. -/
theorem send_handshake_gate (E : Env) (hE : EnvKeepsSession E) (fuel : Nat)
    (c a : Sock) (shutdown : Bool)
    (hrun : case_send_handshake E (fun y => run_machine E fuel y shutdown) c shutdown = some a) :
    Calm c a ∨ (shutdown = false ∧ (_auth_read E c).1 = Ret.RET_SUCCESS
      ∧ (connection_inc (_auth_read E c).2).1 = true
      ∧ a.is_counted = true ∧ a.user_info ≠ none
      ∧ ∃ evs, a.log = c.log ++ evs ∧ ∀ e, e ∈ evs → NoQueryEvent e) := by
  have hsd : shutdown = true ∨ shutdown = false := by cases shutdown <;> simp
  have hu := connection_inc_user (_auth_read E c).2
  unfold case_send_handshake at hrun
  lift_lets at hrun
  extract_lets r i at hrun
  have kr : Calm c r.2 := calm_auth_read E c
  have ki : Calm c i.2 := calm_connection_inc c r.2 kr
  have hr : r = _auth_read E c := rfl
  have hi : i = connection_inc r.2 := rfl
  clear_value i r
  split_ifs at hrun with h1 h2 h3 h4 h5
  · exact Or.inl (calm_run_terminal E hE fuel c _ a shutdown
      (calm_state _ _ _ not_logged_error (calm_refl c)) (Or.inl rfl) hrun)
  · exact Or.inl (calm_run_terminal E hE fuel c _ a shutdown
      (calm_state _ _ _ not_logged_error (calm_auth_failed_packet E _ _ _ ki))
      (Or.inl rfl) hrun)
  · have hx := calm_read_auth E hE fuel
      (set_state { i.2 with is_counted := true } State.STATE_READ_AUTH) _ a shutdown
      (Or.inl rfl) (calm_refl _) hrun
    have h3b : i.1 = true := by simpa using h3
    rw [hi, hr] at h3b
    obtain ⟨e1, l1, n1⟩ := ki.2.2
    obtain ⟨e2, l2, n2⟩ := hx.2.2
    refine Or.inr ⟨by simpa using h1, by rw [← hr]; exact h2, h3b, hx.1.1 rfl,
      hx.1.2 (by rw [hi, hr]; exact hu h3b),
      e1 ++ [Event.set_state State.STATE_READ_AUTH] ++ e2, ?_, ?_⟩
    · rw [l2]
      show (i.2.log ++ [Event.set_state State.STATE_READ_AUTH]) ++ e2 = _
      rw [l1]
      simp
    · intro e he
      simp only [List.mem_append, List.mem_singleton] at he
      rcases he with (he | he) | he
      · exact n1 e he
      · rw [he]; exact ⟨by simp, by simp⟩
      · exact n2 e he
  · exact Or.inl (calm_run_terminal E hE fuel c _ a shutdown
      (calm_state _ _ _ not_logged_error (calm_auth_failed_packet E _ _ _ kr))
      (Or.inl rfl) hrun)
  · rw [← Option.some.inj hrun]
    exact Or.inl (calm_poll _ _ _ kr)
  · exact Or.inl (calm_run_terminal E hE fuel c _ a shutdown
      (calm_state _ _ _ not_logged_error kr) (Or.inl rfl) hrun)

/-- A call of `run_machine` that starts outside `STATE_SEND_AUTH_RESULT` is calm, or
it starts in `STATE_SEND_HANDSHAKE` and logs the user in. -/
theorem run_machine_gate (E : Env) (hE : EnvKeepsSession E) (fuel : Nat)
    (c a : Sock) (shutdown : Bool) (hst : c.state ≠ State.STATE_SEND_AUTH_RESULT)
    (hrun : run_machine E fuel c shutdown = some a) :
    Calm c a ∨ (c.state = State.STATE_SEND_HANDSHAKE ∧ shutdown = false
      ∧ (_auth_read E c).1 = Ret.RET_SUCCESS
      ∧ (connection_inc (_auth_read E c).2).1 = true
      ∧ a.is_counted = true ∧ a.user_info ≠ none
      ∧ ∃ evs, a.log = c.log ++ evs ∧ ∀ e, e ∈ evs → NoQueryEvent e) := by
  cases fuel with
  | zero => simp [run_machine] at hrun
  | succ n =>
    cases hs : c.state with
    | STATE_CONNECTED_CLIENT =>
      simp only [run_machine, hs] at hrun
      exact Or.inl (calm_connected_client E hE n c a shutdown hrun)
    | STATE_SEND_HANDSHAKE =>
      simp only [run_machine, hs] at hrun
      rcases send_handshake_gate E hE n c a shutdown hrun with h | h
      · exact Or.inl h
      · exact Or.inr ⟨rfl, h⟩
    | STATE_READ_AUTH =>
      simp only [run_machine, hs] at hrun
      exact Or.inl (calm_read_auth E hE n c c a shutdown (Or.inl hs) (calm_refl c) hrun)
    | STATE_SEND_AUTH_RESULT => exact absurd hs hst
    | STATE_READ_QUERY_RESULT =>
      exact Or.inl (calm_run_terminal E hE (n + 1) c c a shutdown
        (calm_refl c) (Or.inr (Or.inr (Or.inl hs))) hrun)
    | STATE_ERROR_REUSE =>
      exact Or.inl (calm_run_terminal E hE (n + 1) c c a shutdown
        (calm_refl c) (Or.inr (Or.inl hs)) hrun)
    | STATE_ERROR =>
      exact Or.inl (calm_run_terminal E hE (n + 1) c c a shutdown
        (calm_refl c) (Or.inl hs) hrun)
    | STATE_READ_QUERY =>
      exact Or.inl (calm_run_terminal E hE (n + 1) c c a shutdown
        (calm_refl c) (Or.inr (Or.inr (Or.inr hs))) hrun)

/-- Every call of `run_machine` that returns keeps the session. -/
theorem sess_run_machine (E : Env) (hE : EnvKeepsSession E) (fuel : Nat)
    (c a : Sock) (shutdown : Bool) (hrun : run_machine E fuel c shutdown = some a) :
    KeepsSession c a := by
  by_cases hst : c.state = State.STATE_SEND_AUTH_RESULT
  · cases fuel with
    | zero => simp [run_machine] at hrun
    | succ n =>
      simp only [run_machine, hst] at hrun
      exact sess_send_auth_result E hE n c a shutdown hrun
  · rcases run_machine_gate E hE fuel c a shutdown hst hrun with h | h
    · exact h.1
    · exact ⟨fun _ => h.2.2.2.2.1, fun _ => h.2.2.2.2.2.1⟩

theorem events_since_append (c a : Sock) (evs : List Event) (h : a.log = c.log ++ evs) :
    events_since c a = evs := by
  unfold events_since
  rw [h]
  simp

/-- Along the runs from a fresh connection, a connection in one of the states of
`LoggedIn` is counted and holds a user record. -/
theorem reachable_session (E : Env) (hE : EnvKeepsSession E) (c : Sock)
    (h : Reachable E c) : LoggedIn c.state → c.is_counted = true ∧ c.user_info ≠ none := by
  induction h with
  | fresh c hf =>
    intro hl
    rw [hf.1] at hl
    rcases hl with h | h | h | h <;> cases h
  | step c c2 fuel shutdown _ hrun ih =>
    intro hl
    by_cases hc : LoggedIn c.state
    · have hk := sess_run_machine E hE fuel c c2 shutdown hrun
      exact ⟨hk.1 (ih hc).1, hk.2 (ih hc).2⟩
    · have hst : c.state ≠ State.STATE_SEND_AUTH_RESULT := fun h => hc (Or.inr (Or.inl h))
      rcases run_machine_gate E hE fuel c c2 shutdown hst hrun with h | h
      · exact absurd (h.2.1 hl) hc
      · exact ⟨h.2.2.2.2.1, h.2.2.2.2.2.1⟩

/-- The responders of the sources keep the session. -/
theorem sess_responders (E : Env) (C : SchemaFactory) (name : Str) (s : Sock) :
    KeepsSession s (responders E C name s).2 := by
  rcases answer_responders E C name s with h | h | ⟨fields, rows, errmsg, h⟩
  · rw [h]; exact sess_refl s
  · rw [h]; exact sess_of_eq _ _ rfl rfl
  · rw [h]; exact sess_finish_resultset E s _ _ _

/-- With the responders of the sources in place, the planner stages and the commit
hook are all that is left to assume. -/
theorem env_keeps_session (E : Env) (C : SchemaFactory) (hE : PlannerIsCalm E) :
    EnvKeepsSession (with_responders E C) :=
  ⟨hE.1, hE.2.1, hE.2.2.1, hE.2.2.2.1, hE.2.2.2.2, sess_responders E C⟩

/-- C33, as stated, fails when a planner stage does not keep the session. In
`careless_env` the responders are those of the sources and `execute` clears
`is_counted`; the connection is fresh, the handshake is sent, `bob` logs in
(`_auth_read` returns `RET_SUCCESS` and `connection_inc` succeeds) and sends
`insert into t values (1)`; after the reply is written `run_machine` returns in
`STATE_SEND_AUTH_RESULT` with `is_counted` false. -/
theorem C33_planner_may_clear_counted :
    Fresh sample_sock
    ∧ run_machine careless_env 1 sample_sock false = some (handshake_sent sample_sock)
    ∧ run_machine careless_env 1 (handshake_sent sample_sock) false
        = some (after_login careless_env)
    ∧ (after_login careless_env).is_counted = true
    ∧ run_machine careless_env 3 (after_login careless_env) false
        = some (after_command careless_env)
    ∧ Reachable careless_env (after_command careless_env)
    ∧ (after_command careless_env).state = State.STATE_SEND_AUTH_RESULT
    ∧ (after_command careless_env).is_counted = false :=
  (fun h1 h2 h3 => ⟨⟨rfl, rfl, rfl, rfl⟩, h1, h2, by decide, h3,
    Reachable.step _ _ 3 false
      (Reachable.step _ _ 1 false
        (Reachable.step _ _ 1 false (Reachable.fresh _ ⟨rfl, rfl, rfl, rfl⟩) h1) h2) h3,
    by decide, by decide⟩)
    (by decide) (by decide) (by decide)

/-- C33, amended: when the planner stages and the commit hook are calm (they keep
`is_counted` and the user record, call neither `_query_read` nor `_query_process`,
and do not move the connection into `STATE_READ_AUTH`, `STATE_SEND_AUTH_RESULT`,
`STATE_READ_QUERY_RESULT` or `STATE_ERROR_REUSE` from outside of them), then with
the responders of the sources, over any catalog: (1) a call of `run_machine` that
starts in a state other than `STATE_SEND_AUTH_RESULT` and returns calls neither
`_query_read` nor `_query_process`; (2) a call that starts outside the four states
above and returns inside them started in `STATE_SEND_HANDSHAKE` with `shutdown`
false, `_auth_read` returned `RET_SUCCESS` in it and `connection_inc` succeeded,
and the connection it returns is counted and holds a user record; (3) every
connection reached from a fresh one (`STATE_CONNECTED_CLIENT`, not counted, no
user record) by calls of `run_machine` that is in `STATE_SEND_AUTH_RESULT`,
`STATE_READ_QUERY_RESULT` or `STATE_ERROR_REUSE` has `is_counted` true and
`user_info` not null. -/
theorem C33_no_command_before_login (E : Env) (C : SchemaFactory) (hE : PlannerIsCalm E) :
    (∀ c a fuel shutdown, run_machine (with_responders E C) fuel c shutdown = some a →
      c.state ≠ State.STATE_SEND_AUTH_RESULT →
      Event.query_read ∉ events_since c a ∧ Event.query_process ∉ events_since c a)
    ∧ (∀ c a fuel shutdown, run_machine (with_responders E C) fuel c shutdown = some a →
      ¬ LoggedIn c.state → LoggedIn a.state →
      c.state = State.STATE_SEND_HANDSHAKE ∧ shutdown = false
        ∧ (_auth_read (with_responders E C) c).1 = Ret.RET_SUCCESS
        ∧ (connection_inc (_auth_read (with_responders E C) c).2).1 = true
        ∧ a.is_counted = true ∧ a.user_info ≠ none)
    ∧ (∀ c, Reachable (with_responders E C) c →
      (c.state = State.STATE_SEND_AUTH_RESULT ∨ c.state = State.STATE_READ_QUERY_RESULT
        ∨ c.state = State.STATE_ERROR_REUSE) →
      c.is_counted = true ∧ c.user_info ≠ none) := by
  have hW := env_keeps_session E C hE
  refine ⟨fun c a fuel shutdown hrun hst => ?_, fun c a fuel shutdown hrun hc hl => ?_,
    fun c hr hst => reachable_session _ hW c hr (Or.inr hst)⟩
  · have hq : ∃ evs, a.log = c.log ++ evs ∧ ∀ e, e ∈ evs → NoQueryEvent e := by
      rcases run_machine_gate _ hW fuel c a shutdown hst hrun with h | h
      · exact h.2.2
      · exact h.2.2.2.2.2.2
    obtain ⟨evs, hl, hn⟩ := hq
    rw [events_since_append c a evs hl]
    exact ⟨fun h => (hn _ h).1 rfl, fun h => (hn _ h).2 rfl⟩
  · have hst : c.state ≠ State.STATE_SEND_AUTH_RESULT := fun h => hc (Or.inr (Or.inl h))
    rcases run_machine_gate _ hW fuel c a shutdown hst hrun with h | h
    · exact absurd (h.2.1 hl) hc
    · exact ⟨h.1, h.2.1, h.2.2.1, h.2.2.2.1, h.2.2.2.2.1, h.2.2.2.2.2.1⟩

theorem sample_env_is_calm (chunks : List Bytes) (users : List UserInfo) :
    PlannerIsCalm (sample_env chunks users) :=
  ⟨fun s => calm_refl s, fun s => calm_refl s, fun s => calm_refl s, fun s => calm_refl s,
    fun s => calm_refl s⟩

theorem C33_no_command_before_login_witness :
    PlannerIsCalm (sample_env session_chunks [sample_user 0])
    ∧ Reachable session_env (after_command session_env)
    ∧ (after_command session_env).state = State.STATE_SEND_AUTH_RESULT
    ∧ (after_command session_env).is_counted = true
    ∧ (after_command session_env).user_info ≠ none :=
  (fun hreach => ⟨sample_env_is_calm _ _, hreach, by decide,
    (C33_no_command_before_login (sample_env session_chunks [sample_user 0]) sample_catalog
      (sample_env_is_calm _ _)).2.2 (after_command session_env) hreach (Or.inl (by decide))⟩)
    (Reachable.step (after_login session_env) (after_command session_env) 3 false
      (Reachable.step (handshake_sent sample_sock) (after_login session_env) 1 false
        (Reachable.step sample_sock (handshake_sent sample_sock) 1 false
          (Reachable.fresh _ ⟨rfl, rfl, rfl, rfl⟩) (by decide)) (by decide)) (by decide))

end baikaldb
